import Mathlib

/-!
# MCU-Teensy-Samples: transition engine, output mapper, button gesture FSM, emergency test FSM

A shallow embedding of

* `src/MCU_Server/MCU_Lightness.cpp` (`GetPresentValue`, `ConvertLightnessActualToLinear`,
  `SetLightnessOutput`),
* `src/source/SwitchButtons.cpp` (`OnButtonInterrupt`, `CheckButtonState`,
  `SendSequenceDGenericDelta`, `ClearButtonStates`), and
* `src/source/EmgLTest.cpp` (`MeshMessageRequest1Send`, `SimulateEltTest`,
  `SimulateBatteryLevel`, `UpdateBatteryStatus`, `LoopEmgLTest`, `ElStateGet`,
  `ElLampOperationTimeGet`, `EltFunctionalTestGet`, `EltFunctionalTestStart`,
  `EltDurationTestGet`, `EltDurationTestStart`),

followed by theorems about these definitions.

Machine integers are `Nat`/`Int` with the C conversions written out: `wrapSigned w` is the
two's-complement value of an integer stored in a signed `w`-bit object, `wrapUnsigned w` the
value stored in an unsigned one.  Undefined behaviour in C (an integer division by zero, a
write past the end of a buffer) makes the function return `none`.
-/

namespace MCU

/-! ## C integer conversions -/

/-- Value of the integer `x` after conversion to a signed type of `w` bits (two's complement). -/
def wrapSigned (w : Nat) (x : Int) : Int :=
  (x + 2 ^ (w - 1)) % 2 ^ w - 2 ^ (w - 1)

/-- Value of the integer `x` after conversion to an unsigned type of `w` bits. -/
def wrapUnsigned (w : Nat) (x : Int) : Nat :=
  (x % 2 ^ w).toNat

/-! ## Transition engine (`MCU_Lightness.cpp`) -/

/-- The record `struct Transition`: `target_value`, `start_value` are `uint16_t`,
`start_timestamp`, `transition_time` are `uint32_t`. -/
structure Transition where
  target_value : Nat
  start_value : Nat
  start_timestamp : Nat
  transition_time : Nat
deriving DecidableEq

/-- The fields of a `Transition` fit their C types. -/
def Transition.WellTyped (p : Transition) : Prop :=
  p.target_value < 2 ^ 16 ∧ p.start_value < 2 ^ 16 ∧
    p.start_timestamp < 2 ^ 32 ∧ p.transition_time < 2 ^ 32

instance (p : Transition) : Decidable p.WellTyped := by
  unfold Transition.WellTyped; infer_instance

/-- The function `GetPresentValue(Transition *p_transition)`.

`delta_time` is the `uint32_t` that
`Timestamp_GetTimeElapsed(p_transition->start_timestamp, Timestamp_GetCurrent())` returned
(the clock is outside `src/`).  The result is the returned `uint16_t` together with the
transition as the call leaves it; `none` is the division by `transition_time = 0`.

```
if (delta_time > p_transition->transition_time) {
    p_transition->start_value = p_transition->target_value;
    return p_transition->start_value;
}
int32_t delta_transition = ((int64_t)p_transition->target_value - p_transition->start_value)
                           * delta_time / p_transition->transition_time;
return p_transition->start_value + delta_transition;
```
-/
def GetPresentValue (p : Transition) (delta_time : Nat) : Option (Nat × Transition) :=
  if delta_time > p.transition_time then
    let p' : Transition := { p with start_value := p.target_value }
    some (p'.start_value, p')
  else if p.transition_time = 0 then
    none
  else
    let product : Int :=
      wrapSigned 64 (((p.target_value : Int) - (p.start_value : Int)) * (delta_time : Int))
    let delta_transition : Int := wrapSigned 32 (Int.tdiv product (p.transition_time : Int))
    some (wrapUnsigned 16 (wrapSigned 32 ((p.start_value : Int) + delta_transition)), p)

/-- The exact (unbounded integer) interpolation `start + (target - start) * e / duration`,
quotient truncated toward zero. -/
def exactInterpolation (p : Transition) (e : Nat) : Int :=
  (p.start_value : Int) +
    Int.tdiv (((p.target_value : Int) - (p.start_value : Int)) * (e : Int)) (p.transition_time : Int)

/-! ## Output mapper (`MCU_Lightness.cpp`) -/

/-- The build configuration `MCU_Lightness.cpp` is compiled against.  `ENABLE_1_10_V` selects
`PWM_OUTPUT_MIN` (lines 38-42).  `LIGHTNESS_MIN`, `LIGHTNESS_MAX`, `LIGHT_CTL_TEMP_RANGE_MIN`
and `LIGHT_CTL_TEMP_RANGE_MAX` are macros defined in headers outside `src/`; they are taken as
parameters. -/
structure Config where
  LIGHTNESS_MIN : Nat
  LIGHTNESS_MAX : Nat
  ENABLE_1_10_V : Bool
  LIGHT_CTL_TEMP_RANGE_MIN : Nat
  LIGHT_CTL_TEMP_RANGE_MAX : Nat
deriving DecidableEq

/-- A configuration whose constant divisors are nonzero and whose constants fit the types they
are used at: `LIGHTNESS_MIN < LIGHTNESS_MAX` as `uint32_t`, and the temperature bounds are
`uint16_t` values (they initialise `Temperature.start_value`) with
`LIGHT_CTL_TEMP_RANGE_MIN < LIGHT_CTL_TEMP_RANGE_MAX`. -/
def Config.WellFormed (cfg : Config) : Prop :=
  cfg.LIGHTNESS_MIN < cfg.LIGHTNESS_MAX ∧ cfg.LIGHTNESS_MAX < 2 ^ 32 ∧
    cfg.LIGHT_CTL_TEMP_RANGE_MIN < cfg.LIGHT_CTL_TEMP_RANGE_MAX ∧
    cfg.LIGHT_CTL_TEMP_RANGE_MAX < 2 ^ 16

instance (cfg : Config) : Decidable cfg.WellFormed := by
  unfold Config.WellFormed; infer_instance

def UINT8_MAX : Nat := 255

def UINT16_MAX : Nat := 65535

/-- The macro `PWM_OUTPUT_MAX`, defined as `UINT16_MAX`. -/
def PWM_OUTPUT_MAX : Nat := UINT16_MAX

/-- The macro `PWM_OUTPUT_MIN`: `(uint16_t)(0.12 * PWM_OUTPUT_MAX)` when `ENABLE_1_10_V`,
else `0u`.  The constant `0.12 * 65535 = 7864.2` truncates to `7864 = 12 * 65535 / 100`. -/
def PWM_OUTPUT_MIN (cfg : Config) : Nat :=
  if cfg.ENABLE_1_10_V then wrapUnsigned 16 ((12 * PWM_OUTPUT_MAX / 100 : Nat) : Int) else 0

/-- The two PWM pins `SetLightnessOutput` writes with `analogWrite`. -/
inductive PwmPin where
  | PIN_PWM_WARM
  | PIN_PWM_COLD
deriving DecidableEq

/-- The function `ConvertLightnessActualToLinear(uint16_t val)`:
`(LIGHTNESS_MAX * POW((val * UINT8_MAX) / LIGHTNESS_MAX)) / UINT16_MAX`, every operation in
unsigned 32-bit arithmetic, returned as `uint32_t`.  `none` is the division by
`LIGHTNESS_MAX = 0`. -/
def ConvertLightnessActualToLinear (cfg : Config) (val : Nat) : Option Nat :=
  if wrapUnsigned 32 cfg.LIGHTNESS_MAX = 0 then
    none
  else
    let q : Nat := wrapUnsigned 32 ((val : Int) * (UINT8_MAX : Int)) / wrapUnsigned 32 cfg.LIGHTNESS_MAX
    let pow : Nat := wrapUnsigned 32 ((q : Int) * (q : Int))
    some (wrapUnsigned 32 ((wrapUnsigned 32 cfg.LIGHTNESS_MAX : Int) * (pow : Int)) / UINT16_MAX)

/-- The first half of `SetLightnessOutput(uint16_t val)` (lines 179-193): the `uint32_t pwm_out`
that is then split between the channels.

```
const uint32_t coefficient = ((uint32_t)(PWM_OUTPUT_MAX - PWM_OUTPUT_MIN) * UINT16_MAX) /
                             (LIGHTNESS_MAX - LIGHTNESS_MIN);
if (val == 0) pwm_out = 0;
else {
    pwm_out = ConvertLightnessActualToLinear(val);
    pwm_out = ((coefficient * (pwm_out - LIGHTNESS_MIN)) / UINT16_MAX) + PWM_OUTPUT_MIN;
}
```
-/
def pwmOutLevel (cfg : Config) (val : Nat) : Option Nat :=
  let range : Nat := wrapUnsigned 32 ((cfg.LIGHTNESS_MAX : Int) - (cfg.LIGHTNESS_MIN : Int))
  if range = 0 then
    none
  else
    let span : Nat := wrapUnsigned 32 ((PWM_OUTPUT_MAX : Int) - (PWM_OUTPUT_MIN cfg : Int))
    let coefficient : Nat := wrapUnsigned 32 ((span : Int) * (UINT16_MAX : Int)) / range
    if val = 0 then
      some 0
    else
      match ConvertLightnessActualToLinear cfg val with
      | none => none
      | some linear =>
        let shifted : Nat := wrapUnsigned 32 ((linear : Int) - (cfg.LIGHTNESS_MIN : Int))
        let scaled : Nat := wrapUnsigned 32 ((coefficient : Int) * (shifted : Int)) / UINT16_MAX
        some (wrapUnsigned 32 ((scaled : Int) + (PWM_OUTPUT_MIN cfg : Int)))

/-- The function `SetLightnessOutput(uint16_t val)`.

`CTLSupport` and `Temperature` are the module's statics; `temp_delta_time` is the elapsed time
the clock reports to the `GetPresentValue(&Temperature)` call.  The result is the list of
`analogWrite(pin, value)` calls in program order and the `Temperature` transition as the call
leaves it.  The split is computed as in the source: the products are `uint32_t` (the
`uint32_t pwm_out` operand), stored in `uint64_t` and divided by
`LIGHT_CTL_TEMP_RANGE_MAX - LIGHT_CTL_TEMP_RANGE_MIN` (plain `int` constants).

```
if (CTLSupport) {
    uint16_t temperature = GetPresentValue(&Temperature);
    cold = (LIGHT_CTL_TEMP_RANGE_MAX - temperature) * pwm_out;
    cold /= LIGHT_CTL_TEMP_RANGE_MAX - LIGHT_CTL_TEMP_RANGE_MIN;
    warm = (temperature - LIGHT_CTL_TEMP_RANGE_MIN) * pwm_out;
    warm /= LIGHT_CTL_TEMP_RANGE_MAX - LIGHT_CTL_TEMP_RANGE_MIN;
    analogWrite(PIN_PWM_WARM, warm);
    analogWrite(PIN_PWM_COLD, cold);
} else {
    analogWrite(PIN_PWM_COLD, pwm_out);
    analogWrite(PIN_PWM_WARM, 0);
}
```
-/
def SetLightnessOutput (cfg : Config) (CTLSupport : Bool) (Temperature : Transition)
    (temp_delta_time : Nat) (val : Nat) : Option (List (PwmPin × Nat) × Transition) :=
  match pwmOutLevel cfg val with
  | none => none
  | some pwm_out =>
    if CTLSupport then
      match GetPresentValue Temperature temp_delta_time with
      | none => none
      | some (temperature, Temperature') =>
        let divisor : Nat :=
          wrapUnsigned 64 ((cfg.LIGHT_CTL_TEMP_RANGE_MAX : Int) - (cfg.LIGHT_CTL_TEMP_RANGE_MIN : Int))
        if divisor = 0 then
          none
        else
          let cold : Nat :=
            wrapUnsigned 32 (((cfg.LIGHT_CTL_TEMP_RANGE_MAX : Int) - (temperature : Int)) * (pwm_out : Int))
              / divisor
          let warm : Nat :=
            wrapUnsigned 32 (((temperature : Int) - (cfg.LIGHT_CTL_TEMP_RANGE_MIN : Int)) * (pwm_out : Int))
              / divisor
          some ([(PwmPin.PIN_PWM_WARM, warm), (PwmPin.PIN_PWM_COLD, cold)], Temperature')
    else
      some ([(PwmPin.PIN_PWM_COLD, pwm_out), (PwmPin.PIN_PWM_WARM, 0)], Temperature)

/-! ## Button gesture FSM (`SwitchButtons.cpp`) -/

inductive MachineStates where
  | FSM_IDLE
  | FSM_PRESS
  | FSM_LONG_PRESS
deriving DecidableEq

inductive MachineActions where
  | NO_ACTION
  | ACTION_PRESSED
  | ACTION_RELEASED
deriving DecidableEq

inductive ButtonType where
  | BUTTON_OFF
  | BUTTON_ON
deriving DecidableEq

def SEQUENCE_A_TIMEOUT : Nat := 400

def SEQUENCE_C_TIMEOUT : Nat := 100

def SEQUENCE_B_TIMEOUT : Nat := 250

def BUTTON_DEBOUNCE_TIME_MS : Nat := 20

def SEQUENCE_A_NUMBER_OF_REPEATS : Nat := 3

def SEQUENCE_B_NUMBER_OF_REPEATS : Nat := 3

def SEQUENCE_C_NUMBER_OF_REPEATS : Nat := 0

def SEQUENCE_D_NUMBER_OF_REPEATS : Nat := 4

def ON_OFF_TRANSITION_TIME_MS : Nat := 1000

def ON_OFF_DELAY_TIME_MS : Nat := 0

def REPEATS_INTERVAL_MS : Nat := 50

def DIMMING_STEP_VALUE : Int := 0xA00

def DELTA_TRANSITION_TIME_MS : Nat := 200

def DELTA_DELAY_TIME_MS : Nat := 0

/-- The macro `MAX_DELTA`: `(0x10000) / DIMMING_STEP_VALUE`, an `int` division. -/
def MAX_DELTA : Int := Int.tdiv 0x10000 DIMMING_STEP_VALUE

/-- The record `struct ButtonInstance`: `pin_number`, `instance_idx` are `uint8_t`, `event_time`,
`timeout` are `uint32_t`, `delta_value_on_press` is `int16_t`. -/
structure ButtonInstance where
  pin_number : Nat
  button_type : ButtonType
  event_time : Nat
  timeout : Nat
  state : MachineStates
  delta_value_on_press : Int
  action : MachineActions
  instance_idx : Nat
deriving DecidableEq

/-- The fields of a `ButtonInstance` fit their C types. -/
def ButtonInstance.WellTyped (b : ButtonInstance) : Prop :=
  b.pin_number < 2 ^ 8 ∧ b.instance_idx < 2 ^ 8 ∧ b.event_time < 2 ^ 32 ∧ b.timeout < 2 ^ 32 ∧
    -2 ^ 15 ≤ b.delta_value_on_press ∧ b.delta_value_on_press < 2 ^ 15

instance (b : ButtonInstance) : Decidable b.WellTyped := by
  unfold ButtonInstance.WellTyped; infer_instance

/-- A call of one of the `Mesh_Send...` functions declared in `Mesh.h`, with its arguments as
the callee receives them (converted to the parameter types of the declaration). -/
inductive MeshCommand where
  | GenericOnOffSetWithRepeatsInterval (instance_idx : Nat) (value : Bool)
      (transition_time delay_ms num_of_repeats repeats_interval_ms : Nat)
      (is_new_transaction : Bool)
  | GenericDeltaSetWithRepeatsInterval (instance_idx : Nat) (value : Int)
      (transition_time delay_ms num_of_repeats repeats_interval_ms : Nat)
      (is_new_transaction : Bool)
  | GenericDeltaSet (instance_idx : Nat) (value : Int)
      (transition_time delay_ms num_of_repeats : Nat) (is_new_transaction : Bool)
  | GenericDeltaSetWithDispatchTime (instance_idx : Nat) (value : Int)
      (transition_time delay_ms dispatch_time_ms : Nat) (is_new_transaction : Bool)
deriving DecidableEq

/-- The function `ClearButtonStates(ButtonInstance *button_fsm)`. -/
def ClearButtonStates (button_fsm : ButtonInstance) : ButtonInstance :=
  { button_fsm with
    state := MachineStates.FSM_IDLE
    action := MachineActions.NO_ACTION
    event_time := 0
    timeout := 0
    delta_value_on_press := 0 }

/-- The function `OnButtonInterrupt(struct ButtonInstance *button)`; `pin_is_low` is
`digitalRead(button->pin_number) == LOW`. -/
def OnButtonInterrupt (button : ButtonInstance) (pin_is_low : Bool) : ButtonInstance :=
  if pin_is_low then
    { button with action := MachineActions.ACTION_PRESSED }
  else
    { button with action := MachineActions.ACTION_RELEASED }

/-- The function `SendSequenceDGenericDelta(uint16_t instance_Index, uint32_t delta_value)`:
the loop `for (uint8_t i = 0; i < SEQUENCE_D_NUMBER_OF_REPEATS; i++)` calling
`Mesh_SendGenericDeltaSetWithDispatchTime(instance_Index, delta_value,
DELTA_TRANSITION_TIME_MS, DELTA_DELAY_TIME_MS, 50 * i, false)`. -/
def SendSequenceDGenericDelta (instance_Index : Nat) (delta_value : Nat) : List MeshCommand :=
  (List.range SEQUENCE_D_NUMBER_OF_REPEATS).map fun i =>
    MeshCommand.GenericDeltaSetWithDispatchTime (wrapUnsigned 8 (instance_Index : Int))
      (wrapSigned 32 (delta_value : Int)) DELTA_TRANSITION_TIME_MS DELTA_DELAY_TIME_MS
      (wrapUnsigned 16 (50 * (i : Int))) false

/-- The statement `button_type == BUTTON_ON ? delta_value_on_press++ : delta_value_on_press--`
on the `int16_t` field. -/
def stepDelta (button_fsm : ButtonInstance) : ButtonInstance :=
  match button_fsm.button_type with
  | ButtonType.BUTTON_ON =>
    { button_fsm with delta_value_on_press := wrapSigned 16 (button_fsm.delta_value_on_press + 1) }
  | ButtonType.BUTTON_OFF =>
    { button_fsm with delta_value_on_press := wrapSigned 16 (button_fsm.delta_value_on_press - 1) }

/-- The function `CheckButtonState(button_fsm, paired_button_fsm)`.

`now` is the `uint32_t` value `millis()` returns during this call (one reading per poll).  The
result is the button as the call leaves it and the mesh commands sent, in program order; `none`
is the division by `timeout = 0` at line 276.  Differences `millis() - event_time` are
`uint32_t`; `delta_end_correction` is `int16_t`; the delta values are passed as `int32_t`
(through the `uint32_t` parameter of `SendSequenceDGenericDelta` on the release paths). -/
def CheckButtonState (button_fsm paired_button_fsm : ButtonInstance) (now : Nat) :
    Option (ButtonInstance × List MeshCommand) :=
  if paired_button_fsm.state ≠ MachineStates.FSM_IDLE then
    some (button_fsm, [])
  else
    let elapsed : Nat := wrapUnsigned 32 ((now : Int) - (button_fsm.event_time : Int))
    match button_fsm.state with
    | MachineStates.FSM_IDLE =>
      if button_fsm.action = MachineActions.ACTION_PRESSED then
        some ({ button_fsm with
                state := MachineStates.FSM_PRESS
                action := MachineActions.NO_ACTION
                event_time := now
                timeout := SEQUENCE_A_TIMEOUT }, [])
      else if button_fsm.action = MachineActions.ACTION_RELEASED then
        some (ClearButtonStates button_fsm, [])
      else
        some (button_fsm, [])
    | MachineStates.FSM_PRESS =>
      if button_fsm.action = MachineActions.ACTION_RELEASED then
        let b := ClearButtonStates button_fsm
        some (b, [MeshCommand.GenericOnOffSetWithRepeatsInterval b.instance_idx
                    (decide (b.button_type = ButtonType.BUTTON_ON))
                    ON_OFF_TRANSITION_TIME_MS ON_OFF_DELAY_TIME_MS
                    SEQUENCE_A_NUMBER_OF_REPEATS REPEATS_INTERVAL_MS true])
      else if elapsed > button_fsm.timeout then
        let b := stepDelta { button_fsm with
                             state := MachineStates.FSM_LONG_PRESS
                             event_time := now
                             timeout := SEQUENCE_B_TIMEOUT }
        some (b, [MeshCommand.GenericDeltaSetWithRepeatsInterval b.instance_idx
                    (wrapSigned 32 (DIMMING_STEP_VALUE * b.delta_value_on_press))
                    DELTA_TRANSITION_TIME_MS DELTA_DELAY_TIME_MS
                    SEQUENCE_B_NUMBER_OF_REPEATS REPEATS_INTERVAL_MS true])
      else
        some (button_fsm, [])
    | MachineStates.FSM_LONG_PRESS =>
      if elapsed ≤ button_fsm.timeout then
        some (button_fsm, [])
      else if button_fsm.action = MachineActions.ACTION_RELEASED then
        if button_fsm.timeout = 0 then
          none
        else
          let quotient : Nat :=
            wrapUnsigned 32 (DIMMING_STEP_VALUE * (elapsed : Int)) / button_fsm.timeout
          let delta_end_correction : Int :=
            if button_fsm.button_type = ButtonType.BUTTON_OFF then
              wrapSigned 16 (-(wrapSigned 16 (quotient : Int)))
            else
              wrapSigned 16 (quotient : Int)
          let delta_value : Nat :=
            wrapUnsigned 32 (wrapSigned 32
              (DIMMING_STEP_VALUE * button_fsm.delta_value_on_press + delta_end_correction))
          some (ClearButtonStates button_fsm,
                SendSequenceDGenericDelta button_fsm.instance_idx delta_value)
      else
        let b := stepDelta button_fsm
        if b.delta_value_on_press = MAX_DELTA ∨ b.delta_value_on_press = -MAX_DELTA then
          some (ClearButtonStates b,
                SendSequenceDGenericDelta b.instance_idx
                  (wrapUnsigned 32 (wrapSigned 32 (DIMMING_STEP_VALUE * b.delta_value_on_press))))
        else
          some ({ b with event_time := now, timeout := SEQUENCE_C_TIMEOUT },
                [MeshCommand.GenericDeltaSet b.instance_idx
                   (wrapSigned 32 (DIMMING_STEP_VALUE * b.delta_value_on_press))
                   DELTA_TRANSITION_TIME_MS DELTA_DELAY_TIME_MS
                   SEQUENCE_C_NUMBER_OF_REPEATS false])


/-- The Generic Delta value a mesh command carries, `none` for a Generic OnOff command. -/
def MeshCommand.deltaValue : MeshCommand → Option Int
  | MeshCommand.GenericOnOffSetWithRepeatsInterval _ _ _ _ _ _ _ => none
  | MeshCommand.GenericDeltaSetWithRepeatsInterval _ value _ _ _ _ _ => some value
  | MeshCommand.GenericDeltaSet _ value _ _ _ _ => some value
  | MeshCommand.GenericDeltaSetWithDispatchTime _ value _ _ _ _ => some value

/-- Invariant of one button of the gesture FSM: outside `FSM_LONG_PRESS` the step counter is
`0` (and `FSM_PRESS` runs on the 400 ms timeout); in `FSM_LONG_PRESS` the timeout is 250 ms or
100 ms and the counter is `1 .. 24` for a `BUTTON_ON` button, `-24 .. -1` for a `BUTTON_OFF`
button. -/
def ButtonInstance.Inv (b : ButtonInstance) : Prop :=
  match b.state with
  | MachineStates.FSM_IDLE => b.delta_value_on_press = 0
  | MachineStates.FSM_PRESS => b.delta_value_on_press = 0 ∧ b.timeout = SEQUENCE_A_TIMEOUT
  | MachineStates.FSM_LONG_PRESS =>
    (b.timeout = SEQUENCE_B_TIMEOUT ∨ b.timeout = SEQUENCE_C_TIMEOUT) ∧
      match b.button_type with
      | ButtonType.BUTTON_ON => 1 ≤ b.delta_value_on_press ∧ b.delta_value_on_press < MAX_DELTA
      | ButtonType.BUTTON_OFF => -MAX_DELTA < b.delta_value_on_press ∧ b.delta_value_on_press ≤ -1

instance (b : ButtonInstance) : Decidable b.Inv := by
  unfold ButtonInstance.Inv
  cases b.state <;> cases b.button_type <;> simp only <;> infer_instance

/-- States one button can reach.  `SetupFSM` leaves every button in `FSM_IDLE` with
`delta_value_on_press = 0` (lines 111-112, 120-121, 129-130 and `ClearButtonStates(&Button4)`);
afterwards the button changes only through `OnButtonInterrupt` and through `CheckButtonState`
polls, here with any paired button and any clock reading. -/
inductive ButtonReachable : ButtonInstance → Prop where
  | setup (b : ButtonInstance) (hstate : b.state = MachineStates.FSM_IDLE)
      (hdelta : b.delta_value_on_press = 0) : ButtonReachable b
  | interrupt (b : ButtonInstance) (pin_is_low : Bool) (h : ButtonReachable b) :
      ButtonReachable (OnButtonInterrupt b pin_is_low)
  | poll (b paired b' : ButtonInstance) (now : Nat) (cmds : List MeshCommand)
      (h : ButtonReachable b) (hstep : CheckButtonState b paired now = some (b', cmds)) :
      ButtonReachable b'

/-! ## Emergency lighting test FSM (`EmgLTest.cpp`, `EmgLTest.h`) -/

def ELT_FUNCTIONAL_TEST_TIME_MS : Nat := 1000

def ELT_DURATION_TEST_TIME_MS : Nat := 60 * 1000

def EMG_LIGHTING_OPCODE : Nat := 0x00EA3601

def EMG_LIGHTING_TEST2_OPCODE : Nat := 0x00E93601

def EMG_BATTERY_MEASUREMENT_PERIOD_MS : Nat := 60 * 1000

def EMG_BATTERY_LEVEL_LOW_PERCENT : Nat := 30

def EMG_BATTERY_LEVEL_CRITICAL_LOW_PERCENT : Nat := 10

def EMG_ANALOG_MAX_READOUT : Nat := 1023

def EMG_ANALOG_DEAD_RANGE_VALUE : Nat := 10

def EMG_DURATION_RESULT_TEST_LENGTH_UNKNOWN : Nat := 0xFFFF

def EMG_LIGHTING_SUBOPCODE_STATE_STATUS : Nat := 0x05

def EMG_LIGHTING_SUBOPCODE_LAMP_OPERATION_TIME_STATUS : Nat := 0x0D

def EMG_LIGHTING_TEST_SUBOPCODE_FUNCTIONAL_TEST_STATUS : Nat := 0x03

def EMG_LIGHTING_TEST_SUBOPCODE_DURATION_TEST_STATUS : Nat := 0x07

/-- The enumeration `EmgLightingState_T`.  `EMG_LIGHTING_STATE_EXTENDED_EMERGENCY` has the same
value `0x05` as `EMG_LIGHTING_STATE_EMERGENCY` and is the same constructor here. -/
inductive EmgLightingState_T where
  | EMG_LIGHTING_STATE_NORMAL
  | EMG_LIGHTING_STATE_EMERGENCY
  | EMG_LIGHTING_STATE_REST
  | EMG_LIGHTING_STATE_INHIBIT
  | EMG_LIGHTING_STATE_DURATION_TEST_IN_PROGRESS
  | EMG_LIGHTING_STATE_FUNCTIONAL_TEST_IN_PROGRESS
  | EMG_LIGHTING_STATE_BATTERY_DISCHARGED
deriving DecidableEq

/-- The numeric value of an `EmgLightingState_T` constant, the byte of `ElSrvStateStatus_T`. -/
def EmgLightingState_T.toByte : EmgLightingState_T → Nat
  | EMG_LIGHTING_STATE_NORMAL => 0x03
  | EMG_LIGHTING_STATE_EMERGENCY => 0x05
  | EMG_LIGHTING_STATE_REST => 0x08
  | EMG_LIGHTING_STATE_INHIBIT => 0x0A
  | EMG_LIGHTING_STATE_DURATION_TEST_IN_PROGRESS => 0x0C
  | EMG_LIGHTING_STATE_FUNCTIONAL_TEST_IN_PROGRESS => 0x0E
  | EMG_LIGHTING_STATE_BATTERY_DISCHARGED => 0x0F

/-- The enumeration `EmgLightingTestTestExecutionStatus`. -/
inductive EmgLightingTestTestExecutionStatus where
  | EMG_LIGHTING_TEST_STATUS_FINISHED
  | EMG_LIGHTING_TEST_STATUS_UNKNOWN
deriving DecidableEq

/-- The numeric value of an `EmgLightingTestTestExecutionStatus` constant. -/
def EmgLightingTestTestExecutionStatus.toByte : EmgLightingTestTestExecutionStatus → Nat
  | EMG_LIGHTING_TEST_STATUS_FINISHED => 0x00
  | EMG_LIGHTING_TEST_STATUS_UNKNOWN => 0x07

/-- The record `Mesh_MeshMessageRequest1Cmd_T` of `Mesh.h`: `instance_index`,
`instance_subindex`, `mesh_cmd_size` are `uint8_t`, `mesh_cmd` is `uint32_t`. -/
structure Mesh_MeshMessageRequest1Cmd_T where
  instance_index : Nat
  instance_subindex : Nat
  mesh_cmd : Nat
  mesh_cmd_size : Nat
deriving DecidableEq

/-- A frame handed to the UART layer: the bytes given to `UART_SendMeshMessageRequest1` or to
`UART_SendBatteryStatusSetRequest`. -/
inductive UartFrame where
  | MeshMessageRequest1 (bytes : List Nat)
  | BatteryStatusSetRequest (bytes : List Nat)
deriving DecidableEq

/-- Constants `EmgLTest.cpp` takes from headers outside `src/`: `INSTANCE_INDEX_UNKNOWN`,
`ENABLE_EMG_L_TEST`, and from `MeshGenericBattery.h` `BATTERY_LEVEL_MAX`, the battery flag
values and the two "unknown time" values. -/
structure EmgConfig where
  INSTANCE_INDEX_UNKNOWN : Nat
  ENABLE_EMG_L_TEST : Bool
  BATTERY_LEVEL_MAX : Nat
  BATTERY_FLAGS_PRESENCE_PRESENT_AND_NON_REMOVABLE : Nat
  BATTERY_FLAGS_CHARGING_IS_CHARGEABLE_AND_IS_NOT_CHARGING : Nat
  BATTERY_FLAGS_SERVICEABILITY_BATTERY_DOES_NOT_REQUIRE_SERVICE : Nat
  BATTERY_FLAGS_INDICATOR_CRITICALLY_LOW_LEVEL : Nat
  BATTERY_FLAGS_INDICATOR_LOW_LEVEL : Nat
  BATTERY_FLAGS_INDICATOR_GOOD_LEVEL : Nat
  BATTERY_TIME_TO_DISCHARGE_UNKNOWN : Nat
  BATTERY_TIME_TO_CHARGE_UNKNOWN : Nat
deriving DecidableEq

/-- The module's static variables, with the function-local static
`last_measurement_timestamp` of `LoopEmgLTest`. -/
structure EmgLTestState where
  InstanceIndex : Nat
  ElState : EmgLightingState_T
  ElTotalOperationTimeOffsetMs : Nat
  ElEmergencyTimeMs : Nat
  ELTFunctionalTestTimeStartMs : Nat
  ELTDurationTestTimeStartMs : Nat
  ELTFunctionalTestStatus : EmgLightingTestTestExecutionStatus
  ELTDurationTestStatus : EmgLightingTestTestExecutionStatus
  last_measurement_timestamp : Nat
deriving DecidableEq

/-- Modelled from the spec: `Timestamp_GetTimeElapsed` of `Timestamp.h` (not in `src/`), the
"wraparound-safe elapsed-time computation" on the "monotonic millisecond timestamp":
`Clock.ElapsedSince(Timestamp) -> uint32 (ms, wraparound-safe)`, the `uint32_t` difference of
the two timestamps. -/
def Timestamp_GetTimeElapsed (timestamp_earlier timestamp_further : Nat) : Nat :=
  wrapUnsigned 32 ((timestamp_further : Int) - (timestamp_earlier : Int))

/-- The little-endian bytes of a `uint16_t` field of a packed response record. -/
def bytesLE16 (x : Nat) : List Nat := [x % 256, x / 256 % 256]

/-- The little-endian bytes of a `uint32_t` field of a packed response record. -/
def bytesLE32 (x : Nat) : List Nat :=
  [x % 256, x / 256 % 256, x / 65536 % 256, x / 16777216 % 256]

/-- The function `MeshMessageRequest1Send(p_header, subopcode, p_payload, len)`, `len` being
the length of `p_payload`.  The local buffer has
`sizeof(instance_index) + sizeof(instance_subindex) + sizeof(subopcode) + mesh_cmd_size + len`
bytes; the function writes the two index bytes, then 3, 2 or 1 bytes of `mesh_cmd` (most
significant first) for `mesh_cmd_size` 3, 2 or anything else, then the subopcode and the
payload, and sends the bytes written.  With `mesh_cmd_size = 0` it writes one byte more than
the buffer holds (undefined behaviour): `none`. -/
def MeshMessageRequest1Send (p_header : Mesh_MeshMessageRequest1Cmd_T) (subopcode : Nat)
    (p_payload : List Nat) : Option UartFrame :=
  let size : Nat := 1 + 1 + 1 + p_header.mesh_cmd_size + p_payload.length
  let cmd : List Nat :=
    if p_header.mesh_cmd_size = 3 then
      [p_header.mesh_cmd / 65536 % 256, p_header.mesh_cmd / 256 % 256, p_header.mesh_cmd % 256]
    else if p_header.mesh_cmd_size = 2 then
      [p_header.mesh_cmd / 256 % 256, p_header.mesh_cmd % 256]
    else
      [p_header.mesh_cmd % 256]
  let buff : List Nat :=
    [p_header.instance_index, p_header.instance_subindex] ++ cmd ++ [subopcode] ++ p_payload
  if buff.length ≤ size then some (UartFrame.MeshMessageRequest1 buff) else none

/-- What a message handler leaves behind: the module state, the request header (the ELT start
and stop handlers overwrite `p_header->mesh_cmd`) and the frames sent, in order. -/
structure HandlerResult where
  state : EmgLTestState
  header : Mesh_MeshMessageRequest1Cmd_T
  sent : List UartFrame
deriving DecidableEq

/-- The function `SimulateEltTest()`; `now` is `Timestamp_GetCurrent()`. -/
def SimulateEltTest (s : EmgLTestState) (now : Nat) : EmgLTestState :=
  if s.ElState = EmgLightingState_T.EMG_LIGHTING_STATE_FUNCTIONAL_TEST_IN_PROGRESS then
    if Timestamp_GetTimeElapsed s.ELTFunctionalTestTimeStartMs now > ELT_FUNCTIONAL_TEST_TIME_MS then
      { s with
        ELTFunctionalTestStatus :=
          EmgLightingTestTestExecutionStatus.EMG_LIGHTING_TEST_STATUS_FINISHED
        ElState := EmgLightingState_T.EMG_LIGHTING_STATE_NORMAL }
    else
      s
  else if s.ElState = EmgLightingState_T.EMG_LIGHTING_STATE_DURATION_TEST_IN_PROGRESS then
    if Timestamp_GetTimeElapsed s.ELTDurationTestTimeStartMs now > ELT_DURATION_TEST_TIME_MS then
      { s with
        ELTDurationTestStatus :=
          EmgLightingTestTestExecutionStatus.EMG_LIGHTING_TEST_STATUS_FINISHED
        ElState := EmgLightingState_T.EMG_LIGHTING_STATE_NORMAL }
    else
      s
  else
    s

/-- The function `SimulateBatteryLevel()`; `analog_reading` is `analogRead(PIN_ANALOG)`.  The
difference is stored in a `uint16_t`, clamped to `10 .. 1013`, scaled in `int` arithmetic and
returned as `uint8_t`. -/
def SimulateBatteryLevel (cfg : EmgConfig) (analog_reading : Nat) : Nat :=
  let analog_value : Nat :=
    wrapUnsigned 16 ((EMG_ANALOG_MAX_READOUT : Int) - (analog_reading : Int))
  let analog_value : Nat :=
    if analog_value > EMG_ANALOG_MAX_READOUT - EMG_ANALOG_DEAD_RANGE_VALUE then
      EMG_ANALOG_MAX_READOUT - EMG_ANALOG_DEAD_RANGE_VALUE
    else analog_value
  let analog_value : Nat :=
    if analog_value < EMG_ANALOG_DEAD_RANGE_VALUE then EMG_ANALOG_DEAD_RANGE_VALUE
    else analog_value
  wrapUnsigned 8
    (Int.tdiv
      (wrapSigned 32 (((analog_value : Int) - (EMG_ANALOG_DEAD_RANGE_VALUE : Int)) *
        (cfg.BATTERY_LEVEL_MAX : Int)))
      ((EMG_ANALOG_MAX_READOUT : Int) - 2 * (EMG_ANALOG_DEAD_RANGE_VALUE : Int)))

/-- The function `UpdateBatteryStatus(battery_level_percent)`: the nine payload bytes given to
`UART_SendBatteryStatusSetRequest`. -/
def UpdateBatteryStatus (cfg : EmgConfig) (s : EmgLTestState) (battery_level_percent : Nat) :
    UartFrame :=
  let base : Nat :=
    cfg.BATTERY_FLAGS_PRESENCE_PRESENT_AND_NON_REMOVABLE |||
      cfg.BATTERY_FLAGS_CHARGING_IS_CHARGEABLE_AND_IS_NOT_CHARGING |||
      cfg.BATTERY_FLAGS_SERVICEABILITY_BATTERY_DOES_NOT_REQUIRE_SERVICE
  let battery_flags : Nat :=
    if battery_level_percent ≤ EMG_BATTERY_LEVEL_CRITICAL_LOW_PERCENT then
      base % 256 ||| cfg.BATTERY_FLAGS_INDICATOR_CRITICALLY_LOW_LEVEL
    else if battery_level_percent ≤ EMG_BATTERY_LEVEL_LOW_PERCENT then
      base % 256 ||| cfg.BATTERY_FLAGS_INDICATOR_LOW_LEVEL
    else
      base % 256 ||| cfg.BATTERY_FLAGS_INDICATOR_GOOD_LEVEL
  UartFrame.BatteryStatusSetRequest
    [s.InstanceIndex, battery_level_percent,
     cfg.BATTERY_TIME_TO_DISCHARGE_UNKNOWN % 256,
     cfg.BATTERY_TIME_TO_DISCHARGE_UNKNOWN / 256 % 256,
     cfg.BATTERY_TIME_TO_DISCHARGE_UNKNOWN / 65536 % 256,
     cfg.BATTERY_TIME_TO_CHARGE_UNKNOWN % 256,
     cfg.BATTERY_TIME_TO_CHARGE_UNKNOWN / 256 % 256,
     cfg.BATTERY_TIME_TO_CHARGE_UNKNOWN / 65536 % 256,
     battery_flags % 256]

/-- The function `LoopEmgLTest()`.  `now` is `Timestamp_GetCurrent()`, `millis_now` is
`millis()`, `analog_reading` is `analogRead(PIN_ANALOG)`.  The result is the module state and
the frames sent. -/
def LoopEmgLTest (cfg : EmgConfig) (s : EmgLTestState) (now millis_now analog_reading : Nat) :
    EmgLTestState × List UartFrame :=
  if s.InstanceIndex = cfg.INSTANCE_INDEX_UNKNOWN ∨ cfg.ENABLE_EMG_L_TEST = false then
    (s, [])
  else if Timestamp_GetTimeElapsed s.last_measurement_timestamp now >
        EMG_BATTERY_MEASUREMENT_PERIOD_MS ∨ s.last_measurement_timestamp = 0 then
    let s1 : EmgLTestState := { s with last_measurement_timestamp := millis_now }
    let battery_level_percent : Nat := SimulateBatteryLevel cfg analog_reading
    let s2 : EmgLTestState :=
      if battery_level_percent = 0 then
        { s1 with ElState := EmgLightingState_T.EMG_LIGHTING_STATE_BATTERY_DISCHARGED }
      else if s1.ElState = EmgLightingState_T.EMG_LIGHTING_STATE_BATTERY_DISCHARGED then
        { s1 with ElState := EmgLightingState_T.EMG_LIGHTING_STATE_NORMAL }
      else
        s1
    (s2, [UpdateBatteryStatus cfg s2 battery_level_percent])
  else
    (s, [])

/-- The tail shared by the handlers: `MeshMessageRequest1Send(p_header, subopcode, &resp,
sizeof(resp))` as the last statement, the frame being the only one sent. -/
def sendResponse (s : EmgLTestState) (p_header : Mesh_MeshMessageRequest1Cmd_T)
    (subopcode : Nat) (resp : List Nat) : Option HandlerResult :=
  match MeshMessageRequest1Send p_header subopcode resp with
  | none => none
  | some frame => some { state := s, header := p_header, sent := [frame] }

/-- The function `ElStateGet(p_header, p_payload, len)`, `len` being the length of `p_payload`.
`now` is `Timestamp_GetCurrent()`; `sw_first` and `sw_second` are the values of the two
`digitalRead(PIN_ENCODER_SW)` calls (`true` for HIGH; the second call is only made when the
first condition is false). -/
def ElStateGet (s : EmgLTestState) (p_header : Mesh_MeshMessageRequest1Cmd_T)
    (p_payload : List Nat) (now : Nat) (sw_first sw_second : Bool) : Option HandlerResult :=
  if p_payload.length ≠ 0 then
    some { state := s, header := p_header, sent := [] }
  else
    let s1 := SimulateEltTest s now
    let resp_state : EmgLightingState_T :=
      if sw_first = false ∧ s1.ElState = EmgLightingState_T.EMG_LIGHTING_STATE_REST then
        EmgLightingState_T.EMG_LIGHTING_STATE_REST
      else if sw_second = false then
        EmgLightingState_T.EMG_LIGHTING_STATE_EMERGENCY
      else
        s1.ElState
    sendResponse s1 p_header EMG_LIGHTING_SUBOPCODE_STATE_STATUS [resp_state.toByte]

/-- The function `ElLampOperationTimeGet(p_header, p_payload, len)`; `now` is
`Timestamp_GetCurrent()`.  The packed `ElSrvOperationTimeStatus_T` holds
`total_operation_time` then `emergency_time`, both `uint32_t`. -/
def ElLampOperationTimeGet (s : EmgLTestState) (p_header : Mesh_MeshMessageRequest1Cmd_T)
    (p_payload : List Nat) (now : Nat) : Option HandlerResult :=
  if p_payload.length ≠ 0 then
    some { state := s, header := p_header, sent := [] }
  else
    let emergency_time : Nat := s.ElEmergencyTimeMs / 1000
    let total_operation_time : Nat :=
      Timestamp_GetTimeElapsed s.ElTotalOperationTimeOffsetMs now / 1000
    sendResponse s p_header EMG_LIGHTING_SUBOPCODE_LAMP_OPERATION_TIME_STATUS
      (bytesLE32 total_operation_time ++ bytesLE32 emergency_time)

/-- The function `EltFunctionalTestGet(p_header, p_payload, len)`.  The packed
`EltSrvFunctionalTestStatus_T` is the status byte and the result bit-field byte, whose four
fault flags and `rfu` are all set to zero. -/
def EltFunctionalTestGet (s : EmgLTestState) (p_header : Mesh_MeshMessageRequest1Cmd_T)
    (p_payload : List Nat) : Option HandlerResult :=
  if p_payload.length ≠ 0 then
    some { state := s, header := p_header, sent := [] }
  else
    sendResponse s p_header EMG_LIGHTING_TEST_SUBOPCODE_FUNCTIONAL_TEST_STATUS
      [s.ELTFunctionalTestStatus.toByte, 0]

/-- The function `EltFunctionalTestStart(p_header, p_payload, len)`; `now` is
`Timestamp_GetCurrent()`. -/
def EltFunctionalTestStart (s : EmgLTestState) (p_header : Mesh_MeshMessageRequest1Cmd_T)
    (p_payload : List Nat) (now : Nat) : Option HandlerResult :=
  if p_payload.length ≠ 0 then
    some { state := s, header := p_header, sent := [] }
  else
    let s1 : EmgLTestState :=
      if s.ElState = EmgLightingState_T.EMG_LIGHTING_STATE_NORMAL then
        { s with
          ElState := EmgLightingState_T.EMG_LIGHTING_STATE_FUNCTIONAL_TEST_IN_PROGRESS
          ELTFunctionalTestTimeStartMs := now
          ELTFunctionalTestStatus :=
            EmgLightingTestTestExecutionStatus.EMG_LIGHTING_TEST_STATUS_UNKNOWN }
      else
        s
    sendResponse s1 { p_header with mesh_cmd := EMG_LIGHTING_OPCODE }
      EMG_LIGHTING_SUBOPCODE_STATE_STATUS [s1.ElState.toByte]

/-- The function `EltDurationTestGet(p_header, p_payload, len)`.  The packed
`EltSrvDurationTestStatus_T` is the status byte, the zeroed result byte and the `uint16_t`
`test_length`: `ELT_DURATION_TEST_TIME_MS / 1000` when the status is FINISHED, else
`EMG_DURATION_RESULT_TEST_LENGTH_UNKNOWN`. -/
def EltDurationTestGet (s : EmgLTestState) (p_header : Mesh_MeshMessageRequest1Cmd_T)
    (p_payload : List Nat) : Option HandlerResult :=
  if p_payload.length ≠ 0 then
    some { state := s, header := p_header, sent := [] }
  else
    let test_length : Nat :=
      if s.ELTDurationTestStatus =
          EmgLightingTestTestExecutionStatus.EMG_LIGHTING_TEST_STATUS_FINISHED then
        ELT_DURATION_TEST_TIME_MS / 1000
      else
        EMG_DURATION_RESULT_TEST_LENGTH_UNKNOWN
    sendResponse s p_header EMG_LIGHTING_TEST_SUBOPCODE_DURATION_TEST_STATUS
      ([s.ELTDurationTestStatus.toByte, 0] ++ bytesLE16 test_length)

/-- The function `EltDurationTestStart(p_header, p_payload, len)`; `now` is
`Timestamp_GetCurrent()`, `analog_reading` is what `analogRead(PIN_ANALOG)` returns to the
`SimulateBatteryLevel()` call (made only when the state is NORMAL). -/
def EltDurationTestStart (cfg : EmgConfig) (s : EmgLTestState)
    (p_header : Mesh_MeshMessageRequest1Cmd_T) (p_payload : List Nat)
    (now analog_reading : Nat) : Option HandlerResult :=
  if p_payload.length ≠ 0 then
    some { state := s, header := p_header, sent := [] }
  else
    let s1 : EmgLTestState :=
      if s.ElState = EmgLightingState_T.EMG_LIGHTING_STATE_NORMAL ∧
          SimulateBatteryLevel cfg analog_reading = 100 then
        { s with
          ElState := EmgLightingState_T.EMG_LIGHTING_STATE_DURATION_TEST_IN_PROGRESS
          ELTDurationTestTimeStartMs := now
          ELTDurationTestStatus :=
            EmgLightingTestTestExecutionStatus.EMG_LIGHTING_TEST_STATUS_UNKNOWN }
      else
        s
    sendResponse s1 { p_header with mesh_cmd := EMG_LIGHTING_OPCODE }
      EMG_LIGHTING_SUBOPCODE_STATE_STATUS [s1.ElState.toByte]

/-! ### The remaining EL / ELT handlers and the two dispatchers -/

def EMG_LIGHTING_SUBOPCODE_INHIBIT_ENTER : Nat := 0x00

def EMG_LIGHTING_SUBOPCODE_INHIBIT_EXIT : Nat := 0x02

def EMG_LIGHTING_SUBOPCODE_STATE_GET : Nat := 0x04

def EMG_LIGHTING_SUBOPCODE_PROPERTY_STATUS : Nat := 0x09

def EMG_LIGHTING_SUBOPCODE_LAMP_OPERATION_TIME_GET : Nat := 0x0A

def EMG_LIGHTING_SUBOPCODE_LAMP_OPERATION_TIME_CLEAR : Nat := 0x0B

def EMG_LIGHTING_SUBOPCODE_REST_ENTER : Nat := 0x0E

def EMG_LIGHTING_SUBOPCODE_REST_EXIT : Nat := 0x10

def EMG_LIGHTING_TEST_SUBOPCODE_FUNCTIONAL_TEST_GET : Nat := 0x00

def EMG_LIGHTING_TEST_SUBOPCODE_FUNCTIONAL_TEST_START : Nat := 0x01

def EMG_LIGHTING_TEST_SUBOPCODE_FUNCTIONAL_TEST_STOP : Nat := 0x02

def EMG_LIGHTING_TEST_SUBOPCODE_DURATION_TEST_GET : Nat := 0x04

def EMG_LIGHTING_TEST_SUBOPCODE_DURATION_TEST_START : Nat := 0x05

def EMG_LIGHTING_TEST_SUBOPCODE_DURATION_TEST_STOP : Nat := 0x06

/-- The function `ElInhibitEnter(p_header, p_payload, len)`. -/
def ElInhibitEnter (s : EmgLTestState) (p_header : Mesh_MeshMessageRequest1Cmd_T)
    (p_payload : List Nat) : Option HandlerResult :=
  if p_payload.length ≠ 0 then
    some { state := s, header := p_header, sent := [] }
  else
    let s1 : EmgLTestState := { s with ElState := EmgLightingState_T.EMG_LIGHTING_STATE_INHIBIT }
    sendResponse s1 p_header EMG_LIGHTING_SUBOPCODE_STATE_STATUS [s1.ElState.toByte]

/-- The function `ElInhibitExit(p_header, p_payload, len)`. -/
def ElInhibitExit (s : EmgLTestState) (p_header : Mesh_MeshMessageRequest1Cmd_T)
    (p_payload : List Nat) : Option HandlerResult :=
  if p_payload.length ≠ 0 then
    some { state := s, header := p_header, sent := [] }
  else
    let s1 : EmgLTestState := { s with ElState := EmgLightingState_T.EMG_LIGHTING_STATE_NORMAL }
    sendResponse s1 p_header EMG_LIGHTING_SUBOPCODE_STATE_STATUS [s1.ElState.toByte]

/-- The function `ElPropertyStatus(p_header, p_payload, len)`: it returns when `len` is not
`sizeof(ElSrvPropertyStatus_T) = 4` and otherwise only logs the property. -/
def ElPropertyStatus (s : EmgLTestState) (p_header : Mesh_MeshMessageRequest1Cmd_T)
    (p_payload : List Nat) : Option HandlerResult :=
  if 4 ≠ p_payload.length then
    some { state := s, header := p_header, sent := [] }
  else
    some { state := s, header := p_header, sent := [] }

/-- The function `ElLampOperationTimeClear(p_header, p_payload, len)`; `now` is
`Timestamp_GetCurrent()`. -/
def ElLampOperationTimeClear (s : EmgLTestState) (p_header : Mesh_MeshMessageRequest1Cmd_T)
    (p_payload : List Nat) (now : Nat) : Option HandlerResult :=
  if p_payload.length ≠ 0 then
    some { state := s, header := p_header, sent := [] }
  else
    let s1 : EmgLTestState :=
      { s with ElTotalOperationTimeOffsetMs := now, ElEmergencyTimeMs := 0 }
    sendResponse s1 p_header EMG_LIGHTING_SUBOPCODE_LAMP_OPERATION_TIME_STATUS
      (bytesLE32 0 ++ bytesLE32 0)

/-- The function `ElRestEnter(p_header, p_payload, len)`. -/
def ElRestEnter (s : EmgLTestState) (p_header : Mesh_MeshMessageRequest1Cmd_T)
    (p_payload : List Nat) : Option HandlerResult :=
  if p_payload.length ≠ 0 then
    some { state := s, header := p_header, sent := [] }
  else
    let s1 : EmgLTestState := { s with ElState := EmgLightingState_T.EMG_LIGHTING_STATE_REST }
    sendResponse s1 p_header EMG_LIGHTING_SUBOPCODE_STATE_STATUS [s1.ElState.toByte]

/-- The function `ElRestExit(p_header, p_payload, len)`; `sw` is the value of
`digitalRead(PIN_ENCODER_SW)` (`true` for HIGH). -/
def ElRestExit (s : EmgLTestState) (p_header : Mesh_MeshMessageRequest1Cmd_T)
    (p_payload : List Nat) (sw : Bool) : Option HandlerResult :=
  if p_payload.length ≠ 0 then
    some { state := s, header := p_header, sent := [] }
  else
    let s1 : EmgLTestState := { s with ElState := EmgLightingState_T.EMG_LIGHTING_STATE_NORMAL }
    let resp_state : EmgLightingState_T :=
      if sw = false then EmgLightingState_T.EMG_LIGHTING_STATE_EMERGENCY else s1.ElState
    sendResponse s1 p_header EMG_LIGHTING_SUBOPCODE_STATE_STATUS [resp_state.toByte]

/-- The function `EltFunctionalTestStop(p_header, p_payload, len)`. -/
def EltFunctionalTestStop (s : EmgLTestState) (p_header : Mesh_MeshMessageRequest1Cmd_T)
    (p_payload : List Nat) : Option HandlerResult :=
  if p_payload.length ≠ 0 then
    some { state := s, header := p_header, sent := [] }
  else
    let s1 : EmgLTestState :=
      { s with
        ElState := EmgLightingState_T.EMG_LIGHTING_STATE_NORMAL
        ELTFunctionalTestStatus :=
          EmgLightingTestTestExecutionStatus.EMG_LIGHTING_TEST_STATUS_UNKNOWN }
    sendResponse s1 { p_header with mesh_cmd := EMG_LIGHTING_OPCODE }
      EMG_LIGHTING_SUBOPCODE_STATE_STATUS [s1.ElState.toByte]

/-- The function `EltDurationTestStop(p_header, p_payload, len)`. -/
def EltDurationTestStop (s : EmgLTestState) (p_header : Mesh_MeshMessageRequest1Cmd_T)
    (p_payload : List Nat) : Option HandlerResult :=
  if p_payload.length ≠ 0 then
    some { state := s, header := p_header, sent := [] }
  else
    let s1 : EmgLTestState :=
      { s with
        ElState := EmgLightingState_T.EMG_LIGHTING_STATE_NORMAL
        ELTDurationTestStatus :=
          EmgLightingTestTestExecutionStatus.EMG_LIGHTING_TEST_STATUS_UNKNOWN }
    sendResponse s1 { p_header with mesh_cmd := EMG_LIGHTING_OPCODE }
      EMG_LIGHTING_SUBOPCODE_STATE_STATUS [s1.ElState.toByte]

/-- What a dispatcher leaves behind: as `HandlerResult`, the header pointer possibly null. -/
structure DispatchResult where
  state : EmgLTestState
  header : Option Mesh_MeshMessageRequest1Cmd_T
  sent : List UartFrame
deriving DecidableEq

/-- The result of the handler a dispatcher called. -/
def DispatchResult.ofHandler : Option HandlerResult → Option DispatchResult
  | none => none
  | some r => some { state := r.state, header := some r.header, sent := r.sent }

/-- The function `EmgLTest_LightElSrvProcessMessage(p_header, p_payload, len)`.  A null pointer
is `none`; `len` is the length of the payload.  The handler gets `p_payload + 1` and `len - 1`.
`now`, `sw_first`, `sw_second` are the clock and encoder-switch readings the called handler
takes. -/
def EmgLTest_LightElSrvProcessMessage (s : EmgLTestState)
    (p_header : Option Mesh_MeshMessageRequest1Cmd_T) (p_payload : Option (List Nat))
    (now : Nat) (sw_first sw_second : Bool) : Option DispatchResult :=
  match p_payload, p_header with
  | none, _ => some { state := s, header := p_header, sent := [] }
  | some _, none => some { state := s, header := none, sent := [] }
  | some [], some h => some { state := s, header := some h, sent := [] }
  | some (subopcode :: rest), some h =>
    if subopcode = EMG_LIGHTING_SUBOPCODE_INHIBIT_ENTER then
      DispatchResult.ofHandler (ElInhibitEnter s h rest)
    else if subopcode = EMG_LIGHTING_SUBOPCODE_INHIBIT_EXIT then
      DispatchResult.ofHandler (ElInhibitExit s h rest)
    else if subopcode = EMG_LIGHTING_SUBOPCODE_STATE_GET then
      DispatchResult.ofHandler (ElStateGet s h rest now sw_first sw_second)
    else if subopcode = EMG_LIGHTING_SUBOPCODE_PROPERTY_STATUS then
      DispatchResult.ofHandler (ElPropertyStatus s h rest)
    else if subopcode = EMG_LIGHTING_SUBOPCODE_LAMP_OPERATION_TIME_GET then
      DispatchResult.ofHandler (ElLampOperationTimeGet s h rest now)
    else if subopcode = EMG_LIGHTING_SUBOPCODE_LAMP_OPERATION_TIME_CLEAR then
      DispatchResult.ofHandler (ElLampOperationTimeClear s h rest now)
    else if subopcode = EMG_LIGHTING_SUBOPCODE_REST_ENTER then
      DispatchResult.ofHandler (ElRestEnter s h rest)
    else if subopcode = EMG_LIGHTING_SUBOPCODE_REST_EXIT then
      DispatchResult.ofHandler (ElRestExit s h rest sw_first)
    else
      some { state := s, header := some h, sent := [] }

/-- The function `EmgLTest_LightElTestSrvProcessMessage(p_header, p_payload, len)`, with the
same conventions; `analog_reading` is the `analogRead(PIN_ANALOG)` value the Duration Test
Start handler may take. -/
def EmgLTest_LightElTestSrvProcessMessage (cfg : EmgConfig) (s : EmgLTestState)
    (p_header : Option Mesh_MeshMessageRequest1Cmd_T) (p_payload : Option (List Nat))
    (now analog_reading : Nat) : Option DispatchResult :=
  match p_payload, p_header with
  | none, _ => some { state := s, header := p_header, sent := [] }
  | some _, none => some { state := s, header := none, sent := [] }
  | some [], some h => some { state := s, header := some h, sent := [] }
  | some (subopcode :: rest), some h =>
    if subopcode = EMG_LIGHTING_TEST_SUBOPCODE_FUNCTIONAL_TEST_GET then
      DispatchResult.ofHandler (EltFunctionalTestGet s h rest)
    else if subopcode = EMG_LIGHTING_TEST_SUBOPCODE_FUNCTIONAL_TEST_START then
      DispatchResult.ofHandler (EltFunctionalTestStart s h rest now)
    else if subopcode = EMG_LIGHTING_TEST_SUBOPCODE_FUNCTIONAL_TEST_STOP then
      DispatchResult.ofHandler (EltFunctionalTestStop s h rest)
    else if subopcode = EMG_LIGHTING_TEST_SUBOPCODE_DURATION_TEST_GET then
      DispatchResult.ofHandler (EltDurationTestGet s h rest)
    else if subopcode = EMG_LIGHTING_TEST_SUBOPCODE_DURATION_TEST_START then
      DispatchResult.ofHandler (EltDurationTestStart cfg s h rest now analog_reading)
    else if subopcode = EMG_LIGHTING_TEST_SUBOPCODE_DURATION_TEST_STOP then
      DispatchResult.ofHandler (EltDurationTestStop s h rest)
    else
      some { state := s, header := some h, sent := [] }

/-! ### Startup sequencer (`MCU_Lightness.cpp`) -/

/-- The enumeration `DeviceStartupSequence_T`, in declaration order (values 0 to 4). -/
inductive DeviceStartupSequence_T
  | DEVICE_SEQUENCE_STAGE_1
  | DEVICE_SEQUENCE_STAGE_2
  | DEVICE_SEQUENCE_STAGE_3
  | DEVICE_SEQUENCE_STAGE_4
  | DEVICE_SEQUENCE_STAGE_OFF
deriving DecidableEq, Repr

/-- The integer value of an enumerator. -/
def DeviceStartupSequence_T.toNat : DeviceStartupSequence_T → Nat
  | DEVICE_SEQUENCE_STAGE_1 => 0
  | DEVICE_SEQUENCE_STAGE_2 => 1
  | DEVICE_SEQUENCE_STAGE_3 => 2
  | DEVICE_SEQUENCE_STAGE_4 => 3
  | DEVICE_SEQUENCE_STAGE_OFF => 4

/-- The cast `(DeviceStartupSequence_T)i` of a loop index. -/
def DeviceStartupSequence_T.ofIndex : Nat → DeviceStartupSequence_T
  | 0 => DEVICE_SEQUENCE_STAGE_1
  | 1 => DEVICE_SEQUENCE_STAGE_2
  | 2 => DEVICE_SEQUENCE_STAGE_3
  | 3 => DEVICE_SEQUENCE_STAGE_4
  | _ => DEVICE_SEQUENCE_STAGE_OFF

def DEVICE_STARTUP_SEQ_STAGE_1_DURATION_MS : Nat := 3000

def DEVICE_STARTUP_SEQ_STAGE_2_DURATION_MS : Nat := 1000

def DEVICE_STARTUP_SEQ_STAGE_3_DURATION_MS : Nat := 1000

def DEVICE_STARTUP_SEQ_STAGE_4_DURATION_MS : Nat := 1000

def DEVICE_STARTUP_SEQ_STAGE_1_LIGHTNESS : Nat := 0xB504

def DEVICE_STARTUP_SEQ_STAGE_2_LIGHTNESS : Nat := 0x0001

def DEVICE_STARTUP_SEQ_STAGE_3_LIGHTNESS : Nat := 0xFFFF

def DEVICE_STARTUP_SEQ_STAGE_4_LIGHTNESS : Nat := 0x0001

def DEVICE_STARTUP_SEQ_STAGE_OFF_LIGHTNESS : Nat := 0xFFFF

/-- The local array `startup_sequence_duration_ms` of `GetStartupSequenceStage`. -/
def startup_sequence_duration_ms : List Nat :=
  [DEVICE_STARTUP_SEQ_STAGE_1_DURATION_MS, DEVICE_STARTUP_SEQ_STAGE_2_DURATION_MS,
   DEVICE_STARTUP_SEQ_STAGE_3_DURATION_MS, DEVICE_STARTUP_SEQ_STAGE_4_DURATION_MS]

/-- The local array `startup_sequence_lightness` of `PerformStartupSequenceIfNeeded`. -/
def startup_sequence_lightness : List Nat :=
  [DEVICE_STARTUP_SEQ_STAGE_1_LIGHTNESS, DEVICE_STARTUP_SEQ_STAGE_2_LIGHTNESS,
   DEVICE_STARTUP_SEQ_STAGE_3_LIGHTNESS, DEVICE_STARTUP_SEQ_STAGE_4_LIGHTNESS,
   DEVICE_STARTUP_SEQ_STAGE_OFF_LIGHTNESS]

/-- The loop of `GetStartupSequenceStage` from index `i` on, `durations` being the array
entries not yet visited.  The division and the subtraction are `unsigned long` (32-bit)
operations. -/
def GetStartupSequenceStage.loop :
    List Nat → Nat → Nat → DeviceStartupSequence_T
  | [], _, _ => DeviceStartupSequence_T.DEVICE_SEQUENCE_STAGE_OFF
  | d :: rest, i, time_since_sequence_start =>
    if time_since_sequence_start / d ≥ 1 then
      GetStartupSequenceStage.loop rest (i + 1)
        (wrapUnsigned 32 ((time_since_sequence_start : Int) - (d : Int)))
    else
      DeviceStartupSequence_T.ofIndex i

/-- The function `GetStartupSequenceStage(unsigned long time_since_sequence_start)`. -/
def GetStartupSequenceStage (time_since_sequence_start : Nat) : DeviceStartupSequence_T :=
  GetStartupSequenceStage.loop startup_sequence_duration_ms 0 time_since_sequence_start

/-- The file-scope state of `MCU_Lightness.cpp` the startup sequencer works on, with the two
function-local statics of `PerformStartupSequenceIfNeeded`.  `sequence_start` is a `long`
(32 bits on the target). -/
structure LightnessServer where
  IsEnabled : Bool
  Light : Transition
  UnprovisionedSequenceEnableFlag : Bool
  present_startup_sequence_stage : DeviceStartupSequence_T
  sequence_start : Int
deriving DecidableEq

/-- A call `ProcessTargetLightness(present, target, transition_time)`. -/
structure LightnessCall where
  present : Nat
  target : Nat
  transition_time : Nat
deriving DecidableEq, Repr

/-- The values `Timestamp_GetCurrent()` returns at the four places one run of
`PerformStartupSequenceIfNeeded` can read the clock, in program order: the assignment to
`sequence_start`, the `UpdateTransition` of the first jump, the computation of
`sequence_duration`, the `UpdateTransition` of the second jump. -/
structure SequenceClock where
  at_start : Nat
  at_first_jump : Nat
  at_duration : Nat
  at_second_jump : Nat
deriving DecidableEq, Repr

/-- The clock of a poll during which the millisecond counter does not advance. -/
def SequenceClock.const (now : Nat) : SequenceClock :=
  { at_start := now, at_first_jump := now, at_duration := now, at_second_jump := now }

/-- The function `UpdateTransition(present, target, transition_time, p_transition)`; `now` is
`Timestamp_GetCurrent()`. -/
def UpdateTransition (present target transition_time : Nat) (now : Nat) (_p : Transition) :
    Transition :=
  { start_value := present, target_value := target, transition_time := transition_time,
    start_timestamp := now }

/-- The function `ProcessTargetLightness(present, target, transition_time)`. -/
def ProcessTargetLightness (s : LightnessServer) (present target transition_time : Nat)
    (now : Nat) : LightnessServer :=
  if s.IsEnabled = false then s
  else { s with Light := UpdateTransition present target transition_time now s.Light }

/-- The function `PerformStartupSequenceIfNeeded()`: the state after the call and the calls of
`ProcessTargetLightness` it made, in order. -/
def PerformStartupSequenceIfNeeded (s : LightnessServer) (clock : SequenceClock) :
    LightnessServer × List LightnessCall :=
  let r1 : LightnessServer × List LightnessCall :=
    if s.UnprovisionedSequenceEnableFlag = true then
      let s1 : LightnessServer :=
        { s with
          sequence_start := wrapSigned 32 (clock.at_start : Int)
          UnprovisionedSequenceEnableFlag := false
          present_startup_sequence_stage := DeviceStartupSequence_T.DEVICE_SEQUENCE_STAGE_1 }
      let target : Nat :=
        startup_sequence_lightness.getD s1.present_startup_sequence_stage.toNat 0
      (ProcessTargetLightness s1 0 target 0 clock.at_first_jump,
        [{ present := 0, target := target, transition_time := 0 }])
    else
      (s, [])
  let s2 := r1.1
  let sequence_duration : Nat :=
    Timestamp_GetTimeElapsed (wrapUnsigned 32 s2.sequence_start) clock.at_duration
  let calculated_stage := GetStartupSequenceStage sequence_duration
  if s2.present_startup_sequence_stage ≠ DeviceStartupSequence_T.DEVICE_SEQUENCE_STAGE_OFF ∧
      s2.present_startup_sequence_stage ≠ calculated_stage then
    let s3 : LightnessServer := { s2 with present_startup_sequence_stage := calculated_stage }
    let target : Nat :=
      startup_sequence_lightness.getD s3.present_startup_sequence_stage.toNat 0
    (ProcessTargetLightness s3 0 target 0 clock.at_second_jump,
      r1.2 ++ [{ present := 0, target := target, transition_time := 0 }])
  else
    r1

/-- The function `EnableStartupSequence()`. -/
def EnableStartupSequence (s : LightnessServer) : LightnessServer :=
  if s.IsEnabled = false then s
  else { s with UnprovisionedSequenceEnableFlag := true }

/-- The function `LoopLightnessServer()`. -/
def LoopLightnessServer (s : LightnessServer) (clock : SequenceClock) :
    LightnessServer × List LightnessCall :=
  if s.IsEnabled = false then (s, [])
  else PerformStartupSequenceIfNeeded s clock

/-- A run of polls of `PerformStartupSequenceIfNeeded`, one clock per poll: the final state
and all the calls of `ProcessTargetLightness` made, in order. -/
def runPolls : LightnessServer → List SequenceClock → LightnessServer × List LightnessCall
  | s, [] => (s, [])
  | s, c :: rest =>
    let r := PerformStartupSequenceIfNeeded s c
    let r2 := runPolls r.1 rest
    (r2.1, r.2 ++ r2.2)

/-! ### The response framing of the specification -/

/-- The `size` low-order bytes of an opcode, most significant byte first. -/
def specOpcodeBytes (size mesh_cmd : Nat) : List Nat :=
  (List.range size).reverse.map (fun i => mesh_cmd / 256 ^ i % 256)

/-- The frame the specification gives a response to `request`: the request's
`instance_index` and `instance_subindex`, its `mesh_cmd` serialised in `mesh_cmd_size` bytes
most significant byte first, the subopcode and the payload. -/
def specResponseFrame (request : Mesh_MeshMessageRequest1Cmd_T) (subopcode : Nat)
    (payload : List Nat) : UartFrame :=
  UartFrame.MeshMessageRequest1
    ([request.instance_index, request.instance_subindex] ++
      specOpcodeBytes request.mesh_cmd_size request.mesh_cmd ++ [subopcode] ++ payload)

/-- A handler or dispatcher result that returned and sent either nothing or one frame, framed
as the specification frames a response to `request`. -/
def FramedBy (request : Mesh_MeshMessageRequest1Cmd_T) (sent : Option (List UartFrame)) :
    Prop :=
  sent = some [] ∨
    ∃ (subopcode : Nat) (payload : List Nat),
      sent = some [specResponseFrame request subopcode payload]

/-! ### The four buttons (`SwitchButtons.cpp`): `SetupFSM`, `LoopButtons`, interrupt routines -/

/-- The globals `Button1` .. `Button4`. -/
structure Buttons where
  Button1 : ButtonInstance
  Button2 : ButtonInstance
  Button3 : ButtonInstance
  Button4 : ButtonInstance
deriving DecidableEq

/-- The pin macros `PIN_SW_1` .. `PIN_SW_4`, defined in a header outside `src/`; they are taken
as parameters. -/
structure ButtonPins where
  PIN_SW_1 : Nat
  PIN_SW_2 : Nat
  PIN_SW_3 : Nat
  PIN_SW_4 : Nat
deriving DecidableEq

/-- The function `SetupFSM(light_lc_client_instance_index, light_ctl_client_instance_index)`
on the globals as it finds them, statement by statement: each of the four blocks calls
`ClearButtonStates(&Button4)`; the blocks of `Button1`, `Button2`, `Button3` then assign
`state` and `delta_value_on_press`.  (`pinMode` and `attachInterrupt` do not touch the
globals.) -/
def SetupFSM (pins : ButtonPins) (s : Buttons)
    (light_lc_client_instance_index light_ctl_client_instance_index : Nat) : Buttons :=
  let s : Buttons :=
    { s with Button1 := { s.Button1 with
        instance_idx := light_lc_client_instance_index, pin_number := pins.PIN_SW_1 } }
  let s : Buttons := { s with Button4 := ClearButtonStates s.Button4 }
  let s : Buttons :=
    { s with Button1 := { s.Button1 with
        state := MachineStates.FSM_IDLE, delta_value_on_press := 0,
        button_type := ButtonType.BUTTON_ON } }
  let s : Buttons :=
    { s with Button2 := { s.Button2 with
        instance_idx := light_lc_client_instance_index, pin_number := pins.PIN_SW_2 } }
  let s : Buttons := { s with Button4 := ClearButtonStates s.Button4 }
  let s : Buttons :=
    { s with Button2 := { s.Button2 with
        state := MachineStates.FSM_IDLE, delta_value_on_press := 0,
        button_type := ButtonType.BUTTON_OFF } }
  let s : Buttons :=
    { s with Button3 := { s.Button3 with
        instance_idx := light_ctl_client_instance_index, pin_number := pins.PIN_SW_3 } }
  let s : Buttons := { s with Button4 := ClearButtonStates s.Button4 }
  let s : Buttons :=
    { s with Button3 := { s.Button3 with
        state := MachineStates.FSM_IDLE, delta_value_on_press := 0,
        button_type := ButtonType.BUTTON_ON } }
  let s : Buttons :=
    { s with Button4 := { s.Button4 with
        instance_idx := light_ctl_client_instance_index, pin_number := pins.PIN_SW_4 } }
  let s : Buttons := { s with Button4 := ClearButtonStates s.Button4 }
  { s with Button4 := { s.Button4 with button_type := ButtonType.BUTTON_OFF } }

/-- The function `LoopButtons()`: the four `CheckButtonState` calls in order, `now1` .. `now4`
being the `millis()` readings of the four calls; the commands sent, in order. -/
def LoopButtons (s : Buttons) (now1 now2 now3 now4 : Nat) :
    Option (Buttons × List MeshCommand) :=
  match CheckButtonState s.Button1 s.Button2 now1 with
  | none => none
  | some (b1, c1) =>
    match CheckButtonState s.Button2 b1 now2 with
    | none => none
    | some (b2, c2) =>
      match CheckButtonState s.Button3 s.Button4 now3 with
      | none => none
      | some (b3, c3) =>
        match CheckButtonState s.Button4 b3 now4 with
        | none => none
        | some (b4, c4) =>
          some ({ Button1 := b1, Button2 := b2, Button3 := b3, Button4 := b4 },
            c1 ++ c2 ++ c3 ++ c4)

/-- The routine `InterruptOn1PBPress()`; `time_since_last_interrupt` is the value of its static
`elapsedMillis` counter and `pin_is_low` the level `OnButtonInterrupt` reads. -/
def InterruptOn1PBPress (s : Buttons) (time_since_last_interrupt : Nat) (pin_is_low : Bool) :
    Buttons :=
  if time_since_last_interrupt > BUTTON_DEBOUNCE_TIME_MS then
    { s with Button1 := OnButtonInterrupt s.Button1 pin_is_low }
  else s

/-- The routine `InterruptOff1PBPress()`. -/
def InterruptOff1PBPress (s : Buttons) (time_since_last_interrupt : Nat) (pin_is_low : Bool) :
    Buttons :=
  if time_since_last_interrupt > BUTTON_DEBOUNCE_TIME_MS then
    { s with Button2 := OnButtonInterrupt s.Button2 pin_is_low }
  else s

/-- The routine `InterruptOn2PBPress()`. -/
def InterruptOn2PBPress (s : Buttons) (time_since_last_interrupt : Nat) (pin_is_low : Bool) :
    Buttons :=
  if time_since_last_interrupt > BUTTON_DEBOUNCE_TIME_MS then
    { s with Button3 := OnButtonInterrupt s.Button3 pin_is_low }
  else s

/-- The routine `InterruptOff2PBPress()`. -/
def InterruptOff2PBPress (s : Buttons) (time_since_last_interrupt : Nat) (pin_is_low : Bool) :
    Buttons :=
  if time_since_last_interrupt > BUTTON_DEBOUNCE_TIME_MS then
    { s with Button4 := OnButtonInterrupt s.Button4 pin_is_low }
  else s

/-- The states of the four buttons reachable from a call of `SetupFSM` (on any prior contents)
by button interrupts and `LoopButtons` polls, interrupts also arriving between the four
`CheckButtonState` calls of a poll: each of the four calls is a step of its own. -/
inductive ButtonsReachable (pins : ButtonPins) : Buttons → Prop where
  | setup (prior : Buttons) (lc ctl : Nat) : ButtonsReachable pins (SetupFSM pins prior lc ctl)
  | interruptOn1 (s : Buttons) (t : Nat) (pin_is_low : Bool) (h : ButtonsReachable pins s) :
      ButtonsReachable pins (InterruptOn1PBPress s t pin_is_low)
  | interruptOff1 (s : Buttons) (t : Nat) (pin_is_low : Bool) (h : ButtonsReachable pins s) :
      ButtonsReachable pins (InterruptOff1PBPress s t pin_is_low)
  | interruptOn2 (s : Buttons) (t : Nat) (pin_is_low : Bool) (h : ButtonsReachable pins s) :
      ButtonsReachable pins (InterruptOn2PBPress s t pin_is_low)
  | interruptOff2 (s : Buttons) (t : Nat) (pin_is_low : Bool) (h : ButtonsReachable pins s) :
      ButtonsReachable pins (InterruptOff2PBPress s t pin_is_low)
  | check1 (s : Buttons) (now : Nat) (b : ButtonInstance) (cmds : List MeshCommand)
      (h : ButtonsReachable pins s)
      (hstep : CheckButtonState s.Button1 s.Button2 now = some (b, cmds)) :
      ButtonsReachable pins { s with Button1 := b }
  | check2 (s : Buttons) (now : Nat) (b : ButtonInstance) (cmds : List MeshCommand)
      (h : ButtonsReachable pins s)
      (hstep : CheckButtonState s.Button2 s.Button1 now = some (b, cmds)) :
      ButtonsReachable pins { s with Button2 := b }
  | check3 (s : Buttons) (now : Nat) (b : ButtonInstance) (cmds : List MeshCommand)
      (h : ButtonsReachable pins s)
      (hstep : CheckButtonState s.Button3 s.Button4 now = some (b, cmds)) :
      ButtonsReachable pins { s with Button3 := b }
  | check4 (s : Buttons) (now : Nat) (b : ButtonInstance) (cmds : List MeshCommand)
      (h : ButtonsReachable pins s)
      (hstep : CheckButtonState s.Button4 s.Button3 now = some (b, cmds)) :
      ButtonsReachable pins { s with Button4 := b }
  | poll (s s' : Buttons) (now1 now2 now3 now4 : Nat) (cmds : List MeshCommand)
      (h : ButtonsReachable pins s)
      (hstep : LoopButtons s now1 now2 now3 now4 = some (s', cmds)) :
      ButtonsReachable pins s'

/-! ### The module `EmgLTest.cpp` as a whole -/

/-- The initial values of the module's statics (lines 69-79; `last_measurement_timestamp` is
initialised to 0 in `LoopEmgLTest`; statics without an initialiser are zero). -/
def EmgLTestState.initial (cfg : EmgConfig) : EmgLTestState :=
  { InstanceIndex := cfg.INSTANCE_INDEX_UNKNOWN
    ElState := EmgLightingState_T.EMG_LIGHTING_STATE_NORMAL
    ElTotalOperationTimeOffsetMs := 0
    ElEmergencyTimeMs := 10 * 1000
    ELTFunctionalTestTimeStartMs := 0
    ELTDurationTestTimeStartMs := 0
    ELTFunctionalTestStatus := EmgLightingTestTestExecutionStatus.EMG_LIGHTING_TEST_STATUS_UNKNOWN
    ELTDurationTestStatus := EmgLightingTestTestExecutionStatus.EMG_LIGHTING_TEST_STATUS_UNKNOWN
    last_measurement_timestamp := 0 }

/-- The function `EmgLTest_SetInstanceIdx(uint8_t instance_index)`. -/
def EmgLTest_SetInstanceIdx (s : EmgLTestState) (instance_index : Nat) : EmgLTestState :=
  { s with InstanceIndex := instance_index }

/-- The module states reachable from the initial one through the module's entry points that
write its statics: `EmgLTest_SetInstanceIdx`, the two message dispatchers (with any header,
payload, clock, switch and analog readings) and `LoopEmgLTest`. -/
inductive EmgReachable (cfg : EmgConfig) : EmgLTestState → Prop where
  | initial : EmgReachable cfg (EmgLTestState.initial cfg)
  | setInstanceIdx (s : EmgLTestState) (instance_index : Nat) (h : EmgReachable cfg s) :
      EmgReachable cfg (EmgLTest_SetInstanceIdx s instance_index)
  | el (s : EmgLTestState) (p_header : Option Mesh_MeshMessageRequest1Cmd_T)
      (p_payload : Option (List Nat)) (now : Nat) (sw_first sw_second : Bool)
      (r : DispatchResult) (h : EmgReachable cfg s)
      (hstep : EmgLTest_LightElSrvProcessMessage s p_header p_payload now sw_first sw_second =
        some r) :
      EmgReachable cfg r.state
  | elt (s : EmgLTestState) (p_header : Option Mesh_MeshMessageRequest1Cmd_T)
      (p_payload : Option (List Nat)) (now analog_reading : Nat)
      (r : DispatchResult) (h : EmgReachable cfg s)
      (hstep : EmgLTest_LightElTestSrvProcessMessage cfg s p_header p_payload now
        analog_reading = some r) :
      EmgReachable cfg r.state
  | loop (s : EmgLTestState) (now millis_now analog_reading : Nat) (h : EmgReachable cfg s) :
      EmgReachable cfg (LoopEmgLTest cfg s now millis_now analog_reading).1

/-- The last byte of a frame; in a STATE_STATUS response it is the reported state. -/
def UartFrame.lastByte : UartFrame → Option Nat
  | UartFrame.MeshMessageRequest1 bytes => bytes.getLast?
  | UartFrame.BatteryStatusSetRequest bytes => bytes.getLast?

/-- The local `size` of `MeshMessageRequest1Send`: the length of the buffer `buff[size]`. -/
def MeshMessageRequest1Send.size (p_header : Mesh_MeshMessageRequest1Cmd_T) (len : Nat) : Nat :=
  1 + 1 + 1 + p_header.mesh_cmd_size + len

/-- The final value of the local `index` of `MeshMessageRequest1Send`: the number of bytes
written to `buff` (two index bytes; 3, 2 or 1 opcode bytes for `mesh_cmd_size` 3, 2 or
anything else; the subopcode; `len` payload bytes). -/
def MeshMessageRequest1Send.index (p_header : Mesh_MeshMessageRequest1Cmd_T) (len : Nat) :
    Nat :=
  let index : Nat := 0
  let index := index + 1
  let index := index + 1
  let index :=
    if p_header.mesh_cmd_size = 3 then index + 1 + 1 + 1
    else if p_header.mesh_cmd_size = 2 then index + 1 + 1
    else index + 1
  let index := index + 1
  index + len

/-! ### RTC driver (`PCF8523_Drv.cpp`) -/

/-- The record `struct TimeDate` of `RTC.h`: `year` and `milliseconds` are `uint16_t`, the
other fields `uint8_t`. -/
structure TimeDate where
  year : Nat
  month : Nat
  day : Nat
  hour : Nat
  minute : Nat
  seconds : Nat
  milliseconds : Nat
deriving DecidableEq, Repr

def PCF8523_SECONDS : Nat := 0x03

/-- The function `bcd2bin(uint8_t val)`: `val - 6 * (val >> 4)` in `int`, returned as
`uint8_t`. -/
def bcd2bin (val : Nat) : Nat :=
  wrapUnsigned 8 ((val : Int) - 6 * ((val >>> 4 : Nat) : Int))

/-- The function `bin2bcd(uint8_t val)`: `val + 6 * (val / 10)` in `int`, returned as
`uint8_t`. -/
def bin2bcd (val : Nat) : Nat :=
  wrapUnsigned 8 ((val : Int) + 6 * ((val / 10 : Nat) : Int))

/-- The function `PCF8523_Drv_SetTime(struct TimeDate *p_time)`: the bytes given to
`Wire.write` between `beginTransmission` and `endTransmission`, in order.  The argument
`p_time->year - 2000` is an `int` converted to the `uint8_t` parameter of `bin2bcd`. -/
def PCF8523_Drv_SetTime (p_time : TimeDate) : List Nat :=
  [PCF8523_SECONDS,
   bin2bcd p_time.seconds,
   bin2bcd p_time.minute,
   bin2bcd p_time.hour,
   bin2bcd p_time.day,
   bin2bcd 0,
   bin2bcd p_time.month,
   bin2bcd (wrapUnsigned 8 ((p_time.year : Int) - 2000)),
   0]

/-- The function `PCF8523_Drv_GetTime(struct TimeDate *p_time)`: the record it fills from the
seven bytes `Wire.read()` returns, in order (registers `PCF8523_SECONDS` to `PCF8523_YEARS`).
The sum `bcd2bin(...) + 2000` is stored in the `uint16_t` field `year`. -/
def PCF8523_Drv_GetTime (r_seconds r_minutes r_hours r_days r_weekdays r_months r_years : Nat) :
    TimeDate :=
  let _ := r_weekdays
  { milliseconds := 0
    seconds := bcd2bin (r_seconds &&& 0x7F)
    minute := bcd2bin r_minutes
    hour := bcd2bin r_hours
    day := bcd2bin r_days
    month := bcd2bin r_months
    year := wrapUnsigned 16 ((bcd2bin r_years : Int) + 2000) }

/-- The record `PCF8523_Drv_GetTime` fills when the seven time registers hold the bytes
`PCF8523_Drv_SetTime` wrote to them (the chip returns the bytes written to registers
`PCF8523_SECONDS` .. `PCF8523_YEARS`; the clock has not advanced). -/
def readBackAfterSetTime (p_time : TimeDate) : Option TimeDate :=
  match PCF8523_Drv_SetTime p_time with
  | [_, r_seconds, r_minutes, r_hours, r_days, r_weekdays, r_months, r_years, _] =>
    some (PCF8523_Drv_GetTime r_seconds r_minutes r_hours r_days r_weekdays r_months r_years)
  | _ => none

/-! ## Conversion lemmas -/

theorem wrapSigned64_of_range (x : Int) (h1 : -9223372036854775808 ≤ x)
    (h2 : x < 9223372036854775808) : wrapSigned 64 x = x := by
  unfold wrapSigned
  norm_num
  omega

theorem wrapSigned32_of_range (x : Int) (h1 : -2147483648 ≤ x) (h2 : x < 2147483648) :
    wrapSigned 32 x = x := by
  unfold wrapSigned
  norm_num
  omega

theorem wrapUnsigned16_of_range (x : Int) (h1 : 0 ≤ x) (h2 : x < 65536) :
    ((wrapUnsigned 16 x : Nat) : Int) = x := by
  unfold wrapUnsigned
  norm_num
  omega

/-- Truncated quotient of `d * e` by `t` stays between `0` and `d` when `0 ≤ d`, `e ≤ t`. -/
theorem tdiv_scale_nonneg (d e t : Int) (hd : 0 ≤ d) (he : 0 ≤ e) (het : e ≤ t) (ht : 0 < t) :
    0 ≤ Int.tdiv (d * e) t ∧ Int.tdiv (d * e) t ≤ d := by
  have hde : 0 ≤ d * e := Int.mul_nonneg hd he
  rw [Int.tdiv_eq_ediv hde (le_of_lt ht)]
  constructor
  · exact Int.ediv_nonneg hde (le_of_lt ht)
  · apply Int.ediv_le_of_le_mul ht
    exact Int.mul_le_mul_of_nonneg_left het hd

/-- Truncated quotient of `d * e` by `t` stays between `d` and `0` when `d ≤ 0`, `e ≤ t`. -/
theorem tdiv_scale_nonpos (d e t : Int) (hd : d ≤ 0) (he : 0 ≤ e) (het : e ≤ t) (ht : 0 < t) :
    d ≤ Int.tdiv (d * e) t ∧ Int.tdiv (d * e) t ≤ 0 := by
  have h := tdiv_scale_nonneg (-d) e t (by omega) he het ht
  have hneg : Int.tdiv (-d * e) t = -Int.tdiv (d * e) t := by
    rw [Int.neg_mul, Int.neg_tdiv]
  rw [hneg] at h
  omega

/-- Cancelling a common positive factor in a truncated quotient. -/
theorem tdiv_mul_right_cancel (d c k : Int) (hc : 0 < c) (hk : 0 < k) :
    Int.tdiv (d * k) (c * k) = Int.tdiv d c := by
  have hck : 0 ≤ c * k := le_of_lt (Int.mul_pos hc hk)
  rcases le_total 0 d with h | h
  · rw [Int.tdiv_eq_ediv (Int.mul_nonneg h (le_of_lt hk)) hck, Int.tdiv_eq_ediv h (le_of_lt hc)]
    exact Int.mul_ediv_mul_of_pos_left d c hk
  · have h1 : Int.tdiv (d * k) (c * k) = -Int.tdiv (-d * k) (c * k) := by
      rw [Int.neg_mul, Int.neg_tdiv, neg_neg]
    have h2 : Int.tdiv d c = -Int.tdiv (-d) c := by
      rw [Int.neg_tdiv, neg_neg]
    have hd : 0 ≤ -d := by omega
    rw [h1, h2, Int.tdiv_eq_ediv (Int.mul_nonneg hd (le_of_lt hk)) hck,
      Int.tdiv_eq_ediv hd (le_of_lt hc), Int.mul_ediv_mul_of_pos_left (-d) c hk]

theorem tdiv_scale_bounds (d e t : Int) (he : 0 ≤ e) (het : e ≤ t) (ht : 0 < t) :
    (0 ≤ d → 0 ≤ Int.tdiv (d * e) t ∧ Int.tdiv (d * e) t ≤ d) ∧
      (d ≤ 0 → d ≤ Int.tdiv (d * e) t ∧ Int.tdiv (d * e) t ≤ 0) :=
  ⟨fun hd => tdiv_scale_nonneg d e t hd he het ht,
   fun hd => tdiv_scale_nonpos d e t hd he het ht⟩

/-- On the interpolation branch (`0 < transition_time`, `delta_time ≤ transition_time`) the
code returns the exact interpolation, leaves the transition alone, and no conversion wraps. -/
theorem GetPresentValue_interp_core (p : Transition) (e : Nat) (hp : p.WellTyped)
    (hd : 0 < p.transition_time) (he : e ≤ p.transition_time) :
    ∃ v : Nat, GetPresentValue p e = some (v, p) ∧ (v : Int) = exactInterpolation p e ∧
      min (p.start_value : Int) (p.target_value : Int) ≤ exactInterpolation p e ∧
      exactInterpolation p e ≤ max (p.start_value : Int) (p.target_value : Int) := by
  obtain ⟨h1, h2, h3, h4⟩ := hp
  norm_num at h1 h2 h3 h4
  have hb := tdiv_scale_bounds ((p.target_value : Int) - (p.start_value : Int)) (e : Int)
    (p.transition_time : Int) (by omega) (by omega) (by omega)
  have hprod1 : -9223372036854775808 ≤ ((p.target_value : Int) - (p.start_value : Int)) * (e : Int) := by
    nlinarith
  have hprod2 : ((p.target_value : Int) - (p.start_value : Int)) * (e : Int) < 9223372036854775808 := by
    nlinarith
  have hq : -65536 < Int.tdiv (((p.target_value : Int) - (p.start_value : Int)) * (e : Int))
        (p.transition_time : Int) ∧
      Int.tdiv (((p.target_value : Int) - (p.start_value : Int)) * (e : Int))
        (p.transition_time : Int) < 65536 ∧
      0 ≤ (p.start_value : Int) + Int.tdiv (((p.target_value : Int) - (p.start_value : Int)) * (e : Int))
        (p.transition_time : Int) ∧
      (p.start_value : Int) + Int.tdiv (((p.target_value : Int) - (p.start_value : Int)) * (e : Int))
        (p.transition_time : Int) < 65536 ∧
      min (p.start_value : Int) (p.target_value : Int) ≤
        (p.start_value : Int) + Int.tdiv (((p.target_value : Int) - (p.start_value : Int)) * (e : Int))
        (p.transition_time : Int) ∧
      (p.start_value : Int) + Int.tdiv (((p.target_value : Int) - (p.start_value : Int)) * (e : Int))
        (p.transition_time : Int) ≤ max (p.start_value : Int) (p.target_value : Int) := by
    rcases le_total 0 ((p.target_value : Int) - (p.start_value : Int)) with hs | hs
    · have := hb.1 hs
      omega
    · have := hb.2 hs
      omega
  obtain ⟨hq1, hq2, hq3, hq4, hq5, hq6⟩ := hq
  refine ⟨wrapUnsigned 16 (exactInterpolation p e), ?_, ?_, hq5, hq6⟩
  · unfold GetPresentValue exactInterpolation
    have hne : p.transition_time ≠ 0 := by omega
    have hng : ¬ e > p.transition_time := by omega
    simp only [hng, hne, if_false]
    rw [wrapSigned64_of_range _ hprod1 hprod2]
    have hq32 := wrapSigned32_of_range (Int.tdiv (((p.target_value : Int) - (p.start_value : Int))
      * (e : Int)) (p.transition_time : Int)) (by omega) (by omega)
    rw [hq32, wrapSigned32_of_range _ (by omega) (by omega)]
  · exact wrapUnsigned16_of_range _ hq3 hq4

/-! ## Transition engine: theorems -/

/-- C1 (code at the claim's boundary): for a transition with `transition_time = 0`,
`GetPresentValue` returns `target_value` (and latches) for every elapsed time other than `0`;
at elapsed time `0` the test `delta_time > transition_time` fails and the code divides by
`transition_time = 0`. -/
theorem GetPresentValue_zero_duration (target start ts e : Nat) :
    GetPresentValue ⟨target, start, ts, 0⟩ e =
      if e = 0 then none else some (target, ⟨target, target, ts, 0⟩) := by
  unfold GetPresentValue
  rcases Nat.eq_zero_or_pos e with h | h
  · subst h
    simp
  · have hne : e ≠ 0 := by omega
    simp [h, hne]

/-- C2: for a well-typed transition with `transition_time > 0`, a call with elapsed time
`e ≥ transition_time` (the case `e = transition_time` included) returns exactly
`target_value`. -/
theorem GetPresentValue_returns_target (p : Transition) (e : Nat) (hp : p.WellTyped)
    (hd : 0 < p.transition_time) (he : p.transition_time ≤ e) :
    ∃ p' : Transition, GetPresentValue p e = some (p.target_value, p') := by
  rcases Nat.lt_or_ge p.transition_time e with hlt | hge
  · refine ⟨{ p with start_value := p.target_value }, ?_⟩
    unfold GetPresentValue
    simp [hlt]
  · have heq : e = p.transition_time := by omega
    obtain ⟨v, hv, hval, -, -⟩ := GetPresentValue_interp_core p e hp hd (by omega)
    refine ⟨p, ?_⟩
    have hne : (p.transition_time : Int) ≠ 0 := by omega
    have hex : exactInterpolation p e = (p.target_value : Int) := by
      unfold exactInterpolation
      rw [heq, Int.mul_tdiv_cancel _ hne]
      omega
    have hvt : v = p.target_value := by
      have : (v : Int) = (p.target_value : Int) := by rw [hval, hex]
      exact_mod_cast this
    rw [hv, hvt]

theorem GetPresentValue_returns_target_witness :
    (⟨100, 0, 0, 10⟩ : Transition).WellTyped ∧
      ∃ p' : Transition, GetPresentValue ⟨100, 0, 0, 10⟩ 10 = some (100, p') :=
  ⟨by decide, GetPresentValue_returns_target ⟨100, 0, 0, 10⟩ 10 (by decide) (by decide) (by decide)⟩

/-- C3 (as stated, fails): at elapsed time equal to `transition_time = 10` the call returns the
target `100` but leaves `start_value = 0`, and a later call on that state with elapsed time `5`
returns `50`, not the target. -/
theorem GetPresentValue_no_latch_at_duration :
    GetPresentValue ⟨100, 0, 0, 10⟩ 10 = some (100, ⟨100, 0, 0, 10⟩) ∧
      GetPresentValue ⟨100, 0, 0, 10⟩ 5 = some (50, ⟨100, 0, 0, 10⟩) := by
  decide

/-- C3 (amended): for every elapsed time `e > transition_time` the call returns `target_value`
and latches `start_value := target_value`, the other fields unchanged; every later call on the
latched transition returns `target_value` again and leaves it unchanged, whatever the elapsed
time `e'`, unless `transition_time = 0` and `e' = 0`. -/
theorem GetPresentValue_latches (p : Transition) (e e' : Nat) (hp : p.WellTyped)
    (he : p.transition_time < e) (hnz : p.transition_time ≠ 0 ∨ e' ≠ 0) :
    GetPresentValue p e =
        some (p.target_value, ⟨p.target_value, p.target_value, p.start_timestamp, p.transition_time⟩) ∧
      GetPresentValue ⟨p.target_value, p.target_value, p.start_timestamp, p.transition_time⟩ e' =
        some (p.target_value, ⟨p.target_value, p.target_value, p.start_timestamp, p.transition_time⟩) := by
  constructor
  · unfold GetPresentValue
    simp [he]
  · rcases Nat.lt_or_ge p.transition_time e' with hlt | hge
    · unfold GetPresentValue
      simp [hlt]
    · have hpos : 0 < p.transition_time := by omega
      have hp' : (⟨p.target_value, p.target_value, p.start_timestamp, p.transition_time⟩ :
          Transition).WellTyped := ⟨hp.1, hp.1, hp.2.2.1, hp.2.2.2⟩
      obtain ⟨v, hv, hval, -, -⟩ := GetPresentValue_interp_core _ e' hp' hpos hge
      have hex : exactInterpolation
          ⟨p.target_value, p.target_value, p.start_timestamp, p.transition_time⟩ e' =
          (p.target_value : Int) := by
        unfold exactInterpolation
        simp
      have hvt : v = p.target_value := by
        have : (v : Int) = (p.target_value : Int) := by rw [hval, hex]
        exact_mod_cast this
      rw [hv, hvt]

theorem GetPresentValue_latches_witness :
    (⟨100, 0, 0, 10⟩ : Transition).WellTyped ∧
      GetPresentValue ⟨100, 0, 0, 10⟩ 11 = some (100, ⟨100, 100, 0, 10⟩) ∧
      GetPresentValue ⟨100, 100, 0, 10⟩ 5 = some (100, ⟨100, 100, 0, 10⟩) :=
  ⟨by decide, GetPresentValue_latches ⟨100, 0, 0, 10⟩ 11 5 (by decide) (by decide) (by decide)⟩

/-- C4: for a well-typed transition with `transition_time > 0` and elapsed time
`e ≤ transition_time`, `GetPresentValue` returns
`start + ((target - start) * e / transition_time)` computed over the mathematical integers
(quotient truncated toward zero) and leaves the transition unchanged; the product fits
`int64_t`, the quotient fits `int32_t`, the sum lies in `0 .. 65535`, and at `e = 0` the
result is `start_value`. -/
theorem GetPresentValue_exact (p : Transition) (e : Nat) (hp : p.WellTyped)
    (hd : 0 < p.transition_time) (he : e ≤ p.transition_time) :
    ∃ v : Nat, GetPresentValue p e = some (v, p) ∧
      (v : Int) = (p.start_value : Int) +
        Int.tdiv (((p.target_value : Int) - (p.start_value : Int)) * (e : Int))
          (p.transition_time : Int) ∧
      (-2 ^ 63 ≤ ((p.target_value : Int) - (p.start_value : Int)) * (e : Int) ∧
        ((p.target_value : Int) - (p.start_value : Int)) * (e : Int) < 2 ^ 63) ∧
      (-2 ^ 31 ≤ Int.tdiv (((p.target_value : Int) - (p.start_value : Int)) * (e : Int))
          (p.transition_time : Int) ∧
        Int.tdiv (((p.target_value : Int) - (p.start_value : Int)) * (e : Int))
          (p.transition_time : Int) < 2 ^ 31) ∧
      (0 ≤ exactInterpolation p e ∧ exactInterpolation p e < 2 ^ 16) ∧
      (e = 0 → v = p.start_value) := by
  obtain ⟨v, hv, hval, hmin, hmax⟩ := GetPresentValue_interp_core p e hp hd he
  obtain ⟨h1, h2, h3, h4⟩ := hp
  norm_num at h1 h2 h3 h4
  have hex : exactInterpolation p e = (p.start_value : Int) +
      Int.tdiv (((p.target_value : Int) - (p.start_value : Int)) * (e : Int))
        (p.transition_time : Int) := rfl
  refine ⟨v, hv, by rw [hval, hex], ⟨?_, ?_⟩, ⟨?_, ?_⟩, ⟨?_, ?_⟩, ?_⟩
  · norm_num
    nlinarith
  · norm_num
    nlinarith
  · rw [hex] at hmin
    norm_num
    omega
  · rw [hex] at hmax
    norm_num
    omega
  · omega
  · norm_num
    omega
  · intro h0
    subst h0
    have : (v : Int) = (p.start_value : Int) := by
      rw [hval, hex]
      simp
    exact_mod_cast this

theorem GetPresentValue_exact_witness :
    ∃ v : Nat, GetPresentValue ⟨0, 65535, 0, 3⟩ 1 = some (v, ⟨0, 65535, 0, 3⟩) ∧
      (v : Int) = ((65535 : Nat) : Int) +
        Int.tdiv ((((0 : Nat) : Int) - ((65535 : Nat) : Int)) * ((1 : Nat) : Int)) ((3 : Nat) : Int) ∧
      (-2 ^ 63 ≤ (((0 : Nat) : Int) - ((65535 : Nat) : Int)) * ((1 : Nat) : Int) ∧
        (((0 : Nat) : Int) - ((65535 : Nat) : Int)) * ((1 : Nat) : Int) < 2 ^ 63) ∧
      (-2 ^ 31 ≤ Int.tdiv ((((0 : Nat) : Int) - ((65535 : Nat) : Int)) * ((1 : Nat) : Int))
          ((3 : Nat) : Int) ∧
        Int.tdiv ((((0 : Nat) : Int) - ((65535 : Nat) : Int)) * ((1 : Nat) : Int))
          ((3 : Nat) : Int) < 2 ^ 31) ∧
      (0 ≤ exactInterpolation ⟨0, 65535, 0, 3⟩ 1 ∧ exactInterpolation ⟨0, 65535, 0, 3⟩ 1 < 2 ^ 16) ∧
      (1 = 0 → v = 65535) :=
  GetPresentValue_exact ⟨0, 65535, 0, 3⟩ 1 (by decide) (by decide) (by decide)

/-- C5 (as stated, fails): with `transition_time = 1` the half-way elapsed time is `1 / 2 = 0`,
where the call returns `start_value = 0`, while the linear midpoint of `0` and `65535` is
`32767` (rounded down). -/
theorem GetPresentValue_midpoint_fails_duration_one :
    ∃ v : Nat, GetPresentValue ⟨65535, 0, 0, 1⟩ (1 / 2) = some (v, ⟨65535, 0, 0, 1⟩) ∧
      ¬ ((v : Int) - (((0 + 65535) / 2 : Nat) : Int)).natAbs ≤ 1 :=
  ⟨0, by decide, by decide⟩

/-- Half-way through an even duration: for a well-typed transition whose `transition_time` is
even and positive, `GetPresentValue` at elapsed time `transition_time / 2` returns a value `v`
with `|2 * v - (start + target)| ≤ 1`. -/
theorem GetPresentValue_midpoint_even (p : Transition) (hp : p.WellTyped)
    (hd : 0 < p.transition_time) (heven : p.transition_time % 2 = 0) :
    ∃ v : Nat, GetPresentValue p (p.transition_time / 2) = some (v, p) ∧
      (2 * (v : Int) - ((p.start_value : Int) + (p.target_value : Int))).natAbs ≤ 1 ∧
      v ≤ (p.start_value + p.target_value) / 2 + 1 ∧
      (p.start_value + p.target_value) / 2 ≤ v + 1 := by
  obtain ⟨v, hv, hval, -, -⟩ :=
    GetPresentValue_interp_core p (p.transition_time / 2) hp hd (Nat.div_le_self _ _)
  have hk : p.transition_time = 2 * (p.transition_time / 2) := by omega
  have hkpos : (0 : Int) < ((p.transition_time / 2 : Nat) : Int) := by omega
  have hq : Int.tdiv (((p.target_value : Int) - (p.start_value : Int)) *
        ((p.transition_time / 2 : Nat) : Int)) (p.transition_time : Int) =
      Int.tdiv ((p.target_value : Int) - (p.start_value : Int)) 2 := by
    have hcast : (p.transition_time : Int) = 2 * ((p.transition_time / 2 : Nat) : Int) := by
      exact_mod_cast hk
    rw [hcast]
    exact tdiv_mul_right_cancel _ 2 _ (by norm_num) hkpos
  have hhalf : ∀ d : Int, (2 * Int.tdiv d 2 - d).natAbs ≤ 1 := by
    intro d
    rcases le_total 0 d with h | h
    · rw [Int.tdiv_eq_ediv h (by norm_num)]
      omega
    · have hn : Int.tdiv d 2 = -((-d) / 2) := by
        have := Int.neg_tdiv (-d) 2
        rw [neg_neg] at this
        rw [this, Int.tdiv_eq_ediv (by omega) (by norm_num)]
      rw [hn]
      omega
  have hv2 : (v : Int) = (p.start_value : Int) +
      Int.tdiv ((p.target_value : Int) - (p.start_value : Int)) 2 := by
    rw [hval]
    unfold exactInterpolation
    rw [hq]
  have hd1 := hhalf ((p.target_value : Int) - (p.start_value : Int))
  refine ⟨v, hv, ?_, ?_, ?_⟩ <;> omega

/-- The floor quotient `D * k / (2 * k + 1)` against the halves of `D`: it never exceeds
`D / 2`; it is within one of `D / 2` exactly when `D ≤ 2 * (2 * k + 1)` (`D` even) or
`D ≤ 3 * (2 * k + 1)` (`D` odd); within one of `(D + 1) / 2` exactly when
`D ≤ 2 * (2 * k + 1)` (`D` even) or `D ≤ 2 * k + 1` (`D` odd); and twice it is within two of
`D` exactly when `D ≤ 2 * k + 1`, or `D` is even and `D ≤ 2 * (2 * k + 1)`. -/
theorem odd_half_quotient (D k : Nat) :
    D * k / (2 * k + 1) ≤ D / 2 ∧
    (D / 2 ≤ D * k / (2 * k + 1) + 1 ↔
      (D % 2 = 0 ∧ D ≤ 2 * (2 * k + 1)) ∨ (D % 2 = 1 ∧ D ≤ 3 * (2 * k + 1))) ∧
    ((D + 1) / 2 ≤ D * k / (2 * k + 1) + 1 ↔
      (D % 2 = 0 ∧ D ≤ 2 * (2 * k + 1)) ∨ (D % 2 = 1 ∧ D ≤ 2 * k + 1)) ∧
    (D ≤ 2 * (D * k / (2 * k + 1)) + 2 ↔
      D ≤ 2 * k + 1 ∨ (D % 2 = 0 ∧ D ≤ 2 * (2 * k + 1))) := by
  have hq1 : D * k / (2 * k + 1) * (2 * k + 1) ≤ D * k := Nat.div_mul_le_self _ _
  have hq2 : D * k < (D * k / (2 * k + 1) + 1) * (2 * k + 1) := by
    have := Nat.lt_succ_iff.2 (le_refl (D * k / (2 * k + 1)))
    exact (Nat.div_lt_iff_lt_mul (by omega)).1 this
  generalize D * k / (2 * k + 1) = q at hq1 hq2 ⊢
  have hD : D = 2 * (D / 2) + D % 2 := by omega
  generalize hh : D / 2 = h at hD ⊢
  have hr : D % 2 = 0 ∨ D % 2 = 1 := by omega
  have e1 : q * (2 * k + 1) = 2 * (q * k) + q := by ring
  have e2 : (q + 1) * (2 * k + 1) = 2 * (q * k) + q + 2 * k + 1 := by ring
  rw [e1] at hq1
  rw [e2] at hq2
  have hc : (D + 1) / 2 = h + D % 2 := by omega
  rw [hc]
  rcases hr with hr | hr
  · rw [hr] at hD ⊢
    have e3 : D * k = 2 * (h * k) := by rw [hD]; ring
    rw [e3] at hq1 hq2
    have m1 : q ≤ h := by
      by_contra hn
      have : (h + 1) * k ≤ q * k := Nat.mul_le_mul_right k (by omega)
      have e4 : (h + 1) * k = h * k + k := by ring
      omega
    have m2 : h ≤ q + 1 ↔ h ≤ 2 * k + 1 := by
      constructor
      · intro hle
        by_contra hn
        have : h * k ≤ (q + 1) * k := Nat.mul_le_mul_right k hle
        have e4 : (q + 1) * k = q * k + k := by ring
        omega
      · intro hle
        by_contra hn
        have : (q + 2) * k ≤ h * k := Nat.mul_le_mul_right k (by omega)
        have e4 : (q + 2) * k = q * k + 2 * k := by ring
        omega
    refine ⟨m1, ?_, ?_, ?_⟩
    · rw [m2]; omega
    · rw [Nat.add_zero, m2]; omega
    · have m4 : D ≤ 2 * q + 2 ↔ h ≤ q + 1 := by omega
      rw [m4, m2]; omega
  · rw [hr] at hD ⊢
    have e3 : D * k = 2 * (h * k) + k := by rw [hD]; ring
    rw [e3] at hq1 hq2
    have m1 : q ≤ h := by
      by_contra hn
      have : (h + 1) * k ≤ q * k := Nat.mul_le_mul_right k (by omega)
      have e4 : (h + 1) * k = h * k + k := by ring
      omega
    have m2 : h ≤ q + 1 ↔ h ≤ 3 * k + 1 := by
      constructor
      · intro hle
        by_contra hn
        have : h * k ≤ (q + 1) * k := Nat.mul_le_mul_right k hle
        have e4 : (q + 1) * k = q * k + k := by ring
        omega
      · intro hle
        by_contra hn
        have : (q + 2) * k ≤ h * k := Nat.mul_le_mul_right k (by omega)
        have e4 : (q + 2) * k = q * k + 2 * k := by ring
        omega
    have m3 : h + 1 ≤ q + 1 ↔ h ≤ k := by
      constructor
      · intro hle
        by_contra hn
        have : h * k ≤ q * k := Nat.mul_le_mul_right k (by omega)
        omega
      · intro hle
        by_contra hn
        have : (q + 1) * k ≤ h * k := Nat.mul_le_mul_right k (by omega)
        have e4 : (q + 1) * k = q * k + k := by ring
        omega
    refine ⟨m1, ?_, ?_, ?_⟩
    · rw [m2]; omega
    · rw [m3]; omega
    · have m4 : D ≤ 2 * q + 2 ↔ h + 1 ≤ q + 1 := by omega
      rw [m4, m3]; omega

/-- C5 (amended): for a well-typed transition with `0 < transition_time`, `GetPresentValue`
at elapsed time `transition_time / 2` returns a value `v`, and with
`D = |target_value - start_value|`:
* `v` differs from the midpoint `(start_value + target_value) / 2` (rounded down) by at most
  `1` exactly when `transition_time` is even, or `D` is even and `D ≤ 2 * transition_time`,
  or `D` is odd, `start_value ≤ target_value` and `D ≤ 3 * transition_time`, or `D` is odd,
  `target_value < start_value` and `D ≤ transition_time`;
* `v` differs from the unrounded midpoint by at most `1` (`|2 * v - (start + target)| ≤ 2`)
  exactly when `transition_time` is even, or `D ≤ transition_time`, or `D` is even and
  `D ≤ 2 * transition_time`;
* in particular the bound holds whenever `transition_time` is even or `D ≤ transition_time`;
* for an even `transition_time`, `|2 * v - (start + target)| ≤ 1`. -/
theorem GetPresentValue_midpoint_bound (p : Transition) (hp : p.WellTyped)
    (hd : 0 < p.transition_time) :
    ∃ v : Nat, GetPresentValue p (p.transition_time / 2) = some (v, p) ∧
      (((v : Int) - (((p.start_value + p.target_value) / 2 : Nat) : Int)).natAbs ≤ 1 ↔
        (p.transition_time % 2 = 0 ∨
          (((p.target_value : Int) - (p.start_value : Int)).natAbs % 2 = 0 ∧
            ((p.target_value : Int) - (p.start_value : Int)).natAbs ≤ 2 * p.transition_time) ∨
          (((p.target_value : Int) - (p.start_value : Int)).natAbs % 2 = 1 ∧
            p.start_value ≤ p.target_value ∧
            ((p.target_value : Int) - (p.start_value : Int)).natAbs ≤ 3 * p.transition_time) ∨
          (((p.target_value : Int) - (p.start_value : Int)).natAbs % 2 = 1 ∧
            p.target_value < p.start_value ∧
            ((p.target_value : Int) - (p.start_value : Int)).natAbs ≤ p.transition_time))) ∧
      ((2 * (v : Int) - ((p.start_value : Int) + (p.target_value : Int))).natAbs ≤ 2 ↔
        (p.transition_time % 2 = 0 ∨
          ((p.target_value : Int) - (p.start_value : Int)).natAbs ≤ p.transition_time ∨
          (((p.target_value : Int) - (p.start_value : Int)).natAbs % 2 = 0 ∧
            ((p.target_value : Int) - (p.start_value : Int)).natAbs ≤ 2 * p.transition_time))) ∧
      (p.transition_time % 2 = 0 ∨
          ((p.target_value : Int) - (p.start_value : Int)).natAbs ≤ p.transition_time →
        ((v : Int) - (((p.start_value + p.target_value) / 2 : Nat) : Int)).natAbs ≤ 1) ∧
      (p.transition_time % 2 = 0 →
        (2 * (v : Int) - ((p.start_value : Int) + (p.target_value : Int))).natAbs ≤ 1) := by
  obtain ⟨v, hv, hval, -, -⟩ :=
    GetPresentValue_interp_core p (p.transition_time / 2) hp hd (Nat.div_le_self _ _)
  refine ⟨v, hv, ?_⟩
  rcases Nat.mod_two_eq_zero_or_one p.transition_time with heven | hodd
  · obtain ⟨w, hw, h2, -, -⟩ := GetPresentValue_midpoint_even p hp hd heven
    rw [hv] at hw
    have hwv : v = w := by
      have := Option.some.inj hw
      exact congrArg Prod.fst this
    subst hwv
    refine ⟨?_, ?_, ?_, ?_⟩ <;> omega
  · unfold exactInterpolation at hval
    have hT : p.transition_time = 2 * (p.transition_time / 2) + 1 := by omega
    generalize hk : p.transition_time / 2 = k at hval hT
    rcases Nat.le_total p.start_value p.target_value with hst | hts
    · obtain ⟨D, hD⟩ : ∃ D : Nat, p.target_value = p.start_value + D :=
        ⟨p.target_value - p.start_value, by omega⟩
      have hq : Int.tdiv (((p.target_value : Int) - (p.start_value : Int)) * (k : Int))
          (p.transition_time : Int) = ((D * k / (2 * k + 1) : Nat) : Int) := by
        have e1 : ((p.target_value : Int) - (p.start_value : Int)) * (k : Int) =
            ((D * k : Nat) : Int) := by
          rw [hD]; push_cast; ring
        rw [e1, hT, Int.tdiv_eq_ediv (Int.ofNat_nonneg _) (Int.ofNat_nonneg _)]
        norm_cast
      rw [hq] at hval
      obtain ⟨a1, a2, -, a4⟩ := odd_half_quotient D k
      generalize D * k / (2 * k + 1) = q at hval a1 a2 a4
      refine ⟨?_, ?_, ?_, ?_⟩ <;> omega
    · obtain ⟨D, hD⟩ : ∃ D : Nat, p.start_value = p.target_value + D :=
        ⟨p.start_value - p.target_value, by omega⟩
      have hq : Int.tdiv (((p.target_value : Int) - (p.start_value : Int)) * (k : Int))
          (p.transition_time : Int) = -((D * k / (2 * k + 1) : Nat) : Int) := by
        have e1 : ((p.target_value : Int) - (p.start_value : Int)) * (k : Int) =
            -((D * k : Nat) : Int) := by
          rw [hD]; push_cast; ring
        rw [e1, hT, Int.neg_tdiv, Int.tdiv_eq_ediv (Int.ofNat_nonneg _) (Int.ofNat_nonneg _)]
        norm_cast
      rw [hq] at hval
      obtain ⟨a1, -, a3, a4⟩ := odd_half_quotient D k
      generalize D * k / (2 * k + 1) = q at hval a1 a3 a4
      refine ⟨?_, ?_, ?_, ?_⟩ <;> omega

theorem GetPresentValue_midpoint_bound_witness :
    ∃ v : Nat, GetPresentValue ⟨65535, 0, 0, 65537⟩ (65537 / 2) =
        some (v, ⟨65535, 0, 0, 65537⟩) ∧
      ((v : Int) - (((0 + 65535) / 2 : Nat) : Int)).natAbs ≤ 1 := by
  obtain ⟨v, hv, -, -, h, -⟩ :=
    GetPresentValue_midpoint_bound ⟨65535, 0, 0, 65537⟩ (by decide) (by decide)
  exact ⟨v, hv, h (Or.inr (by decide))⟩

/-! ## Output mapper: theorems -/

theorem wrapUnsigned32_natCast (n : Nat) (h : n < 4294967296) :
    wrapUnsigned 32 (n : Int) = n := by
  unfold wrapUnsigned
  norm_num
  omega

theorem wrapUnsigned64_natCast (n : Nat) (h : n < 18446744073709551616) :
    wrapUnsigned 64 (n : Int) = n := by
  unfold wrapUnsigned
  norm_num
  omega

/-- With `LIGHTNESS_MAX = 65535` the square-law conversion returns the square of
`val * 255 / 65535`. -/
theorem ConvertLightnessActualToLinear_eq (cfg : Config) (val : Nat)
    (hmax : cfg.LIGHTNESS_MAX = 65535) (hval : val ≤ 65535) :
    ConvertLightnessActualToLinear cfg val =
      some ((val * 255 / 65535) * (val * 255 / 65535)) := by
  have hq : val * 255 / 65535 ≤ 255 := by omega
  have hpow : (val * 255 / 65535) * (val * 255 / 65535) ≤ 65025 := Nat.mul_le_mul hq hq
  unfold ConvertLightnessActualToLinear UINT8_MAX UINT16_MAX
  rw [hmax]
  have e1 : wrapUnsigned 32 ((65535 : Nat) : Int) = 65535 := wrapUnsigned32_natCast _ (by norm_num)
  have e2 : wrapUnsigned 32 ((val : Int) * ((255 : Nat) : Int)) = val * 255 := by
    have := wrapUnsigned32_natCast (val * 255) (by omega)
    rw [← this]
    push_cast
    rfl
  rw [e1, e2]
  have e3 : wrapUnsigned 32 (((val * 255 / 65535 : Nat) : Int) * ((val * 255 / 65535 : Nat) : Int)) =
      (val * 255 / 65535) * (val * 255 / 65535) := by
    have := wrapUnsigned32_natCast ((val * 255 / 65535) * (val * 255 / 65535)) (by omega)
    rw [← this]
    push_cast
    rfl
  simp only [e3]
  have e4 : wrapUnsigned 32 (((65535 : Nat) : Int) *
      (((val * 255 / 65535) * (val * 255 / 65535) : Nat) : Int)) =
      65535 * ((val * 255 / 65535) * (val * 255 / 65535)) := by
    have := wrapUnsigned32_natCast (65535 * ((val * 255 / 65535) * (val * 255 / 65535))) (by omega)
    rw [← this]
    push_cast
    rfl
  simp only [e4]
  simp

theorem wrapUnsigned32_mul (a b : Nat) :
    wrapUnsigned 32 ((a : Int) * (b : Int)) = (a * b) % 4294967296 := by
  have h : ((a : Int) * (b : Int)) = ((a * b : Nat) : Int) := by push_cast; rfl
  rw [h]
  generalize a * b = c
  unfold wrapUnsigned
  norm_num
  omega

theorem wrapUnsigned32_sub (a b : Nat) (hb : b ≤ 4294967296) :
    wrapUnsigned 32 ((a : Int) - (b : Int)) = (a + 4294967296 - b) % 4294967296 := by
  unfold wrapUnsigned
  norm_num
  omega

theorem wrapUnsigned32_add (a b : Nat) :
    wrapUnsigned 32 ((a : Int) + (b : Int)) = (a + b) % 4294967296 := by
  unfold wrapUnsigned
  norm_num
  omega

/-- C7 (what the code computes): for `LIGHTNESS_MAX = 65535`, `LIGHTNESS_MIN ∈ {0, 1}` and
`val` in `1 .. 65535`, `pwmOutLevel` returns a level; the level lies in
`PWM_OUTPUT_MIN .. PWM_OUTPUT_MAX` except when `LIGHTNESS_MIN = 1` and `val ≤ 256`, where
`pwm_out - LIGHTNESS_MIN` wraps below zero and the level is `65536 + PWM_OUTPUT_MIN`, above
`PWM_OUTPUT_MAX`. -/
theorem pwmOutLevel_characterised (cfg : Config) (val : Nat)
    (hmax : cfg.LIGHTNESS_MAX = 65535)
    (hmin : cfg.LIGHTNESS_MIN = 0 ∨ cfg.LIGHTNESS_MIN = 1)
    (h1 : 1 ≤ val) (h2 : val ≤ 65535) :
    ∃ level : Nat, pwmOutLevel cfg val = some level ∧
      if cfg.LIGHTNESS_MIN = 1 ∧ val ≤ 256 then
        level = 65536 + PWM_OUTPUT_MIN cfg ∧ PWM_OUTPUT_MAX < level
      else
        PWM_OUTPUT_MIN cfg ≤ level ∧ level ≤ PWM_OUTPUT_MAX := by
  have hconv := ConvertLightnessActualToLinear_eq cfg val hmax h2
  have hq : val * 255 / 65535 ≤ 255 := by omega
  have hpow : (val * 255 / 65535) * (val * 255 / 65535) ≤ 65025 := Nat.mul_le_mul hq hq
  have hsmall : val ≤ 256 → (val * 255 / 65535) * (val * 255 / 65535) = 0 := by
    intro h
    have : val * 255 / 65535 = 0 := by omega
    rw [this]
  have hbig : 257 ≤ val → 1 ≤ (val * 255 / 65535) * (val * 255 / 65535) := by
    intro h
    have : 1 ≤ val * 255 / 65535 := by omega
    exact Nat.mul_le_mul this this
  generalize (val * 255 / 65535) * (val * 255 / 65535) = pow at hconv hpow hsmall hbig
  have hv0 : val ≠ 0 := by omega
  obtain ⟨lmin, lmax, en, tmin, tmax⟩ := cfg
  simp only at hmax hmin
  subst hmax
  have hspan0 : PWM_OUTPUT_MIN ⟨lmin, 65535, false, tmin, tmax⟩ = 0 := rfl
  have hspan1 : PWM_OUTPUT_MIN ⟨lmin, 65535, true, tmin, tmax⟩ = 7864 := by
    unfold PWM_OUTPUT_MIN
    rw [if_pos rfl]
    decide
  unfold pwmOutLevel
  rw [hconv]
  have hcases : (val ≤ 256 ∧ pow = 0) ∨ (257 ≤ val ∧ 1 ≤ pow) := by
    rcases Nat.lt_or_ge 256 val with h | h
    · exact Or.inr ⟨h, hbig h⟩
    · exact Or.inl ⟨h, hsmall h⟩
  clear hsmall hbig hq hconv h1 h2
  rcases hmin with hmin | hmin <;> subst hmin <;> cases en <;>
    simp only [hspan0, hspan1, PWM_OUTPUT_MAX, UINT16_MAX, wrapUnsigned32_sub _ _ (by norm_num : (0:Nat) ≤ 4294967296),
      wrapUnsigned32_sub _ _ (by norm_num : (1:Nat) ≤ 4294967296),
      wrapUnsigned32_sub _ _ (by norm_num : (7864:Nat) ≤ 4294967296),
      wrapUnsigned32_mul, wrapUnsigned32_add, hv0, if_false] <;>
    clear hspan0 hspan1 <;>
    norm_num
  · have f1 : 65535 * pow % 4294967296 = 65535 * pow := Nat.mod_eq_of_lt (by omega)
    rw [f1]
    omega
  · have f1 : 57671 * pow % 4294967296 = 57671 * pow := Nat.mod_eq_of_lt (by omega)
    have f2 : 57671 * pow / 65535 ≤ 57671 := Nat.div_le_of_le_mul (by omega)
    have f3 : (57671 * pow / 65535 + 7864) % 4294967296 = 57671 * pow / 65535 + 7864 :=
      Nat.mod_eq_of_lt (by omega)
    rw [f1, f3]
    omega
  · rcases hcases with ⟨hv, hp⟩ | ⟨hv, hp⟩
    · subst hp
      simp [hv]
    · have g0 : 65536 * (pow + 4294967295) = 65536 * (pow - 1) + 4294967296 * 65536 := by omega
      have g1 : 65536 * (pow + 4294967295) % 4294967296 = 65536 * (pow - 1) := by
        rw [g0, Nat.add_mul_mod_self_left]
        exact Nat.mod_eq_of_lt (by omega)
      have g2 : 65536 * (pow - 1) / 65535 ≤ 65535 := Nat.div_le_of_le_mul (by omega)
      have g3 : 65536 * (pow - 1) / 65535 % 4294967296 = 65536 * (pow - 1) / 65535 :=
        Nat.mod_eq_of_lt (by omega)
      have hnv : ¬ val ≤ 256 := by omega
      simp only [g1, g3, hnv, if_false]
      exact g2
  · rcases hcases with ⟨hv, hp⟩ | ⟨hv, hp⟩
    · subst hp
      simp [hv]
    · have g0 : 57671 * (pow + 4294967295) = 57671 * (pow - 1) + 4294967296 * 57671 := by omega
      have g1 : 57671 * (pow + 4294967295) % 4294967296 = 57671 * (pow - 1) := by
        rw [g0, Nat.add_mul_mod_self_left]
        exact Nat.mod_eq_of_lt (by omega)
      have g2 : 57671 * (pow - 1) / 65535 ≤ 57671 := Nat.div_le_of_le_mul (by omega)
      have g3 : (57671 * (pow - 1) / 65535 + 7864) % 4294967296 =
          57671 * (pow - 1) / 65535 + 7864 := Nat.mod_eq_of_lt (by omega)
      have hnv : ¬ val ≤ 256 := by omega
      simp only [g1, g3, hnv, if_false]
      omega

theorem pwmOutLevel_characterised_witness :
    ∃ level : Nat, pwmOutLevel ⟨1, 65535, false, 800, 20000⟩ 1 = some level ∧
      if (⟨1, 65535, false, 800, 20000⟩ : Config).LIGHTNESS_MIN = 1 ∧ 1 ≤ 256 then
        level = 65536 + PWM_OUTPUT_MIN ⟨1, 65535, false, 800, 20000⟩ ∧ PWM_OUTPUT_MAX < level
      else
        PWM_OUTPUT_MIN ⟨1, 65535, false, 800, 20000⟩ ≤ level ∧ level ≤ PWM_OUTPUT_MAX :=
  pwmOutLevel_characterised ⟨1, 65535, false, 800, 20000⟩ 1 rfl (Or.inr rfl) (by decide)
    (by decide)

/-- In a well-formed configuration the level computation performs no division by zero. -/
theorem pwmOutLevel_defined (cfg : Config) (val : Nat) (hcfg : cfg.WellFormed) :
    ∃ level : Nat, pwmOutLevel cfg val = some level := by
  obtain ⟨h1, h2, -, -⟩ := hcfg
  norm_num at h2
  have hrange : wrapUnsigned 32 ((cfg.LIGHTNESS_MAX : Int) - (cfg.LIGHTNESS_MIN : Int)) ≠ 0 := by
    rw [wrapUnsigned32_sub _ _ (by omega)]
    omega
  have hmax : wrapUnsigned 32 (cfg.LIGHTNESS_MAX : Int) ≠ 0 := by
    rw [wrapUnsigned32_natCast _ h2]
    omega
  unfold pwmOutLevel ConvertLightnessActualToLinear
  simp only [hrange, hmax, if_false]
  by_cases hv : val = 0
  · exact ⟨0, by simp [hv]⟩
  · simp only [hv, if_false]
    exact ⟨_, rfl⟩

/-- The constant divisor of the warm/cold split in a well-formed configuration. -/
theorem split_divisor_eq (cfg : Config) (hcfg : cfg.WellFormed) :
    wrapUnsigned 64 ((cfg.LIGHT_CTL_TEMP_RANGE_MAX : Int) - (cfg.LIGHT_CTL_TEMP_RANGE_MIN : Int)) =
      cfg.LIGHT_CTL_TEMP_RANGE_MAX - cfg.LIGHT_CTL_TEMP_RANGE_MIN := by
  obtain ⟨-, -, h3, h4⟩ := hcfg
  norm_num at h4
  unfold wrapUnsigned
  norm_num
  omega

/-- C6 (what the code does): with CTL support enabled and the temperature present value equal
to `LIGHT_CTL_TEMP_RANGE_MIN`, `SetLightnessOutput` writes `0` to `PIN_PWM_WARM` and the whole
level to `PIN_PWM_COLD` (the `uint32_t` product `(MAX - MIN) * level` not wrapping). -/
theorem SetLightnessOutput_at_min_temperature (cfg : Config) (T T' : Transition)
    (dt val level : Nat) (hcfg : cfg.WellFormed)
    (hlevel : pwmOutLevel cfg val = some level)
    (htemp : GetPresentValue T dt = some (cfg.LIGHT_CTL_TEMP_RANGE_MIN, T'))
    (hfit : (cfg.LIGHT_CTL_TEMP_RANGE_MAX - cfg.LIGHT_CTL_TEMP_RANGE_MIN) * level < 2 ^ 32) :
    SetLightnessOutput cfg true T dt val =
      some ([(PwmPin.PIN_PWM_WARM, 0), (PwmPin.PIN_PWM_COLD, level)], T') := by
  have hdiv := split_divisor_eq cfg hcfg
  obtain ⟨-, -, h3, h4⟩ := hcfg
  norm_num at h4 hfit
  have hpos : 0 < cfg.LIGHT_CTL_TEMP_RANGE_MAX - cfg.LIGHT_CTL_TEMP_RANGE_MIN := by omega
  have hne : cfg.LIGHT_CTL_TEMP_RANGE_MAX - cfg.LIGHT_CTL_TEMP_RANGE_MIN ≠ 0 := by omega
  have hcold : wrapUnsigned 32 (((cfg.LIGHT_CTL_TEMP_RANGE_MAX : Int) -
      (cfg.LIGHT_CTL_TEMP_RANGE_MIN : Int)) * (level : Int)) =
      (cfg.LIGHT_CTL_TEMP_RANGE_MAX - cfg.LIGHT_CTL_TEMP_RANGE_MIN) * level := by
    have hc : ((cfg.LIGHT_CTL_TEMP_RANGE_MAX : Int) - (cfg.LIGHT_CTL_TEMP_RANGE_MIN : Int)) =
        ((cfg.LIGHT_CTL_TEMP_RANGE_MAX - cfg.LIGHT_CTL_TEMP_RANGE_MIN : Nat) : Int) := by omega
    rw [hc, wrapUnsigned32_mul]
    exact Nat.mod_eq_of_lt hfit
  have hwarm : wrapUnsigned 32 (((cfg.LIGHT_CTL_TEMP_RANGE_MIN : Int) -
      (cfg.LIGHT_CTL_TEMP_RANGE_MIN : Int)) * (level : Int)) = 0 := by
    rw [sub_self, zero_mul]
    rfl
  unfold SetLightnessOutput
  simp only [hlevel, htemp, hdiv, hne, if_true, if_false, hcold, hwarm]
  rw [Nat.mul_div_cancel_left _ hpos, Nat.zero_div]

theorem SetLightnessOutput_at_min_temperature_witness :
    SetLightnessOutput ⟨0, 65535, false, 800, 20000⟩ true ⟨800, 800, 0, 0⟩ 1 65535 =
      some ([(PwmPin.PIN_PWM_WARM, 0), (PwmPin.PIN_PWM_COLD, 65025)], ⟨800, 800, 0, 0⟩) :=
  SetLightnessOutput_at_min_temperature ⟨0, 65535, false, 800, 20000⟩ ⟨800, 800, 0, 0⟩
    ⟨800, 800, 0, 0⟩ 1 65535 65025 (by decide) (by decide) (by decide) (by decide)

/-- The call `GetPresentValue` returns a value unless `transition_time = 0` and the elapsed
time is `0`. -/
theorem GetPresentValue_defined (p : Transition) (e : Nat)
    (hnz : p.transition_time ≠ 0 ∨ e ≠ 0) : ∃ r, GetPresentValue p e = some r := by
  unfold GetPresentValue
  by_cases h1 : e > p.transition_time
  · simp [h1]
  · have h2 : p.transition_time ≠ 0 := by omega
    simp [h1, h2]

/-- C8: in a well-formed configuration `SetLightnessOutput(0)` writes `0` to both channels:
with CTL support disabled it writes `0` to `PIN_PWM_COLD` and `PIN_PWM_WARM`; with CTL support
enabled it writes `0` to `PIN_PWM_WARM` and `PIN_PWM_COLD` whatever temperature
`GetPresentValue(&Temperature)` returns, and that call returns unless the temperature
transition has `transition_time = 0` at elapsed time `0`. -/
theorem SetLightnessOutput_zero (cfg : Config) (T : Transition) (dt : Nat)
    (hcfg : cfg.WellFormed) :
    SetLightnessOutput cfg false T dt 0 =
        some ([(PwmPin.PIN_PWM_COLD, 0), (PwmPin.PIN_PWM_WARM, 0)], T) ∧
      SetLightnessOutput cfg true T dt 0 =
        (GetPresentValue T dt).map
          (fun r => ([(PwmPin.PIN_PWM_WARM, 0), (PwmPin.PIN_PWM_COLD, 0)], r.2)) ∧
      ((T.transition_time ≠ 0 ∨ dt ≠ 0) →
        ∃ T' : Transition, SetLightnessOutput cfg true T dt 0 =
          some ([(PwmPin.PIN_PWM_WARM, 0), (PwmPin.PIN_PWM_COLD, 0)], T')) := by
  have hdiv := split_divisor_eq cfg hcfg
  have hlevel : pwmOutLevel cfg 0 = some 0 := by
    obtain ⟨h1, h2, -, -⟩ := hcfg
    norm_num at h2
    have hrange : wrapUnsigned 32 ((cfg.LIGHTNESS_MAX : Int) - (cfg.LIGHTNESS_MIN : Int)) ≠ 0 := by
      rw [wrapUnsigned32_sub _ _ (by omega)]
      omega
    unfold pwmOutLevel
    simp [hrange]
  have hne : cfg.LIGHT_CTL_TEMP_RANGE_MAX - cfg.LIGHT_CTL_TEMP_RANGE_MIN ≠ 0 := by
    have := hcfg.2.2.1
    omega
  have hzero : ∀ x : Int, wrapUnsigned 32 (x * ((0 : Nat) : Int)) = 0 := by
    intro x
    simp [wrapUnsigned]
  have henabled : SetLightnessOutput cfg true T dt 0 =
      (GetPresentValue T dt).map
        (fun r => ([(PwmPin.PIN_PWM_WARM, 0), (PwmPin.PIN_PWM_COLD, 0)], r.2)) := by
    unfold SetLightnessOutput
    simp only [hlevel, hdiv, hne, if_true, if_false, hzero, Nat.zero_div]
    cases GetPresentValue T dt with
    | none => rfl
    | some r => rfl
  refine ⟨?_, henabled, ?_⟩
  · unfold SetLightnessOutput
    simp [hlevel]
  · intro hnz
    obtain ⟨r, hr⟩ := GetPresentValue_defined T dt hnz
    exact ⟨r.2, by rw [henabled, hr]; rfl⟩

theorem SetLightnessOutput_zero_witness :
    SetLightnessOutput ⟨1, 65535, true, 800, 20000⟩ false ⟨20000, 800, 0, 1000⟩ 500 0 =
        some ([(PwmPin.PIN_PWM_COLD, 0), (PwmPin.PIN_PWM_WARM, 0)], ⟨20000, 800, 0, 1000⟩) ∧
      SetLightnessOutput ⟨1, 65535, true, 800, 20000⟩ true ⟨20000, 800, 0, 1000⟩ 500 0 =
        (GetPresentValue ⟨20000, 800, 0, 1000⟩ 500).map
          (fun r => ([(PwmPin.PIN_PWM_WARM, 0), (PwmPin.PIN_PWM_COLD, 0)], r.2)) ∧
      (((⟨20000, 800, 0, 1000⟩ : Transition).transition_time ≠ 0 ∨ 500 ≠ 0) →
        ∃ T' : Transition,
          SetLightnessOutput ⟨1, 65535, true, 800, 20000⟩ true ⟨20000, 800, 0, 1000⟩ 500 0 =
            some ([(PwmPin.PIN_PWM_WARM, 0), (PwmPin.PIN_PWM_COLD, 0)], T')) :=
  SetLightnessOutput_zero ⟨1, 65535, true, 800, 20000⟩ ⟨20000, 800, 0, 1000⟩ 500 (by decide)

/-- C9: with CTL support disabled, in a well-formed configuration and for every lightness value
`val`, `SetLightnessOutput` writes the whole level `pwmOutLevel cfg val` to `PIN_PWM_COLD` and
`0` to `PIN_PWM_WARM`; the writes do not depend on the temperature transition or its clock,
and the temperature transition is returned unchanged. -/
theorem SetLightnessOutput_ctl_disabled (cfg : Config) (val : Nat) (hcfg : cfg.WellFormed) :
    ∃ level : Nat, pwmOutLevel cfg val = some level ∧
      ∀ (T : Transition) (dt : Nat), SetLightnessOutput cfg false T dt val =
        some ([(PwmPin.PIN_PWM_COLD, level), (PwmPin.PIN_PWM_WARM, 0)], T) := by
  obtain ⟨level, hlevel⟩ := pwmOutLevel_defined cfg val hcfg
  refine ⟨level, hlevel, ?_⟩
  intro T dt
  unfold SetLightnessOutput
  simp [hlevel]

theorem SetLightnessOutput_ctl_disabled_witness :
    ∃ level : Nat, pwmOutLevel ⟨0, 65535, false, 800, 20000⟩ 65535 = some level ∧
      ∀ (T : Transition) (dt : Nat),
        SetLightnessOutput ⟨0, 65535, false, 800, 20000⟩ false T dt 65535 =
          some ([(PwmPin.PIN_PWM_COLD, level), (PwmPin.PIN_PWM_WARM, 0)], T) :=
  SetLightnessOutput_ctl_disabled ⟨0, 65535, false, 800, 20000⟩ 65535 (by decide)

/-! ## Button gesture FSM: theorems -/

/-- C10: short press.  For a button in `FSM_IDLE` whose paired button is in `FSM_IDLE` at both
polls: after a press edge the first poll (at any time `t1`) sends nothing and moves the button
to `FSM_PRESS` with the mailbox emptied, `event_time = t1` and `timeout = 400`; after a release
edge the second poll (at any time `t2`) sends exactly one command, a Generic OnOff Set with
value ON for a `BUTTON_ON` button and OFF for a `BUTTON_OFF` button and 3 repeats, and leaves
the button cleared: `FSM_IDLE`, `NO_ACTION`, `delta_value_on_press = 0`. -/
theorem CheckButtonState_short_press (b p1 p2 : ButtonInstance) (t1 t2 : Nat)
    (hb : b.state = MachineStates.FSM_IDLE) (hp1 : p1.state = MachineStates.FSM_IDLE)
    (hp2 : p2.state = MachineStates.FSM_IDLE) :
    ∃ b1 : ButtonInstance,
      CheckButtonState (OnButtonInterrupt b true) p1 t1 = some (b1, []) ∧
      b1 = { b with state := MachineStates.FSM_PRESS, action := MachineActions.NO_ACTION,
                    event_time := t1, timeout := 400 } ∧
      CheckButtonState (OnButtonInterrupt b1 false) p2 t2 =
        some (ClearButtonStates b,
          [MeshCommand.GenericOnOffSetWithRepeatsInterval b.instance_idx
            (decide (b.button_type = ButtonType.BUTTON_ON)) 1000 0 3 50 true]) ∧
      (ClearButtonStates b).state = MachineStates.FSM_IDLE ∧
      (ClearButtonStates b).action = MachineActions.NO_ACTION ∧
      (ClearButtonStates b).delta_value_on_press = 0 := by
  refine ⟨_, ?_, rfl, ?_, rfl, rfl, rfl⟩
  · unfold CheckButtonState OnButtonInterrupt
    simp [hb, hp1, SEQUENCE_A_TIMEOUT]
  · unfold CheckButtonState OnButtonInterrupt ClearButtonStates
    simp [hp2, ON_OFF_TRANSITION_TIME_MS, ON_OFF_DELAY_TIME_MS, SEQUENCE_A_NUMBER_OF_REPEATS,
      REPEATS_INTERVAL_MS]

theorem CheckButtonState_short_press_witness :
    ∃ b1 : ButtonInstance,
      CheckButtonState
          (OnButtonInterrupt ⟨5, ButtonType.BUTTON_ON, 0, 0, MachineStates.FSM_IDLE, 0,
            MachineActions.NO_ACTION, 2⟩ true)
          ⟨6, ButtonType.BUTTON_OFF, 0, 0, MachineStates.FSM_IDLE, 0, MachineActions.NO_ACTION, 2⟩
          1000 = some (b1, []) ∧
      b1 = ⟨5, ButtonType.BUTTON_ON, 1000, 400, MachineStates.FSM_PRESS, 0,
              MachineActions.NO_ACTION, 2⟩ ∧
      CheckButtonState (OnButtonInterrupt b1 false)
          ⟨6, ButtonType.BUTTON_OFF, 0, 0, MachineStates.FSM_IDLE, 0, MachineActions.NO_ACTION, 2⟩
          1200 =
        some (⟨5, ButtonType.BUTTON_ON, 0, 0, MachineStates.FSM_IDLE, 0,
                MachineActions.NO_ACTION, 2⟩,
          [MeshCommand.GenericOnOffSetWithRepeatsInterval 2 true 1000 0 3 50 true]) ∧
      (ClearButtonStates ⟨5, ButtonType.BUTTON_ON, 0, 0, MachineStates.FSM_IDLE, 0,
          MachineActions.NO_ACTION, 2⟩).state = MachineStates.FSM_IDLE ∧
      (ClearButtonStates ⟨5, ButtonType.BUTTON_ON, 0, 0, MachineStates.FSM_IDLE, 0,
          MachineActions.NO_ACTION, 2⟩).action = MachineActions.NO_ACTION ∧
      (ClearButtonStates ⟨5, ButtonType.BUTTON_ON, 0, 0, MachineStates.FSM_IDLE, 0,
          MachineActions.NO_ACTION, 2⟩).delta_value_on_press = 0 :=
  CheckButtonState_short_press
    ⟨5, ButtonType.BUTTON_ON, 0, 0, MachineStates.FSM_IDLE, 0, MachineActions.NO_ACTION, 2⟩
    ⟨6, ButtonType.BUTTON_OFF, 0, 0, MachineStates.FSM_IDLE, 0, MachineActions.NO_ACTION, 2⟩
    ⟨6, ButtonType.BUTTON_OFF, 0, 0, MachineStates.FSM_IDLE, 0, MachineActions.NO_ACTION, 2⟩
    1000 1200 rfl rfl rfl

/-! ## Button gesture FSM: long press -/

theorem MAX_DELTA_eq : MAX_DELTA = 25 := by decide

theorem wrapSigned16_of_range (x : Int) (h1 : -32768 ≤ x) (h2 : x < 32768) :
    wrapSigned 16 x = x := by
  unfold wrapSigned
  norm_num
  omega

theorem wrapUnsigned8_natCast (n : Nat) (h : n < 256) : wrapUnsigned 8 (n : Int) = n := by
  unfold wrapUnsigned
  norm_num
  omega

/-- Passing an `int` through the `uint32_t` parameter of `SendSequenceDGenericDelta` and on to
an `int32_t` parameter gives back the value when it fits 32 bits. -/
theorem wrapSigned32_wrapUnsigned32 (x : Int) (h1 : -2147483648 ≤ x) (h2 : x < 2147483648) :
    wrapSigned 32 ((wrapUnsigned 32 (wrapSigned 32 x) : Nat) : Int) = x := by
  rw [wrapSigned32_of_range x h1 h2]
  unfold wrapSigned wrapUnsigned
  norm_num
  omega

/-- The settle burst written out: four commands with dispatch offsets 0, 50, 100, 150 ms. -/
theorem SendSequenceDGenericDelta_eq (idx delta_value : Nat) (hidx : idx < 256) :
    SendSequenceDGenericDelta idx delta_value =
      [MeshCommand.GenericDeltaSetWithDispatchTime idx (wrapSigned 32 (delta_value : Int)) 200 0 0 false,
       MeshCommand.GenericDeltaSetWithDispatchTime idx (wrapSigned 32 (delta_value : Int)) 200 0 50 false,
       MeshCommand.GenericDeltaSetWithDispatchTime idx (wrapSigned 32 (delta_value : Int)) 200 0 100 false,
       MeshCommand.GenericDeltaSetWithDispatchTime idx (wrapSigned 32 (delta_value : Int)) 200 0 150 false] := by
  unfold SendSequenceDGenericDelta SEQUENCE_D_NUMBER_OF_REPEATS DELTA_TRANSITION_TIME_MS
    DELTA_DELAY_TIME_MS
  rw [wrapUnsigned8_natCast idx hidx]
  rfl

/-- C11: long-press entry.  For a button in `FSM_PRESS` as the poll of an idle button leaves it
(`timeout = 400`, `delta_value_on_press = 0`), with no release pending and the paired button in
`FSM_IDLE`: a poll at which the `uint32_t` difference `now - event_time` exceeds 400 moves it
to `FSM_LONG_PRESS` with `event_time = now`, `timeout = 250`, and sends exactly one Generic
Delta Set of one dimming step, `+0xA00` for a `BUTTON_ON` button and `-0xA00` for a
`BUTTON_OFF` button, with 3 repeats; a poll at which the difference is at most 400 changes
nothing and sends nothing. -/
theorem CheckButtonState_long_press_entry (b p : ButtonInstance) (now : Nat)
    (hstate : b.state = MachineStates.FSM_PRESS) (htimeout : b.timeout = SEQUENCE_A_TIMEOUT)
    (hdelta : b.delta_value_on_press = 0)
    (hact : b.action ≠ MachineActions.ACTION_RELEASED)
    (hp : p.state = MachineStates.FSM_IDLE) :
    CheckButtonState b p now =
      if wrapUnsigned 32 ((now : Int) - (b.event_time : Int)) > 400 then
        some ({ b with state := MachineStates.FSM_LONG_PRESS, event_time := now, timeout := 250,
                       delta_value_on_press :=
                         if b.button_type = ButtonType.BUTTON_ON then 1 else -1 },
              [MeshCommand.GenericDeltaSetWithRepeatsInterval b.instance_idx
                (if b.button_type = ButtonType.BUTTON_ON then 0xA00 else -0xA00) 200 0 3 50 true])
      else
        some (b, []) := by
  obtain ⟨pin, ty, et, tmo, st, d, act, idx⟩ := b
  simp only at hstate htimeout hdelta hact
  subst hstate hdelta htimeout
  unfold CheckButtonState
  simp only [hp, hact, ne_eq, not_true_eq_false, if_false, SEQUENCE_A_TIMEOUT]
  by_cases hel : wrapUnsigned 32 ((now : Int) - (et : Int)) > 400
  · simp only [hel, if_true]
    cases ty <;> rfl
  · simp only [hel, if_false]

theorem CheckButtonState_long_press_entry_witness :
    CheckButtonState
        ⟨5, ButtonType.BUTTON_OFF, 1000, 400, MachineStates.FSM_PRESS, 0,
          MachineActions.NO_ACTION, 2⟩
        ⟨6, ButtonType.BUTTON_ON, 0, 0, MachineStates.FSM_IDLE, 0, MachineActions.NO_ACTION, 2⟩
        1401 =
      if wrapUnsigned 32 (((1401 : Nat) : Int) - ((1000 : Nat) : Int)) > 400 then
        some (⟨5, ButtonType.BUTTON_OFF, 1401, 250, MachineStates.FSM_LONG_PRESS,
                if ButtonType.BUTTON_OFF = ButtonType.BUTTON_ON then 1 else -1,
                MachineActions.NO_ACTION, 2⟩,
              [MeshCommand.GenericDeltaSetWithRepeatsInterval 2
                (if ButtonType.BUTTON_OFF = ButtonType.BUTTON_ON then 0xA00 else -0xA00)
                200 0 3 50 true])
      else
        some (⟨5, ButtonType.BUTTON_OFF, 1000, 400, MachineStates.FSM_PRESS, 0,
                MachineActions.NO_ACTION, 2⟩, []) :=
  CheckButtonState_long_press_entry
    ⟨5, ButtonType.BUTTON_OFF, 1000, 400, MachineStates.FSM_PRESS, 0, MachineActions.NO_ACTION, 2⟩
    ⟨6, ButtonType.BUTTON_ON, 0, 0, MachineStates.FSM_IDLE, 0, MachineActions.NO_ACTION, 2⟩
    1401 rfl rfl rfl (by decide) rfl

/-- C12: release in long press.  For a button in `FSM_LONG_PRESS` with a release pending and
the paired button in `FSM_IDLE`, a poll that processes the release (the `uint32_t` difference
`now - event_time` exceeds the nonzero `timeout`) sends exactly four Generic Delta commands
carrying one and the same value, with dispatch offsets 0, 50, 100 and 150 ms, and leaves the
button cleared: `FSM_IDLE`, `NO_ACTION`, `event_time = 0`, `timeout = 0`,
`delta_value_on_press = 0`. -/
theorem CheckButtonState_release_burst (b p : ButtonInstance) (now : Nat)
    (hstate : b.state = MachineStates.FSM_LONG_PRESS)
    (hact : b.action = MachineActions.ACTION_RELEASED)
    (hp : p.state = MachineStates.FSM_IDLE) (hidx : b.instance_idx < 256)
    (hto : b.timeout ≠ 0)
    (hel : wrapUnsigned 32 ((now : Int) - (b.event_time : Int)) > b.timeout) :
    ∃ v : Int, CheckButtonState b p now =
      some ({ b with state := MachineStates.FSM_IDLE, action := MachineActions.NO_ACTION,
                     event_time := 0, timeout := 0, delta_value_on_press := 0 },
        [MeshCommand.GenericDeltaSetWithDispatchTime b.instance_idx v 200 0 0 false,
         MeshCommand.GenericDeltaSetWithDispatchTime b.instance_idx v 200 0 50 false,
         MeshCommand.GenericDeltaSetWithDispatchTime b.instance_idx v 200 0 100 false,
         MeshCommand.GenericDeltaSetWithDispatchTime b.instance_idx v 200 0 150 false]) := by
  have hnle : ¬ wrapUnsigned 32 ((now : Int) - (b.event_time : Int)) ≤ b.timeout := by omega
  unfold CheckButtonState
  simp only [hp, hstate, hact, hnle, hto, ne_eq, not_true_eq_false, if_false, if_true]
  rw [SendSequenceDGenericDelta_eq _ _ hidx]
  exact ⟨_, rfl⟩

theorem CheckButtonState_release_burst_witness :
    ∃ v : Int, CheckButtonState
        ⟨5, ButtonType.BUTTON_ON, 1401, 250, MachineStates.FSM_LONG_PRESS, 1,
          MachineActions.ACTION_RELEASED, 2⟩
        ⟨6, ButtonType.BUTTON_OFF, 0, 0, MachineStates.FSM_IDLE, 0, MachineActions.NO_ACTION, 2⟩
        1660 =
      some (⟨5, ButtonType.BUTTON_ON, 0, 0, MachineStates.FSM_IDLE, 0,
              MachineActions.NO_ACTION, 2⟩,
        [MeshCommand.GenericDeltaSetWithDispatchTime 2 v 200 0 0 false,
         MeshCommand.GenericDeltaSetWithDispatchTime 2 v 200 0 50 false,
         MeshCommand.GenericDeltaSetWithDispatchTime 2 v 200 0 100 false,
         MeshCommand.GenericDeltaSetWithDispatchTime 2 v 200 0 150 false]) :=
  CheckButtonState_release_burst
    ⟨5, ButtonType.BUTTON_ON, 1401, 250, MachineStates.FSM_LONG_PRESS, 1,
      MachineActions.ACTION_RELEASED, 2⟩
    ⟨6, ButtonType.BUTTON_OFF, 0, 0, MachineStates.FSM_IDLE, 0, MachineActions.NO_ACTION, 2⟩
    1660 rfl rfl rfl (by decide) (by decide) (by decide)

/-- C13: paired-button mutual exclusion.  If the paired button is not in `FSM_IDLE`, then for
every state, pending action and other field contents of the button and every clock reading,
`CheckButtonState` returns the button unchanged and sends no mesh command. -/
theorem CheckButtonState_paired_busy (b p : ButtonInstance) (now : Nat)
    (hp : p.state ≠ MachineStates.FSM_IDLE) : CheckButtonState b p now = some (b, []) := by
  unfold CheckButtonState
  simp [hp]

theorem CheckButtonState_paired_busy_witness :
    CheckButtonState
        ⟨5, ButtonType.BUTTON_ON, 0, 0, MachineStates.FSM_IDLE, 0,
          MachineActions.ACTION_PRESSED, 2⟩
        ⟨6, ButtonType.BUTTON_OFF, 1000, 400, MachineStates.FSM_PRESS, 0,
          MachineActions.NO_ACTION, 2⟩
        1200 =
      some (⟨5, ButtonType.BUTTON_ON, 0, 0, MachineStates.FSM_IDLE, 0,
              MachineActions.ACTION_PRESSED, 2⟩, []) :=
  CheckButtonState_paired_busy _ _ 1200 (by decide)

/-- The statement `delta_value_on_press++` / `--` without `int16_t` wrap-around. -/
theorem stepDelta_eq (b : ButtonInstance) (h1 : -32768 < b.delta_value_on_press)
    (h2 : b.delta_value_on_press < 32767) :
    stepDelta b = { b with delta_value_on_press :=
      if b.button_type = ButtonType.BUTTON_ON then b.delta_value_on_press + 1
      else b.delta_value_on_press - 1 } := by
  obtain ⟨pin, ty, et, tmo, st, d, act, idx⟩ := b
  simp only at h1 h2
  unfold stepDelta
  cases ty
  · simp only [reduceCtorEq, if_false]
    rw [wrapSigned16_of_range _ (by omega) (by omega)]
  · simp only [if_true]
    rw [wrapSigned16_of_range _ (by omega) (by omega)]

/-- An interrupt writes only the mailbox, so it keeps the invariant. -/
theorem ButtonInstance.Inv_interrupt (b : ButtonInstance) (pin_is_low : Bool) (h : b.Inv) :
    (OnButtonInterrupt b pin_is_low).Inv := by
  unfold OnButtonInterrupt
  cases pin_is_low <;> exact h

/-- A poll keeps the invariant. -/
theorem ButtonInstance.Inv_poll (b p b' : ButtonInstance) (now : Nat) (cmds : List MeshCommand)
    (h : b.Inv) (hstep : CheckButtonState b p now = some (b', cmds)) : b'.Inv := by
  by_cases hp : p.state = MachineStates.FSM_IDLE
  swap
  · unfold CheckButtonState at hstep
    simp only [hp, ne_eq, not_false_eq_true, if_true, Option.some.injEq, Prod.mk.injEq] at hstep
    rw [← hstep.1]
    exact h
  obtain ⟨pin, ty, et, tmo, st, d, act, idx⟩ := b
  cases st
  · -- FSM_IDLE
    unfold CheckButtonState at hstep
    simp only [hp, ne_eq, not_true_eq_false, if_false] at hstep
    unfold ButtonInstance.Inv at h
    simp only at h
    split_ifs at hstep <;>
      simp only [Option.some.injEq, Prod.mk.injEq] at hstep <;>
      rw [← hstep.1] <;>
      simp [ButtonInstance.Inv, ClearButtonStates, h]
  · -- FSM_PRESS
    unfold CheckButtonState at hstep
    simp only [hp, ne_eq, not_true_eq_false, if_false] at hstep
    unfold ButtonInstance.Inv at h
    simp only at h
    obtain ⟨hd, hto⟩ := h
    subst hd
    split_ifs at hstep <;>
      simp only [Option.some.injEq, Prod.mk.injEq] at hstep <;>
      rw [← hstep.1]
    · simp [ButtonInstance.Inv, ClearButtonStates]
    · cases ty <;>
        simp [ButtonInstance.Inv, stepDelta, SEQUENCE_B_TIMEOUT, MAX_DELTA_eq] <;> decide
    · simp [ButtonInstance.Inv, hto]
  · -- FSM_LONG_PRESS
    have h0 := h
    unfold ButtonInstance.Inv at h
    simp only at h
    obtain ⟨hto, hd⟩ := h
    cases ty
    · simp only [MAX_DELTA_eq] at hd
      have hw : wrapSigned 16 (d - 1) = d - 1 := wrapSigned16_of_range _ (by omega) (by omega)
      unfold CheckButtonState at hstep
      simp only [hp, ne_eq, not_true_eq_false, if_false, stepDelta, hw, MAX_DELTA_eq] at hstep
      split_ifs at hstep <;>
        simp only [Option.some.injEq, Prod.mk.injEq, reduceCtorEq] at hstep <;>
        rw [← hstep.1]
      all_goals first
        | exact h0
        | (simp only [ButtonInstance.Inv, ClearButtonStates]; done)
        | (simp only [ButtonInstance.Inv, SEQUENCE_C_TIMEOUT, MAX_DELTA_eq, or_true, true_and]
           omega)
    · simp only [MAX_DELTA_eq] at hd
      have hw : wrapSigned 16 (d + 1) = d + 1 := wrapSigned16_of_range _ (by omega) (by omega)
      unfold CheckButtonState at hstep
      simp only [hp, ne_eq, not_true_eq_false, if_false, stepDelta, hw, MAX_DELTA_eq] at hstep
      split_ifs at hstep <;>
        simp only [Option.some.injEq, Prod.mk.injEq, reduceCtorEq] at hstep <;>
        rw [← hstep.1]
      all_goals first
        | exact h0
        | (simp only [ButtonInstance.Inv, ClearButtonStates]; done)
        | (simp only [ButtonInstance.Inv, SEQUENCE_C_TIMEOUT, MAX_DELTA_eq, or_true, true_and]
           omega)

/-- Every reachable button state satisfies the invariant. -/
theorem ButtonReachable.inv (b : ButtonInstance) (h : ButtonReachable b) : b.Inv := by
  induction h with
  | setup b hstate hdelta =>
    unfold ButtonInstance.Inv
    rw [hstate]
    exact hdelta
  | interrupt b pin_is_low _ ih => exact ButtonInstance.Inv_interrupt b pin_is_low ih
  | poll b paired b' now cmds _ hstep ih => exact ButtonInstance.Inv_poll b paired b' now cmds ih hstep

/-- The invariant bounds the step counter by 24 in absolute value. -/
theorem ButtonInstance.Inv_bound (b : ButtonInstance) (h : b.Inv) :
    -24 ≤ b.delta_value_on_press ∧ b.delta_value_on_press ≤ 24 := by
  obtain ⟨pin, ty, et, tmo, st, d, act, idx⟩ := b
  unfold ButtonInstance.Inv at h
  cases st
  · simp only at h
    simp only [h]
    omega
  · simp only at h
    simp only [h.1]
    omega
  · simp only [MAX_DELTA_eq] at h
    cases ty <;> simp only at h <;> simp only <;> omega

/-- One dimming step in `FSM_LONG_PRESS` (no release pending, timeout expired, counter not at
an `int16_t` limit): the counter moves by one; at `±25` the settle burst is sent and the button
cleared, otherwise one Generic Delta Set is sent and the 100 ms timeout restarts. -/
theorem CheckButtonState_step_core (b p : ButtonInstance) (now : Nat)
    (hstate : b.state = MachineStates.FSM_LONG_PRESS)
    (hact : b.action ≠ MachineActions.ACTION_RELEASED)
    (hp : p.state = MachineStates.FSM_IDLE) (hidx : b.instance_idx < 256)
    (hlo : -32768 < b.delta_value_on_press) (hhi : b.delta_value_on_press < 32767)
    (hel : wrapUnsigned 32 ((now : Int) - (b.event_time : Int)) > b.timeout) :
    CheckButtonState b p now =
      if (if b.button_type = ButtonType.BUTTON_ON then b.delta_value_on_press + 1
          else b.delta_value_on_press - 1) = 25 ∨
         (if b.button_type = ButtonType.BUTTON_ON then b.delta_value_on_press + 1
          else b.delta_value_on_press - 1) = -25 then
        some ({ b with state := MachineStates.FSM_IDLE, action := MachineActions.NO_ACTION,
                       event_time := 0, timeout := 0, delta_value_on_press := 0 },
          [MeshCommand.GenericDeltaSetWithDispatchTime b.instance_idx
             (0xA00 * (if b.button_type = ButtonType.BUTTON_ON then b.delta_value_on_press + 1
                       else b.delta_value_on_press - 1)) 200 0 0 false,
           MeshCommand.GenericDeltaSetWithDispatchTime b.instance_idx
             (0xA00 * (if b.button_type = ButtonType.BUTTON_ON then b.delta_value_on_press + 1
                       else b.delta_value_on_press - 1)) 200 0 50 false,
           MeshCommand.GenericDeltaSetWithDispatchTime b.instance_idx
             (0xA00 * (if b.button_type = ButtonType.BUTTON_ON then b.delta_value_on_press + 1
                       else b.delta_value_on_press - 1)) 200 0 100 false,
           MeshCommand.GenericDeltaSetWithDispatchTime b.instance_idx
             (0xA00 * (if b.button_type = ButtonType.BUTTON_ON then b.delta_value_on_press + 1
                       else b.delta_value_on_press - 1)) 200 0 150 false])
      else
        some ({ b with event_time := now, timeout := 100,
                       delta_value_on_press :=
                         if b.button_type = ButtonType.BUTTON_ON then b.delta_value_on_press + 1
                         else b.delta_value_on_press - 1 },
          [MeshCommand.GenericDeltaSet b.instance_idx
             (0xA00 * (if b.button_type = ButtonType.BUTTON_ON then b.delta_value_on_press + 1
                       else b.delta_value_on_press - 1)) 200 0 0 false]) := by
  have hnle : ¬ wrapUnsigned 32 ((now : Int) - (b.event_time : Int)) ≤ b.timeout := by omega
  have hstep := stepDelta_eq b hlo hhi
  generalize hd' : (if b.button_type = ButtonType.BUTTON_ON then b.delta_value_on_press + 1
    else b.delta_value_on_press - 1) = d' at hstep ⊢
  have hd'range : -32768 ≤ d' ∧ d' ≤ 32767 := by
    rw [← hd']
    split <;> omega
  have hv : wrapSigned 32 (DIMMING_STEP_VALUE * d') = 0xA00 * d' := by
    unfold DIMMING_STEP_VALUE
    exact wrapSigned32_of_range _ (by omega) (by omega)
  have hv2 : wrapSigned 32 ((wrapUnsigned 32 (wrapSigned 32 (DIMMING_STEP_VALUE * d')) : Nat) : Int)
      = 0xA00 * d' := by
    unfold DIMMING_STEP_VALUE
    exact wrapSigned32_wrapUnsigned32 _ (by omega) (by omega)
  unfold CheckButtonState
  simp only [hp, hstate, hact, hnle, ne_eq, not_true_eq_false, if_false, hstep, MAX_DELTA_eq]
  by_cases hterm : d' = 25 ∨ d' = -25
  · simp only [hterm, if_true]
    rw [SendSequenceDGenericDelta_eq _ _ hidx, hv2]
    rfl
  · simp only [hterm, if_false, hv]
    rfl

/-- C14 (as stated, fails): an ON button pressed at 1000 enters long press at 1401 with one
step (`0xA00`); the release processed at 1701, 300 ms after that step, sends the settle burst
with value `0xA00 * 1 + 0xA00 * 300 / 250 = 5632`, which is not a multiple of `0xA00`. -/
theorem CheckButtonState_release_value_not_multiple :
    CheckButtonState
        (OnButtonInterrupt ⟨5, ButtonType.BUTTON_ON, 0, 0, MachineStates.FSM_IDLE, 0,
          MachineActions.NO_ACTION, 2⟩ true)
        ⟨6, ButtonType.BUTTON_OFF, 0, 0, MachineStates.FSM_IDLE, 0, MachineActions.NO_ACTION, 2⟩
        1000 =
      some (⟨5, ButtonType.BUTTON_ON, 1000, 400, MachineStates.FSM_PRESS, 0,
              MachineActions.NO_ACTION, 2⟩, []) ∧
    CheckButtonState
        ⟨5, ButtonType.BUTTON_ON, 1000, 400, MachineStates.FSM_PRESS, 0,
          MachineActions.NO_ACTION, 2⟩
        ⟨6, ButtonType.BUTTON_OFF, 0, 0, MachineStates.FSM_IDLE, 0, MachineActions.NO_ACTION, 2⟩
        1401 =
      some (⟨5, ButtonType.BUTTON_ON, 1401, 250, MachineStates.FSM_LONG_PRESS, 1,
              MachineActions.NO_ACTION, 2⟩,
        [MeshCommand.GenericDeltaSetWithRepeatsInterval 2 0xA00 200 0 3 50 true]) ∧
    CheckButtonState
        (OnButtonInterrupt ⟨5, ButtonType.BUTTON_ON, 1401, 250, MachineStates.FSM_LONG_PRESS, 1,
          MachineActions.NO_ACTION, 2⟩ false)
        ⟨6, ButtonType.BUTTON_OFF, 0, 0, MachineStates.FSM_IDLE, 0, MachineActions.NO_ACTION, 2⟩
        1701 =
      some (⟨5, ButtonType.BUTTON_ON, 0, 0, MachineStates.FSM_IDLE, 0,
              MachineActions.NO_ACTION, 2⟩,
        [MeshCommand.GenericDeltaSetWithDispatchTime 2 5632 200 0 0 false,
         MeshCommand.GenericDeltaSetWithDispatchTime 2 5632 200 0 50 false,
         MeshCommand.GenericDeltaSetWithDispatchTime 2 5632 200 0 100 false,
         MeshCommand.GenericDeltaSetWithDispatchTime 2 5632 200 0 150 false]) ∧
    ¬ ∃ k : Int, (5632 : Int) = DIMMING_STEP_VALUE * k := by
  refine ⟨by decide, by decide, by decide, ?_⟩
  rintro ⟨k, hk⟩
  unfold DIMMING_STEP_VALUE at hk
  omega

/-- C14 (amended): from every state satisfying the invariant of reachable states, a poll that
does not process a release in long press returns, and every Generic Delta value it sends (the
first long-press step, a subsequent dimming step, the settle burst on auto-termination) is
`DIMMING_STEP_VALUE * k` for an integer `k`, with `k > 0` for a `BUTTON_ON` button and `k < 0`
for a `BUTTON_OFF` button. -/
theorem CheckButtonState_delta_multiples (b p : ButtonInstance) (now : Nat) (hinv : b.Inv)
    (hidx : b.instance_idx < 256)
    (hnr : b.action ≠ MachineActions.ACTION_RELEASED ∨ b.state ≠ MachineStates.FSM_LONG_PRESS) :
    ∃ (b' : ButtonInstance) (cmds : List MeshCommand),
      CheckButtonState b p now = some (b', cmds) ∧
      ∀ c ∈ cmds, ∀ v : Int, c.deltaValue = some v →
        ∃ k : Int, v = DIMMING_STEP_VALUE * k ∧
          (b.button_type = ButtonType.BUTTON_ON → 0 < k) ∧
          (b.button_type = ButtonType.BUTTON_OFF → k < 0) := by
  by_cases hp : p.state = MachineStates.FSM_IDLE
  swap
  · refine ⟨b, [], ?_, ?_⟩
    · unfold CheckButtonState
      simp [hp]
    · intro c hc
      simp at hc
  rcases hst : b.state with _ | _ | _
  · -- FSM_IDLE: no command
    obtain ⟨pin, ty, et, tmo, st, d, act, idx⟩ := b
    simp only at hst
    subst hst
    unfold CheckButtonState
    simp only [hp, ne_eq, not_true_eq_false, if_false]
    split_ifs <;> exact ⟨_, [], rfl, by intro c hc; simp at hc⟩
  · -- FSM_PRESS
    have hinv' := hinv
    unfold ButtonInstance.Inv at hinv'
    rw [hst] at hinv'
    simp only at hinv'
    by_cases hact : b.action = MachineActions.ACTION_RELEASED
    · have hrel : CheckButtonState b p now = some (ClearButtonStates b,
          [MeshCommand.GenericOnOffSetWithRepeatsInterval (ClearButtonStates b).instance_idx
            (decide ((ClearButtonStates b).button_type = ButtonType.BUTTON_ON))
            ON_OFF_TRANSITION_TIME_MS ON_OFF_DELAY_TIME_MS SEQUENCE_A_NUMBER_OF_REPEATS
            REPEATS_INTERVAL_MS true]) := by
        unfold CheckButtonState
        simp only [hp, hst, hact, ne_eq, not_true_eq_false, if_false, if_true]
      refine ⟨_, _, hrel, ?_⟩
      · intro c hc v hv
        simp only [List.mem_singleton] at hc
        subst hc
        simp [MeshCommand.deltaValue] at hv
    · have hentry := CheckButtonState_long_press_entry b p now hst hinv'.2 hinv'.1 hact hp
      by_cases hel : wrapUnsigned 32 ((now : Int) - (b.event_time : Int)) > 400
      · rw [if_pos hel] at hentry
        refine ⟨_, _, hentry, ?_⟩
        intro c hc v hv
        simp only [List.mem_singleton] at hc
        subst hc
        simp only [MeshCommand.deltaValue, Option.some.injEq] at hv
        subst hv
        cases hty : b.button_type
        · exact ⟨-1, by simp [DIMMING_STEP_VALUE], by simp, by simp⟩
        · exact ⟨1, by simp [DIMMING_STEP_VALUE], by simp, by simp⟩
      · rw [if_neg hel] at hentry
        exact ⟨_, [], hentry, by intro c hc; simp at hc⟩
  · -- FSM_LONG_PRESS, no release pending
    have hact : b.action ≠ MachineActions.ACTION_RELEASED := by
      rcases hnr with h | h
      · exact h
      · exact absurd hst h
    have hinv' := hinv
    unfold ButtonInstance.Inv at hinv'
    rw [hst] at hinv'
    simp only [MAX_DELTA_eq] at hinv'
    obtain ⟨-, hd⟩ := hinv'
    by_cases hel : wrapUnsigned 32 ((now : Int) - (b.event_time : Int)) > b.timeout
    · have hrange : -32768 < b.delta_value_on_press ∧ b.delta_value_on_press < 32767 := by
        cases hty : b.button_type <;> rw [hty] at hd <;> simp only at hd <;> omega
      have hcore := CheckButtonState_step_core b p now hst hact hp hidx hrange.1 hrange.2 hel
      have hk : ∃ k : Int,
          (if b.button_type = ButtonType.BUTTON_ON then b.delta_value_on_press + 1
            else b.delta_value_on_press - 1) = k ∧
          (b.button_type = ButtonType.BUTTON_ON → 0 < k) ∧
          (b.button_type = ButtonType.BUTTON_OFF → k < 0) := by
        cases hty : b.button_type <;> rw [hty] at hd <;> simp only at hd
        · exact ⟨b.delta_value_on_press - 1, by simp, by simp, fun _ => by omega⟩
        · exact ⟨b.delta_value_on_press + 1, by simp, fun _ => by omega, by simp⟩
      obtain ⟨k, hkeq, hkon, hkoff⟩ := hk
      rw [hkeq] at hcore
      by_cases hterm : k = 25 ∨ k = -25
      · rw [if_pos hterm] at hcore
        refine ⟨_, _, hcore, ?_⟩
        intro c hc v hv
        simp only [List.mem_cons, List.mem_singleton, List.not_mem_nil, or_false] at hc
        rcases hc with hc | hc | hc | hc <;> subst hc <;>
          simp only [MeshCommand.deltaValue, Option.some.injEq] at hv <;>
          exact ⟨k, by rw [← hv]; rfl, hkon, hkoff⟩
      · rw [if_neg hterm] at hcore
        refine ⟨_, _, hcore, ?_⟩
        intro c hc v hv
        simp only [List.mem_singleton] at hc
        subst hc
        simp only [MeshCommand.deltaValue, Option.some.injEq] at hv
        exact ⟨k, by rw [← hv]; rfl, hkon, hkoff⟩
    · refine ⟨b, [], ?_, by intro c hc; simp at hc⟩
      have hle : wrapUnsigned 32 ((now : Int) - (b.event_time : Int)) ≤ b.timeout := by omega
      unfold CheckButtonState
      simp only [hp, hst, hle, ne_eq, not_true_eq_false, if_false, if_true]

theorem CheckButtonState_delta_multiples_witness :
    ∃ (b' : ButtonInstance) (cmds : List MeshCommand),
      CheckButtonState
          ⟨5, ButtonType.BUTTON_OFF, 1401, 250, MachineStates.FSM_LONG_PRESS, -1,
            MachineActions.NO_ACTION, 2⟩
          ⟨6, ButtonType.BUTTON_ON, 0, 0, MachineStates.FSM_IDLE, 0, MachineActions.NO_ACTION, 2⟩
          1652 = some (b', cmds) ∧
      ∀ c ∈ cmds, ∀ v : Int, c.deltaValue = some v →
        ∃ k : Int, v = DIMMING_STEP_VALUE * k ∧
          ((⟨5, ButtonType.BUTTON_OFF, 1401, 250, MachineStates.FSM_LONG_PRESS, -1,
              MachineActions.NO_ACTION, 2⟩ : ButtonInstance).button_type = ButtonType.BUTTON_ON →
            0 < k) ∧
          ((⟨5, ButtonType.BUTTON_OFF, 1401, 250, MachineStates.FSM_LONG_PRESS, -1,
              MachineActions.NO_ACTION, 2⟩ : ButtonInstance).button_type = ButtonType.BUTTON_OFF →
            k < 0) :=
  CheckButtonState_delta_multiples
    ⟨5, ButtonType.BUTTON_OFF, 1401, 250, MachineStates.FSM_LONG_PRESS, -1,
      MachineActions.NO_ACTION, 2⟩
    ⟨6, ButtonType.BUTTON_ON, 0, 0, MachineStates.FSM_IDLE, 0, MachineActions.NO_ACTION, 2⟩
    1652 (by decide) (by decide) (Or.inl (by decide))

/-- C15 (as stated, fails): an OFF button in long press with three steps taken
(`delta_value_on_press = -3`, 100 ms timeout, last step at 2000) whose release is processed at
2101, the first millisecond the timeout check lets it through, sends `-10265`: the
end-correction added to `0xA00 * (-3) = -7680` is `-2585`, larger in magnitude than one
dimming step `0xA00 = 2560`. -/
theorem CheckButtonState_release_correction_exceeds_step :
    CheckButtonState
        ⟨7, ButtonType.BUTTON_OFF, 2000, 100, MachineStates.FSM_LONG_PRESS, -3,
          MachineActions.ACTION_RELEASED, 3⟩
        ⟨8, ButtonType.BUTTON_ON, 0, 0, MachineStates.FSM_IDLE, 0, MachineActions.NO_ACTION, 3⟩
        2101 =
      some (⟨7, ButtonType.BUTTON_OFF, 0, 0, MachineStates.FSM_IDLE, 0,
              MachineActions.NO_ACTION, 3⟩,
        [MeshCommand.GenericDeltaSetWithDispatchTime 3 (-10265) 200 0 0 false,
         MeshCommand.GenericDeltaSetWithDispatchTime 3 (-10265) 200 0 50 false,
         MeshCommand.GenericDeltaSetWithDispatchTime 3 (-10265) 200 0 100 false,
         MeshCommand.GenericDeltaSetWithDispatchTime 3 (-10265) 200 0 150 false]) ∧
    ¬ ((-10265 : Int) - DIMMING_STEP_VALUE * (-3)).natAbs ≤ DIMMING_STEP_VALUE.natAbs := by
  decide

/-- The conversion to `int16_t` lands in the `int16_t` range. -/
theorem wrapSigned16_range (x : Int) : -32768 ≤ wrapSigned 16 x ∧ wrapSigned 16 x < 32768 := by
  unfold wrapSigned
  norm_num
  omega

/-- C15 (amended): for a button in `FSM_LONG_PRESS` satisfying the invariant of reachable
states, with a release pending and the paired button idle, and `e = now - event_time` as
`uint32_t`:
* while `e ≤ timeout` the poll returns at the timeout check: nothing is sent and the button,
  the pending release included, is unchanged, so no release is processed with `e ≤ timeout`;
* once `timeout < e` the poll clears the button and sends the settle burst with value
  `0xA00 * delta_value_on_press + c`, where the end-correction `c` is the `int16_t` conversion
  of the `uint32_t` quotient `0xA00 * e / timeout`, negated for a `BUTTON_OFF` button;
* when `q = 0xA00 * e / timeout` fits `int16_t` (`q < 32768`), `c` is `q` for a `BUTTON_ON`
  button and `-q` for a `BUTTON_OFF` button, and `q` is more than one dimming step:
  `0xA00 < q`. -/
theorem CheckButtonState_release_correction (b p : ButtonInstance) (now : Nat) (hinv : b.Inv)
    (hstate : b.state = MachineStates.FSM_LONG_PRESS)
    (hact : b.action = MachineActions.ACTION_RELEASED)
    (hp : p.state = MachineStates.FSM_IDLE) (hidx : b.instance_idx < 256) :
    (wrapUnsigned 32 ((now : Int) - (b.event_time : Int)) ≤ b.timeout →
      CheckButtonState b p now = some (b, [])) ∧
    (b.timeout < wrapUnsigned 32 ((now : Int) - (b.event_time : Int)) →
      ∃ c : Int,
        c = (if b.button_type = ButtonType.BUTTON_OFF then
              wrapSigned 16 (-(wrapSigned 16
                ((wrapUnsigned 32 (DIMMING_STEP_VALUE *
                    (wrapUnsigned 32 ((now : Int) - (b.event_time : Int)) : Int)) /
                  b.timeout : Nat) : Int)))
            else
              wrapSigned 16
                ((wrapUnsigned 32 (DIMMING_STEP_VALUE *
                    (wrapUnsigned 32 ((now : Int) - (b.event_time : Int)) : Int)) /
                  b.timeout : Nat) : Int)) ∧
        CheckButtonState b p now =
          some ({ b with state := MachineStates.FSM_IDLE, action := MachineActions.NO_ACTION,
                         event_time := 0, timeout := 0, delta_value_on_press := 0 },
            [MeshCommand.GenericDeltaSetWithDispatchTime b.instance_idx
               (0xA00 * b.delta_value_on_press + c) 200 0 0 false,
             MeshCommand.GenericDeltaSetWithDispatchTime b.instance_idx
               (0xA00 * b.delta_value_on_press + c) 200 0 50 false,
             MeshCommand.GenericDeltaSetWithDispatchTime b.instance_idx
               (0xA00 * b.delta_value_on_press + c) 200 0 100 false,
             MeshCommand.GenericDeltaSetWithDispatchTime b.instance_idx
               (0xA00 * b.delta_value_on_press + c) 200 0 150 false]) ∧
        (0xA00 * wrapUnsigned 32 ((now : Int) - (b.event_time : Int)) / b.timeout < 32768 →
          0xA00 < 0xA00 * wrapUnsigned 32 ((now : Int) - (b.event_time : Int)) / b.timeout ∧
          c = (if b.button_type = ButtonType.BUTTON_ON then
                ((0xA00 * wrapUnsigned 32 ((now : Int) - (b.event_time : Int)) / b.timeout :
                  Nat) : Int)
              else
                -((0xA00 * wrapUnsigned 32 ((now : Int) - (b.event_time : Int)) / b.timeout :
                  Nat) : Int)))) := by
  have hbound := ButtonInstance.Inv_bound b hinv
  unfold ButtonInstance.Inv at hinv
  rw [hstate] at hinv
  simp only [SEQUENCE_B_TIMEOUT, SEQUENCE_C_TIMEOUT] at hinv
  obtain ⟨hto, -⟩ := hinv
  generalize hE : wrapUnsigned 32 ((now : Int) - (b.event_time : Int)) = e
  have hty : b.button_type = ButtonType.BUTTON_ON ∨ b.button_type = ButtonType.BUTTON_OFF := by
    cases b.button_type
    · exact Or.inr rfl
    · exact Or.inl rfl
  constructor
  · intro hle
    unfold CheckButtonState
    simp only [hp, hstate, hE, hle, ne_eq, not_true_eq_false, if_false, if_true]
  · intro hel
    have hnle : ¬ e ≤ b.timeout := by omega
    have hto0 : b.timeout ≠ 0 := by omega
    refine ⟨_, rfl, ?_, ?_⟩
    · unfold CheckButtonState
      simp only [hp, hstate, hact, hE, hnle, hto0, ne_eq, not_true_eq_false, if_false, if_true]
      rw [SendSequenceDGenericDelta_eq _ _ hidx]
      unfold ClearButtonStates
      generalize wrapUnsigned 32 (DIMMING_STEP_VALUE * (e : Int)) / b.timeout = Q
      have r1 := wrapSigned16_range (Q : Int)
      have r2 := wrapSigned16_range (-(wrapSigned 16 (Q : Int)))
      rcases hty with hty | hty
      · simp only [hty, reduceCtorEq, if_false]
        rw [wrapSigned32_wrapUnsigned32 _ (by unfold DIMMING_STEP_VALUE; omega)
          (by unfold DIMMING_STEP_VALUE; omega)]
        rfl
      · simp only [hty, if_true]
        rw [wrapSigned32_wrapUnsigned32 _ (by unfold DIMMING_STEP_VALUE; omega)
          (by unfold DIMMING_STEP_VALUE; omega)]
        rfl
    · intro hfit
      have hq1 : 0xA00 < 0xA00 * e / b.timeout := by
        rcases hto with h | h <;> rw [h] at hel ⊢ <;> omega
      have hprod : 0xA00 * e < 4294967296 := by
        rcases hto with h | h <;> rw [h] at hfit <;> omega
      have hw : wrapUnsigned 32 (DIMMING_STEP_VALUE * (e : Int)) = 0xA00 * e := by
        have h := wrapUnsigned32_natCast (0xA00 * e) hprod
        rw [← h]
        unfold DIMMING_STEP_VALUE
        push_cast
        rfl
      rw [hw]
      generalize 0xA00 * e / b.timeout = q at hfit hq1 ⊢
      have hq16 : wrapSigned 16 (q : Int) = q := wrapSigned16_of_range _ (by omega) (by omega)
      have hq16n : wrapSigned 16 (-(q : Int)) = -(q : Int) :=
        wrapSigned16_of_range _ (by omega) (by omega)
      refine ⟨hq1, ?_⟩
      rcases hty with hty | hty
      · simp only [hty, reduceCtorEq, if_false, if_true, hq16]
      · simp only [hty, reduceCtorEq, if_false, if_true, hq16, hq16n]

theorem CheckButtonState_release_correction_witness :
    CheckButtonState
        ⟨5, ButtonType.BUTTON_ON, 1401, 250, MachineStates.FSM_LONG_PRESS, 1,
          MachineActions.ACTION_RELEASED, 2⟩
        ⟨6, ButtonType.BUTTON_OFF, 0, 0, MachineStates.FSM_IDLE, 0, MachineActions.NO_ACTION, 2⟩
        1651 =
      some (⟨5, ButtonType.BUTTON_ON, 1401, 250, MachineStates.FSM_LONG_PRESS, 1,
          MachineActions.ACTION_RELEASED, 2⟩, []) ∧
    ∃ c : Int, c = 2652 ∧ 0xA00 < c ∧
      CheckButtonState
          ⟨5, ButtonType.BUTTON_ON, 1401, 250, MachineStates.FSM_LONG_PRESS, 1,
            MachineActions.ACTION_RELEASED, 2⟩
          ⟨6, ButtonType.BUTTON_OFF, 0, 0, MachineStates.FSM_IDLE, 0, MachineActions.NO_ACTION, 2⟩
          1660 =
        some (⟨5, ButtonType.BUTTON_ON, 0, 0, MachineStates.FSM_IDLE, 0,
                MachineActions.NO_ACTION, 2⟩,
          [MeshCommand.GenericDeltaSetWithDispatchTime 2 (0xA00 * 1 + c) 200 0 0 false,
           MeshCommand.GenericDeltaSetWithDispatchTime 2 (0xA00 * 1 + c) 200 0 50 false,
           MeshCommand.GenericDeltaSetWithDispatchTime 2 (0xA00 * 1 + c) 200 0 100 false,
           MeshCommand.GenericDeltaSetWithDispatchTime 2 (0xA00 * 1 + c) 200 0 150 false]) := by
  refine ⟨(CheckButtonState_release_correction
    ⟨5, ButtonType.BUTTON_ON, 1401, 250, MachineStates.FSM_LONG_PRESS, 1,
      MachineActions.ACTION_RELEASED, 2⟩
    ⟨6, ButtonType.BUTTON_OFF, 0, 0, MachineStates.FSM_IDLE, 0, MachineActions.NO_ACTION, 2⟩
    1651 (by decide) rfl rfl rfl (by decide)).1 (by decide), ?_⟩
  obtain ⟨c, hc, hburst, hfit⟩ := (CheckButtonState_release_correction
    ⟨5, ButtonType.BUTTON_ON, 1401, 250, MachineStates.FSM_LONG_PRESS, 1,
      MachineActions.ACTION_RELEASED, 2⟩
    ⟨6, ButtonType.BUTTON_OFF, 0, 0, MachineStates.FSM_IDLE, 0, MachineActions.NO_ACTION, 2⟩
    1660 (by decide) rfl rfl rfl (by decide)).2 (by decide)
  have h2 := (hfit (by decide)).2
  have hcv : c = 2652 := by rw [h2]; decide
  exact ⟨c, hcv, by rw [hcv]; decide, hburst⟩

/-- C16: dimming step and auto-termination.  For a button in `FSM_LONG_PRESS` with no release
pending, the paired button idle and the counter not at an `int16_t` limit, a poll at which the
`uint32_t` difference `now - event_time` exceeds `timeout` moves `delta_value_on_press` by `+1`
(`BUTTON_ON`) or `-1` (`BUTTON_OFF`); if the new value is `25` or `-25` it sends the
four-command settle burst with value `0xA00 *` that value and clears the button to `FSM_IDLE`,
otherwise it sends exactly one Generic Delta Set with value `0xA00 *` the new value (0
repeats), stores the new value, sets `event_time = now`, `timeout = 100` and stays in
`FSM_LONG_PRESS`.  In every reachable state `|delta_value_on_press| ≤ 25`. -/
theorem CheckButtonState_dimming_step (b p : ButtonInstance) (now : Nat)
    (hstate : b.state = MachineStates.FSM_LONG_PRESS)
    (hact : b.action ≠ MachineActions.ACTION_RELEASED)
    (hp : p.state = MachineStates.FSM_IDLE) (hidx : b.instance_idx < 256)
    (hlo : -32768 < b.delta_value_on_press) (hhi : b.delta_value_on_press < 32767)
    (hel : wrapUnsigned 32 ((now : Int) - (b.event_time : Int)) > b.timeout) :
    (CheckButtonState b p now =
      if (if b.button_type = ButtonType.BUTTON_ON then b.delta_value_on_press + 1
          else b.delta_value_on_press - 1) = 25 ∨
         (if b.button_type = ButtonType.BUTTON_ON then b.delta_value_on_press + 1
          else b.delta_value_on_press - 1) = -25 then
        some ({ b with state := MachineStates.FSM_IDLE, action := MachineActions.NO_ACTION,
                       event_time := 0, timeout := 0, delta_value_on_press := 0 },
          [MeshCommand.GenericDeltaSetWithDispatchTime b.instance_idx
             (0xA00 * (if b.button_type = ButtonType.BUTTON_ON then b.delta_value_on_press + 1
                       else b.delta_value_on_press - 1)) 200 0 0 false,
           MeshCommand.GenericDeltaSetWithDispatchTime b.instance_idx
             (0xA00 * (if b.button_type = ButtonType.BUTTON_ON then b.delta_value_on_press + 1
                       else b.delta_value_on_press - 1)) 200 0 50 false,
           MeshCommand.GenericDeltaSetWithDispatchTime b.instance_idx
             (0xA00 * (if b.button_type = ButtonType.BUTTON_ON then b.delta_value_on_press + 1
                       else b.delta_value_on_press - 1)) 200 0 100 false,
           MeshCommand.GenericDeltaSetWithDispatchTime b.instance_idx
             (0xA00 * (if b.button_type = ButtonType.BUTTON_ON then b.delta_value_on_press + 1
                       else b.delta_value_on_press - 1)) 200 0 150 false])
      else
        some ({ b with event_time := now, timeout := 100,
                       delta_value_on_press :=
                         if b.button_type = ButtonType.BUTTON_ON then b.delta_value_on_press + 1
                         else b.delta_value_on_press - 1 },
          [MeshCommand.GenericDeltaSet b.instance_idx
             (0xA00 * (if b.button_type = ButtonType.BUTTON_ON then b.delta_value_on_press + 1
                       else b.delta_value_on_press - 1)) 200 0 0 false])) ∧
    (MAX_DELTA = 25 ∧
      ∀ r : ButtonInstance, ButtonReachable r → r.delta_value_on_press.natAbs ≤ 25) := by
  refine ⟨CheckButtonState_step_core b p now hstate hact hp hidx hlo hhi hel, MAX_DELTA_eq, ?_⟩
  intro r hr
  have := ButtonInstance.Inv_bound r (ButtonReachable.inv r hr)
  omega

theorem CheckButtonState_dimming_step_witness :
    (CheckButtonState
        ⟨5, ButtonType.BUTTON_ON, 3000, 100, MachineStates.FSM_LONG_PRESS, 24,
          MachineActions.NO_ACTION, 2⟩
        ⟨6, ButtonType.BUTTON_OFF, 0, 0, MachineStates.FSM_IDLE, 0, MachineActions.NO_ACTION, 2⟩
        3101 =
      some (⟨5, ButtonType.BUTTON_ON, 0, 0, MachineStates.FSM_IDLE, 0,
              MachineActions.NO_ACTION, 2⟩,
        [MeshCommand.GenericDeltaSetWithDispatchTime 2 64000 200 0 0 false,
         MeshCommand.GenericDeltaSetWithDispatchTime 2 64000 200 0 50 false,
         MeshCommand.GenericDeltaSetWithDispatchTime 2 64000 200 0 100 false,
         MeshCommand.GenericDeltaSetWithDispatchTime 2 64000 200 0 150 false])) ∧
    (MAX_DELTA = 25 ∧
      ∀ r : ButtonInstance, ButtonReachable r → r.delta_value_on_press.natAbs ≤ 25) :=
  CheckButtonState_dimming_step
    ⟨5, ButtonType.BUTTON_ON, 3000, 100, MachineStates.FSM_LONG_PRESS, 24,
      MachineActions.NO_ACTION, 2⟩
    ⟨6, ButtonType.BUTTON_OFF, 0, 0, MachineStates.FSM_IDLE, 0, MachineActions.NO_ACTION, 2⟩
    3101 rfl (by decide) rfl (by decide) (by decide) (by decide) (by decide)

/-! ## Emergency lighting test FSM: theorems -/

/-- A response to a header with `mesh_cmd_size ≠ 0` fits the buffer: the frame is the two index
bytes, one to three opcode bytes, the subopcode and the payload. -/
theorem MeshMessageRequest1Send_defined (h : Mesh_MeshMessageRequest1Cmd_T) (subopcode : Nat)
    (payload : List Nat) (hsize : h.mesh_cmd_size ≠ 0) :
    ∃ cmd : List Nat, MeshMessageRequest1Send h subopcode payload =
      some (UartFrame.MeshMessageRequest1
        ([h.instance_index, h.instance_subindex] ++ cmd ++ [subopcode] ++ payload)) := by
  unfold MeshMessageRequest1Send
  by_cases h3 : h.mesh_cmd_size = 3
  · refine ⟨[h.mesh_cmd / 65536 % 256, h.mesh_cmd / 256 % 256, h.mesh_cmd % 256], ?_⟩
    simp [h3]
    omega
  · by_cases h2 : h.mesh_cmd_size = 2
    · refine ⟨[h.mesh_cmd / 256 % 256, h.mesh_cmd % 256], ?_⟩
      simp [h2]
      omega
    · refine ⟨[h.mesh_cmd % 256], ?_⟩
      simp [h3, h2]
      omega

/-- The shared tail of the handlers sends exactly one frame and returns the state and header
it was given. -/
theorem sendResponse_defined (s : EmgLTestState) (h : Mesh_MeshMessageRequest1Cmd_T)
    (subopcode : Nat) (payload : List Nat) (hsize : h.mesh_cmd_size ≠ 0) :
    ∃ cmd : List Nat, sendResponse s h subopcode payload =
      some { state := s, header := h,
             sent := [UartFrame.MeshMessageRequest1
               ([h.instance_index, h.instance_subindex] ++ cmd ++ [subopcode] ++ payload)] } := by
  obtain ⟨cmd, hcmd⟩ := MeshMessageRequest1Send_defined h subopcode payload hsize
  exact ⟨cmd, by unfold sendResponse; rw [hcmd]⟩

/-- What `EltFunctionalTestStart` does with an empty payload: enter the test from NORMAL, change
nothing otherwise, and send one STATE_STATUS frame with the resulting state. -/
theorem EltFunctionalTestStart_core (s : EmgLTestState) (h : Mesh_MeshMessageRequest1Cmd_T)
    (now : Nat) (hsize : h.mesh_cmd_size ≠ 0) :
    ∃ (r : HandlerResult) (cmd : List Nat),
      EltFunctionalTestStart s h [] now = some r ∧
      r.state =
        (if s.ElState = EmgLightingState_T.EMG_LIGHTING_STATE_NORMAL then
          { s with
            ElState := EmgLightingState_T.EMG_LIGHTING_STATE_FUNCTIONAL_TEST_IN_PROGRESS
            ELTFunctionalTestTimeStartMs := now
            ELTFunctionalTestStatus :=
              EmgLightingTestTestExecutionStatus.EMG_LIGHTING_TEST_STATUS_UNKNOWN }
        else s) ∧
      r.sent = [UartFrame.MeshMessageRequest1
        ([h.instance_index, h.instance_subindex] ++ cmd ++ [0x05] ++ [r.state.ElState.toByte])] := by
  have hsize' : ({ h with mesh_cmd := EMG_LIGHTING_OPCODE } :
      Mesh_MeshMessageRequest1Cmd_T).mesh_cmd_size ≠ 0 := hsize
  unfold EltFunctionalTestStart
  simp only [List.length_nil, ne_eq, not_true_eq_false, if_false]
  generalize hs1 : (if s.ElState = EmgLightingState_T.EMG_LIGHTING_STATE_NORMAL then
          ({ s with
            ElState := EmgLightingState_T.EMG_LIGHTING_STATE_FUNCTIONAL_TEST_IN_PROGRESS
            ELTFunctionalTestTimeStartMs := now
            ELTFunctionalTestStatus :=
              EmgLightingTestTestExecutionStatus.EMG_LIGHTING_TEST_STATUS_UNKNOWN } :
              EmgLTestState)
        else s) = s1
  obtain ⟨cmd, hcmd⟩ := sendResponse_defined s1 { h with mesh_cmd := EMG_LIGHTING_OPCODE }
    EMG_LIGHTING_SUBOPCODE_STATE_STATUS [s1.ElState.toByte] hsize'
  exact ⟨_, cmd, hcmd, rfl, rfl⟩

/-- C17: `EltFunctionalTestStart` with an empty payload (request header with
`mesh_cmd_size ≠ 0`).  If the stored state is NORMAL it becomes FUNCTIONAL_TEST_IN_PROGRESS,
the functional test start time becomes `now` and the functional test status UNKNOWN; from every
other stored state the module state is returned unchanged.  In both cases exactly one frame is
sent: index bytes, opcode bytes, the subopcode STATE_STATUS (`0x05`) and the byte of the
resulting stored state. -/
theorem EltFunctionalTestStart_spec (s : EmgLTestState) (h : Mesh_MeshMessageRequest1Cmd_T)
    (now : Nat) (hsize : h.mesh_cmd_size ≠ 0) :
    ∃ (r : HandlerResult) (cmd : List Nat),
      EltFunctionalTestStart s h [] now = some r ∧
      r.state =
        (if s.ElState = EmgLightingState_T.EMG_LIGHTING_STATE_NORMAL then
          { s with
            ElState := EmgLightingState_T.EMG_LIGHTING_STATE_FUNCTIONAL_TEST_IN_PROGRESS
            ELTFunctionalTestTimeStartMs := now
            ELTFunctionalTestStatus :=
              EmgLightingTestTestExecutionStatus.EMG_LIGHTING_TEST_STATUS_UNKNOWN }
        else s) ∧
      r.sent = [UartFrame.MeshMessageRequest1
        ([h.instance_index, h.instance_subindex] ++ cmd ++ [0x05] ++ [r.state.ElState.toByte])] :=
  EltFunctionalTestStart_core s h now hsize

theorem EltFunctionalTestStart_spec_witness :
    ∃ (r : HandlerResult) (cmd : List Nat),
      EltFunctionalTestStart
          ⟨1, EmgLightingState_T.EMG_LIGHTING_STATE_NORMAL, 0, 10000, 0, 0,
            EmgLightingTestTestExecutionStatus.EMG_LIGHTING_TEST_STATUS_FINISHED,
            EmgLightingTestTestExecutionStatus.EMG_LIGHTING_TEST_STATUS_UNKNOWN, 0⟩
          ⟨1, 0, 0xE93601, 3⟩ [] 5000 = some r ∧
      r.state =
        (if (⟨1, EmgLightingState_T.EMG_LIGHTING_STATE_NORMAL, 0, 10000, 0, 0,
            EmgLightingTestTestExecutionStatus.EMG_LIGHTING_TEST_STATUS_FINISHED,
            EmgLightingTestTestExecutionStatus.EMG_LIGHTING_TEST_STATUS_UNKNOWN, 0⟩ :
            EmgLTestState).ElState = EmgLightingState_T.EMG_LIGHTING_STATE_NORMAL then
          ⟨1, EmgLightingState_T.EMG_LIGHTING_STATE_FUNCTIONAL_TEST_IN_PROGRESS, 0, 10000, 5000, 0,
            EmgLightingTestTestExecutionStatus.EMG_LIGHTING_TEST_STATUS_UNKNOWN,
            EmgLightingTestTestExecutionStatus.EMG_LIGHTING_TEST_STATUS_UNKNOWN, 0⟩
        else
          ⟨1, EmgLightingState_T.EMG_LIGHTING_STATE_NORMAL, 0, 10000, 0, 0,
            EmgLightingTestTestExecutionStatus.EMG_LIGHTING_TEST_STATUS_FINISHED,
            EmgLightingTestTestExecutionStatus.EMG_LIGHTING_TEST_STATUS_UNKNOWN, 0⟩) ∧
      r.sent = [UartFrame.MeshMessageRequest1
        ([1, 0] ++ cmd ++ [0x05] ++ [r.state.ElState.toByte])] :=
  EltFunctionalTestStart_spec
    ⟨1, EmgLightingState_T.EMG_LIGHTING_STATE_NORMAL, 0, 10000, 0, 0,
      EmgLightingTestTestExecutionStatus.EMG_LIGHTING_TEST_STATUS_FINISHED,
      EmgLightingTestTestExecutionStatus.EMG_LIGHTING_TEST_STATUS_UNKNOWN, 0⟩
    ⟨1, 0, 0xE93601, 3⟩ 5000 (by decide)

/-- The completion check on a running functional test: past 1000 ms the state returns to
NORMAL with status FINISHED, otherwise nothing changes. -/
theorem SimulateEltTest_functional (s : EmgLTestState) (now : Nat)
    (hs : s.ElState = EmgLightingState_T.EMG_LIGHTING_STATE_FUNCTIONAL_TEST_IN_PROGRESS) :
    SimulateEltTest s now =
      if Timestamp_GetTimeElapsed s.ELTFunctionalTestTimeStartMs now > 1000 then
        { s with
          ELTFunctionalTestStatus :=
            EmgLightingTestTestExecutionStatus.EMG_LIGHTING_TEST_STATUS_FINISHED
          ElState := EmgLightingState_T.EMG_LIGHTING_STATE_NORMAL }
      else s := by
  unfold SimulateEltTest
  simp only [hs, if_true, ELT_FUNCTIONAL_TEST_TIME_MS]

/-- The completion check on a running duration test: past 60000 ms the state returns to
NORMAL with status FINISHED, otherwise nothing changes. -/
theorem SimulateEltTest_duration (s : EmgLTestState) (now : Nat)
    (hs : s.ElState = EmgLightingState_T.EMG_LIGHTING_STATE_DURATION_TEST_IN_PROGRESS) :
    SimulateEltTest s now =
      if Timestamp_GetTimeElapsed s.ELTDurationTestTimeStartMs now > 60000 then
        { s with
          ELTDurationTestStatus :=
            EmgLightingTestTestExecutionStatus.EMG_LIGHTING_TEST_STATUS_FINISHED
          ElState := EmgLightingState_T.EMG_LIGHTING_STATE_NORMAL }
      else s := by
  unfold SimulateEltTest
  simp only [hs, reduceCtorEq, if_false, if_true, ELT_DURATION_TEST_TIME_MS]

/-- The query `ElStateGet` with an empty payload runs the completion check first: the state it
leaves is `SimulateEltTest s now`, and with the encoder switch reading HIGH the single frame it
sends carries the byte of that state. -/
theorem ElStateGet_runs_check (s : EmgLTestState) (h : Mesh_MeshMessageRequest1Cmd_T)
    (now : Nat) (sw_first sw_second : Bool) (hsize : h.mesh_cmd_size ≠ 0) :
    ∃ (r : HandlerResult) (cmd : List Nat) (resp_state : EmgLightingState_T),
      ElStateGet s h [] now sw_first sw_second = some r ∧
      r.state = SimulateEltTest s now ∧ r.header = h ∧
      r.sent = [UartFrame.MeshMessageRequest1
        ([h.instance_index, h.instance_subindex] ++ cmd ++ [0x05] ++ [resp_state.toByte])] ∧
      (sw_first = true → sw_second = true → resp_state = (SimulateEltTest s now).ElState) := by
  unfold ElStateGet
  simp only [List.length_nil, ne_eq, not_true_eq_false, if_false]
  generalize hrs : (if sw_first = false ∧ (SimulateEltTest s now).ElState =
      EmgLightingState_T.EMG_LIGHTING_STATE_REST then EmgLightingState_T.EMG_LIGHTING_STATE_REST
    else if sw_second = false then EmgLightingState_T.EMG_LIGHTING_STATE_EMERGENCY
    else (SimulateEltTest s now).ElState) = resp_state
  obtain ⟨cmd, hcmd⟩ := sendResponse_defined (SimulateEltTest s now) h
    EMG_LIGHTING_SUBOPCODE_STATE_STATUS [resp_state.toByte] hsize
  refine ⟨_, cmd, resp_state, hcmd, rfl, rfl, rfl, ?_⟩
  intro h1 h2
  rw [← hrs]
  simp [h1, h2]

/-- C18: a functional test is started from NORMAL at time `t0` (`EltFunctionalTestStart`, empty
payload), then `ElStateGet` is issued at time `t`.  Both calls return.  If the wrap-around safe
elapsed time `t - t0` exceeds 1000 ms, the query leaves the stored state NORMAL and the
functional test status FINISHED; otherwise the state stays FUNCTIONAL_TEST_IN_PROGRESS and the
status UNKNOWN.  The check precedes the response: with the encoder switch reading HIGH the
frame sent carries the byte of the state the query leaves. -/
theorem ElStateGet_after_functional_start (s : EmgLTestState)
    (h h' : Mesh_MeshMessageRequest1Cmd_T) (t0 t : Nat) (sw_first sw_second : Bool)
    (hnormal : s.ElState = EmgLightingState_T.EMG_LIGHTING_STATE_NORMAL)
    (hsize : h.mesh_cmd_size ≠ 0) (hsize' : h'.mesh_cmd_size ≠ 0) :
    ∃ (r1 r2 : HandlerResult) (cmd : List Nat) (resp_state : EmgLightingState_T),
      EltFunctionalTestStart s h [] t0 = some r1 ∧
      r1.state.ElState = EmgLightingState_T.EMG_LIGHTING_STATE_FUNCTIONAL_TEST_IN_PROGRESS ∧
      ElStateGet r1.state h' [] t sw_first sw_second = some r2 ∧
      (if Timestamp_GetTimeElapsed t0 t > 1000 then
        r2.state.ElState = EmgLightingState_T.EMG_LIGHTING_STATE_NORMAL ∧
        r2.state.ELTFunctionalTestStatus =
          EmgLightingTestTestExecutionStatus.EMG_LIGHTING_TEST_STATUS_FINISHED
      else
        r2.state.ElState = EmgLightingState_T.EMG_LIGHTING_STATE_FUNCTIONAL_TEST_IN_PROGRESS ∧
        r2.state.ELTFunctionalTestStatus =
          EmgLightingTestTestExecutionStatus.EMG_LIGHTING_TEST_STATUS_UNKNOWN) ∧
      r2.sent = [UartFrame.MeshMessageRequest1
        ([h'.instance_index, h'.instance_subindex] ++ cmd ++ [0x05] ++ [resp_state.toByte])] ∧
      (sw_first = true → sw_second = true → resp_state = r2.state.ElState) := by
  obtain ⟨r1, -, hr1, hs1, -⟩ := EltFunctionalTestStart_core s h t0 hsize
  rw [if_pos hnormal] at hs1
  obtain ⟨r2, cmd, resp_state, hr2, hs2, -, hsent, hresp⟩ :=
    ElStateGet_runs_check r1.state h' t sw_first sw_second hsize'
  have hprog : r1.state.ElState =
      EmgLightingState_T.EMG_LIGHTING_STATE_FUNCTIONAL_TEST_IN_PROGRESS := by rw [hs1]
  have hs2raw := hs2
  rw [SimulateEltTest_functional _ _ hprog] at hs2
  have hstart : r1.state.ELTFunctionalTestTimeStartMs = t0 := by rw [hs1]
  have hstatus : r1.state.ELTFunctionalTestStatus =
      EmgLightingTestTestExecutionStatus.EMG_LIGHTING_TEST_STATUS_UNKNOWN := by rw [hs1]
  rw [hstart] at hs2
  refine ⟨r1, r2, cmd, resp_state, hr1, hprog, hr2, ?_, hsent, ?_⟩
  · by_cases hel : Timestamp_GetTimeElapsed t0 t > 1000
    · rw [if_pos hel] at hs2 ⊢
      rw [hs2]
      exact ⟨rfl, rfl⟩
    · rw [if_neg hel] at hs2 ⊢
      rw [hs2]
      exact ⟨hprog, hstatus⟩
  · intro h1 h2
    rw [hresp h1 h2, hs2raw]

theorem ElStateGet_after_functional_start_witness :
    ∃ (r1 r2 : HandlerResult) (cmd : List Nat) (resp_state : EmgLightingState_T),
      EltFunctionalTestStart
          ⟨1, EmgLightingState_T.EMG_LIGHTING_STATE_NORMAL, 0, 10000, 0, 0,
            EmgLightingTestTestExecutionStatus.EMG_LIGHTING_TEST_STATUS_UNKNOWN,
            EmgLightingTestTestExecutionStatus.EMG_LIGHTING_TEST_STATUS_UNKNOWN, 0⟩
          ⟨1, 0, 0xE93601, 3⟩ [] 5000 = some r1 ∧
      r1.state.ElState = EmgLightingState_T.EMG_LIGHTING_STATE_FUNCTIONAL_TEST_IN_PROGRESS ∧
      ElStateGet r1.state ⟨1, 0, 0xEA3601, 3⟩ [] 6001 true true = some r2 ∧
      (if Timestamp_GetTimeElapsed 5000 6001 > 1000 then
        r2.state.ElState = EmgLightingState_T.EMG_LIGHTING_STATE_NORMAL ∧
        r2.state.ELTFunctionalTestStatus =
          EmgLightingTestTestExecutionStatus.EMG_LIGHTING_TEST_STATUS_FINISHED
      else
        r2.state.ElState = EmgLightingState_T.EMG_LIGHTING_STATE_FUNCTIONAL_TEST_IN_PROGRESS ∧
        r2.state.ELTFunctionalTestStatus =
          EmgLightingTestTestExecutionStatus.EMG_LIGHTING_TEST_STATUS_UNKNOWN) ∧
      r2.sent = [UartFrame.MeshMessageRequest1
        ([1, 0] ++ cmd ++ [0x05] ++ [resp_state.toByte])] ∧
      (true = true → true = true → resp_state = r2.state.ElState) :=
  ElStateGet_after_functional_start
    ⟨1, EmgLightingState_T.EMG_LIGHTING_STATE_NORMAL, 0, 10000, 0, 0,
      EmgLightingTestTestExecutionStatus.EMG_LIGHTING_TEST_STATUS_UNKNOWN,
      EmgLightingTestTestExecutionStatus.EMG_LIGHTING_TEST_STATUS_UNKNOWN, 0⟩
    ⟨1, 0, 0xE93601, 3⟩ ⟨1, 0, 0xEA3601, 3⟩ 5000 6001 true true rfl (by decide) (by decide)

/-- C19 (as stated, fails): a functional test accepted from NORMAL at time 0 leaves the state
FUNCTIONAL_TEST_IN_PROGRESS; an `EltFunctionalTestGet` issued afterwards (the handler does not
read the clock, so at any later time) reports status UNKNOWN (`0x07`) and leaves the state
FUNCTIONAL_TEST_IN_PROGRESS.  Likewise after a duration test accepted at time 0 (battery level
100) `EltDurationTestGet` reports UNKNOWN with test length `0xFFFF`, and
`ElLampOperationTimeGet` at time 70000 leaves the state DURATION_TEST_IN_PROGRESS. -/
theorem Elt_test_get_reports_stale_status :
    EltFunctionalTestStart
        ⟨1, EmgLightingState_T.EMG_LIGHTING_STATE_NORMAL, 0, 10000, 0, 0,
          EmgLightingTestTestExecutionStatus.EMG_LIGHTING_TEST_STATUS_UNKNOWN,
          EmgLightingTestTestExecutionStatus.EMG_LIGHTING_TEST_STATUS_UNKNOWN, 0⟩
        ⟨1, 0, 0xE93601, 3⟩ [] 0 =
      some ⟨⟨1, EmgLightingState_T.EMG_LIGHTING_STATE_FUNCTIONAL_TEST_IN_PROGRESS, 0, 10000, 0, 0,
              EmgLightingTestTestExecutionStatus.EMG_LIGHTING_TEST_STATUS_UNKNOWN,
              EmgLightingTestTestExecutionStatus.EMG_LIGHTING_TEST_STATUS_UNKNOWN, 0⟩,
            ⟨1, 0, 0xEA3601, 3⟩,
            [UartFrame.MeshMessageRequest1 [1, 0, 0xEA, 0x36, 0x01, 0x05, 0x0E]]⟩ ∧
    EltFunctionalTestGet
        ⟨1, EmgLightingState_T.EMG_LIGHTING_STATE_FUNCTIONAL_TEST_IN_PROGRESS, 0, 10000, 0, 0,
          EmgLightingTestTestExecutionStatus.EMG_LIGHTING_TEST_STATUS_UNKNOWN,
          EmgLightingTestTestExecutionStatus.EMG_LIGHTING_TEST_STATUS_UNKNOWN, 0⟩
        ⟨1, 0, 0xE93601, 3⟩ [] =
      some ⟨⟨1, EmgLightingState_T.EMG_LIGHTING_STATE_FUNCTIONAL_TEST_IN_PROGRESS, 0, 10000, 0, 0,
              EmgLightingTestTestExecutionStatus.EMG_LIGHTING_TEST_STATUS_UNKNOWN,
              EmgLightingTestTestExecutionStatus.EMG_LIGHTING_TEST_STATUS_UNKNOWN, 0⟩,
            ⟨1, 0, 0xE93601, 3⟩,
            [UartFrame.MeshMessageRequest1 [1, 0, 0xE9, 0x36, 0x01, 0x03, 0x07, 0]]⟩ ∧
    EltDurationTestStart ⟨0xFF, true, 100, 1, 2, 4, 8, 16, 32, 0xFFFFFF, 0xFFFFFF⟩
        ⟨1, EmgLightingState_T.EMG_LIGHTING_STATE_NORMAL, 0, 10000, 0, 0,
          EmgLightingTestTestExecutionStatus.EMG_LIGHTING_TEST_STATUS_UNKNOWN,
          EmgLightingTestTestExecutionStatus.EMG_LIGHTING_TEST_STATUS_UNKNOWN, 0⟩
        ⟨1, 0, 0xE93601, 3⟩ [] 0 0 =
      some ⟨⟨1, EmgLightingState_T.EMG_LIGHTING_STATE_DURATION_TEST_IN_PROGRESS, 0, 10000, 0, 0,
              EmgLightingTestTestExecutionStatus.EMG_LIGHTING_TEST_STATUS_UNKNOWN,
              EmgLightingTestTestExecutionStatus.EMG_LIGHTING_TEST_STATUS_UNKNOWN, 0⟩,
            ⟨1, 0, 0xEA3601, 3⟩,
            [UartFrame.MeshMessageRequest1 [1, 0, 0xEA, 0x36, 0x01, 0x05, 0x0C]]⟩ ∧
    EltDurationTestGet
        ⟨1, EmgLightingState_T.EMG_LIGHTING_STATE_DURATION_TEST_IN_PROGRESS, 0, 10000, 0, 0,
          EmgLightingTestTestExecutionStatus.EMG_LIGHTING_TEST_STATUS_UNKNOWN,
          EmgLightingTestTestExecutionStatus.EMG_LIGHTING_TEST_STATUS_UNKNOWN, 0⟩
        ⟨1, 0, 0xE93601, 3⟩ [] =
      some ⟨⟨1, EmgLightingState_T.EMG_LIGHTING_STATE_DURATION_TEST_IN_PROGRESS, 0, 10000, 0, 0,
              EmgLightingTestTestExecutionStatus.EMG_LIGHTING_TEST_STATUS_UNKNOWN,
              EmgLightingTestTestExecutionStatus.EMG_LIGHTING_TEST_STATUS_UNKNOWN, 0⟩,
            ⟨1, 0, 0xE93601, 3⟩,
            [UartFrame.MeshMessageRequest1 [1, 0, 0xE9, 0x36, 0x01, 0x07, 0x07, 0, 0xFF, 0xFF]]⟩ ∧
    (ElLampOperationTimeGet
        ⟨1, EmgLightingState_T.EMG_LIGHTING_STATE_DURATION_TEST_IN_PROGRESS, 0, 10000, 0, 0,
          EmgLightingTestTestExecutionStatus.EMG_LIGHTING_TEST_STATUS_UNKNOWN,
          EmgLightingTestTestExecutionStatus.EMG_LIGHTING_TEST_STATUS_UNKNOWN, 0⟩
        ⟨1, 0, 0xEA3601, 3⟩ [] 70000).map (fun r => r.state.ElState) =
      some EmgLightingState_T.EMG_LIGHTING_STATE_DURATION_TEST_IN_PROGRESS := by
  decide

/-- The query `EltFunctionalTestGet` with an empty payload leaves the module state and the
header unchanged and sends one FUNCTIONAL_TEST_STATUS (`0x03`) frame with the stored status
byte and a zero result byte. -/
theorem EltFunctionalTestGet_reports_stored (s : EmgLTestState)
    (h : Mesh_MeshMessageRequest1Cmd_T) (hsize : h.mesh_cmd_size ≠ 0) :
    ∃ cmd : List Nat, EltFunctionalTestGet s h [] =
      some { state := s, header := h,
             sent := [UartFrame.MeshMessageRequest1
               ([h.instance_index, h.instance_subindex] ++ cmd ++ [0x03] ++
                 [s.ELTFunctionalTestStatus.toByte, 0])] } := by
  unfold EltFunctionalTestGet
  simp only [List.length_nil, ne_eq, not_true_eq_false, if_false]
  exact sendResponse_defined s h EMG_LIGHTING_TEST_SUBOPCODE_FUNCTIONAL_TEST_STATUS _ hsize

/-- The query `EltDurationTestGet` with an empty payload leaves the module state and the header
unchanged and sends one DURATION_TEST_STATUS (`0x07`) frame with the stored status byte, a zero
result byte and the test length (60 when the stored status is FINISHED, else `0xFFFF`). -/
theorem EltDurationTestGet_reports_stored (s : EmgLTestState)
    (h : Mesh_MeshMessageRequest1Cmd_T) (hsize : h.mesh_cmd_size ≠ 0) :
    ∃ cmd : List Nat, EltDurationTestGet s h [] =
      some { state := s, header := h,
             sent := [UartFrame.MeshMessageRequest1
               ([h.instance_index, h.instance_subindex] ++ cmd ++ [0x07] ++
                 ([s.ELTDurationTestStatus.toByte, 0] ++
                   bytesLE16 (if s.ELTDurationTestStatus =
                       EmgLightingTestTestExecutionStatus.EMG_LIGHTING_TEST_STATUS_FINISHED
                     then 60 else 0xFFFF)))] } := by
  unfold EltDurationTestGet
  simp only [List.length_nil, ne_eq, not_true_eq_false, if_false]
  exact sendResponse_defined s h EMG_LIGHTING_TEST_SUBOPCODE_DURATION_TEST_STATUS _ hsize

/-- The query `ElLampOperationTimeGet` with an empty payload leaves the module state and the
header unchanged and sends one frame. -/
theorem ElLampOperationTimeGet_keeps_state (s : EmgLTestState)
    (h : Mesh_MeshMessageRequest1Cmd_T) (now : Nat) (hsize : h.mesh_cmd_size ≠ 0) :
    ∃ frame : UartFrame, ElLampOperationTimeGet s h [] now =
      some { state := s, header := h, sent := [frame] } := by
  unfold ElLampOperationTimeGet
  simp only [List.length_nil, ne_eq, not_true_eq_false, if_false]
  obtain ⟨cmd, hcmd⟩ := sendResponse_defined s h
    EMG_LIGHTING_SUBOPCODE_LAMP_OPERATION_TIME_STATUS
    (bytesLE32 (Timestamp_GetTimeElapsed s.ElTotalOperationTimeOffsetMs now / 1000) ++
      bytesLE32 (s.ElEmergencyTimeMs / 1000)) hsize
  exact ⟨_, hcmd⟩

/-- C19 (amended): of the Get-type queries only `ElStateGet` runs the test auto-completion
check before composing its response.  With an empty payload (header with
`mesh_cmd_size ≠ 0`): `ElStateGet` leaves the state `SimulateEltTest s now`;
`EltFunctionalTestGet`, `EltDurationTestGet` and `ElLampOperationTimeGet` leave the module
state unchanged, the first two reporting the stored status.  So when a functional test is in
progress and more than 1000 ms have elapsed since its start, `ElStateGet` leaves state NORMAL
and an `EltFunctionalTestGet` issued after it reports FINISHED (`0x00`) with the state still
NORMAL; when a duration test is in progress and more than 60000 ms have elapsed,
`ElStateGet` leaves state NORMAL and an `EltDurationTestGet` issued after it reports FINISHED
with test length 60. -/
theorem Get_queries_completion (s : EmgLTestState) (h : Mesh_MeshMessageRequest1Cmd_T)
    (now : Nat) (sw_first sw_second : Bool) (hsize : h.mesh_cmd_size ≠ 0) :
    (∃ r : HandlerResult, ElStateGet s h [] now sw_first sw_second = some r ∧
        r.state = SimulateEltTest s now) ∧
    (∃ cmd : List Nat, EltFunctionalTestGet s h [] =
        some { state := s, header := h,
               sent := [UartFrame.MeshMessageRequest1
                 ([h.instance_index, h.instance_subindex] ++ cmd ++ [0x03] ++
                   [s.ELTFunctionalTestStatus.toByte, 0])] }) ∧
    (∃ cmd : List Nat, EltDurationTestGet s h [] =
        some { state := s, header := h,
               sent := [UartFrame.MeshMessageRequest1
                 ([h.instance_index, h.instance_subindex] ++ cmd ++ [0x07] ++
                   ([s.ELTDurationTestStatus.toByte, 0] ++
                     bytesLE16 (if s.ELTDurationTestStatus =
                         EmgLightingTestTestExecutionStatus.EMG_LIGHTING_TEST_STATUS_FINISHED
                       then 60 else 0xFFFF)))] }) ∧
    (∃ frame : UartFrame, ElLampOperationTimeGet s h [] now =
        some { state := s, header := h, sent := [frame] }) ∧
    (s.ElState = EmgLightingState_T.EMG_LIGHTING_STATE_FUNCTIONAL_TEST_IN_PROGRESS →
      Timestamp_GetTimeElapsed s.ELTFunctionalTestTimeStartMs now > 1000 →
      ∃ (r r' : HandlerResult) (cmd : List Nat),
        ElStateGet s h [] now sw_first sw_second = some r ∧
        r.state.ElState = EmgLightingState_T.EMG_LIGHTING_STATE_NORMAL ∧
        EltFunctionalTestGet r.state h [] = some r' ∧
        r'.state.ElState = EmgLightingState_T.EMG_LIGHTING_STATE_NORMAL ∧
        r'.sent = [UartFrame.MeshMessageRequest1
          ([h.instance_index, h.instance_subindex] ++ cmd ++ [0x03] ++ [0x00, 0])]) ∧
    (s.ElState = EmgLightingState_T.EMG_LIGHTING_STATE_DURATION_TEST_IN_PROGRESS →
      Timestamp_GetTimeElapsed s.ELTDurationTestTimeStartMs now > 60000 →
      ∃ (r r' : HandlerResult) (cmd : List Nat),
        ElStateGet s h [] now sw_first sw_second = some r ∧
        r.state.ElState = EmgLightingState_T.EMG_LIGHTING_STATE_NORMAL ∧
        EltDurationTestGet r.state h [] = some r' ∧
        r'.state.ElState = EmgLightingState_T.EMG_LIGHTING_STATE_NORMAL ∧
        r'.sent = [UartFrame.MeshMessageRequest1
          ([h.instance_index, h.instance_subindex] ++ cmd ++ [0x07] ++ [0x00, 0, 60, 0])]) := by
  obtain ⟨r, -, -, hr, hrs, -, -, -⟩ := ElStateGet_runs_check s h now sw_first sw_second hsize
  refine ⟨⟨r, hr, hrs⟩, EltFunctionalTestGet_reports_stored s h hsize,
    EltDurationTestGet_reports_stored s h hsize,
    ElLampOperationTimeGet_keeps_state s h now hsize, ?_, ?_⟩
  · intro hs hel
    have hsim := SimulateEltTest_functional s now hs
    rw [if_pos hel] at hsim
    rw [hsim] at hrs
    obtain ⟨cmd, hget⟩ := EltFunctionalTestGet_reports_stored r.state h hsize
    refine ⟨r, _, cmd, hr, by rw [hrs], hget, by rw [hrs], ?_⟩
    simp only [hrs]
    rfl
  · intro hs hel
    have hsim := SimulateEltTest_duration s now hs
    rw [if_pos hel] at hsim
    rw [hsim] at hrs
    obtain ⟨cmd, hget⟩ := EltDurationTestGet_reports_stored r.state h hsize
    refine ⟨r, _, cmd, hr, by rw [hrs], hget, by rw [hrs], ?_⟩
    simp only [hrs]
    rfl

theorem Get_queries_completion_witness :
    ∃ (r r' : HandlerResult) (cmd : List Nat),
      ElStateGet
          ⟨1, EmgLightingState_T.EMG_LIGHTING_STATE_FUNCTIONAL_TEST_IN_PROGRESS, 0, 10000, 0, 0,
            EmgLightingTestTestExecutionStatus.EMG_LIGHTING_TEST_STATUS_UNKNOWN,
            EmgLightingTestTestExecutionStatus.EMG_LIGHTING_TEST_STATUS_UNKNOWN, 0⟩
          ⟨1, 0, 0xEA3601, 3⟩ [] 5000 true true = some r ∧
      r.state.ElState = EmgLightingState_T.EMG_LIGHTING_STATE_NORMAL ∧
      EltFunctionalTestGet r.state ⟨1, 0, 0xEA3601, 3⟩ [] = some r' ∧
      r'.state.ElState = EmgLightingState_T.EMG_LIGHTING_STATE_NORMAL ∧
      r'.sent = [UartFrame.MeshMessageRequest1 ([1, 0] ++ cmd ++ [0x03] ++ [0x00, 0])] :=
  (Get_queries_completion
    ⟨1, EmgLightingState_T.EMG_LIGHTING_STATE_FUNCTIONAL_TEST_IN_PROGRESS, 0, 10000, 0, 0,
      EmgLightingTestTestExecutionStatus.EMG_LIGHTING_TEST_STATUS_UNKNOWN,
      EmgLightingTestTestExecutionStatus.EMG_LIGHTING_TEST_STATUS_UNKNOWN, 0⟩
    ⟨1, 0, 0xEA3601, 3⟩ 5000 true true (by decide)).2.2.2.2.1 rfl (by decide)

/-- C20 (as stated, fails): with a functional test in progress since time 0, a `LoopEmgLTest`
poll at time 5000 (more than 1000 ms later) takes a battery measurement reading 51 percent and
leaves the state FUNCTIONAL_TEST_IN_PROGRESS and the functional test status UNKNOWN; with a
duration test in progress since time 0, a poll at time 70000 (more than 60000 ms later)
leaves the state DURATION_TEST_IN_PROGRESS and the duration test status UNKNOWN. -/
theorem LoopEmgLTest_does_not_complete_test :
    SimulateBatteryLevel ⟨0xFF, true, 100, 1, 2, 4, 8, 16, 32, 0xFFFFFF, 0xFFFFFF⟩ 500 = 51 ∧
    Timestamp_GetTimeElapsed 0 5000 > ELT_FUNCTIONAL_TEST_TIME_MS ∧
    (LoopEmgLTest ⟨0xFF, true, 100, 1, 2, 4, 8, 16, 32, 0xFFFFFF, 0xFFFFFF⟩
        ⟨1, EmgLightingState_T.EMG_LIGHTING_STATE_FUNCTIONAL_TEST_IN_PROGRESS, 0, 10000, 0, 0,
          EmgLightingTestTestExecutionStatus.EMG_LIGHTING_TEST_STATUS_UNKNOWN,
          EmgLightingTestTestExecutionStatus.EMG_LIGHTING_TEST_STATUS_UNKNOWN, 0⟩
        5000 5000 500).1 =
      ⟨1, EmgLightingState_T.EMG_LIGHTING_STATE_FUNCTIONAL_TEST_IN_PROGRESS, 0, 10000, 0, 0,
        EmgLightingTestTestExecutionStatus.EMG_LIGHTING_TEST_STATUS_UNKNOWN,
        EmgLightingTestTestExecutionStatus.EMG_LIGHTING_TEST_STATUS_UNKNOWN, 5000⟩ ∧
    Timestamp_GetTimeElapsed 0 70000 > ELT_DURATION_TEST_TIME_MS ∧
    (LoopEmgLTest ⟨0xFF, true, 100, 1, 2, 4, 8, 16, 32, 0xFFFFFF, 0xFFFFFF⟩
        ⟨1, EmgLightingState_T.EMG_LIGHTING_STATE_DURATION_TEST_IN_PROGRESS, 0, 10000, 0, 0,
          EmgLightingTestTestExecutionStatus.EMG_LIGHTING_TEST_STATUS_UNKNOWN,
          EmgLightingTestTestExecutionStatus.EMG_LIGHTING_TEST_STATUS_UNKNOWN, 0⟩
        70000 70000 500).1 =
      ⟨1, EmgLightingState_T.EMG_LIGHTING_STATE_DURATION_TEST_IN_PROGRESS, 0, 10000, 0, 0,
        EmgLightingTestTestExecutionStatus.EMG_LIGHTING_TEST_STATUS_UNKNOWN,
        EmgLightingTestTestExecutionStatus.EMG_LIGHTING_TEST_STATUS_UNKNOWN, 70000⟩ := by
  decide

/-- C20 (amended): `LoopEmgLTest` does not run the test completion check.  Whenever it is
executed, a poll whose battery reading is nonzero changes, of the module state, at most
`last_measurement_timestamp` when the stored state is not BATTERY_DISCHARGED: a stored state
FUNCTIONAL_TEST_IN_PROGRESS or DURATION_TEST_IN_PROGRESS, both test statuses and both start
times stay as they are, however long after the start the poll runs. -/
theorem LoopEmgLTest_keeps_test_state (cfg : EmgConfig) (s : EmgLTestState)
    (now millis_now analog_reading : Nat)
    (hbat : SimulateBatteryLevel cfg analog_reading ≠ 0)
    (hs : s.ElState ≠ EmgLightingState_T.EMG_LIGHTING_STATE_BATTERY_DISCHARGED) :
    (LoopEmgLTest cfg s now millis_now analog_reading).1 = s ∨
      (LoopEmgLTest cfg s now millis_now analog_reading).1 =
        { s with last_measurement_timestamp := millis_now } := by
  unfold LoopEmgLTest
  split_ifs with h1 h2
  · exact Or.inl rfl
  · right
    simp only [hbat, hs, if_false]
  · exact Or.inl rfl

theorem LoopEmgLTest_keeps_test_state_witness :
    (LoopEmgLTest ⟨0xFF, true, 100, 1, 2, 4, 8, 16, 32, 0xFFFFFF, 0xFFFFFF⟩
        ⟨1, EmgLightingState_T.EMG_LIGHTING_STATE_DURATION_TEST_IN_PROGRESS, 0, 10000, 0, 0,
          EmgLightingTestTestExecutionStatus.EMG_LIGHTING_TEST_STATUS_UNKNOWN,
          EmgLightingTestTestExecutionStatus.EMG_LIGHTING_TEST_STATUS_UNKNOWN, 0⟩
        70000 70000 500).1 =
      ⟨1, EmgLightingState_T.EMG_LIGHTING_STATE_DURATION_TEST_IN_PROGRESS, 0, 10000, 0, 0,
        EmgLightingTestTestExecutionStatus.EMG_LIGHTING_TEST_STATUS_UNKNOWN,
        EmgLightingTestTestExecutionStatus.EMG_LIGHTING_TEST_STATUS_UNKNOWN, 0⟩ ∨
    (LoopEmgLTest ⟨0xFF, true, 100, 1, 2, 4, 8, 16, 32, 0xFFFFFF, 0xFFFFFF⟩
        ⟨1, EmgLightingState_T.EMG_LIGHTING_STATE_DURATION_TEST_IN_PROGRESS, 0, 10000, 0, 0,
          EmgLightingTestTestExecutionStatus.EMG_LIGHTING_TEST_STATUS_UNKNOWN,
          EmgLightingTestTestExecutionStatus.EMG_LIGHTING_TEST_STATUS_UNKNOWN, 0⟩
        70000 70000 500).1 =
      ⟨1, EmgLightingState_T.EMG_LIGHTING_STATE_DURATION_TEST_IN_PROGRESS, 0, 10000, 0, 0,
        EmgLightingTestTestExecutionStatus.EMG_LIGHTING_TEST_STATUS_UNKNOWN,
        EmgLightingTestTestExecutionStatus.EMG_LIGHTING_TEST_STATUS_UNKNOWN, 70000⟩ :=
  LoopEmgLTest_keeps_test_state ⟨0xFF, true, 100, 1, 2, 4, 8, 16, 32, 0xFFFFFF, 0xFFFFFF⟩
    ⟨1, EmgLightingState_T.EMG_LIGHTING_STATE_DURATION_TEST_IN_PROGRESS, 0, 10000, 0, 0,
      EmgLightingTestTestExecutionStatus.EMG_LIGHTING_TEST_STATUS_UNKNOWN,
      EmgLightingTestTestExecutionStatus.EMG_LIGHTING_TEST_STATUS_UNKNOWN, 0⟩
    70000 70000 500 (by decide) (by decide)

/-! ## Emergency lighting test: duration test, stop commands, dispatchers, framing -/

/-- What `EltDurationTestStart` does with an empty payload: enter the test from NORMAL with a
battery level of 100, change nothing otherwise, and send one STATE_STATUS frame with the
resulting state. -/
theorem EltDurationTestStart_core (cfg : EmgConfig) (s : EmgLTestState)
    (h : Mesh_MeshMessageRequest1Cmd_T) (now analog_reading : Nat)
    (hsize : h.mesh_cmd_size ≠ 0) :
    ∃ (r : HandlerResult) (cmd : List Nat),
      EltDurationTestStart cfg s h [] now analog_reading = some r ∧
      r.state =
        (if s.ElState = EmgLightingState_T.EMG_LIGHTING_STATE_NORMAL ∧
            SimulateBatteryLevel cfg analog_reading = 100 then
          { s with
            ElState := EmgLightingState_T.EMG_LIGHTING_STATE_DURATION_TEST_IN_PROGRESS
            ELTDurationTestTimeStartMs := now
            ELTDurationTestStatus :=
              EmgLightingTestTestExecutionStatus.EMG_LIGHTING_TEST_STATUS_UNKNOWN }
        else s) ∧
      r.sent = [UartFrame.MeshMessageRequest1
        ([h.instance_index, h.instance_subindex] ++ cmd ++ [0x05] ++ [r.state.ElState.toByte])] := by
  unfold EltDurationTestStart
  simp only [List.length_nil, ne_eq, not_true_eq_false, if_false]
  have hsize' : ({ h with mesh_cmd := EMG_LIGHTING_OPCODE } :
      Mesh_MeshMessageRequest1Cmd_T).mesh_cmd_size ≠ 0 := hsize
  generalize hs1 :
    (if s.ElState = EmgLightingState_T.EMG_LIGHTING_STATE_NORMAL ∧
        SimulateBatteryLevel cfg analog_reading = 100 then
      ({ s with
          ElState := EmgLightingState_T.EMG_LIGHTING_STATE_DURATION_TEST_IN_PROGRESS
          ELTDurationTestTimeStartMs := now
          ELTDurationTestStatus :=
            EmgLightingTestTestExecutionStatus.EMG_LIGHTING_TEST_STATUS_UNKNOWN } :
            EmgLTestState)
      else s) = s1
  obtain ⟨cmd, hcmd⟩ := sendResponse_defined s1 { h with mesh_cmd := EMG_LIGHTING_OPCODE }
    EMG_LIGHTING_SUBOPCODE_STATE_STATUS [s1.ElState.toByte] hsize'
  exact ⟨_, cmd, hcmd, rfl, rfl⟩

/-- C21: `EltDurationTestStart` with an empty payload (request header with
`mesh_cmd_size ≠ 0`) returns, and the stored state it leaves differs from the one it found
exactly when that one was NORMAL and `SimulateBatteryLevel` read 100.  In that case the state
is DURATION_TEST_IN_PROGRESS, the duration test start time is `now`, the duration test status
is UNKNOWN and nothing else changed; in every other case the whole module state (state, both
test statuses, both start times) is as before. -/
theorem EltDurationTestStart_spec (cfg : EmgConfig) (s : EmgLTestState)
    (h : Mesh_MeshMessageRequest1Cmd_T) (now analog_reading : Nat)
    (hsize : h.mesh_cmd_size ≠ 0) :
    ∃ r : HandlerResult,
      EltDurationTestStart cfg s h [] now analog_reading = some r ∧
      (r.state.ElState ≠ s.ElState ↔
        (s.ElState = EmgLightingState_T.EMG_LIGHTING_STATE_NORMAL ∧
          SimulateBatteryLevel cfg analog_reading = 100)) ∧
      (s.ElState = EmgLightingState_T.EMG_LIGHTING_STATE_NORMAL ∧
          SimulateBatteryLevel cfg analog_reading = 100 →
        r.state =
          { s with
            ElState := EmgLightingState_T.EMG_LIGHTING_STATE_DURATION_TEST_IN_PROGRESS
            ELTDurationTestTimeStartMs := now
            ELTDurationTestStatus :=
              EmgLightingTestTestExecutionStatus.EMG_LIGHTING_TEST_STATUS_UNKNOWN }) ∧
      (¬ (s.ElState = EmgLightingState_T.EMG_LIGHTING_STATE_NORMAL ∧
          SimulateBatteryLevel cfg analog_reading = 100) → r.state = s) := by
  obtain ⟨r, cmd, hr, hstate, -⟩ := EltDurationTestStart_core cfg s h now analog_reading hsize
  refine ⟨r, hr, ?_, ?_, ?_⟩
  · by_cases hc : s.ElState = EmgLightingState_T.EMG_LIGHTING_STATE_NORMAL ∧
        SimulateBatteryLevel cfg analog_reading = 100
    · rw [hstate, if_pos hc]
      simp only [hc, and_self, iff_true, ne_eq]
      decide
    · rw [hstate, if_neg hc]
      simp only [hc, iff_false, ne_eq, not_not]
  · intro hc
    rw [hstate, if_pos hc]
  · intro hc
    rw [hstate, if_neg hc]

theorem EltDurationTestStart_spec_witness :
    (⟨1, 0, 0xE93601, 3⟩ : Mesh_MeshMessageRequest1Cmd_T).mesh_cmd_size ≠ 0 ∧
    ∃ r : HandlerResult,
      EltDurationTestStart ⟨255, true, 100, 1, 2, 4, 8, 16, 32, 0xFFFFFF, 0xFFFFFF⟩
          ⟨1, EmgLightingState_T.EMG_LIGHTING_STATE_NORMAL, 0, 10000, 0, 0,
            EmgLightingTestTestExecutionStatus.EMG_LIGHTING_TEST_STATUS_UNKNOWN,
            EmgLightingTestTestExecutionStatus.EMG_LIGHTING_TEST_STATUS_FINISHED, 0⟩
          ⟨1, 0, 0xE93601, 3⟩ [] 5000 0 = some r ∧
      r.state.ElState = EmgLightingState_T.EMG_LIGHTING_STATE_DURATION_TEST_IN_PROGRESS ∧
      r.state.ELTDurationTestTimeStartMs = 5000 ∧
      r.state.ELTDurationTestStatus =
        EmgLightingTestTestExecutionStatus.EMG_LIGHTING_TEST_STATUS_UNKNOWN := by
  refine ⟨by decide, ?_⟩
  obtain ⟨r, hr, -, hyes, -⟩ := EltDurationTestStart_spec
    ⟨255, true, 100, 1, 2, 4, 8, 16, 32, 0xFFFFFF, 0xFFFFFF⟩
    ⟨1, EmgLightingState_T.EMG_LIGHTING_STATE_NORMAL, 0, 10000, 0, 0,
      EmgLightingTestTestExecutionStatus.EMG_LIGHTING_TEST_STATUS_UNKNOWN,
      EmgLightingTestTestExecutionStatus.EMG_LIGHTING_TEST_STATUS_FINISHED, 0⟩
    ⟨1, 0, 0xE93601, 3⟩ 5000 0 (by decide)
  refine ⟨r, hr, ?_⟩
  rw [hyes (by decide)]
  exact ⟨rfl, rfl, rfl⟩

/-- C22: an accepted duration test start (stored state NORMAL, battery level 100, empty
payload, header with `mesh_cmd_size ≠ 0`) at time `now`, followed by the completion check
`SimulateEltTest` at a time more than 60000 ms later, leaves the stored state NORMAL and the
duration test status FINISHED, and `EltDurationTestGet` then reports status FINISHED (`0x00`),
a zero result byte and test length 60.  For every module state `q`, `EltDurationTestGet`
leaves the state unchanged and sends one DURATION_TEST_STATUS frame whose payload is the status
byte, the result byte 0 (four fault flags and `rfu`) and the little-endian test length: 60 if
the status is FINISHED, else `0xFFFF`. -/
theorem EltDurationTest_result (cfg : EmgConfig) (s q : EmgLTestState)
    (h : Mesh_MeshMessageRequest1Cmd_T) (now analog_reading check_time : Nat)
    (hsize : h.mesh_cmd_size ≠ 0)
    (hnormal : s.ElState = EmgLightingState_T.EMG_LIGHTING_STATE_NORMAL)
    (hbattery : SimulateBatteryLevel cfg analog_reading = 100)
    (hlate : Timestamp_GetTimeElapsed now check_time > 60000) :
    (∃ r : HandlerResult,
      EltDurationTestStart cfg s h [] now analog_reading = some r ∧
      (SimulateEltTest r.state check_time).ElState =
        EmgLightingState_T.EMG_LIGHTING_STATE_NORMAL ∧
      (SimulateEltTest r.state check_time).ELTDurationTestStatus =
        EmgLightingTestTestExecutionStatus.EMG_LIGHTING_TEST_STATUS_FINISHED ∧
      ∃ cmd : List Nat, EltDurationTestGet (SimulateEltTest r.state check_time) h [] =
        some { state := SimulateEltTest r.state check_time, header := h,
               sent := [UartFrame.MeshMessageRequest1
                 ([h.instance_index, h.instance_subindex] ++ cmd ++ [0x07] ++
                   [0x00, 0, 60, 0])] }) ∧
    (∃ cmd : List Nat, EltDurationTestGet q h [] =
      some { state := q, header := h,
             sent := [UartFrame.MeshMessageRequest1
               ([h.instance_index, h.instance_subindex] ++ cmd ++ [0x07] ++
                 ([q.ELTDurationTestStatus.toByte, 0] ++
                   (if q.ELTDurationTestStatus =
                       EmgLightingTestTestExecutionStatus.EMG_LIGHTING_TEST_STATUS_FINISHED
                     then [60, 0] else [0xFF, 0xFF])))] }) := by
  constructor
  · obtain ⟨r, cmd, hr, hstate, -⟩ :=
      EltDurationTestStart_core cfg s h now analog_reading hsize
    rw [if_pos ⟨hnormal, hbattery⟩] at hstate
    have hrun : r.state.ElState =
        EmgLightingState_T.EMG_LIGHTING_STATE_DURATION_TEST_IN_PROGRESS := by rw [hstate]
    have hstart : r.state.ELTDurationTestTimeStartMs = now := by rw [hstate]
    have hsim := SimulateEltTest_duration r.state check_time hrun
    rw [hstart, if_pos hlate] at hsim
    have hfin : (SimulateEltTest r.state check_time).ELTDurationTestStatus =
        EmgLightingTestTestExecutionStatus.EMG_LIGHTING_TEST_STATUS_FINISHED := by rw [hsim]
    refine ⟨r, hr, by rw [hsim], hfin, ?_⟩
    obtain ⟨cmd2, hget⟩ := EltDurationTestGet_reports_stored (SimulateEltTest r.state check_time)
      h hsize
    refine ⟨cmd2, ?_⟩
    rw [hget, hfin]
    rfl
  · obtain ⟨cmd, hget⟩ := EltDurationTestGet_reports_stored q h hsize
    refine ⟨cmd, ?_⟩
    rw [hget]
    by_cases hf : q.ELTDurationTestStatus =
        EmgLightingTestTestExecutionStatus.EMG_LIGHTING_TEST_STATUS_FINISHED
    · rw [if_pos hf, if_pos hf]; rfl
    · rw [if_neg hf, if_neg hf]; rfl

theorem EltDurationTest_result_witness :
    Timestamp_GetTimeElapsed 5000 65001 > 60000 ∧
    ∃ r : HandlerResult,
      EltDurationTestStart ⟨255, true, 100, 1, 2, 4, 8, 16, 32, 0xFFFFFF, 0xFFFFFF⟩
          ⟨1, EmgLightingState_T.EMG_LIGHTING_STATE_NORMAL, 0, 10000, 0, 0,
            EmgLightingTestTestExecutionStatus.EMG_LIGHTING_TEST_STATUS_UNKNOWN,
            EmgLightingTestTestExecutionStatus.EMG_LIGHTING_TEST_STATUS_UNKNOWN, 0⟩
          ⟨1, 0, 0xE93601, 3⟩ [] 5000 0 = some r ∧
      (SimulateEltTest r.state 65001).ElState =
        EmgLightingState_T.EMG_LIGHTING_STATE_NORMAL ∧
      (SimulateEltTest r.state 65001).ELTDurationTestStatus =
        EmgLightingTestTestExecutionStatus.EMG_LIGHTING_TEST_STATUS_FINISHED := by
  refine ⟨by decide, ?_⟩
  obtain ⟨⟨r, hr, h1, h2, -⟩, -⟩ := EltDurationTest_result
    ⟨255, true, 100, 1, 2, 4, 8, 16, 32, 0xFFFFFF, 0xFFFFFF⟩
    ⟨1, EmgLightingState_T.EMG_LIGHTING_STATE_NORMAL, 0, 10000, 0, 0,
      EmgLightingTestTestExecutionStatus.EMG_LIGHTING_TEST_STATUS_UNKNOWN,
      EmgLightingTestTestExecutionStatus.EMG_LIGHTING_TEST_STATUS_UNKNOWN, 0⟩
    ⟨1, EmgLightingState_T.EMG_LIGHTING_STATE_NORMAL, 0, 10000, 0, 0,
      EmgLightingTestTestExecutionStatus.EMG_LIGHTING_TEST_STATUS_UNKNOWN,
      EmgLightingTestTestExecutionStatus.EMG_LIGHTING_TEST_STATUS_UNKNOWN, 0⟩
    ⟨1, 0, 0xE93601, 3⟩ 5000 0 65001 (by decide) rfl (by decide) (by decide)
  exact ⟨r, hr, h1, h2⟩

/-- C23: with an empty payload (request header with `mesh_cmd_size ≠ 0`), from every module
state, `EltFunctionalTestStop` sets the stored state to NORMAL and the functional test status
to UNKNOWN and leaves everything else (the duration test status included) as it was, and
`EltDurationTestStop` sets the stored state to NORMAL and the duration test status to UNKNOWN
and leaves everything else (the functional test status included) as it was.  Each sends
exactly one frame: index bytes, opcode bytes, the subopcode STATE_STATUS (`0x05`) and the byte
of NORMAL (`0x03`). -/
theorem EltTestStop_spec (s : EmgLTestState) (h : Mesh_MeshMessageRequest1Cmd_T)
    (hsize : h.mesh_cmd_size ≠ 0) :
    (∃ cmd : List Nat, EltFunctionalTestStop s h [] =
      some { state :=
               { s with
                 ElState := EmgLightingState_T.EMG_LIGHTING_STATE_NORMAL
                 ELTFunctionalTestStatus :=
                   EmgLightingTestTestExecutionStatus.EMG_LIGHTING_TEST_STATUS_UNKNOWN }
             header := { h with mesh_cmd := EMG_LIGHTING_OPCODE }
             sent := [UartFrame.MeshMessageRequest1
               ([h.instance_index, h.instance_subindex] ++ cmd ++ [0x05] ++ [0x03])] }) ∧
    (∃ cmd : List Nat, EltDurationTestStop s h [] =
      some { state :=
               { s with
                 ElState := EmgLightingState_T.EMG_LIGHTING_STATE_NORMAL
                 ELTDurationTestStatus :=
                   EmgLightingTestTestExecutionStatus.EMG_LIGHTING_TEST_STATUS_UNKNOWN }
             header := { h with mesh_cmd := EMG_LIGHTING_OPCODE }
             sent := [UartFrame.MeshMessageRequest1
               ([h.instance_index, h.instance_subindex] ++ cmd ++ [0x05] ++ [0x03])] }) := by
  have hsize' : ({ h with mesh_cmd := EMG_LIGHTING_OPCODE } :
      Mesh_MeshMessageRequest1Cmd_T).mesh_cmd_size ≠ 0 := hsize
  constructor
  · unfold EltFunctionalTestStop
    simp only [List.length_nil, ne_eq, not_true_eq_false, if_false]
    exact sendResponse_defined _ { h with mesh_cmd := EMG_LIGHTING_OPCODE }
      EMG_LIGHTING_SUBOPCODE_STATE_STATUS _ hsize'
  · unfold EltDurationTestStop
    simp only [List.length_nil, ne_eq, not_true_eq_false, if_false]
    exact sendResponse_defined _ { h with mesh_cmd := EMG_LIGHTING_OPCODE }
      EMG_LIGHTING_SUBOPCODE_STATE_STATUS _ hsize'

theorem EltTestStop_spec_witness :
    (⟨1, 0, 0xE93601, 3⟩ : Mesh_MeshMessageRequest1Cmd_T).mesh_cmd_size ≠ 0 ∧
    (∃ cmd : List Nat, EltFunctionalTestStop
        ⟨1, EmgLightingState_T.EMG_LIGHTING_STATE_DURATION_TEST_IN_PROGRESS, 0, 10000, 0, 700,
          EmgLightingTestTestExecutionStatus.EMG_LIGHTING_TEST_STATUS_FINISHED,
          EmgLightingTestTestExecutionStatus.EMG_LIGHTING_TEST_STATUS_FINISHED, 0⟩
        ⟨1, 0, 0xE93601, 3⟩ [] =
      some { state :=
               ⟨1, EmgLightingState_T.EMG_LIGHTING_STATE_NORMAL, 0, 10000, 0, 700,
                 EmgLightingTestTestExecutionStatus.EMG_LIGHTING_TEST_STATUS_UNKNOWN,
                 EmgLightingTestTestExecutionStatus.EMG_LIGHTING_TEST_STATUS_FINISHED, 0⟩
             header := ⟨1, 0, EMG_LIGHTING_OPCODE, 3⟩
             sent := [UartFrame.MeshMessageRequest1 ([1, 0] ++ cmd ++ [0x05] ++ [0x03])] }) :=
  ⟨by decide,
    (EltTestStop_spec
      ⟨1, EmgLightingState_T.EMG_LIGHTING_STATE_DURATION_TEST_IN_PROGRESS, 0, 10000, 0, 700,
        EmgLightingTestTestExecutionStatus.EMG_LIGHTING_TEST_STATUS_FINISHED,
        EmgLightingTestTestExecutionStatus.EMG_LIGHTING_TEST_STATUS_FINISHED, 0⟩
      ⟨1, 0, 0xE93601, 3⟩ (by decide)).1⟩

/-- C24: `LoopEmgLTest` with the instance index known, the module enabled and a measurement
due (more than 60000 ms since the last one, or none recorded yet) takes one battery reading
and sends one battery status frame; the stored state becomes BATTERY_DISCHARGED when the level
is 0, whatever it was, and otherwise becomes NORMAL if it was BATTERY_DISCHARGED and stays as
it was if not.  With the instance index equal to `INSTANCE_INDEX_UNKNOWN` the call returns the
module state unchanged and sends nothing. -/
theorem LoopEmgLTest_measurement (cfg : EmgConfig) (s : EmgLTestState)
    (now millis_now analog_reading : Nat) :
    (s.InstanceIndex ≠ cfg.INSTANCE_INDEX_UNKNOWN → cfg.ENABLE_EMG_L_TEST = true →
      (Timestamp_GetTimeElapsed s.last_measurement_timestamp now > 60000 ∨
        s.last_measurement_timestamp = 0) →
      (LoopEmgLTest cfg s now millis_now analog_reading).1 =
        { s with
          last_measurement_timestamp := millis_now
          ElState :=
            if SimulateBatteryLevel cfg analog_reading = 0 then
              EmgLightingState_T.EMG_LIGHTING_STATE_BATTERY_DISCHARGED
            else if s.ElState = EmgLightingState_T.EMG_LIGHTING_STATE_BATTERY_DISCHARGED then
              EmgLightingState_T.EMG_LIGHTING_STATE_NORMAL
            else s.ElState } ∧
      (LoopEmgLTest cfg s now millis_now analog_reading).2 =
        [UpdateBatteryStatus cfg (LoopEmgLTest cfg s now millis_now analog_reading).1
          (SimulateBatteryLevel cfg analog_reading)]) ∧
    (s.InstanceIndex = cfg.INSTANCE_INDEX_UNKNOWN →
      LoopEmgLTest cfg s now millis_now analog_reading = (s, [])) := by
  constructor
  · intro hidx hen hdue
    unfold LoopEmgLTest
    have hdue' : Timestamp_GetTimeElapsed s.last_measurement_timestamp now >
        EMG_BATTERY_MEASUREMENT_PERIOD_MS ∨ s.last_measurement_timestamp = 0 := hdue
    simp only [hidx, hen, Bool.true_eq_false, or_self, if_false, hdue', if_true]
    by_cases h0 : SimulateBatteryLevel cfg analog_reading = 0
    · simp only [h0, if_true, and_self]
    · by_cases hd : s.ElState = EmgLightingState_T.EMG_LIGHTING_STATE_BATTERY_DISCHARGED
      · simp only [h0, hd, if_false, if_true, and_self]
      · simp only [h0, hd, if_false, and_true]
  · intro hidx
    unfold LoopEmgLTest
    simp only [hidx, true_or, if_true]

theorem LoopEmgLTest_measurement_witness :
    (LoopEmgLTest ⟨255, true, 100, 1, 2, 4, 8, 16, 32, 0xFFFFFF, 0xFFFFFF⟩
        ⟨1, EmgLightingState_T.EMG_LIGHTING_STATE_REST, 0, 10000, 0, 0,
          EmgLightingTestTestExecutionStatus.EMG_LIGHTING_TEST_STATUS_UNKNOWN,
          EmgLightingTestTestExecutionStatus.EMG_LIGHTING_TEST_STATUS_UNKNOWN, 0⟩
        5000 5000 1023).1.ElState =
      EmgLightingState_T.EMG_LIGHTING_STATE_BATTERY_DISCHARGED ∧
    LoopEmgLTest ⟨255, true, 100, 1, 2, 4, 8, 16, 32, 0xFFFFFF, 0xFFFFFF⟩
        ⟨255, EmgLightingState_T.EMG_LIGHTING_STATE_REST, 0, 10000, 0, 0,
          EmgLightingTestTestExecutionStatus.EMG_LIGHTING_TEST_STATUS_UNKNOWN,
          EmgLightingTestTestExecutionStatus.EMG_LIGHTING_TEST_STATUS_UNKNOWN, 0⟩
        5000 5000 1023 =
      (⟨255, EmgLightingState_T.EMG_LIGHTING_STATE_REST, 0, 10000, 0, 0,
          EmgLightingTestTestExecutionStatus.EMG_LIGHTING_TEST_STATUS_UNKNOWN,
          EmgLightingTestTestExecutionStatus.EMG_LIGHTING_TEST_STATUS_UNKNOWN, 0⟩, []) := by
  constructor
  · rw [((LoopEmgLTest_measurement ⟨255, true, 100, 1, 2, 4, 8, 16, 32, 0xFFFFFF, 0xFFFFFF⟩
        ⟨1, EmgLightingState_T.EMG_LIGHTING_STATE_REST, 0, 10000, 0, 0,
          EmgLightingTestTestExecutionStatus.EMG_LIGHTING_TEST_STATUS_UNKNOWN,
          EmgLightingTestTestExecutionStatus.EMG_LIGHTING_TEST_STATUS_UNKNOWN, 0⟩
        5000 5000 1023).1 (by decide) rfl (Or.inr rfl)).1]
    decide
  · exact (LoopEmgLTest_measurement ⟨255, true, 100, 1, 2, 4, 8, 16, 32, 0xFFFFFF, 0xFFFFFF⟩
        ⟨255, EmgLightingState_T.EMG_LIGHTING_STATE_REST, 0, 10000, 0, 0,
          EmgLightingTestTestExecutionStatus.EMG_LIGHTING_TEST_STATUS_UNKNOWN,
          EmgLightingTestTestExecutionStatus.EMG_LIGHTING_TEST_STATUS_UNKNOWN, 0⟩
        5000 5000 1023).2 rfl

/-- The result of a dispatcher that drops the message. -/
theorem DispatchResult.ofHandler_dropped (s : EmgLTestState)
    (h : Mesh_MeshMessageRequest1Cmd_T) :
    DispatchResult.ofHandler (some { state := s, header := h, sent := [] }) =
      some { state := s, header := some h, sent := [] } := rfl

/-- C25: both dispatchers drop malformed and unsupported messages.  For
`EmgLTest_LightElSrvProcessMessage`: a null payload, a null header, a length below 1, a
subopcode outside `0x00, 0x02, 0x04, 0x09, 0x0A, 0x0B, 0x0E, 0x10`, one of the subopcodes
`0x00, 0x02, 0x04, 0x0A, 0x0B, 0x0E, 0x10` (Inhibit Enter/Exit, State Get, Operation Time
Get/Clear, Rest Enter/Exit) followed by a non-empty payload, or `0x09` (Property Status)
followed by a payload whose length is not 4.  For `EmgLTest_LightElTestSrvProcessMessage`: a
null payload, a null header, a length below 1, a subopcode outside
`0x00, 0x01, 0x02, 0x04, 0x05, 0x06`, or one of these (Functional/Duration Test Get, Start,
Stop) followed by a non-empty payload.  In each case the dispatcher returns with the whole
module state (stored state, both test statuses, both test start times, both operation-time
counters) and the header unchanged and no frame sent. -/
theorem dispatchers_drop_malformed (cfg : EmgConfig) (s : EmgLTestState)
    (p_header : Option Mesh_MeshMessageRequest1Cmd_T) (p_payload : Option (List Nat))
    (now analog_reading : Nat) (sw_first sw_second : Bool) :
    ((p_payload = none ∨ p_header = none ∨ p_payload = some [] ∨
        (∃ (subopcode : Nat) (rest : List Nat), p_payload = some (subopcode :: rest) ∧
          (subopcode ∉ [0x00, 0x02, 0x04, 0x09, 0x0A, 0x0B, 0x0E, 0x10] ∨
            (subopcode ∈ [0x00, 0x02, 0x04, 0x0A, 0x0B, 0x0E, 0x10] ∧ rest.length ≠ 0) ∨
            (subopcode = 0x09 ∧ rest.length ≠ 4)))) →
      EmgLTest_LightElSrvProcessMessage s p_header p_payload now sw_first sw_second =
        some { state := s, header := p_header, sent := [] }) ∧
    ((p_payload = none ∨ p_header = none ∨ p_payload = some [] ∨
        (∃ (subopcode : Nat) (rest : List Nat), p_payload = some (subopcode :: rest) ∧
          (subopcode ∉ [0x00, 0x01, 0x02, 0x04, 0x05, 0x06] ∨
            (subopcode ∈ [0x00, 0x01, 0x02, 0x04, 0x05, 0x06] ∧ rest.length ≠ 0)))) →
      EmgLTest_LightElTestSrvProcessMessage cfg s p_header p_payload now analog_reading =
        some { state := s, header := p_header, sent := [] }) := by
  constructor
  · intro hbad
    cases p_payload with
    | none => rfl
    | some payload =>
      cases p_header with
      | none => cases payload <;> rfl
      | some h =>
        cases payload with
        | nil => rfl
        | cons subopcode rest =>
          rcases hbad with hbad | hbad | hbad | ⟨sub, rest2, heq, hbad⟩
          · exact absurd hbad (by simp)
          · exact absurd hbad (by simp)
          · exact absurd hbad (by simp)
          · simp only [Option.some.injEq, List.cons.injEq] at heq
            obtain ⟨rfl, rfl⟩ := heq
            rcases hbad with hunk | ⟨hknown, hlen⟩ | ⟨rfl, hlen⟩
            · simp only [List.mem_cons, List.mem_singleton, List.not_mem_nil, or_false,
                not_or] at hunk
              obtain ⟨h0, h2, h4, h9, hA, hB, hE, h10⟩ := hunk
              unfold EmgLTest_LightElSrvProcessMessage
              simp [EMG_LIGHTING_SUBOPCODE_INHIBIT_ENTER, EMG_LIGHTING_SUBOPCODE_INHIBIT_EXIT,
                EMG_LIGHTING_SUBOPCODE_STATE_GET, EMG_LIGHTING_SUBOPCODE_PROPERTY_STATUS,
                EMG_LIGHTING_SUBOPCODE_LAMP_OPERATION_TIME_GET,
                EMG_LIGHTING_SUBOPCODE_LAMP_OPERATION_TIME_CLEAR,
                EMG_LIGHTING_SUBOPCODE_REST_ENTER, EMG_LIGHTING_SUBOPCODE_REST_EXIT,
                h0, h2, h4, h9, hA, hB, hE, h10]
            · simp only [List.mem_cons, List.mem_singleton, List.not_mem_nil, or_false]
                at hknown
              unfold EmgLTest_LightElSrvProcessMessage
              rcases hknown with rfl | rfl | rfl | rfl | rfl | rfl | rfl <;>
                simp [EMG_LIGHTING_SUBOPCODE_INHIBIT_ENTER,
                  EMG_LIGHTING_SUBOPCODE_INHIBIT_EXIT,
                  EMG_LIGHTING_SUBOPCODE_STATE_GET, EMG_LIGHTING_SUBOPCODE_PROPERTY_STATUS,
                  EMG_LIGHTING_SUBOPCODE_LAMP_OPERATION_TIME_GET,
                  EMG_LIGHTING_SUBOPCODE_LAMP_OPERATION_TIME_CLEAR,
                  EMG_LIGHTING_SUBOPCODE_REST_ENTER, EMG_LIGHTING_SUBOPCODE_REST_EXIT,
                  ElInhibitEnter, ElInhibitExit, ElStateGet, ElLampOperationTimeGet,
                  ElLampOperationTimeClear, ElRestEnter, ElRestExit, hlen,
                  DispatchResult.ofHandler]
            · unfold EmgLTest_LightElSrvProcessMessage
              simp [EMG_LIGHTING_SUBOPCODE_INHIBIT_ENTER,
                EMG_LIGHTING_SUBOPCODE_INHIBIT_EXIT,
                EMG_LIGHTING_SUBOPCODE_STATE_GET, EMG_LIGHTING_SUBOPCODE_PROPERTY_STATUS,
                ElPropertyStatus, DispatchResult.ofHandler]
  · intro hbad
    cases p_payload with
    | none => rfl
    | some payload =>
      cases p_header with
      | none => cases payload <;> rfl
      | some h =>
        cases payload with
        | nil => rfl
        | cons subopcode rest =>
          rcases hbad with hbad | hbad | hbad | ⟨sub, rest2, heq, hbad⟩
          · exact absurd hbad (by simp)
          · exact absurd hbad (by simp)
          · exact absurd hbad (by simp)
          · simp only [Option.some.injEq, List.cons.injEq] at heq
            obtain ⟨rfl, rfl⟩ := heq
            rcases hbad with hunk | ⟨hknown, hlen⟩
            · simp only [List.mem_cons, List.mem_singleton, List.not_mem_nil, or_false,
                not_or] at hunk
              obtain ⟨h0, h1, h2, h4, h5, h6⟩ := hunk
              unfold EmgLTest_LightElTestSrvProcessMessage
              simp [EMG_LIGHTING_TEST_SUBOPCODE_FUNCTIONAL_TEST_GET,
                EMG_LIGHTING_TEST_SUBOPCODE_FUNCTIONAL_TEST_START,
                EMG_LIGHTING_TEST_SUBOPCODE_FUNCTIONAL_TEST_STOP,
                EMG_LIGHTING_TEST_SUBOPCODE_DURATION_TEST_GET,
                EMG_LIGHTING_TEST_SUBOPCODE_DURATION_TEST_START,
                EMG_LIGHTING_TEST_SUBOPCODE_DURATION_TEST_STOP, h0, h1, h2, h4, h5, h6]
            · simp only [List.mem_cons, List.mem_singleton, List.not_mem_nil, or_false]
                at hknown
              unfold EmgLTest_LightElTestSrvProcessMessage
              rcases hknown with rfl | rfl | rfl | rfl | rfl | rfl <;>
                simp [EMG_LIGHTING_TEST_SUBOPCODE_FUNCTIONAL_TEST_GET,
                  EMG_LIGHTING_TEST_SUBOPCODE_FUNCTIONAL_TEST_START,
                  EMG_LIGHTING_TEST_SUBOPCODE_FUNCTIONAL_TEST_STOP,
                  EMG_LIGHTING_TEST_SUBOPCODE_DURATION_TEST_GET,
                  EMG_LIGHTING_TEST_SUBOPCODE_DURATION_TEST_START,
                  EMG_LIGHTING_TEST_SUBOPCODE_DURATION_TEST_STOP,
                  EltFunctionalTestGet, EltFunctionalTestStart, EltFunctionalTestStop,
                  EltDurationTestGet, EltDurationTestStart, EltDurationTestStop, hlen,
                  DispatchResult.ofHandler]

theorem dispatchers_drop_malformed_witness :
    EmgLTest_LightElSrvProcessMessage
        ⟨1, EmgLightingState_T.EMG_LIGHTING_STATE_REST, 0, 10000, 0, 0,
          EmgLightingTestTestExecutionStatus.EMG_LIGHTING_TEST_STATUS_UNKNOWN,
          EmgLightingTestTestExecutionStatus.EMG_LIGHTING_TEST_STATUS_UNKNOWN, 0⟩
        (some ⟨1, 0, 0xEA3601, 3⟩) (some [0x04, 7]) 5000 true true =
      some { state :=
               ⟨1, EmgLightingState_T.EMG_LIGHTING_STATE_REST, 0, 10000, 0, 0,
                 EmgLightingTestTestExecutionStatus.EMG_LIGHTING_TEST_STATUS_UNKNOWN,
                 EmgLightingTestTestExecutionStatus.EMG_LIGHTING_TEST_STATUS_UNKNOWN, 0⟩
             header := some ⟨1, 0, 0xEA3601, 3⟩
             sent := [] } ∧
    EmgLTest_LightElTestSrvProcessMessage
        ⟨255, true, 100, 1, 2, 4, 8, 16, 32, 0xFFFFFF, 0xFFFFFF⟩
        ⟨1, EmgLightingState_T.EMG_LIGHTING_STATE_REST, 0, 10000, 0, 0,
          EmgLightingTestTestExecutionStatus.EMG_LIGHTING_TEST_STATUS_UNKNOWN,
          EmgLightingTestTestExecutionStatus.EMG_LIGHTING_TEST_STATUS_UNKNOWN, 0⟩
        (some ⟨1, 0, 0xE93601, 3⟩) (some [0x03]) 5000 0 =
      some { state :=
               ⟨1, EmgLightingState_T.EMG_LIGHTING_STATE_REST, 0, 10000, 0, 0,
                 EmgLightingTestTestExecutionStatus.EMG_LIGHTING_TEST_STATUS_UNKNOWN,
                 EmgLightingTestTestExecutionStatus.EMG_LIGHTING_TEST_STATUS_UNKNOWN, 0⟩
             header := some ⟨1, 0, 0xE93601, 3⟩
             sent := [] } :=
  ⟨(dispatchers_drop_malformed ⟨255, true, 100, 1, 2, 4, 8, 16, 32, 0xFFFFFF, 0xFFFFFF⟩
      ⟨1, EmgLightingState_T.EMG_LIGHTING_STATE_REST, 0, 10000, 0, 0,
        EmgLightingTestTestExecutionStatus.EMG_LIGHTING_TEST_STATUS_UNKNOWN,
        EmgLightingTestTestExecutionStatus.EMG_LIGHTING_TEST_STATUS_UNKNOWN, 0⟩
      (some ⟨1, 0, 0xEA3601, 3⟩) (some [0x04, 7]) 5000 0 true true).1
      (Or.inr (Or.inr (Or.inr ⟨0x04, [7], rfl, Or.inr (Or.inl ⟨by decide, by decide⟩)⟩))),
   (dispatchers_drop_malformed ⟨255, true, 100, 1, 2, 4, 8, 16, 32, 0xFFFFFF, 0xFFFFFF⟩
      ⟨1, EmgLightingState_T.EMG_LIGHTING_STATE_REST, 0, 10000, 0, 0,
        EmgLightingTestTestExecutionStatus.EMG_LIGHTING_TEST_STATUS_UNKNOWN,
        EmgLightingTestTestExecutionStatus.EMG_LIGHTING_TEST_STATUS_UNKNOWN, 0⟩
      (some ⟨1, 0, 0xE93601, 3⟩) (some [0x03]) 5000 0 true true).2
      (Or.inr (Or.inr (Or.inr ⟨0x03, [], rfl, Or.inl (by decide)⟩)))⟩

/-- For `mesh_cmd_size` 1, 2 or 3 the frame `MeshMessageRequest1Send` sends is the
specification's response frame for the header it is given. -/
theorem MeshMessageRequest1Send_frame (h : Mesh_MeshMessageRequest1Cmd_T) (subopcode : Nat)
    (payload : List Nat) (h1 : 1 ≤ h.mesh_cmd_size) (h3 : h.mesh_cmd_size ≤ 3) :
    MeshMessageRequest1Send h subopcode payload =
      some (specResponseFrame h subopcode payload) := by
  obtain ⟨idx, sub, cmd, size⟩ := h
  simp only at h1 h3
  have hcases : size = 1 ∨ size = 2 ∨ size = 3 := by omega
  rcases hcases with rfl | rfl | rfl <;>
    simp [MeshMessageRequest1Send, specResponseFrame, specOpcodeBytes, List.range_succ] <;>
    omega

/-- The shared tail of the handlers, for `mesh_cmd_size` 1, 2 or 3. -/
theorem sendResponse_frame (s : EmgLTestState) (h : Mesh_MeshMessageRequest1Cmd_T)
    (subopcode : Nat) (payload : List Nat) (h1 : 1 ≤ h.mesh_cmd_size)
    (h3 : h.mesh_cmd_size ≤ 3) :
    sendResponse s h subopcode payload =
      some { state := s, header := h, sent := [specResponseFrame h subopcode payload] } := by
  unfold sendResponse
  rw [MeshMessageRequest1Send_frame h subopcode payload h1 h3]

/-- A handler result that sent through `sendResponse` is framed by the header given to
`sendResponse`. -/
theorem FramedBy_sendResponse (s : EmgLTestState) (h : Mesh_MeshMessageRequest1Cmd_T)
    (subopcode : Nat) (payload : List Nat) (h1 : 1 ≤ h.mesh_cmd_size)
    (h3 : h.mesh_cmd_size ≤ 3) :
    FramedBy h ((DispatchResult.ofHandler (sendResponse s h subopcode payload)).map
      DispatchResult.sent) := by
  rw [sendResponse_frame s h subopcode payload h1 h3]
  exact Or.inr ⟨subopcode, payload, rfl⟩

/-- A handler that returned without sending is framed by every header. -/
theorem FramedBy_dropped (request : Mesh_MeshMessageRequest1Cmd_T) (s : EmgLTestState)
    (h : Mesh_MeshMessageRequest1Cmd_T) :
    FramedBy request ((DispatchResult.ofHandler
      (some { state := s, header := h, sent := [] })).map DispatchResult.sent) :=
  Or.inl rfl

/-- C26 (counterexample): a Functional Test Start request arriving with the ELT opcode
`0xE93601` is answered with a frame whose opcode bytes are `EA 36 01`; no subopcode and
payload make that frame the specification's response frame for the request. -/
theorem EltFunctionalTestStart_response_opcode_differs :
    (EmgLTest_LightElTestSrvProcessMessage
        ⟨255, true, 100, 1, 2, 4, 8, 16, 32, 0xFFFFFF, 0xFFFFFF⟩
        ⟨1, EmgLightingState_T.EMG_LIGHTING_STATE_NORMAL, 0, 10000, 0, 0,
          EmgLightingTestTestExecutionStatus.EMG_LIGHTING_TEST_STATUS_UNKNOWN,
          EmgLightingTestTestExecutionStatus.EMG_LIGHTING_TEST_STATUS_UNKNOWN, 0⟩
        (some ⟨1, 0, EMG_LIGHTING_TEST2_OPCODE, 3⟩) (some [0x01]) 5000 0).map
        DispatchResult.sent =
      some [UartFrame.MeshMessageRequest1 [1, 0, 0xEA, 0x36, 0x01, 0x05, 0x0E]] ∧
    ∀ (subopcode : Nat) (payload : List Nat),
      UartFrame.MeshMessageRequest1 [1, 0, 0xEA, 0x36, 0x01, 0x05, 0x0E] ≠
        specResponseFrame ⟨1, 0, EMG_LIGHTING_TEST2_OPCODE, 3⟩ subopcode payload := by
  refine ⟨by decide, ?_⟩
  intro subopcode payload heq
  simp [specResponseFrame, specOpcodeBytes, List.range_succ, EMG_LIGHTING_TEST2_OPCODE] at heq

/-- C26 (amended): for a request header with `mesh_cmd_size` 1, 2 or 3 and every payload
`subopcode :: rest`, both dispatchers return having sent nothing or exactly one frame.  A frame
sent by `EmgLTest_LightElSrvProcessMessage`, and one sent by
`EmgLTest_LightElTestSrvProcessMessage` for a subopcode other than Functional/Duration Test
Start and Stop (`0x01, 0x02, 0x05, 0x06`), is the request's `instance_index`,
`instance_subindex`, the request's `mesh_cmd` in `mesh_cmd_size` bytes most significant byte
first, a subopcode and a payload.  A frame sent for Functional/Duration Test Start or Stop is
framed in the same way with `EMG_LIGHTING_OPCODE` (`0x00EA3601`) in place of the request's
`mesh_cmd`.  Every Enter/Exit/Get/Clear/Start/Stop request with nothing after the subopcode
is answered with one such frame. -/
theorem responses_framed (cfg : EmgConfig) (s : EmgLTestState)
    (h : Mesh_MeshMessageRequest1Cmd_T) (subopcode : Nat) (rest : List Nat)
    (now analog_reading : Nat) (sw_first sw_second : Bool)
    (h1 : 1 ≤ h.mesh_cmd_size) (h3 : h.mesh_cmd_size ≤ 3) :
    FramedBy h
      ((EmgLTest_LightElSrvProcessMessage s (some h) (some (subopcode :: rest)) now
        sw_first sw_second).map DispatchResult.sent) ∧
    FramedBy
      (if subopcode ∈ [0x01, 0x02, 0x05, 0x06] then { h with mesh_cmd := EMG_LIGHTING_OPCODE }
        else h)
      ((EmgLTest_LightElTestSrvProcessMessage cfg s (some h) (some (subopcode :: rest)) now
        analog_reading).map DispatchResult.sent) ∧
    (rest = [] → subopcode ∈ [0x00, 0x02, 0x04, 0x0A, 0x0B, 0x0E, 0x10] →
      ∃ (sub : Nat) (payload : List Nat),
        (EmgLTest_LightElSrvProcessMessage s (some h) (some (subopcode :: rest)) now
          sw_first sw_second).map DispatchResult.sent =
        some [specResponseFrame h sub payload]) ∧
    (rest = [] → subopcode ∈ [0x00, 0x01, 0x02, 0x04, 0x05, 0x06] →
      ∃ (sub : Nat) (payload : List Nat),
        (EmgLTest_LightElTestSrvProcessMessage cfg s (some h) (some (subopcode :: rest)) now
          analog_reading).map DispatchResult.sent =
        some [specResponseFrame
          (if subopcode ∈ [0x01, 0x02, 0x05, 0x06] then
            { h with mesh_cmd := EMG_LIGHTING_OPCODE }
          else h) sub payload]) := by
  have h1' : 1 ≤ ({ h with mesh_cmd := EMG_LIGHTING_OPCODE } :
      Mesh_MeshMessageRequest1Cmd_T).mesh_cmd_size := h1
  have h3' : ({ h with mesh_cmd := EMG_LIGHTING_OPCODE } :
      Mesh_MeshMessageRequest1Cmd_T).mesh_cmd_size ≤ 3 := h3
  refine ⟨?_, ?_, ?_, ?_⟩
  · unfold EmgLTest_LightElSrvProcessMessage
    simp only [EMG_LIGHTING_SUBOPCODE_INHIBIT_ENTER, EMG_LIGHTING_SUBOPCODE_INHIBIT_EXIT,
      EMG_LIGHTING_SUBOPCODE_STATE_GET, EMG_LIGHTING_SUBOPCODE_PROPERTY_STATUS,
      EMG_LIGHTING_SUBOPCODE_LAMP_OPERATION_TIME_GET,
      EMG_LIGHTING_SUBOPCODE_LAMP_OPERATION_TIME_CLEAR,
      EMG_LIGHTING_SUBOPCODE_REST_ENTER, EMG_LIGHTING_SUBOPCODE_REST_EXIT]
    by_cases c0 : subopcode = 0
    · subst c0
      rw [if_pos rfl]
      unfold ElInhibitEnter
      by_cases hlen : rest.length ≠ 0
      · rw [if_pos hlen]; exact FramedBy_dropped _ _ _
      · rw [if_neg hlen]; exact FramedBy_sendResponse _ _ _ _ h1 h3
    rw [if_neg c0]
    by_cases c2 : subopcode = 2
    · subst c2
      rw [if_pos rfl]
      unfold ElInhibitExit
      by_cases hlen : rest.length ≠ 0
      · rw [if_pos hlen]; exact FramedBy_dropped _ _ _
      · rw [if_neg hlen]; exact FramedBy_sendResponse _ _ _ _ h1 h3
    rw [if_neg c2]
    by_cases c4 : subopcode = 4
    · subst c4
      rw [if_pos rfl]
      unfold ElStateGet
      by_cases hlen : rest.length ≠ 0
      · rw [if_pos hlen]; exact FramedBy_dropped _ _ _
      · rw [if_neg hlen]; exact FramedBy_sendResponse _ _ _ _ h1 h3
    rw [if_neg c4]
    by_cases c9 : subopcode = 9
    · subst c9
      rw [if_pos rfl]
      unfold ElPropertyStatus
      split_ifs <;> exact FramedBy_dropped _ _ _
    rw [if_neg c9]
    by_cases c10 : subopcode = 10
    · subst c10
      rw [if_pos rfl]
      unfold ElLampOperationTimeGet
      by_cases hlen : rest.length ≠ 0
      · rw [if_pos hlen]; exact FramedBy_dropped _ _ _
      · rw [if_neg hlen]; exact FramedBy_sendResponse _ _ _ _ h1 h3
    rw [if_neg c10]
    by_cases c11 : subopcode = 11
    · subst c11
      rw [if_pos rfl]
      unfold ElLampOperationTimeClear
      by_cases hlen : rest.length ≠ 0
      · rw [if_pos hlen]; exact FramedBy_dropped _ _ _
      · rw [if_neg hlen]; exact FramedBy_sendResponse _ _ _ _ h1 h3
    rw [if_neg c11]
    by_cases c14 : subopcode = 14
    · subst c14
      rw [if_pos rfl]
      unfold ElRestEnter
      by_cases hlen : rest.length ≠ 0
      · rw [if_pos hlen]; exact FramedBy_dropped _ _ _
      · rw [if_neg hlen]; exact FramedBy_sendResponse _ _ _ _ h1 h3
    rw [if_neg c14]
    by_cases c16 : subopcode = 16
    · subst c16
      rw [if_pos rfl]
      unfold ElRestExit
      by_cases hlen : rest.length ≠ 0
      · rw [if_pos hlen]; exact FramedBy_dropped _ _ _
      · rw [if_neg hlen]; exact FramedBy_sendResponse _ _ _ _ h1 h3
    rw [if_neg c16]
    exact Or.inl rfl
  · unfold EmgLTest_LightElTestSrvProcessMessage
    simp only [EMG_LIGHTING_TEST_SUBOPCODE_FUNCTIONAL_TEST_GET,
      EMG_LIGHTING_TEST_SUBOPCODE_FUNCTIONAL_TEST_START,
      EMG_LIGHTING_TEST_SUBOPCODE_FUNCTIONAL_TEST_STOP,
      EMG_LIGHTING_TEST_SUBOPCODE_DURATION_TEST_GET,
      EMG_LIGHTING_TEST_SUBOPCODE_DURATION_TEST_START,
      EMG_LIGHTING_TEST_SUBOPCODE_DURATION_TEST_STOP]
    by_cases c0 : subopcode = 0
    · subst c0
      rw [if_pos rfl, if_neg (by decide)]
      unfold EltFunctionalTestGet
      by_cases hlen : rest.length ≠ 0
      · rw [if_pos hlen]; exact FramedBy_dropped _ _ _
      · rw [if_neg hlen]; exact FramedBy_sendResponse _ _ _ _ h1 h3
    rw [if_neg c0]
    by_cases c1 : subopcode = 1
    · subst c1
      rw [if_pos rfl, if_pos (by decide)]
      unfold EltFunctionalTestStart
      by_cases hlen : rest.length ≠ 0
      · rw [if_pos hlen]; exact FramedBy_dropped _ _ _
      · rw [if_neg hlen]; exact FramedBy_sendResponse _ _ _ _ h1' h3'
    rw [if_neg c1]
    by_cases c2 : subopcode = 2
    · subst c2
      rw [if_pos rfl, if_pos (by decide)]
      unfold EltFunctionalTestStop
      by_cases hlen : rest.length ≠ 0
      · rw [if_pos hlen]; exact FramedBy_dropped _ _ _
      · rw [if_neg hlen]; exact FramedBy_sendResponse _ _ _ _ h1' h3'
    rw [if_neg c2]
    by_cases c4 : subopcode = 4
    · subst c4
      rw [if_pos rfl, if_neg (by decide)]
      unfold EltDurationTestGet
      by_cases hlen : rest.length ≠ 0
      · rw [if_pos hlen]; exact FramedBy_dropped _ _ _
      · rw [if_neg hlen]; exact FramedBy_sendResponse _ _ _ _ h1 h3
    rw [if_neg c4]
    by_cases c5 : subopcode = 5
    · subst c5
      rw [if_pos rfl, if_pos (by decide)]
      unfold EltDurationTestStart
      by_cases hlen : rest.length ≠ 0
      · rw [if_pos hlen]; exact FramedBy_dropped _ _ _
      · rw [if_neg hlen]; exact FramedBy_sendResponse _ _ _ _ h1' h3'
    rw [if_neg c5]
    by_cases c6 : subopcode = 6
    · subst c6
      rw [if_pos rfl, if_pos (by decide)]
      unfold EltDurationTestStop
      by_cases hlen : rest.length ≠ 0
      · rw [if_pos hlen]; exact FramedBy_dropped _ _ _
      · rw [if_neg hlen]; exact FramedBy_sendResponse _ _ _ _ h1' h3'
    rw [if_neg c6]
    exact Or.inl rfl
  · intro hrest hknown
    subst hrest
    simp only [List.mem_cons, List.mem_singleton, List.not_mem_nil, or_false] at hknown
    unfold EmgLTest_LightElSrvProcessMessage
    simp only [EMG_LIGHTING_SUBOPCODE_INHIBIT_ENTER, EMG_LIGHTING_SUBOPCODE_INHIBIT_EXIT,
      EMG_LIGHTING_SUBOPCODE_STATE_GET, EMG_LIGHTING_SUBOPCODE_PROPERTY_STATUS,
      EMG_LIGHTING_SUBOPCODE_LAMP_OPERATION_TIME_GET,
      EMG_LIGHTING_SUBOPCODE_LAMP_OPERATION_TIME_CLEAR,
      EMG_LIGHTING_SUBOPCODE_REST_ENTER, EMG_LIGHTING_SUBOPCODE_REST_EXIT]
    rcases hknown with rfl | rfl | rfl | rfl | rfl | rfl | rfl
    · rw [if_pos rfl]
      unfold ElInhibitEnter
      rw [if_neg (by simp), sendResponse_frame _ _ _ _ h1 h3]
      exact ⟨_, _, rfl⟩
    · rw [if_neg (by decide), if_pos rfl]
      unfold ElInhibitExit
      rw [if_neg (by simp), sendResponse_frame _ _ _ _ h1 h3]
      exact ⟨_, _, rfl⟩
    · rw [if_neg (by decide), if_neg (by decide), if_pos rfl]
      unfold ElStateGet
      rw [if_neg (by simp), sendResponse_frame _ _ _ _ h1 h3]
      exact ⟨_, _, rfl⟩
    · rw [if_neg (by decide), if_neg (by decide), if_neg (by decide), if_neg (by decide), if_pos rfl]
      unfold ElLampOperationTimeGet
      rw [if_neg (by simp), sendResponse_frame _ _ _ _ h1 h3]
      exact ⟨_, _, rfl⟩
    · rw [if_neg (by decide), if_neg (by decide), if_neg (by decide), if_neg (by decide), if_neg (by decide), if_pos rfl]
      unfold ElLampOperationTimeClear
      rw [if_neg (by simp), sendResponse_frame _ _ _ _ h1 h3]
      exact ⟨_, _, rfl⟩
    · rw [if_neg (by decide), if_neg (by decide), if_neg (by decide), if_neg (by decide), if_neg (by decide), if_neg (by decide), if_pos rfl]
      unfold ElRestEnter
      rw [if_neg (by simp), sendResponse_frame _ _ _ _ h1 h3]
      exact ⟨_, _, rfl⟩
    · rw [if_neg (by decide), if_neg (by decide), if_neg (by decide), if_neg (by decide), if_neg (by decide), if_neg (by decide), if_neg (by decide), if_pos rfl]
      unfold ElRestExit
      rw [if_neg (by simp), sendResponse_frame _ _ _ _ h1 h3]
      exact ⟨_, _, rfl⟩
  · intro hrest hknown
    subst hrest
    simp only [List.mem_cons, List.mem_singleton, List.not_mem_nil, or_false] at hknown
    unfold EmgLTest_LightElTestSrvProcessMessage
    simp only [EMG_LIGHTING_TEST_SUBOPCODE_FUNCTIONAL_TEST_GET,
      EMG_LIGHTING_TEST_SUBOPCODE_FUNCTIONAL_TEST_START,
      EMG_LIGHTING_TEST_SUBOPCODE_FUNCTIONAL_TEST_STOP,
      EMG_LIGHTING_TEST_SUBOPCODE_DURATION_TEST_GET,
      EMG_LIGHTING_TEST_SUBOPCODE_DURATION_TEST_START,
      EMG_LIGHTING_TEST_SUBOPCODE_DURATION_TEST_STOP]
    rcases hknown with rfl | rfl | rfl | rfl | rfl | rfl
    · rw [if_pos rfl, if_neg (by decide)]
      unfold EltFunctionalTestGet
      rw [if_neg (by simp), sendResponse_frame _ _ _ _ h1 h3]
      exact ⟨_, _, rfl⟩
    · rw [if_neg (by decide), if_pos rfl, if_pos (by decide)]
      unfold EltFunctionalTestStart
      rw [if_neg (by simp), sendResponse_frame _ _ _ _ h1' h3']
      exact ⟨_, _, rfl⟩
    · rw [if_neg (by decide), if_neg (by decide), if_pos rfl, if_pos (by decide)]
      unfold EltFunctionalTestStop
      rw [if_neg (by simp), sendResponse_frame _ _ _ _ h1' h3']
      exact ⟨_, _, rfl⟩
    · rw [if_neg (by decide), if_neg (by decide), if_neg (by decide), if_pos rfl, if_neg (by decide)]
      unfold EltDurationTestGet
      rw [if_neg (by simp), sendResponse_frame _ _ _ _ h1 h3]
      exact ⟨_, _, rfl⟩
    · rw [if_neg (by decide), if_neg (by decide), if_neg (by decide), if_neg (by decide), if_pos rfl, if_pos (by decide)]
      unfold EltDurationTestStart
      rw [if_neg (by simp), sendResponse_frame _ _ _ _ h1' h3']
      exact ⟨_, _, rfl⟩
    · rw [if_neg (by decide), if_neg (by decide), if_neg (by decide), if_neg (by decide), if_neg (by decide), if_pos rfl, if_pos (by decide)]
      unfold EltDurationTestStop
      rw [if_neg (by simp), sendResponse_frame _ _ _ _ h1' h3']
      exact ⟨_, _, rfl⟩

theorem responses_framed_witness :
    (1 ≤ (⟨1, 0, 0xE93601, 3⟩ : Mesh_MeshMessageRequest1Cmd_T).mesh_cmd_size ∧
      (⟨1, 0, 0xE93601, 3⟩ : Mesh_MeshMessageRequest1Cmd_T).mesh_cmd_size ≤ 3) ∧
    FramedBy ⟨1, 0, 0xEA3601, 3⟩
      (some [UartFrame.MeshMessageRequest1 [1, 0, 0xEA, 0x36, 0x01, 0x05, 0x03]]) ∧
    ∃ (sub : Nat) (payload : List Nat),
      some [UartFrame.MeshMessageRequest1 [1, 0, 0xE9, 0x36, 0x01, 0x07, 0x07, 0, 0xFF, 0xFF]] =
        some [specResponseFrame ⟨1, 0, 0xE93601, 3⟩ sub payload] :=
  ⟨by decide,
    (responses_framed ⟨255, true, 100, 1, 2, 4, 8, 16, 32, 0xFFFFFF, 0xFFFFFF⟩
      ⟨1, EmgLightingState_T.EMG_LIGHTING_STATE_DURATION_TEST_IN_PROGRESS, 0, 10000, 0, 0,
        EmgLightingTestTestExecutionStatus.EMG_LIGHTING_TEST_STATUS_UNKNOWN,
        EmgLightingTestTestExecutionStatus.EMG_LIGHTING_TEST_STATUS_UNKNOWN, 0⟩
      ⟨1, 0, 0xE93601, 3⟩ 0x06 [] 5000 0 true true (by decide) (by decide)).2.1,
    (responses_framed ⟨255, true, 100, 1, 2, 4, 8, 16, 32, 0xFFFFFF, 0xFFFFFF⟩
      ⟨1, EmgLightingState_T.EMG_LIGHTING_STATE_DURATION_TEST_IN_PROGRESS, 0, 10000, 0, 0,
        EmgLightingTestTestExecutionStatus.EMG_LIGHTING_TEST_STATUS_UNKNOWN,
        EmgLightingTestTestExecutionStatus.EMG_LIGHTING_TEST_STATUS_UNKNOWN, 0⟩
      ⟨1, 0, 0xE93601, 3⟩ 0x04 [] 5000 0 true true (by decide) (by decide)).2.2.2 rfl
      (by decide)⟩

/-! ## Startup sequencer -/

/-- Converting a `uint32_t` timestamp to `long` and back gives the timestamp. -/
theorem wrapUnsigned32_wrapSigned32_natCast (n : Nat) (h : n < 4294967296) :
    wrapUnsigned 32 (wrapSigned 32 (n : Int)) = n := by
  unfold wrapSigned wrapUnsigned
  norm_num
  omega

/-- An elapsed time is a `uint32_t`. -/
theorem Timestamp_GetTimeElapsed_lt (a b : Nat) : Timestamp_GetTimeElapsed a b < 4294967296 := by
  unfold Timestamp_GetTimeElapsed wrapUnsigned
  norm_num
  omega

/-- The stage `GetStartupSequenceStage` computes, by intervals of the elapsed time. -/
theorem GetStartupSequenceStage_eq (t : Nat) (ht : t < 4294967296) :
    GetStartupSequenceStage t =
      if t < 3000 then DeviceStartupSequence_T.DEVICE_SEQUENCE_STAGE_1
      else if t < 4000 then DeviceStartupSequence_T.DEVICE_SEQUENCE_STAGE_2
      else if t < 5000 then DeviceStartupSequence_T.DEVICE_SEQUENCE_STAGE_3
      else if t < 6000 then DeviceStartupSequence_T.DEVICE_SEQUENCE_STAGE_4
      else DeviceStartupSequence_T.DEVICE_SEQUENCE_STAGE_OFF := by
  unfold GetStartupSequenceStage startup_sequence_duration_ms
  simp only [DEVICE_STARTUP_SEQ_STAGE_1_DURATION_MS, DEVICE_STARTUP_SEQ_STAGE_2_DURATION_MS,
    DEVICE_STARTUP_SEQ_STAGE_3_DURATION_MS, DEVICE_STARTUP_SEQ_STAGE_4_DURATION_MS,
    GetStartupSequenceStage.loop]
  by_cases h1 : t < 3000
  · have : ¬ (t / 3000 ≥ 1) := by omega
    rw [if_neg this, if_pos h1]
    rfl
  have hd1 : t / 3000 ≥ 1 := by omega
  have e1 : wrapUnsigned 32 ((t : Int) - ((3000 : Nat) : Int)) = t - 3000 := by
    rw [wrapUnsigned32_sub t 3000 (by omega)]
    omega
  rw [if_pos hd1, if_neg h1, e1]
  by_cases h2 : t < 4000
  · have : ¬ ((t - 3000) / 1000 ≥ 1) := by omega
    rw [if_neg this, if_pos h2]
    rfl
  have hd2 : (t - 3000) / 1000 ≥ 1 := by omega
  have e2 : wrapUnsigned 32 (((t - 3000 : Nat) : Int) - ((1000 : Nat) : Int)) = t - 4000 := by
    rw [wrapUnsigned32_sub (t - 3000) 1000 (by omega)]
    omega
  rw [if_pos hd2, if_neg h2, e2]
  by_cases h3 : t < 5000
  · have : ¬ ((t - 4000) / 1000 ≥ 1) := by omega
    rw [if_neg this, if_pos h3]
    rfl
  have hd3 : (t - 4000) / 1000 ≥ 1 := by omega
  have e3 : wrapUnsigned 32 (((t - 4000 : Nat) : Int) - ((1000 : Nat) : Int)) = t - 5000 := by
    rw [wrapUnsigned32_sub (t - 4000) 1000 (by omega)]
    omega
  rw [if_pos hd3, if_neg h3, e3]
  by_cases h4 : t < 6000
  · have : ¬ ((t - 5000) / 1000 ≥ 1) := by omega
    rw [if_neg this, if_pos h4]
    rfl
  have hd4 : (t - 5000) / 1000 ≥ 1 := by omega
  rw [if_pos hd4, if_neg h4]

/-- The computed stage does not go back when the elapsed time grows. -/
theorem GetStartupSequenceStage_mono (t1 t2 : Nat) (h12 : t1 ≤ t2) (ht : t2 < 4294967296) :
    (GetStartupSequenceStage t1).toNat ≤ (GetStartupSequenceStage t2).toNat := by
  rw [GetStartupSequenceStage_eq t1 (by omega), GetStartupSequenceStage_eq t2 ht]
  split_ifs <;> first | omega | decide

/-- C27: for every 32-bit elapsed time `t`, `GetStartupSequenceStage t` is stage 1 for
`t < 3000`, stage 2 for `3000 ≤ t < 4000`, stage 3 for `4000 ≤ t < 5000`, stage 4 for
`5000 ≤ t < 6000` and the terminal stage OFF for `t ≥ 6000`; and for 32-bit `t1 ≤ t2` the
stage at `t1` is not after the stage at `t2` (stages ordered as the enumeration orders
them). -/
theorem GetStartupSequenceStage_spec (t t1 t2 : Nat) (ht : t < 2 ^ 32) (h12 : t1 ≤ t2)
    (ht2 : t2 < 2 ^ 32) :
    (t < 3000 →
      GetStartupSequenceStage t = DeviceStartupSequence_T.DEVICE_SEQUENCE_STAGE_1) ∧
    (3000 ≤ t → t < 4000 →
      GetStartupSequenceStage t = DeviceStartupSequence_T.DEVICE_SEQUENCE_STAGE_2) ∧
    (4000 ≤ t → t < 5000 →
      GetStartupSequenceStage t = DeviceStartupSequence_T.DEVICE_SEQUENCE_STAGE_3) ∧
    (5000 ≤ t → t < 6000 →
      GetStartupSequenceStage t = DeviceStartupSequence_T.DEVICE_SEQUENCE_STAGE_4) ∧
    (6000 ≤ t →
      GetStartupSequenceStage t = DeviceStartupSequence_T.DEVICE_SEQUENCE_STAGE_OFF) ∧
    (GetStartupSequenceStage t1).toNat ≤ (GetStartupSequenceStage t2).toNat := by
  have ht' : t < 4294967296 := by norm_num at ht; exact ht
  have ht2' : t2 < 4294967296 := by norm_num at ht2; exact ht2
  rw [GetStartupSequenceStage_eq t ht']
  refine ⟨?_, ?_, ?_, ?_, ?_, GetStartupSequenceStage_mono t1 t2 h12 ht2'⟩
  · intro h; rw [if_pos h]
  · intro h h'; rw [if_neg (by omega), if_pos h']
  · intro h h'; rw [if_neg (by omega), if_neg (by omega), if_pos h']
  · intro h h'; rw [if_neg (by omega), if_neg (by omega), if_neg (by omega), if_pos h']
  · intro h; rw [if_neg (by omega), if_neg (by omega), if_neg (by omega), if_neg (by omega)]

theorem GetStartupSequenceStage_spec_witness :
    (4999 < 2 ^ 32 ∧ 3999 ≤ 4294967295 ∧ 4294967295 < 2 ^ 32) ∧
    GetStartupSequenceStage 4999 = DeviceStartupSequence_T.DEVICE_SEQUENCE_STAGE_3 ∧
    (GetStartupSequenceStage 3999).toNat ≤ (GetStartupSequenceStage 4294967295).toNat :=
  ⟨by decide,
    (GetStartupSequenceStage_spec 4999 3999 4294967295 (by decide) (by decide)
      (by decide)).2.2.1 (by decide) (by decide),
    (GetStartupSequenceStage_spec 4999 3999 4294967295 (by decide) (by decide)
      (by decide)).2.2.2.2.2⟩

/-- The enumeration values separate the stages. -/
theorem DeviceStartupSequence_T.toNat_injective (a b : DeviceStartupSequence_T)
    (h : a.toNat = b.toNat) : a = b := by
  cases a <;> cases b <;> first | rfl | (exact absurd h (by decide))

/-- The call `ProcessTargetLightness` changes nothing but the lightness transition. -/
theorem ProcessTargetLightness_fields (s : LightnessServer)
    (present target transition_time now : Nat) :
    (ProcessTargetLightness s present target transition_time now).IsEnabled = s.IsEnabled ∧
    (ProcessTargetLightness s present target transition_time now).UnprovisionedSequenceEnableFlag
      = s.UnprovisionedSequenceEnableFlag ∧
    (ProcessTargetLightness s present target transition_time now).present_startup_sequence_stage
      = s.present_startup_sequence_stage ∧
    (ProcessTargetLightness s present target transition_time now).sequence_start =
      s.sequence_start ∧
    (s.IsEnabled = true →
      (ProcessTargetLightness s present target transition_time now).Light =
        { target_value := target, start_value := present, start_timestamp := now,
          transition_time := transition_time }) := by
  unfold ProcessTargetLightness UpdateTransition
  cases hen : s.IsEnabled <;> simp [hen]

/-- A poll with no pending trigger: one jump to the computed stage when the last-applied stage
is neither OFF nor the computed one, nothing otherwise. -/
theorem PerformStartupSequenceIfNeeded_idle (s : LightnessServer) (clock : SequenceClock)
    (hflag : s.UnprovisionedSequenceEnableFlag = false) :
    PerformStartupSequenceIfNeeded s clock =
      if s.present_startup_sequence_stage ≠ DeviceStartupSequence_T.DEVICE_SEQUENCE_STAGE_OFF ∧
          s.present_startup_sequence_stage ≠ GetStartupSequenceStage
            (Timestamp_GetTimeElapsed (wrapUnsigned 32 s.sequence_start) clock.at_duration) then
        (ProcessTargetLightness
          { s with
            present_startup_sequence_stage :=
              GetStartupSequenceStage
                (Timestamp_GetTimeElapsed (wrapUnsigned 32 s.sequence_start)
                  clock.at_duration) }
          0 (startup_sequence_lightness.getD (GetStartupSequenceStage
              (Timestamp_GetTimeElapsed (wrapUnsigned 32 s.sequence_start)
                clock.at_duration)).toNat 0) 0 clock.at_second_jump,
         [{ present := 0,
            target := startup_sequence_lightness.getD (GetStartupSequenceStage
              (Timestamp_GetTimeElapsed (wrapUnsigned 32 s.sequence_start)
                clock.at_duration)).toNat 0,
            transition_time := 0 }])
      else (s, []) := by
  unfold PerformStartupSequenceIfNeeded
  simp only [hflag, Bool.false_eq_true, if_false, List.nil_append]

/-- A poll with the enable flag set, finishing within the first stage: the sequence restarts
and one jump to the stage 1 lightness is issued. -/
theorem PerformStartupSequenceIfNeeded_trigger (s : LightnessServer) (clock : SequenceClock)
    (hflag : s.UnprovisionedSequenceEnableFlag = true) (hstart : clock.at_start < 4294967296)
    (hpoll : Timestamp_GetTimeElapsed clock.at_start clock.at_duration < 3000) :
    PerformStartupSequenceIfNeeded s clock =
      (ProcessTargetLightness
        { s with
          sequence_start := wrapSigned 32 (clock.at_start : Int)
          UnprovisionedSequenceEnableFlag := false
          present_startup_sequence_stage := DeviceStartupSequence_T.DEVICE_SEQUENCE_STAGE_1 }
        0 0xB504 0 clock.at_first_jump,
       [{ present := 0, target := 0xB504, transition_time := 0 }]) := by
  unfold PerformStartupSequenceIfNeeded
  simp only [hflag, if_true]
  have hf := ProcessTargetLightness_fields
    { s with
      sequence_start := wrapSigned 32 (clock.at_start : Int)
      UnprovisionedSequenceEnableFlag := false
      present_startup_sequence_stage := DeviceStartupSequence_T.DEVICE_SEQUENCE_STAGE_1 }
    0 (startup_sequence_lightness.getD
      DeviceStartupSequence_T.DEVICE_SEQUENCE_STAGE_1.toNat 0) 0 clock.at_first_jump
  obtain ⟨-, -, hstage, hseq, -⟩ := hf
  rw [hstage, hseq]
  simp only
  rw [wrapUnsigned32_wrapSigned32_natCast clock.at_start hstart,
    GetStartupSequenceStage_eq _ (Timestamp_GetTimeElapsed_lt _ _), if_pos hpoll]
  simp only [ne_eq, not_true_eq_false, and_false, if_false]
  rfl

/-- C28: a poll of `PerformStartupSequenceIfNeeded` with the enable flag set, from every
sequencer state (`clock1` being the clock of the poll, its readings less than 3000 ms apart),
clears the flag, records the time read as the sequence start, sets the last-applied stage to
stage 1 and makes exactly one call, `ProcessTargetLightness(0, 0xB504, 0)`, which on an enabled
server sets the lightness transition to a zero-duration jump from 0 to `0xB504`.  Hence on an
enabled server two triggers in succession, each followed by a poll, restart from stage 1 both
times: each poll issues that one call and leaves stage 1 as the last-applied stage and its own
time as the sequence start. -/
theorem PerformStartupSequenceIfNeeded_restart (s : LightnessServer)
    (clock1 clock2 : SequenceClock)
    (hstart1 : clock1.at_start < 2 ^ 32)
    (hpoll1 : Timestamp_GetTimeElapsed clock1.at_start clock1.at_duration < 3000)
    (hstart2 : clock2.at_start < 2 ^ 32)
    (hpoll2 : Timestamp_GetTimeElapsed clock2.at_start clock2.at_duration < 3000) :
    (s.UnprovisionedSequenceEnableFlag = true →
      (PerformStartupSequenceIfNeeded s clock1).1.UnprovisionedSequenceEnableFlag = false ∧
      wrapUnsigned 32 (PerformStartupSequenceIfNeeded s clock1).1.sequence_start =
        clock1.at_start ∧
      (PerformStartupSequenceIfNeeded s clock1).1.present_startup_sequence_stage =
        DeviceStartupSequence_T.DEVICE_SEQUENCE_STAGE_1 ∧
      (PerformStartupSequenceIfNeeded s clock1).2 =
        [{ present := 0, target := 0xB504, transition_time := 0 }] ∧
      (s.IsEnabled = true →
        (PerformStartupSequenceIfNeeded s clock1).1.Light =
          { target_value := 0xB504, start_value := 0,
            start_timestamp := clock1.at_first_jump, transition_time := 0 })) ∧
    (s.IsEnabled = true →
      (LoopLightnessServer (EnableStartupSequence s) clock1).1.present_startup_sequence_stage =
        DeviceStartupSequence_T.DEVICE_SEQUENCE_STAGE_1 ∧
      (LoopLightnessServer (EnableStartupSequence s) clock1).2 =
        [{ present := 0, target := 0xB504, transition_time := 0 }] ∧
      wrapUnsigned 32 (LoopLightnessServer (EnableStartupSequence s) clock1).1.sequence_start =
        clock1.at_start ∧
      (LoopLightnessServer (EnableStartupSequence
        (LoopLightnessServer (EnableStartupSequence s) clock1).1)
          clock2).1.present_startup_sequence_stage =
        DeviceStartupSequence_T.DEVICE_SEQUENCE_STAGE_1 ∧
      (LoopLightnessServer (EnableStartupSequence
        (LoopLightnessServer (EnableStartupSequence s) clock1).1) clock2).2 =
        [{ present := 0, target := 0xB504, transition_time := 0 }] ∧
      wrapUnsigned 32 (LoopLightnessServer (EnableStartupSequence
        (LoopLightnessServer (EnableStartupSequence s) clock1).1) clock2).1.sequence_start =
        clock2.at_start) := by
  have hs1 : clock1.at_start < 4294967296 := by norm_num at hstart1; exact hstart1
  have hs2 : clock2.at_start < 4294967296 := by norm_num at hstart2; exact hstart2
  have key : ∀ (q : LightnessServer) (c : SequenceClock), c.at_start < 4294967296 →
      Timestamp_GetTimeElapsed c.at_start c.at_duration < 3000 →
      q.UnprovisionedSequenceEnableFlag = true →
      (PerformStartupSequenceIfNeeded q c).1.UnprovisionedSequenceEnableFlag = false ∧
      wrapUnsigned 32 (PerformStartupSequenceIfNeeded q c).1.sequence_start = c.at_start ∧
      (PerformStartupSequenceIfNeeded q c).1.present_startup_sequence_stage =
        DeviceStartupSequence_T.DEVICE_SEQUENCE_STAGE_1 ∧
      (PerformStartupSequenceIfNeeded q c).2 =
        [{ present := 0, target := 0xB504, transition_time := 0 }] ∧
      (PerformStartupSequenceIfNeeded q c).1.IsEnabled = q.IsEnabled ∧
      (q.IsEnabled = true →
        (PerformStartupSequenceIfNeeded q c).1.Light =
          { target_value := 0xB504, start_value := 0,
            start_timestamp := c.at_first_jump, transition_time := 0 }) := by
    intro q c hc hp hq
    rw [PerformStartupSequenceIfNeeded_trigger q c hq hc hp]
    obtain ⟨he, hf, hst, hseq, hl⟩ := ProcessTargetLightness_fields
      { q with
        sequence_start := wrapSigned 32 (c.at_start : Int)
        UnprovisionedSequenceEnableFlag := false
        present_startup_sequence_stage := DeviceStartupSequence_T.DEVICE_SEQUENCE_STAGE_1 }
      0 0xB504 0 c.at_first_jump
    refine ⟨hf, ?_, hst, rfl, he, fun hen => hl hen⟩
    simp only
    rw [hseq]
    exact wrapUnsigned32_wrapSigned32_natCast c.at_start hc
  have loop : ∀ (q : LightnessServer) (c : SequenceClock), q.IsEnabled = true →
      (EnableStartupSequence q).UnprovisionedSequenceEnableFlag = true ∧
      (EnableStartupSequence q).IsEnabled = true ∧
      LoopLightnessServer (EnableStartupSequence q) c =
        PerformStartupSequenceIfNeeded (EnableStartupSequence q) c := by
    intro q c hq
    unfold LoopLightnessServer EnableStartupSequence
    simp [hq]
  constructor
  · intro hflag
    obtain ⟨h1, h2, h3, h4, -, h6⟩ := key s clock1 hs1 hpoll1 hflag
    exact ⟨h1, h2, h3, h4, h6⟩
  · intro hen
    obtain ⟨hf1, he1, hl1⟩ := loop s clock1 hen
    obtain ⟨-, a2, a3, a4, a5, -⟩ := key (EnableStartupSequence s) clock1 hs1 hpoll1 hf1
    rw [hl1]
    have hen2 : (PerformStartupSequenceIfNeeded (EnableStartupSequence s) clock1).1.IsEnabled
        = true := by rw [a5, he1]
    obtain ⟨hf2, -, hl2⟩ := loop
      (PerformStartupSequenceIfNeeded (EnableStartupSequence s) clock1).1 clock2 hen2
    obtain ⟨-, b2, b3, b4, -, -⟩ := key
      (EnableStartupSequence (PerformStartupSequenceIfNeeded (EnableStartupSequence s) clock1).1)
      clock2 hs2 hpoll2 hf2
    rw [hl2]
    exact ⟨a3, a4, a2, b3, b4, b2⟩

theorem PerformStartupSequenceIfNeeded_restart_witness :
    ((SequenceClock.const 70000).at_start < 2 ^ 32 ∧
      Timestamp_GetTimeElapsed (SequenceClock.const 70000).at_start
        (SequenceClock.const 70000).at_duration < 3000) ∧
    (PerformStartupSequenceIfNeeded
        ⟨true, ⟨0, 0, 0, 0⟩, true, DeviceStartupSequence_T.DEVICE_SEQUENCE_STAGE_OFF, -1⟩
        (SequenceClock.const 70000)).1.present_startup_sequence_stage =
      DeviceStartupSequence_T.DEVICE_SEQUENCE_STAGE_1 ∧
    (LoopLightnessServer (EnableStartupSequence
      (LoopLightnessServer (EnableStartupSequence
        ⟨true, ⟨0, 0, 0, 0⟩, true, DeviceStartupSequence_T.DEVICE_SEQUENCE_STAGE_OFF, -1⟩)
        (SequenceClock.const 70000)).1) (SequenceClock.const 74500)).2 =
      [{ present := 0, target := 0xB504, transition_time := 0 }] :=
  ⟨by decide,
    ((PerformStartupSequenceIfNeeded_restart
      ⟨true, ⟨0, 0, 0, 0⟩, true, DeviceStartupSequence_T.DEVICE_SEQUENCE_STAGE_OFF, -1⟩
      (SequenceClock.const 70000) (SequenceClock.const 74500)
      (by decide) (by decide) (by decide) (by decide)).1 rfl).2.2.1,
    ((PerformStartupSequenceIfNeeded_restart
      ⟨true, ⟨0, 0, 0, 0⟩, true, DeviceStartupSequence_T.DEVICE_SEQUENCE_STAGE_OFF, -1⟩
      (SequenceClock.const 70000) (SequenceClock.const 74500)
      (by decide) (by decide) (by decide) (by decide)).2 rfl).2.2.2.2.1⟩

/-- A poll with no pending trigger keeps the flag clear and the sequence start, and keeps or
takes the computed stage as the last-applied stage. -/
theorem PerformStartupSequenceIfNeeded_idle_fields (s : LightnessServer)
    (clock : SequenceClock) (hflag : s.UnprovisionedSequenceEnableFlag = false) :
    (PerformStartupSequenceIfNeeded s clock).1.UnprovisionedSequenceEnableFlag = false ∧
    (PerformStartupSequenceIfNeeded s clock).1.sequence_start = s.sequence_start ∧
    ((PerformStartupSequenceIfNeeded s clock).2 = [] ∧
        (PerformStartupSequenceIfNeeded s clock).1 = s ∨
      s.present_startup_sequence_stage ≠ DeviceStartupSequence_T.DEVICE_SEQUENCE_STAGE_OFF ∧
        s.present_startup_sequence_stage ≠ GetStartupSequenceStage
          (Timestamp_GetTimeElapsed (wrapUnsigned 32 s.sequence_start) clock.at_duration) ∧
        (PerformStartupSequenceIfNeeded s clock).2.length = 1 ∧
        (PerformStartupSequenceIfNeeded s clock).1.present_startup_sequence_stage =
          GetStartupSequenceStage
            (Timestamp_GetTimeElapsed (wrapUnsigned 32 s.sequence_start) clock.at_duration)) := by
  rw [PerformStartupSequenceIfNeeded_idle s clock hflag]
  split_ifs with hc
  · obtain ⟨-, hf, hst, hseq, -⟩ := ProcessTargetLightness_fields
      { s with
        present_startup_sequence_stage :=
          GetStartupSequenceStage
            (Timestamp_GetTimeElapsed (wrapUnsigned 32 s.sequence_start)
              clock.at_duration) }
      0 (startup_sequence_lightness.getD (GetStartupSequenceStage
          (Timestamp_GetTimeElapsed (wrapUnsigned 32 s.sequence_start)
            clock.at_duration)).toNat 0) 0 clock.at_second_jump
    exact ⟨by rw [hf]; exact hflag, hseq, Or.inr ⟨hc.1, hc.2, rfl, hst⟩⟩
  · exact ⟨hflag, rfl, Or.inl ⟨rfl, rfl⟩⟩

/-- Once the last-applied stage is OFF, polls with no trigger change nothing and issue no
jump. -/
theorem runPolls_off (clocks : List SequenceClock) (s : LightnessServer)
    (hflag : s.UnprovisionedSequenceEnableFlag = false)
    (hoff : s.present_startup_sequence_stage =
      DeviceStartupSequence_T.DEVICE_SEQUENCE_STAGE_OFF) :
    runPolls s clocks = (s, []) := by
  induction clocks with
  | nil => rfl
  | cons c rest ih =>
    unfold runPolls
    have h1 : PerformStartupSequenceIfNeeded s c = (s, []) := by
      rw [PerformStartupSequenceIfNeeded_idle s c hflag, if_neg]
      rw [hoff]
      simp
    simp only [h1, ih, List.append_nil]

/-- Over a run of polls with no trigger and non-decreasing elapsed time, none of which
computes a stage before the last-applied one, every jump moves the last-applied stage
forward. -/
theorem runPolls_jumps (start : Int) (clocks : List SequenceClock) :
    ∀ s : LightnessServer, s.UnprovisionedSequenceEnableFlag = false →
      s.sequence_start = start →
      (∀ c ∈ clocks, s.present_startup_sequence_stage.toNat ≤
        (GetStartupSequenceStage
          (Timestamp_GetTimeElapsed (wrapUnsigned 32 start) c.at_duration)).toNat) →
      List.Pairwise (fun a b : SequenceClock =>
        Timestamp_GetTimeElapsed (wrapUnsigned 32 start) a.at_duration ≤
          Timestamp_GetTimeElapsed (wrapUnsigned 32 start) b.at_duration) clocks →
      (runPolls s clocks).2.length + s.present_startup_sequence_stage.toNat ≤
        (runPolls s clocks).1.present_startup_sequence_stage.toNat := by
  induction clocks with
  | nil =>
    intro s _ _ _ _
    simp [runPolls]
  | cons c rest ih =>
    intro s hflag hstart hle hpair
    unfold runPolls
    simp only [List.length_append]
    obtain ⟨hf, hseq, hcase⟩ := PerformStartupSequenceIfNeeded_idle_fields s c hflag
    rw [List.pairwise_cons] at hpair
    rcases hcase with ⟨hnil, hsame⟩ | ⟨-, hne, hone, hstage⟩
    · rw [hnil, hsame]
      have := ih s hflag hstart (fun c' hc' => hle c' (List.mem_cons_of_mem _ hc')) hpair.2
      simp only [List.length_nil, Nat.zero_add]
      exact this
    · have hle0 := hle c (List.mem_cons_self _ _)
      rw [hstart] at hstage hne
      have hlt : s.present_startup_sequence_stage.toNat <
          (GetStartupSequenceStage
            (Timestamp_GetTimeElapsed (wrapUnsigned 32 start) c.at_duration)).toNat := by
        rcases Nat.lt_or_ge s.present_startup_sequence_stage.toNat
          (GetStartupSequenceStage
            (Timestamp_GetTimeElapsed (wrapUnsigned 32 start) c.at_duration)).toNat with h | h
        · exact h
        · exact absurd (DeviceStartupSequence_T.toNat_injective _ _ (Nat.le_antisymm hle0 h)) hne
      have := ih (PerformStartupSequenceIfNeeded s c).1 hf (by rw [hseq, hstart])
        (fun c' hc' => by
          rw [hstage]
          exact GetStartupSequenceStage_mono _ _ (hpair.1 c' hc')
            (Timestamp_GetTimeElapsed_lt _ _)) hpair.2
      rw [hstage] at this
      rw [hone]
      omega

/-- The lightness table entry of each stage. -/
theorem startup_sequence_lightness_eq (stage : DeviceStartupSequence_T) :
    startup_sequence_lightness.getD stage.toNat 0 =
      match stage with
      | DeviceStartupSequence_T.DEVICE_SEQUENCE_STAGE_1 => 0xB504
      | DeviceStartupSequence_T.DEVICE_SEQUENCE_STAGE_2 => 0x0001
      | DeviceStartupSequence_T.DEVICE_SEQUENCE_STAGE_3 => 0xFFFF
      | DeviceStartupSequence_T.DEVICE_SEQUENCE_STAGE_4 => 0x0001
      | DeviceStartupSequence_T.DEVICE_SEQUENCE_STAGE_OFF => 0xFFFF := by
  cases stage <;> rfl

/-- C29: a poll of `PerformStartupSequenceIfNeeded` with no pending trigger.  If the
last-applied stage is not OFF and differs from the stage computed from the elapsed time, the
poll makes exactly one call, `ProcessTargetLightness(0, target, 0)` with the computed stage's
lightness (`0xB504`, `0x0001`, `0xFFFF`, `0x0001`, `0xFFFF` for stages 1-4 and OFF), and the
computed stage becomes the last-applied one; otherwise the poll makes no call and changes
nothing.  Over a run of such polls that starts with stage 1 as the last-applied stage and has
non-decreasing elapsed times, the number of calls is at most the number of stages the
last-applied stage has moved forward; and from a last-applied stage OFF a run of such polls
makes no call and changes nothing. -/
theorem PerformStartupSequenceIfNeeded_jumps (s : LightnessServer) (clock : SequenceClock)
    (clocks : List SequenceClock) (hflag : s.UnprovisionedSequenceEnableFlag = false) :
    ((s.present_startup_sequence_stage ≠ DeviceStartupSequence_T.DEVICE_SEQUENCE_STAGE_OFF ∧
        s.present_startup_sequence_stage ≠ GetStartupSequenceStage
          (Timestamp_GetTimeElapsed (wrapUnsigned 32 s.sequence_start) clock.at_duration)) →
      (PerformStartupSequenceIfNeeded s clock).2 =
        [{ present := 0,
           target :=
             match GetStartupSequenceStage
               (Timestamp_GetTimeElapsed (wrapUnsigned 32 s.sequence_start)
                 clock.at_duration) with
             | DeviceStartupSequence_T.DEVICE_SEQUENCE_STAGE_1 => 0xB504
             | DeviceStartupSequence_T.DEVICE_SEQUENCE_STAGE_2 => 0x0001
             | DeviceStartupSequence_T.DEVICE_SEQUENCE_STAGE_3 => 0xFFFF
             | DeviceStartupSequence_T.DEVICE_SEQUENCE_STAGE_4 => 0x0001
             | DeviceStartupSequence_T.DEVICE_SEQUENCE_STAGE_OFF => 0xFFFF,
           transition_time := 0 }] ∧
      (PerformStartupSequenceIfNeeded s clock).1.present_startup_sequence_stage =
        GetStartupSequenceStage
          (Timestamp_GetTimeElapsed (wrapUnsigned 32 s.sequence_start) clock.at_duration)) ∧
    (¬ (s.present_startup_sequence_stage ≠ DeviceStartupSequence_T.DEVICE_SEQUENCE_STAGE_OFF ∧
        s.present_startup_sequence_stage ≠ GetStartupSequenceStage
          (Timestamp_GetTimeElapsed (wrapUnsigned 32 s.sequence_start) clock.at_duration)) →
      PerformStartupSequenceIfNeeded s clock = (s, [])) ∧
    (s.present_startup_sequence_stage = DeviceStartupSequence_T.DEVICE_SEQUENCE_STAGE_1 →
      List.Pairwise (fun a b : SequenceClock =>
        Timestamp_GetTimeElapsed (wrapUnsigned 32 s.sequence_start) a.at_duration ≤
          Timestamp_GetTimeElapsed (wrapUnsigned 32 s.sequence_start) b.at_duration) clocks →
      (runPolls s clocks).2.length ≤
        (runPolls s clocks).1.present_startup_sequence_stage.toNat) ∧
    (s.present_startup_sequence_stage = DeviceStartupSequence_T.DEVICE_SEQUENCE_STAGE_OFF →
      runPolls s clocks = (s, [])) := by
  refine ⟨?_, ?_, ?_, ?_⟩
  · intro hc
    rw [PerformStartupSequenceIfNeeded_idle s clock hflag, if_pos hc]
    obtain ⟨-, -, hst, -, -⟩ := ProcessTargetLightness_fields
      { s with
        present_startup_sequence_stage :=
          GetStartupSequenceStage
            (Timestamp_GetTimeElapsed (wrapUnsigned 32 s.sequence_start)
              clock.at_duration) }
      0 (startup_sequence_lightness.getD (GetStartupSequenceStage
          (Timestamp_GetTimeElapsed (wrapUnsigned 32 s.sequence_start)
            clock.at_duration)).toNat 0) 0 clock.at_second_jump
    refine ⟨?_, hst⟩
    simp only
    rw [startup_sequence_lightness_eq]
  · intro hc
    rw [PerformStartupSequenceIfNeeded_idle s clock hflag, if_neg hc]
  · intro h1 hpair
    have := runPolls_jumps s.sequence_start clocks s hflag rfl
      (fun c _ => by rw [h1]; exact Nat.zero_le _) hpair
    omega
  · intro hoff
    exact runPolls_off clocks s hflag hoff

theorem PerformStartupSequenceIfNeeded_jumps_witness :
    (PerformStartupSequenceIfNeeded
        ⟨true, ⟨0xB504, 0, 0, 0⟩, false, DeviceStartupSequence_T.DEVICE_SEQUENCE_STAGE_1, 0⟩
        (SequenceClock.const 3500)).2 =
      [{ present := 0, target := 0x0001, transition_time := 0 }] ∧
    (runPolls
        ⟨true, ⟨0xB504, 0, 0, 0⟩, false, DeviceStartupSequence_T.DEVICE_SEQUENCE_STAGE_1, 0⟩
        [SequenceClock.const 1000, SequenceClock.const 3500, SequenceClock.const 3600,
          SequenceClock.const 9000]).2.length ≤
      (runPolls
        ⟨true, ⟨0xB504, 0, 0, 0⟩, false, DeviceStartupSequence_T.DEVICE_SEQUENCE_STAGE_1, 0⟩
        [SequenceClock.const 1000, SequenceClock.const 3500, SequenceClock.const 3600,
          SequenceClock.const 9000]).1.present_startup_sequence_stage.toNat :=
  ⟨((PerformStartupSequenceIfNeeded_jumps
      ⟨true, ⟨0xB504, 0, 0, 0⟩, false, DeviceStartupSequence_T.DEVICE_SEQUENCE_STAGE_1, 0⟩
      (SequenceClock.const 3500)
      [SequenceClock.const 1000, SequenceClock.const 3500, SequenceClock.const 3600,
        SequenceClock.const 9000] rfl).1 (by decide)).1,
    (PerformStartupSequenceIfNeeded_jumps
      ⟨true, ⟨0xB504, 0, 0, 0⟩, false, DeviceStartupSequence_T.DEVICE_SEQUENCE_STAGE_1, 0⟩
      (SequenceClock.const 3500)
      [SequenceClock.const 1000, SequenceClock.const 3500, SequenceClock.const 3600,
        SequenceClock.const 9000] rfl).2.2.1 rfl (by decide)⟩

/-! ## Button mailbox -/

/-- C30 (counterexample): a press edge and a release edge arrive at an idle OFF button while
its paired ON button is in `FSM_PRESS`; the next `CheckButtonState` sends nothing and returns
the button with the unread `ACTION_RELEASED` still stored, not `NO_ACTION`. -/
theorem CheckButtonState_coalesced_action_kept :
    CheckButtonState
        (OnButtonInterrupt
          (OnButtonInterrupt
            ⟨6, ButtonType.BUTTON_OFF, 0, 0, MachineStates.FSM_IDLE, 0,
              MachineActions.NO_ACTION, 2⟩ true) false)
        ⟨5, ButtonType.BUTTON_ON, 1000, 400, MachineStates.FSM_PRESS, 0,
          MachineActions.NO_ACTION, 2⟩
        1200 =
      some (⟨6, ButtonType.BUTTON_OFF, 0, 0, MachineStates.FSM_IDLE, 0,
              MachineActions.ACTION_RELEASED, 2⟩, []) ∧
    MachineActions.ACTION_RELEASED ≠ MachineActions.NO_ACTION := by
  decide

/-- C30 (amended): `OnButtonInterrupt` stores `ACTION_PRESSED` when the pin reads LOW and
`ACTION_RELEASED` otherwise, whatever action was stored, and changes no other field.  After a
press edge followed by a release edge at a button in `FSM_IDLE`, the next `CheckButtonState`
sends no command and leaves the button in `FSM_IDLE`; the stored action is `NO_ACTION` if the
paired button is in `FSM_IDLE` (the button is cleared), and is the unread `ACTION_RELEASED`
if it is not (the call changes nothing). -/
theorem OnButtonInterrupt_mailbox (b paired : ButtonInstance) (pin_is_low : Bool) (now : Nat) :
    OnButtonInterrupt b pin_is_low =
      { b with
        action :=
          if pin_is_low = true then MachineActions.ACTION_PRESSED
          else MachineActions.ACTION_RELEASED } ∧
    (b.state = MachineStates.FSM_IDLE →
      (paired.state = MachineStates.FSM_IDLE →
        CheckButtonState (OnButtonInterrupt (OnButtonInterrupt b true) false) paired now =
          some ({ b with
                  state := MachineStates.FSM_IDLE
                  action := MachineActions.NO_ACTION
                  event_time := 0
                  timeout := 0
                  delta_value_on_press := 0 }, [])) ∧
      (paired.state ≠ MachineStates.FSM_IDLE →
        CheckButtonState (OnButtonInterrupt (OnButtonInterrupt b true) false) paired now =
          some ({ b with action := MachineActions.ACTION_RELEASED }, []))) := by
  constructor
  · unfold OnButtonInterrupt
    cases pin_is_low <;> rfl
  · intro hidle
    obtain ⟨pin, ty, et, tmo, st, d, act, idx⟩ := b
    simp only at hidle
    subst hidle
    constructor
    · intro hp
      unfold CheckButtonState OnButtonInterrupt ClearButtonStates
      simp [hp]
    · intro hp
      unfold CheckButtonState OnButtonInterrupt
      simp [hp]

theorem OnButtonInterrupt_mailbox_witness :
    CheckButtonState
        (OnButtonInterrupt
          (OnButtonInterrupt
            ⟨6, ButtonType.BUTTON_OFF, 0, 0, MachineStates.FSM_IDLE, 0,
              MachineActions.NO_ACTION, 2⟩ true) false)
        ⟨5, ButtonType.BUTTON_ON, 0, 0, MachineStates.FSM_IDLE, 0,
          MachineActions.NO_ACTION, 2⟩
        1200 =
      some (⟨6, ButtonType.BUTTON_OFF, 0, 0, MachineStates.FSM_IDLE, 0,
              MachineActions.NO_ACTION, 2⟩, []) :=
  ((OnButtonInterrupt_mailbox
    ⟨6, ButtonType.BUTTON_OFF, 0, 0, MachineStates.FSM_IDLE, 0, MachineActions.NO_ACTION, 2⟩
    ⟨5, ButtonType.BUTTON_ON, 0, 0, MachineStates.FSM_IDLE, 0, MachineActions.NO_ACTION, 2⟩
    true 1200).2 rfl).1 rfl

/-! ## Battery level and square-law correction -/

/-- The value `SimulateBatteryLevel` computes with `BATTERY_LEVEL_MAX = 100` for a reading of the
10-bit converter: no conversion wraps. -/
theorem SimulateBatteryLevel_eq (cfg : EmgConfig) (r : Nat) (hmax : cfg.BATTERY_LEVEL_MAX = 100)
    (hr : r ≤ 1023) :
    SimulateBatteryLevel cfg r = (min (max (1023 - r) 10) 1013 - 10) * 100 / 1003 := by
  unfold SimulateBatteryLevel
  simp only [EMG_ANALOG_MAX_READOUT, EMG_ANALOG_DEAD_RANGE_VALUE, hmax]
  have h1 : wrapUnsigned 16 (((1023 : Nat) : Int) - (r : Int)) = 1023 - r := by
    unfold wrapUnsigned
    norm_num
    omega
  rw [h1]
  generalize hc : (if (if 1023 - r > 1023 - 10 then 1023 - 10 else 1023 - r) < 10 then 10
      else if 1023 - r > 1023 - 10 then 1023 - 10 else 1023 - r) = a
  have ha : a = min (max (1023 - r) 10) 1013 := by
    rw [← hc]
    split_ifs <;> omega
  have ha1 : 10 ≤ a := by omega
  have ha2 : a ≤ 1013 := by omega
  rw [← ha]
  have hprod : wrapSigned 32 (((a : Int) - ((10 : Nat) : Int)) * ((100 : Nat) : Int)) =
      (((a - 10) * 100 : Nat) : Int) := by
    rw [wrapSigned32_of_range _ (by push_cast; omega) (by push_cast; omega)]
    push_cast [Nat.cast_sub ha1]
    ring
  rw [hprod]
  have hdiv : ((1023 : Nat) : Int) - 2 * ((10 : Nat) : Int) = ((1003 : Nat) : Int) := by norm_num
  rw [hdiv, Int.tdiv_eq_ediv (Int.natCast_nonneg _) (Int.natCast_nonneg _)]
  rw [← Int.natCast_div]
  have hq : (a - 10) * 100 / 1003 ≤ 100 := by omega
  exact wrapUnsigned8_natCast _ (by omega)

/-- C31: with `BATTERY_LEVEL_MAX = 100`, for every analog reading `r` in `0 .. 1023`
`SimulateBatteryLevel` returns `(clamp(1023 - r, 10, 1013) - 10) * 100 / 1003`; the result is
at most 100, it does not grow when the reading grows, it is 100 exactly when `r ≤ 10` and 0
exactly when `r ≥ 1003`. -/
theorem SimulateBatteryLevel_normalised (cfg : EmgConfig) (r r2 : Nat)
    (hmax : cfg.BATTERY_LEVEL_MAX = 100) (hr : r ≤ r2) (hr2 : r2 ≤ 1023) :
    SimulateBatteryLevel cfg r = (min (max (1023 - r) 10) 1013 - 10) * 100 / 1003 ∧
    SimulateBatteryLevel cfg r ≤ 100 ∧
    SimulateBatteryLevel cfg r2 ≤ SimulateBatteryLevel cfg r ∧
    (SimulateBatteryLevel cfg r = 100 ↔ r ≤ 10) ∧
    (SimulateBatteryLevel cfg r = 0 ↔ r ≥ 1003) := by
  rw [SimulateBatteryLevel_eq cfg r hmax (by omega), SimulateBatteryLevel_eq cfg r2 hmax hr2]
  refine ⟨rfl, ?_, ?_, ?_, ?_⟩
  · omega
  · apply Nat.div_le_div_right
    omega
  · constructor
    · intro h
      by_contra hn
      have : (min (max (1023 - r) 10) 1013 - 10) * 100 / 1003 < 100 := by
        apply Nat.div_lt_of_lt_mul
        omega
      omega
    · intro h
      have : min (max (1023 - r) 10) 1013 = 1013 := by omega
      rw [this]
  · constructor
    · intro h
      by_contra hn
      have : 1 ≤ (min (max (1023 - r) 10) 1013 - 10) * 100 / 1003 := by
        rw [Nat.le_div_iff_mul_le (by norm_num)]
        omega
      omega
    · intro h
      apply Nat.div_eq_of_lt
      omega

theorem SimulateBatteryLevel_normalised_witness :
    ((⟨255, true, 100, 1, 2, 4, 8, 16, 32, 0xFFFFFF, 0xFFFFFF⟩ : EmgConfig).BATTERY_LEVEL_MAX
        = 100 ∧ 512 ≤ 1002 ∧ 1002 ≤ 1023) ∧
    SimulateBatteryLevel ⟨255, true, 100, 1, 2, 4, 8, 16, 32, 0xFFFFFF, 0xFFFFFF⟩ 512 = 49 ∧
    SimulateBatteryLevel ⟨255, true, 100, 1, 2, 4, 8, 16, 32, 0xFFFFFF, 0xFFFFFF⟩ 1002 ≤
      SimulateBatteryLevel ⟨255, true, 100, 1, 2, 4, 8, 16, 32, 0xFFFFFF, 0xFFFFFF⟩ 512 :=
  ⟨by decide,
    (SimulateBatteryLevel_normalised ⟨255, true, 100, 1, 2, 4, 8, 16, 32, 0xFFFFFF, 0xFFFFFF⟩
      512 1002 rfl (by decide) (by decide)).1,
    (SimulateBatteryLevel_normalised ⟨255, true, 100, 1, 2, 4, 8, 16, 32, 0xFFFFFF, 0xFFFFFF⟩
      512 1002 rfl (by decide) (by decide)).2.2.1⟩

/-- C32: with `LIGHTNESS_MAX = 65535`, for every `uint16_t` value `val`
`ConvertLightnessActualToLinear val` is `k * k` with `k = val * 255 / 65535` (integer
division); `k ≤ 255`, so the intermediate product `LIGHTNESS_MAX * k * k` is below `2 ^ 32`;
and the result does not decrease when `val` grows. -/
theorem ConvertLightnessActualToLinear_square_law (cfg : Config) (val val2 : Nat)
    (hmax : cfg.LIGHTNESS_MAX = 65535) (hle : val ≤ val2) (hval2 : val2 ≤ 65535) :
    ConvertLightnessActualToLinear cfg val =
      some ((val * 255 / 65535) * (val * 255 / 65535)) ∧
    val * 255 / 65535 ≤ 255 ∧
    cfg.LIGHTNESS_MAX * (val * 255 / 65535) * (val * 255 / 65535) < 2 ^ 32 ∧
    ∃ a b : Nat, ConvertLightnessActualToLinear cfg val = some a ∧
      ConvertLightnessActualToLinear cfg val2 = some b ∧ a ≤ b := by
  have hq : val * 255 / 65535 ≤ 255 := by omega
  have hpow : (val * 255 / 65535) * (val * 255 / 65535) ≤ 65025 := Nat.mul_le_mul hq hq
  have hmono : val * 255 / 65535 ≤ val2 * 255 / 65535 := by
    apply Nat.div_le_div_right
    omega
  refine ⟨ConvertLightnessActualToLinear_eq cfg val hmax (by omega), hq, ?_,
    _, _, ConvertLightnessActualToLinear_eq cfg val hmax (by omega),
    ConvertLightnessActualToLinear_eq cfg val2 hmax hval2, Nat.mul_le_mul hmono hmono⟩
  rw [hmax, Nat.mul_assoc]
  norm_num
  omega

theorem ConvertLightnessActualToLinear_square_law_witness :
    ((⟨0, 65535, false, 800, 20000⟩ : Config).LIGHTNESS_MAX = 65535 ∧ 32768 ≤ 65535 ∧
      65535 ≤ 65535) ∧
    ConvertLightnessActualToLinear ⟨0, 65535, false, 800, 20000⟩ 32768 = some (127 * 127) :=
  ⟨by decide,
    (ConvertLightnessActualToLinear_square_law ⟨0, 65535, false, 800, 20000⟩ 32768 65535 rfl
      (by decide) (by decide)).1⟩

/-! ## Rocker invariant and `SetupFSM` -/

/-- A button satisfying the invariant never reaches the division by `timeout = 0`: the poll
returns. -/
theorem CheckButtonState_defined (b p : ButtonInstance) (now : Nat) (h : b.Inv) :
    ∃ (b' : ButtonInstance) (cmds : List MeshCommand),
      CheckButtonState b p now = some (b', cmds) := by
  obtain ⟨pin, ty, et, tmo, st, d, act, idx⟩ := b
  unfold ButtonInstance.Inv at h
  unfold CheckButtonState
  by_cases hp : p.state ≠ MachineStates.FSM_IDLE
  · rw [if_pos hp]
    exact ⟨_, _, rfl⟩
  · rw [if_neg hp]
    cases st
    · simp only
      split_ifs <;> exact ⟨_, _, rfl⟩
    · simp only
      split_ifs <;> exact ⟨_, _, rfl⟩
    · simp only at h
      have htmo : tmo ≠ 0 := by
        rcases h.1 with h1 | h1 <;> rw [h1] <;> decide
      simp only [htmo, if_false]
      split_ifs <;> exact ⟨_, _, rfl⟩

/-- A poll of a button whose paired button is busy changes nothing. -/
theorem CheckButtonState_busy (b p b' : ButtonInstance) (now : Nat) (cmds : List MeshCommand)
    (hp : p.state ≠ MachineStates.FSM_IDLE)
    (hstep : CheckButtonState b p now = some (b', cmds)) : b' = b := by
  unfold CheckButtonState at hstep
  rw [if_pos hp] at hstep
  simp only [Option.some.injEq, Prod.mk.injEq] at hstep
  exact hstep.1.symm

/-- A poll keeps one of the two buttons of a pair in `FSM_IDLE`. -/
theorem CheckButtonState_pair (b p b' : ButtonInstance) (now : Nat) (cmds : List MeshCommand)
    (hpair : b.state = MachineStates.FSM_IDLE ∨ p.state = MachineStates.FSM_IDLE)
    (hstep : CheckButtonState b p now = some (b', cmds)) :
    b'.state = MachineStates.FSM_IDLE ∨ p.state = MachineStates.FSM_IDLE := by
  by_cases hp : p.state = MachineStates.FSM_IDLE
  · exact Or.inr hp
  · rw [CheckButtonState_busy b p b' now cmds hp hstep]
    rcases hpair with h | h
    · exact Or.inl h
    · exact absurd h hp

/-- An interrupt leaves the state of the button as it was. -/
theorem OnButtonInterrupt_state (b : ButtonInstance) (pin_is_low : Bool) :
    (OnButtonInterrupt b pin_is_low).state = b.state := by
  unfold OnButtonInterrupt
  cases pin_is_low <;> rfl

/-- The four calls of a poll that returned. -/
theorem LoopButtons_steps (s s' : Buttons) (now1 now2 now3 now4 : Nat)
    (cmds : List MeshCommand) (hstep : LoopButtons s now1 now2 now3 now4 = some (s', cmds)) :
    ∃ (b1 b2 b3 b4 : ButtonInstance) (c1 c2 c3 c4 : List MeshCommand),
      CheckButtonState s.Button1 s.Button2 now1 = some (b1, c1) ∧
      CheckButtonState s.Button2 b1 now2 = some (b2, c2) ∧
      CheckButtonState s.Button3 s.Button4 now3 = some (b3, c3) ∧
      CheckButtonState s.Button4 b3 now4 = some (b4, c4) ∧
      s' = { Button1 := b1, Button2 := b2, Button3 := b3, Button4 := b4 } := by
  unfold LoopButtons at hstep
  cases h1 : CheckButtonState s.Button1 s.Button2 now1 with
  | none => rw [h1] at hstep; exact absurd hstep (by simp)
  | some r1 =>
    obtain ⟨b1, c1⟩ := r1
    rw [h1] at hstep
    simp only at hstep
    cases h2 : CheckButtonState s.Button2 b1 now2 with
    | none => rw [h2] at hstep; exact absurd hstep (by simp)
    | some r2 =>
      obtain ⟨b2, c2⟩ := r2
      rw [h2] at hstep
      simp only at hstep
      cases h3 : CheckButtonState s.Button3 s.Button4 now3 with
      | none => rw [h3] at hstep; exact absurd hstep (by simp)
      | some r3 =>
        obtain ⟨b3, c3⟩ := r3
        rw [h3] at hstep
        simp only at hstep
        cases h4 : CheckButtonState s.Button4 b3 now4 with
        | none => rw [h4] at hstep; exact absurd hstep (by simp)
        | some r4 =>
          obtain ⟨b4, c4⟩ := r4
          rw [h4] at hstep
          simp only [Option.some.injEq, Prod.mk.injEq] at hstep
          exact ⟨b1, b2, b3, b4, c1, c2, c3, c4, rfl, h2, rfl, h4, hstep.1.symm⟩

/-- Every reachable state of the four buttons has each button within its invariant and one
button of each pair in `FSM_IDLE`. -/
theorem ButtonsReachable.pair_inv (pins : ButtonPins) (s : Buttons)
    (hs : ButtonsReachable pins s) :
    (s.Button1.Inv ∧ s.Button2.Inv ∧ s.Button3.Inv ∧ s.Button4.Inv) ∧
    (s.Button1.state = MachineStates.FSM_IDLE ∨ s.Button2.state = MachineStates.FSM_IDLE) ∧
    (s.Button3.state = MachineStates.FSM_IDLE ∨ s.Button4.state = MachineStates.FSM_IDLE) := by
  induction hs with
  | setup prior lc ctl =>
    unfold SetupFSM ClearButtonStates ButtonInstance.Inv
    simp
  | interruptOn1 s t low _ ih =>
    obtain ⟨⟨i1, i2, i3, i4⟩, p12, p34⟩ := ih
    unfold InterruptOn1PBPress
    split_ifs
    · refine ⟨⟨ButtonInstance.Inv_interrupt _ low i1, i2, i3, i4⟩, ?_, p34⟩
      simp only [OnButtonInterrupt_state]
      exact p12
    · exact ⟨⟨i1, i2, i3, i4⟩, p12, p34⟩
  | interruptOff1 s t low _ ih =>
    obtain ⟨⟨i1, i2, i3, i4⟩, p12, p34⟩ := ih
    unfold InterruptOff1PBPress
    split_ifs
    · refine ⟨⟨i1, ButtonInstance.Inv_interrupt _ low i2, i3, i4⟩, ?_, p34⟩
      simp only [OnButtonInterrupt_state]
      exact p12
    · exact ⟨⟨i1, i2, i3, i4⟩, p12, p34⟩
  | interruptOn2 s t low _ ih =>
    obtain ⟨⟨i1, i2, i3, i4⟩, p12, p34⟩ := ih
    unfold InterruptOn2PBPress
    split_ifs
    · refine ⟨⟨i1, i2, ButtonInstance.Inv_interrupt _ low i3, i4⟩, p12, ?_⟩
      simp only [OnButtonInterrupt_state]
      exact p34
    · exact ⟨⟨i1, i2, i3, i4⟩, p12, p34⟩
  | interruptOff2 s t low _ ih =>
    obtain ⟨⟨i1, i2, i3, i4⟩, p12, p34⟩ := ih
    unfold InterruptOff2PBPress
    split_ifs
    · refine ⟨⟨i1, i2, i3, ButtonInstance.Inv_interrupt _ low i4⟩, p12, ?_⟩
      simp only [OnButtonInterrupt_state]
      exact p34
    · exact ⟨⟨i1, i2, i3, i4⟩, p12, p34⟩
  | check1 s now b cmds _ hstep ih =>
    obtain ⟨⟨i1, i2, i3, i4⟩, p12, p34⟩ := ih
    exact ⟨⟨ButtonInstance.Inv_poll _ _ _ now cmds i1 hstep, i2, i3, i4⟩,
      CheckButtonState_pair _ _ _ now cmds p12 hstep, p34⟩
  | check2 s now b cmds _ hstep ih =>
    obtain ⟨⟨i1, i2, i3, i4⟩, p12, p34⟩ := ih
    exact ⟨⟨i1, ButtonInstance.Inv_poll _ _ _ now cmds i2 hstep, i3, i4⟩,
      (CheckButtonState_pair _ _ _ now cmds p12.symm hstep).symm, p34⟩
  | check3 s now b cmds _ hstep ih =>
    obtain ⟨⟨i1, i2, i3, i4⟩, p12, p34⟩ := ih
    exact ⟨⟨i1, i2, ButtonInstance.Inv_poll _ _ _ now cmds i3 hstep, i4⟩, p12,
      CheckButtonState_pair _ _ _ now cmds p34 hstep⟩
  | check4 s now b cmds _ hstep ih =>
    obtain ⟨⟨i1, i2, i3, i4⟩, p12, p34⟩ := ih
    exact ⟨⟨i1, i2, i3, ButtonInstance.Inv_poll _ _ _ now cmds i4 hstep⟩, p12,
      (CheckButtonState_pair _ _ _ now cmds p34.symm hstep).symm⟩
  | poll s s' now1 now2 now3 now4 cmds _ hstep ih =>
    obtain ⟨⟨i1, i2, i3, i4⟩, p12, p34⟩ := ih
    obtain ⟨b1, b2, b3, b4, c1, c2, c3, c4, h1, h2, h3, h4, rfl⟩ :=
      LoopButtons_steps s s' now1 now2 now3 now4 cmds hstep
    have q12 := CheckButtonState_pair _ _ _ now1 c1 p12 h1
    have q34 := CheckButtonState_pair _ _ _ now3 c3 p34 h3
    exact ⟨⟨ButtonInstance.Inv_poll _ _ _ now1 c1 i1 h1,
        ButtonInstance.Inv_poll _ _ _ now2 c2 i2 h2,
        ButtonInstance.Inv_poll _ _ _ now3 c3 i3 h3,
        ButtonInstance.Inv_poll _ _ _ now4 c4 i4 h4⟩,
      (CheckButtonState_pair _ _ _ now2 c2 q12.symm h2).symm,
      (CheckButtonState_pair _ _ _ now4 c4 q34.symm h4).symm⟩

/-- C33: in every state of the four buttons reachable from the state `SetupFSM` establishes
(from any prior contents) through button interrupts and `LoopButtons` polls, interrupts also
arriving between the four `CheckButtonState` calls of a poll, `Button1` or `Button2` is in
`FSM_IDLE` and `Button3` or `Button4` is in `FSM_IDLE`; and from such a state every
`LoopButtons` poll returns. -/
theorem Buttons_rocker_invariant (pins : ButtonPins) (s : Buttons)
    (hs : ButtonsReachable pins s) :
    (s.Button1.state = MachineStates.FSM_IDLE ∨ s.Button2.state = MachineStates.FSM_IDLE) ∧
    (s.Button3.state = MachineStates.FSM_IDLE ∨ s.Button4.state = MachineStates.FSM_IDLE) ∧
    (∀ now1 now2 now3 now4 : Nat, ∃ (s' : Buttons) (cmds : List MeshCommand),
      LoopButtons s now1 now2 now3 now4 = some (s', cmds)) := by
  obtain ⟨⟨i1, i2, i3, i4⟩, p12, p34⟩ := ButtonsReachable.pair_inv pins s hs
  refine ⟨p12, p34, ?_⟩
  intro now1 now2 now3 now4
  obtain ⟨b1, c1, h1⟩ := CheckButtonState_defined s.Button1 s.Button2 now1 i1
  obtain ⟨b2, c2, h2⟩ := CheckButtonState_defined s.Button2 b1 now2 i2
  obtain ⟨b3, c3, h3⟩ := CheckButtonState_defined s.Button3 s.Button4 now3 i3
  obtain ⟨b4, c4, h4⟩ := CheckButtonState_defined s.Button4 b3 now4 i4
  refine ⟨{ Button1 := b1, Button2 := b2, Button3 := b3, Button4 := b4 },
    c1 ++ c2 ++ c3 ++ c4, ?_⟩
  unfold LoopButtons
  rw [h1]
  simp only
  rw [h2]
  simp only
  rw [h3]
  simp only
  rw [h4]

theorem Buttons_rocker_invariant_witness :
    CheckButtonState
        (InterruptOn1PBPress
          (SetupFSM ⟨2, 3, 4, 5⟩
            ⟨⟨0, ButtonType.BUTTON_OFF, 0, 0, MachineStates.FSM_IDLE, 0,
                MachineActions.NO_ACTION, 0⟩,
              ⟨0, ButtonType.BUTTON_OFF, 0, 0, MachineStates.FSM_IDLE, 0,
                MachineActions.NO_ACTION, 0⟩,
              ⟨0, ButtonType.BUTTON_OFF, 0, 0, MachineStates.FSM_IDLE, 0,
                MachineActions.NO_ACTION, 0⟩,
              ⟨0, ButtonType.BUTTON_OFF, 0, 0, MachineStates.FSM_IDLE, 0,
                MachineActions.NO_ACTION, 0⟩⟩ 1 2) 100 true).Button1
        (InterruptOn1PBPress
          (SetupFSM ⟨2, 3, 4, 5⟩
            ⟨⟨0, ButtonType.BUTTON_OFF, 0, 0, MachineStates.FSM_IDLE, 0,
                MachineActions.NO_ACTION, 0⟩,
              ⟨0, ButtonType.BUTTON_OFF, 0, 0, MachineStates.FSM_IDLE, 0,
                MachineActions.NO_ACTION, 0⟩,
              ⟨0, ButtonType.BUTTON_OFF, 0, 0, MachineStates.FSM_IDLE, 0,
                MachineActions.NO_ACTION, 0⟩,
              ⟨0, ButtonType.BUTTON_OFF, 0, 0, MachineStates.FSM_IDLE, 0,
                MachineActions.NO_ACTION, 0⟩⟩ 1 2) 100 true).Button2 1000 =
      some (⟨2, ButtonType.BUTTON_ON, 1000, 400, MachineStates.FSM_PRESS, 0,
        MachineActions.NO_ACTION, 1⟩, []) ∧
    ((⟨2, ButtonType.BUTTON_ON, 1000, 400, MachineStates.FSM_PRESS, 0,
        MachineActions.NO_ACTION, 1⟩ : ButtonInstance).state = MachineStates.FSM_IDLE ∨
      (SetupFSM ⟨2, 3, 4, 5⟩
        ⟨⟨0, ButtonType.BUTTON_OFF, 0, 0, MachineStates.FSM_IDLE, 0,
            MachineActions.NO_ACTION, 0⟩,
          ⟨0, ButtonType.BUTTON_OFF, 0, 0, MachineStates.FSM_IDLE, 0,
            MachineActions.NO_ACTION, 0⟩,
          ⟨0, ButtonType.BUTTON_OFF, 0, 0, MachineStates.FSM_IDLE, 0,
            MachineActions.NO_ACTION, 0⟩,
          ⟨0, ButtonType.BUTTON_OFF, 0, 0, MachineStates.FSM_IDLE, 0,
            MachineActions.NO_ACTION, 0⟩⟩ 1 2).Button2.state = MachineStates.FSM_IDLE) :=
  ⟨by decide,
    (Buttons_rocker_invariant ⟨2, 3, 4, 5⟩ _
      (ButtonsReachable.check1 _ 1000
        ⟨2, ButtonType.BUTTON_ON, 1000, 400, MachineStates.FSM_PRESS, 0,
          MachineActions.NO_ACTION, 1⟩ []
        (ButtonsReachable.interruptOn1 _ 100 true
          (ButtonsReachable.setup
            ⟨⟨0, ButtonType.BUTTON_OFF, 0, 0, MachineStates.FSM_IDLE, 0,
                MachineActions.NO_ACTION, 0⟩,
              ⟨0, ButtonType.BUTTON_OFF, 0, 0, MachineStates.FSM_IDLE, 0,
                MachineActions.NO_ACTION, 0⟩,
              ⟨0, ButtonType.BUTTON_OFF, 0, 0, MachineStates.FSM_IDLE, 0,
                MachineActions.NO_ACTION, 0⟩,
              ⟨0, ButtonType.BUTTON_OFF, 0, 0, MachineStates.FSM_IDLE, 0,
                MachineActions.NO_ACTION, 0⟩⟩ 1 2))
        (by decide))).1⟩

/-- C39 (what the code does): `SetupFSM` clears `Button4` completely, four times, and of
`Button1`, `Button2`, `Button3` it writes `instance_idx`, `pin_number`, `state`,
`delta_value_on_press` and `button_type` only: their `action`, `event_time` and `timeout` are
left as found. -/
theorem SetupFSM_result (pins : ButtonPins) (prior : Buttons) (lc ctl : Nat) :
    SetupFSM pins prior lc ctl =
      { Button1 :=
          { prior.Button1 with
            instance_idx := lc, pin_number := pins.PIN_SW_1,
            state := MachineStates.FSM_IDLE, delta_value_on_press := 0,
            button_type := ButtonType.BUTTON_ON }
        Button2 :=
          { prior.Button2 with
            instance_idx := lc, pin_number := pins.PIN_SW_2,
            state := MachineStates.FSM_IDLE, delta_value_on_press := 0,
            button_type := ButtonType.BUTTON_OFF }
        Button3 :=
          { prior.Button3 with
            instance_idx := ctl, pin_number := pins.PIN_SW_3,
            state := MachineStates.FSM_IDLE, delta_value_on_press := 0,
            button_type := ButtonType.BUTTON_ON }
        Button4 :=
          { instance_idx := ctl, pin_number := pins.PIN_SW_4,
            state := MachineStates.FSM_IDLE, action := MachineActions.NO_ACTION,
            event_time := 0, timeout := 0, delta_value_on_press := 0,
            button_type := ButtonType.BUTTON_OFF } } ∧
    (SetupFSM pins prior lc ctl).Button1.action = prior.Button1.action ∧
    (SetupFSM pins prior lc ctl).Button1.event_time = prior.Button1.event_time ∧
    (SetupFSM pins prior lc ctl).Button1.timeout = prior.Button1.timeout := by
  unfold SetupFSM ClearButtonStates
  exact ⟨rfl, rfl, rfl, rfl⟩

theorem SetupFSM_result_witness :
    (SetupFSM ⟨2, 3, 4, 5⟩
      ⟨⟨2, ButtonType.BUTTON_ON, 1000, 400, MachineStates.FSM_PRESS, 0,
          MachineActions.ACTION_RELEASED, 1⟩,
        ⟨3, ButtonType.BUTTON_OFF, 0, 0, MachineStates.FSM_IDLE, 0,
          MachineActions.NO_ACTION, 1⟩,
        ⟨4, ButtonType.BUTTON_ON, 0, 0, MachineStates.FSM_IDLE, 0,
          MachineActions.NO_ACTION, 2⟩,
        ⟨5, ButtonType.BUTTON_OFF, 0, 0, MachineStates.FSM_IDLE, 0,
          MachineActions.NO_ACTION, 2⟩⟩ 1 2).Button1.action =
      MachineActions.ACTION_RELEASED ∧
    (SetupFSM ⟨2, 3, 4, 5⟩
      ⟨⟨2, ButtonType.BUTTON_ON, 1000, 400, MachineStates.FSM_PRESS, 0,
          MachineActions.ACTION_RELEASED, 1⟩,
        ⟨3, ButtonType.BUTTON_OFF, 0, 0, MachineStates.FSM_IDLE, 0,
          MachineActions.NO_ACTION, 1⟩,
        ⟨4, ButtonType.BUTTON_ON, 0, 0, MachineStates.FSM_IDLE, 0,
          MachineActions.NO_ACTION, 2⟩,
        ⟨5, ButtonType.BUTTON_OFF, 0, 0, MachineStates.FSM_IDLE, 0,
          MachineActions.NO_ACTION, 2⟩⟩ 1 2).Button1.event_time = 1000 ∧
    (SetupFSM ⟨2, 3, 4, 5⟩
      ⟨⟨2, ButtonType.BUTTON_ON, 1000, 400, MachineStates.FSM_PRESS, 0,
          MachineActions.ACTION_RELEASED, 1⟩,
        ⟨3, ButtonType.BUTTON_OFF, 0, 0, MachineStates.FSM_IDLE, 0,
          MachineActions.NO_ACTION, 1⟩,
        ⟨4, ButtonType.BUTTON_ON, 0, 0, MachineStates.FSM_IDLE, 0,
          MachineActions.NO_ACTION, 2⟩,
        ⟨5, ButtonType.BUTTON_OFF, 0, 0, MachineStates.FSM_IDLE, 0,
          MachineActions.NO_ACTION, 2⟩⟩ 1 2).Button1.timeout = 400 :=
  (SetupFSM_result ⟨2, 3, 4, 5⟩
    ⟨⟨2, ButtonType.BUTTON_ON, 1000, 400, MachineStates.FSM_PRESS, 0,
        MachineActions.ACTION_RELEASED, 1⟩,
      ⟨3, ButtonType.BUTTON_OFF, 0, 0, MachineStates.FSM_IDLE, 0,
        MachineActions.NO_ACTION, 1⟩,
      ⟨4, ButtonType.BUTTON_ON, 0, 0, MachineStates.FSM_IDLE, 0,
        MachineActions.NO_ACTION, 2⟩,
      ⟨5, ButtonType.BUTTON_OFF, 0, 0, MachineStates.FSM_IDLE, 0,
        MachineActions.NO_ACTION, 2⟩⟩ 1 2).2

/-! ## Transition engine: range and monotonicity -/

/-- Past the duration `GetPresentValue` returns the target and latches. -/
theorem GetPresentValue_past_duration (p : Transition) (e : Nat) (he : p.transition_time < e) :
    GetPresentValue p e = some (p.target_value, { p with start_value := p.target_value }) := by
  unfold GetPresentValue
  rw [if_pos he]

/-- The truncated quotient `d * e / t` does not decrease in `e` for `d ≥ 0` and does not
increase in `e` for `d ≤ 0`. -/
theorem tdiv_scale_mono (d e1 e2 t : Int) (he1 : 0 ≤ e1) (he : e1 ≤ e2) (ht : 0 < t) :
    (0 ≤ d → Int.tdiv (d * e1) t ≤ Int.tdiv (d * e2) t) ∧
      (d ≤ 0 → Int.tdiv (d * e2) t ≤ Int.tdiv (d * e1) t) := by
  have key : ∀ c : Int, 0 ≤ c → Int.tdiv (c * e1) t ≤ Int.tdiv (c * e2) t := by
    intro c hc
    rw [Int.tdiv_eq_ediv (Int.mul_nonneg hc he1) (le_of_lt ht),
      Int.tdiv_eq_ediv (Int.mul_nonneg hc (le_trans he1 he)) (le_of_lt ht)]
    exact Int.ediv_le_ediv ht (Int.mul_le_mul_of_nonneg_left he hc)
  refine ⟨key d, ?_⟩
  intro hd
  have h := key (-d) (by omega)
  rw [Int.neg_mul, Int.neg_mul, Int.neg_tdiv, Int.neg_tdiv] at h
  omega

/-- C34: for a well-typed transition (`uint16_t` start and target) with
`transition_time > 0` and every elapsed time `e`, `GetPresentValue` returns a value between
`min(start, target)` and `max(start, target)` inclusive. -/
theorem GetPresentValue_no_overshoot (p : Transition) (e : Nat) (hp : p.WellTyped)
    (hd : 0 < p.transition_time) :
    ∃ (v : Nat) (p' : Transition), GetPresentValue p e = some (v, p') ∧
      min p.start_value p.target_value ≤ v ∧ v ≤ max p.start_value p.target_value := by
  by_cases he : e ≤ p.transition_time
  · obtain ⟨v, hv, hval, hmin, hmax⟩ := GetPresentValue_interp_core p e hp hd he
    rw [← hval] at hmin hmax
    refine ⟨v, p, hv, ?_, ?_⟩
    · have : ((min p.start_value p.target_value : Nat) : Int) ≤ (v : Int) := by
        push_cast
        exact hmin
      exact_mod_cast this
    · have : (v : Int) ≤ ((max p.start_value p.target_value : Nat) : Int) := by
        push_cast
        exact hmax
      exact_mod_cast this
  · refine ⟨p.target_value, _, GetPresentValue_past_duration p e (by omega), ?_, ?_⟩
    · exact Nat.min_le_right _ _
    · exact Nat.le_max_right _ _

theorem GetPresentValue_no_overshoot_witness :
    ((⟨100, 65535, 0, 7⟩ : Transition).WellTyped ∧
      0 < (⟨100, 65535, 0, 7⟩ : Transition).transition_time) ∧
    ∃ (v : Nat) (p' : Transition), GetPresentValue ⟨100, 65535, 0, 7⟩ 3 = some (v, p') ∧
      min 65535 100 ≤ v ∧ v ≤ max 65535 100 :=
  ⟨by decide, GetPresentValue_no_overshoot ⟨100, 65535, 0, 7⟩ 3 (by decide) (by decide)⟩

/-- C35: for a well-typed transition with `transition_time > 0` and elapsed times
`e1 ≤ e2`, the value `GetPresentValue` returns at `e1` is at most the value it returns at `e2`
when `target ≥ start`, and at least that value when `target ≤ start`; this covers `e1` and
`e2` on either side of the latch at `e > transition_time`. -/
theorem GetPresentValue_monotone (p : Transition) (e1 e2 : Nat) (hp : p.WellTyped)
    (hd : 0 < p.transition_time) (he : e1 ≤ e2) :
    ∃ (v1 v2 : Nat) (p1 p2 : Transition),
      GetPresentValue p e1 = some (v1, p1) ∧ GetPresentValue p e2 = some (v2, p2) ∧
      (p.start_value ≤ p.target_value → v1 ≤ v2) ∧
      (p.target_value ≤ p.start_value → v2 ≤ v1) := by
  by_cases h2 : e2 ≤ p.transition_time
  · obtain ⟨v1, hv1, hval1, -, -⟩ := GetPresentValue_interp_core p e1 hp hd (by omega)
    obtain ⟨v2, hv2, hval2, -, -⟩ := GetPresentValue_interp_core p e2 hp hd h2
    have hm := tdiv_scale_mono ((p.target_value : Int) - (p.start_value : Int)) (e1 : Int)
      (e2 : Int) (p.transition_time : Int) (by omega) (by omega) (by omega)
    unfold exactInterpolation at hval1 hval2
    refine ⟨v1, v2, p, p, hv1, hv2, ?_, ?_⟩
    · intro hst
      have := hm.1 (by omega)
      omega
    · intro hst
      have := hm.2 (by omega)
      omega
  · by_cases h1 : e1 ≤ p.transition_time
    · obtain ⟨v1, hv1, hval1, hmin, hmax⟩ := GetPresentValue_interp_core p e1 hp hd h1
      rw [← hval1] at hmin hmax
      refine ⟨v1, p.target_value, p, _, hv1, GetPresentValue_past_duration p e2 (by omega),
        ?_, ?_⟩
      · intro hst
        omega
      · intro hst
        omega
    · exact ⟨p.target_value, p.target_value, _, _,
        GetPresentValue_past_duration p e1 (by omega),
        GetPresentValue_past_duration p e2 (by omega), fun _ => le_refl _, fun _ => le_refl _⟩

theorem GetPresentValue_monotone_witness :
    ((⟨100, 65535, 0, 7⟩ : Transition).WellTyped ∧
      0 < (⟨100, 65535, 0, 7⟩ : Transition).transition_time ∧ 3 ≤ 8) ∧
    ∃ (v1 v2 : Nat) (p1 p2 : Transition),
      GetPresentValue ⟨100, 65535, 0, 7⟩ 3 = some (v1, p1) ∧
      GetPresentValue ⟨100, 65535, 0, 7⟩ 8 = some (v2, p2) ∧
      ((65535 : Nat) ≤ 100 → v1 ≤ v2) ∧ ((100 : Nat) ≤ 65535 → v2 ≤ v1) :=
  ⟨by decide,
    GetPresentValue_monotone ⟨100, 65535, 0, 7⟩ 3 8 (by decide) (by decide) (by decide)⟩

/-! ## Response buffer -/

/-- The model of `MeshMessageRequest1Send` sends the bytes written when their number `index`
is within the buffer length `size`, and is undefined when it is not. -/
theorem MeshMessageRequest1Send_index_size (h : Mesh_MeshMessageRequest1Cmd_T)
    (subopcode : Nat) (payload : List Nat) :
    (MeshMessageRequest1Send.index h payload.length ≤
        MeshMessageRequest1Send.size h payload.length →
      ∃ bytes : List Nat, MeshMessageRequest1Send h subopcode payload =
        some (UartFrame.MeshMessageRequest1 bytes) ∧
        bytes.length = MeshMessageRequest1Send.index h payload.length) ∧
    (¬ MeshMessageRequest1Send.index h payload.length ≤
        MeshMessageRequest1Send.size h payload.length →
      MeshMessageRequest1Send h subopcode payload = none) := by
  unfold MeshMessageRequest1Send MeshMessageRequest1Send.index MeshMessageRequest1Send.size
  by_cases h3 : h.mesh_cmd_size = 3
  · simp only [h3, if_true, List.length_append, List.length_cons, List.length_nil]
    constructor
    · intro hle
      rw [if_pos (by omega)]
      refine ⟨_, rfl, ?_⟩
      simp only [List.length_append, List.length_cons, List.length_nil]
    · intro hle
      exact absurd (by omega) hle
  · by_cases h2 : h.mesh_cmd_size = 2
    · simp only [h3, if_false]
      simp only [h2, if_true, List.length_append, List.length_cons, List.length_nil]
      constructor
      · intro hle
        rw [if_pos (by omega)]
        refine ⟨_, rfl, ?_⟩
        simp only [List.length_append, List.length_cons, List.length_nil]
      · intro hle
        exact absurd (by omega) hle
    · simp only [h3, h2, if_false, List.length_append, List.length_cons, List.length_nil]
      constructor
      · intro hle
        rw [if_pos (by omega)]
        refine ⟨_, rfl, ?_⟩
        simp only [List.length_append, List.length_cons, List.length_nil]
      · intro hle
        rw [if_neg (by omega)]

/-- C36 (what the code does): `MeshMessageRequest1Send` writes
`3 + (3, 2 or 1) + len` bytes, 3 opcode bytes for `mesh_cmd_size = 3`, 2 for 2 and 1 for every
other value, into a buffer of `3 + mesh_cmd_size + len` bytes.  The bytes written fit the
buffer exactly when `mesh_cmd_size ≠ 0`; with `mesh_cmd_size = 0` the function writes
`4 + len` bytes into a buffer of `3 + len`, one byte past its end. -/
theorem MeshMessageRequest1Send_buffer (h : Mesh_MeshMessageRequest1Cmd_T) (subopcode : Nat)
    (payload : List Nat) :
    MeshMessageRequest1Send.size h payload.length = 3 + h.mesh_cmd_size + payload.length ∧
    (MeshMessageRequest1Send.index h payload.length ≤
        MeshMessageRequest1Send.size h payload.length ↔ h.mesh_cmd_size ≠ 0) ∧
    (h.mesh_cmd_size = 0 →
      MeshMessageRequest1Send.index h payload.length =
        MeshMessageRequest1Send.size h payload.length + 1) ∧
    (MeshMessageRequest1Send h subopcode payload = none ↔ h.mesh_cmd_size = 0) := by
  have hrel := MeshMessageRequest1Send_index_size h subopcode payload
  have hfit : MeshMessageRequest1Send.index h payload.length ≤
      MeshMessageRequest1Send.size h payload.length ↔ h.mesh_cmd_size ≠ 0 := by
    unfold MeshMessageRequest1Send.index MeshMessageRequest1Send.size
    by_cases h3 : h.mesh_cmd_size = 3
    · simp [h3]
    · by_cases h2 : h.mesh_cmd_size = 2
      · simp [h2]
      · simp only [h3, h2, if_false]
        omega
  refine ⟨?_, hfit, ?_, ?_⟩
  · unfold MeshMessageRequest1Send.size
    omega
  · intro h0
    unfold MeshMessageRequest1Send.index MeshMessageRequest1Send.size
    simp [h0]
    omega
  · constructor
    · intro hnone
      by_contra hne
      obtain ⟨bytes, hb, -⟩ := hrel.1 (hfit.2 hne)
      rw [hb] at hnone
      exact absurd hnone (by simp)
    · intro h0
      exact hrel.2 (fun hle => (hfit.1 hle) h0)

theorem MeshMessageRequest1Send_buffer_witness :
    MeshMessageRequest1Send.size ⟨1, 0, 0xEA3601, 0⟩ 0 = 3 ∧
    MeshMessageRequest1Send.index ⟨1, 0, 0xEA3601, 0⟩ 0 =
      MeshMessageRequest1Send.size ⟨1, 0, 0xEA3601, 0⟩ 0 + 1 ∧
    MeshMessageRequest1Send ⟨1, 0, 0xEA3601, 0⟩ 0x05 [] = none :=
  ⟨(MeshMessageRequest1Send_buffer ⟨1, 0, 0xEA3601, 0⟩ 0x05 []).1,
    (MeshMessageRequest1Send_buffer ⟨1, 0, 0xEA3601, 0⟩ 0x05 []).2.2.1 rfl,
    (MeshMessageRequest1Send_buffer ⟨1, 0, 0xEA3601, 0⟩ 0x05 []).2.2.2.2 rfl⟩

/-! ## Warm/cold split -/

/-- Two floor quotients whose numerators add up to `d * p` add up to `p` or `p - 1`, and each
is at most `p`. -/
theorem split_sum (x y d p : Nat) (hd : 0 < d) (hxy : x + y = d) :
    x * p / d ≤ p ∧ y * p / d ≤ p ∧
      (y * p / d + x * p / d = p ∨ y * p / d + x * p / d = p - 1) := by
  have hx : x * p / d ≤ p := by
    apply Nat.div_le_of_le_mul
    exact Nat.mul_le_mul_right p (by omega)
  have hy : y * p / d ≤ p := by
    apply Nat.div_le_of_le_mul
    exact Nat.mul_le_mul_right p (by omega)
  refine ⟨hx, hy, ?_⟩
  have hsum : y * p + x * p = d * p := by
    rw [← Nat.add_mul]
    congr 1
    omega
  have hdiv : (y * p + x * p) / d = p := by
    rw [hsum]
    exact Nat.mul_div_cancel_left p hd
  have hadd := Nat.add_div hd (a := y * p) (b := x * p)
  rw [hdiv] at hadd
  generalize y * p / d = a at hadd ⊢
  generalize x * p / d = b at hadd ⊢
  have hc : (if d ≤ y * p % d + x * p % d then 1 else 0) ≤ 1 := by split_ifs <;> omega
  generalize (if d ≤ y * p % d + x * p % d then 1 else 0) = c at hadd hc
  clear hx hy hsum hdiv
  omega

/-- C37: with CTL enabled, `LIGHT_CTL_TEMP_RANGE_MIN < LIGHT_CTL_TEMP_RANGE_MAX ≤ 65535`, a
temperature present value `t` with `MIN ≤ t ≤ MAX` and a level `p ≤ 65535`,
`SetLightnessOutput` writes `warm = (t - MIN) * p / (MAX - MIN)` and
`cold = (MAX - t) * p / (MAX - MIN)`: both products are below `2 ^ 32`, each of `warm` and
`cold` is at most `p`, and `warm + cold` is `p` or `p - 1`. -/
theorem SetLightnessOutput_split_conserves (cfg : Config) (T T' : Transition)
    (dt val t p : Nat)
    (hrange : cfg.LIGHT_CTL_TEMP_RANGE_MIN < cfg.LIGHT_CTL_TEMP_RANGE_MAX)
    (hmax : cfg.LIGHT_CTL_TEMP_RANGE_MAX ≤ 65535)
    (hlevel : pwmOutLevel cfg val = some p) (hp : p ≤ 65535)
    (htemp : GetPresentValue T dt = some (t, T'))
    (ht1 : cfg.LIGHT_CTL_TEMP_RANGE_MIN ≤ t) (ht2 : t ≤ cfg.LIGHT_CTL_TEMP_RANGE_MAX) :
    ∃ warm cold : Nat,
      SetLightnessOutput cfg true T dt val =
        some ([(PwmPin.PIN_PWM_WARM, warm), (PwmPin.PIN_PWM_COLD, cold)], T') ∧
      warm = (t - cfg.LIGHT_CTL_TEMP_RANGE_MIN) * p /
        (cfg.LIGHT_CTL_TEMP_RANGE_MAX - cfg.LIGHT_CTL_TEMP_RANGE_MIN) ∧
      cold = (cfg.LIGHT_CTL_TEMP_RANGE_MAX - t) * p /
        (cfg.LIGHT_CTL_TEMP_RANGE_MAX - cfg.LIGHT_CTL_TEMP_RANGE_MIN) ∧
      (cfg.LIGHT_CTL_TEMP_RANGE_MAX - t) * p < 2 ^ 32 ∧
      (t - cfg.LIGHT_CTL_TEMP_RANGE_MIN) * p < 2 ^ 32 ∧
      warm ≤ p ∧ cold ≤ p ∧ (warm + cold = p ∨ warm + cold = p - 1) := by
  have hdiv : wrapUnsigned 64 ((cfg.LIGHT_CTL_TEMP_RANGE_MAX : Int) -
      (cfg.LIGHT_CTL_TEMP_RANGE_MIN : Int)) =
      cfg.LIGHT_CTL_TEMP_RANGE_MAX - cfg.LIGHT_CTL_TEMP_RANGE_MIN := by
    unfold wrapUnsigned
    norm_num
    omega
  have hne : cfg.LIGHT_CTL_TEMP_RANGE_MAX - cfg.LIGHT_CTL_TEMP_RANGE_MIN ≠ 0 := by omega
  have hfitc : (cfg.LIGHT_CTL_TEMP_RANGE_MAX - t) * p < 4294967296 := by
    have : (cfg.LIGHT_CTL_TEMP_RANGE_MAX - t) * p ≤ 65535 * 65535 :=
      Nat.mul_le_mul (by omega) hp
    omega
  have hfitw : (t - cfg.LIGHT_CTL_TEMP_RANGE_MIN) * p < 4294967296 := by
    have : (t - cfg.LIGHT_CTL_TEMP_RANGE_MIN) * p ≤ 65535 * 65535 :=
      Nat.mul_le_mul (by omega) hp
    omega
  have hcold : wrapUnsigned 32 (((cfg.LIGHT_CTL_TEMP_RANGE_MAX : Int) - (t : Int)) * (p : Int)) =
      (cfg.LIGHT_CTL_TEMP_RANGE_MAX - t) * p := by
    have hc : ((cfg.LIGHT_CTL_TEMP_RANGE_MAX : Int) - (t : Int)) =
        ((cfg.LIGHT_CTL_TEMP_RANGE_MAX - t : Nat) : Int) := by omega
    rw [hc, wrapUnsigned32_mul]
    exact Nat.mod_eq_of_lt hfitc
  have hwarm : wrapUnsigned 32 (((t : Int) - (cfg.LIGHT_CTL_TEMP_RANGE_MIN : Int)) * (p : Int)) =
      (t - cfg.LIGHT_CTL_TEMP_RANGE_MIN) * p := by
    have hc : ((t : Int) - (cfg.LIGHT_CTL_TEMP_RANGE_MIN : Int)) =
        ((t - cfg.LIGHT_CTL_TEMP_RANGE_MIN : Nat) : Int) := by omega
    rw [hc, wrapUnsigned32_mul]
    exact Nat.mod_eq_of_lt hfitw
  obtain ⟨hc, hw, hs⟩ := split_sum (cfg.LIGHT_CTL_TEMP_RANGE_MAX - t)
    (t - cfg.LIGHT_CTL_TEMP_RANGE_MIN)
    (cfg.LIGHT_CTL_TEMP_RANGE_MAX - cfg.LIGHT_CTL_TEMP_RANGE_MIN) p (by omega) (by omega)
  refine ⟨_, _, ?_, rfl, rfl, by norm_num; exact hfitc, by norm_num; exact hfitw, hw, hc, hs⟩
  unfold SetLightnessOutput
  simp only [hlevel, htemp, hdiv, hne, if_true, if_false, hcold, hwarm]

theorem SetLightnessOutput_split_conserves_witness :
    ((⟨0, 65535, false, 800, 20000⟩ : Config).LIGHT_CTL_TEMP_RANGE_MIN <
        (⟨0, 65535, false, 800, 20000⟩ : Config).LIGHT_CTL_TEMP_RANGE_MAX ∧
      pwmOutLevel ⟨0, 65535, false, 800, 20000⟩ 65535 = some 65025 ∧
      GetPresentValue ⟨6500, 2700, 0, 0⟩ 1 = some (6500, ⟨6500, 6500, 0, 0⟩)) ∧
    ∃ warm cold : Nat,
      SetLightnessOutput ⟨0, 65535, false, 800, 20000⟩ true ⟨6500, 2700, 0, 0⟩ 1 65535 =
        some ([(PwmPin.PIN_PWM_WARM, warm), (PwmPin.PIN_PWM_COLD, cold)],
          ⟨6500, 6500, 0, 0⟩) ∧
      (warm + cold = 65025 ∨ warm + cold = 65025 - 1) := by
  refine ⟨by decide, ?_⟩
  obtain ⟨warm, cold, h1, -, -, -, -, -, -, hsum⟩ :=
    SetLightnessOutput_split_conserves ⟨0, 65535, false, 800, 20000⟩ ⟨6500, 2700, 0, 0⟩
      ⟨6500, 6500, 0, 0⟩ 1 65535 6500 65025 (by decide) (by decide) (by decide) (by decide)
      (by decide) (by decide) (by decide)
  exact ⟨warm, cold, h1, hsum⟩

/-! ## Stored emergency lighting state -/

/-- The byte of a stored state is `0x05` only for EMERGENCY. -/
theorem EmgLightingState_T.toByte_eq_five (st : EmgLightingState_T) :
    st.toByte = 0x05 ↔ st = EmgLightingState_T.EMG_LIGHTING_STATE_EMERGENCY := by
  cases st <;> decide

/-- The last byte of a frame `MeshMessageRequest1Send` sends with a one-byte payload is that
byte. -/
theorem MeshMessageRequest1Send_lastByte (h : Mesh_MeshMessageRequest1Cmd_T)
    (subopcode b : Nat) (f : UartFrame)
    (hf : MeshMessageRequest1Send h subopcode [b] = some f) : f.lastByte = some b := by
  unfold MeshMessageRequest1Send at hf
  simp only at hf
  split_ifs at hf <;>
    (simp only [Option.some.injEq] at hf
     subst hf
     simp [UartFrame.lastByte])

/-- A handler either returns at its length guard, leaving the state it found and sending
nothing, or ends in `sendResponse`, leaving the state given to it and sending one frame. -/
theorem ofHandler_cases (c : Prop) [Decidable c] (s0 s1 : EmgLTestState)
    (h0 h1 : Mesh_MeshMessageRequest1Cmd_T) (subopcode : Nat) (payload : List Nat)
    (r : DispatchResult)
    (hr : DispatchResult.ofHandler
      (if c then some { state := s0, header := h0, sent := [] }
        else sendResponse s1 h1 subopcode payload) = some r) :
    (r.state = s0 ∧ r.sent = []) ∨
      (r.state = s1 ∧ ∃ f : UartFrame,
        MeshMessageRequest1Send h1 subopcode payload = some f ∧ r.sent = [f]) := by
  by_cases hc : c
  · rw [if_pos hc] at hr
    simp only [DispatchResult.ofHandler, Option.some.injEq] at hr
    subst hr
    exact Or.inl ⟨rfl, rfl⟩
  · rw [if_neg hc] at hr
    unfold sendResponse at hr
    cases hm : MeshMessageRequest1Send h1 subopcode payload with
    | none =>
      rw [hm] at hr
      simp [DispatchResult.ofHandler] at hr
    | some f =>
      rw [hm] at hr
      simp only [DispatchResult.ofHandler, Option.some.injEq] at hr
      subst hr
      exact Or.inr ⟨rfl, f, rfl, rfl⟩

/-- The completion check leaves the stored state as it was or sets it to NORMAL. -/
theorem SimulateEltTest_state (s : EmgLTestState) (now : Nat) :
    (SimulateEltTest s now).ElState = s.ElState ∨
      (SimulateEltTest s now).ElState = EmgLightingState_T.EMG_LIGHTING_STATE_NORMAL := by
  unfold SimulateEltTest
  split_ifs <;> simp

/-- What `EmgLTest_LightElSrvProcessMessage` does to the stored state and what its state
reports carry: the stored state is kept or becomes NORMAL, INHIBIT or REST, and a frame sent
in answer to Inhibit Enter/Exit, State Get, Rest Enter/Exit ends in the byte of the stored
state, or in `0x05` for State Get and Rest Exit with the switch reading LOW. -/
theorem EmgLTest_LightElSrvProcessMessage_core (s : EmgLTestState)
    (h : Mesh_MeshMessageRequest1Cmd_T) (subopcode : Nat) (rest : List Nat) (now : Nat)
    (sw_first sw_second : Bool) (r : DispatchResult)
    (hr : EmgLTest_LightElSrvProcessMessage s (some h) (some (subopcode :: rest)) now
      sw_first sw_second = some r) :
    (r.state.ElState = s.ElState ∨
      r.state.ElState = EmgLightingState_T.EMG_LIGHTING_STATE_NORMAL ∨
      r.state.ElState = EmgLightingState_T.EMG_LIGHTING_STATE_INHIBIT ∨
      r.state.ElState = EmgLightingState_T.EMG_LIGHTING_STATE_REST) ∧
    (subopcode ∈ [0x00, 0x02, 0x04, 0x0E, 0x10] → ∀ f ∈ r.sent,
      f.lastByte = some r.state.ElState.toByte ∨
        (f.lastByte = some 0x05 ∧
          ((subopcode = 0x04 ∧ sw_second = false) ∨
            (subopcode = 0x10 ∧ sw_first = false)))) := by
  unfold EmgLTest_LightElSrvProcessMessage at hr
  simp only [EMG_LIGHTING_SUBOPCODE_INHIBIT_ENTER, EMG_LIGHTING_SUBOPCODE_INHIBIT_EXIT,
    EMG_LIGHTING_SUBOPCODE_STATE_GET, EMG_LIGHTING_SUBOPCODE_PROPERTY_STATUS,
    EMG_LIGHTING_SUBOPCODE_LAMP_OPERATION_TIME_GET,
    EMG_LIGHTING_SUBOPCODE_LAMP_OPERATION_TIME_CLEAR,
    EMG_LIGHTING_SUBOPCODE_REST_ENTER, EMG_LIGHTING_SUBOPCODE_REST_EXIT] at hr
  by_cases c0 : subopcode = 0
  · rw [if_pos c0] at hr
    unfold ElInhibitEnter at hr
    rcases ofHandler_cases _ _ _ _ _ _ _ r hr with ⟨h1, h2⟩ | ⟨h1, f, hf, h2⟩
    · rw [h1, h2]; exact ⟨Or.inl rfl, fun _ f hf => absurd hf (List.not_mem_nil f)⟩
    · rw [h1, h2]
      refine ⟨Or.inr (Or.inr (Or.inl rfl)), fun _ g hg => ?_⟩
      rw [List.mem_singleton] at hg
      subst hg
      exact Or.inl (MeshMessageRequest1Send_lastByte _ _ _ _ hf)
  rw [if_neg c0] at hr
  by_cases c2 : subopcode = 2
  · rw [if_pos c2] at hr
    unfold ElInhibitExit at hr
    rcases ofHandler_cases _ _ _ _ _ _ _ r hr with ⟨h1, h2⟩ | ⟨h1, f, hf, h2⟩
    · rw [h1, h2]; exact ⟨Or.inl rfl, fun _ f hf => absurd hf (List.not_mem_nil f)⟩
    · rw [h1, h2]
      refine ⟨Or.inr (Or.inl rfl), fun _ g hg => ?_⟩
      rw [List.mem_singleton] at hg
      subst hg
      exact Or.inl (MeshMessageRequest1Send_lastByte _ _ _ _ hf)
  rw [if_neg c2] at hr
  by_cases c4 : subopcode = 4
  · rw [if_pos c4] at hr
    unfold ElStateGet at hr
    rcases ofHandler_cases _ _ _ _ _ _ _ r hr with ⟨h1, h2⟩ | ⟨h1, f, hf, h2⟩
    · rw [h1, h2]; exact ⟨Or.inl rfl, fun _ f hf => absurd hf (List.not_mem_nil f)⟩
    · rw [h1, h2]
      refine ⟨?_, fun _ g hg => ?_⟩
      · rcases SimulateEltTest_state s now with hk | hk
        · exact Or.inl hk
        · exact Or.inr (Or.inl hk)
      · rw [List.mem_singleton] at hg
        subst hg
        have hb := MeshMessageRequest1Send_lastByte _ _ _ _ hf
        rw [hb]
        by_cases hq : sw_first = false ∧ (SimulateEltTest s now).ElState =
            EmgLightingState_T.EMG_LIGHTING_STATE_REST
        · rw [if_pos hq, hq.2]
          exact Or.inl rfl
        · rw [if_neg hq]
          by_cases hw : sw_second = false
          · rw [if_pos hw]
            exact Or.inr ⟨rfl, Or.inl ⟨c4, hw⟩⟩
          · rw [if_neg hw]
            exact Or.inl rfl
  rw [if_neg c4] at hr
  by_cases c9 : subopcode = 9
  · rw [if_pos c9] at hr
    unfold ElPropertyStatus at hr
    rw [ite_self] at hr
    simp only [DispatchResult.ofHandler, Option.some.injEq] at hr
    subst hr
    exact ⟨Or.inl rfl, fun _ f hf => absurd hf (List.not_mem_nil f)⟩
  rw [if_neg c9] at hr
  by_cases c10 : subopcode = 10
  · rw [if_pos c10] at hr
    unfold ElLampOperationTimeGet at hr
    refine ⟨?_, fun hmem => ?_⟩
    · rcases ofHandler_cases _ _ _ _ _ _ _ r hr with ⟨h1, -⟩ | ⟨h1, -⟩ <;>
        (rw [h1]; exact Or.inl rfl)
    · subst c10
      exact absurd hmem (by decide)
  rw [if_neg c10] at hr
  by_cases c11 : subopcode = 11
  · rw [if_pos c11] at hr
    unfold ElLampOperationTimeClear at hr
    refine ⟨?_, fun hmem => ?_⟩
    · rcases ofHandler_cases _ _ _ _ _ _ _ r hr with ⟨h1, -⟩ | ⟨h1, -⟩ <;>
        (rw [h1]; exact Or.inl rfl)
    · subst c11
      exact absurd hmem (by decide)
  rw [if_neg c11] at hr
  by_cases c14 : subopcode = 14
  · rw [if_pos c14] at hr
    unfold ElRestEnter at hr
    rcases ofHandler_cases _ _ _ _ _ _ _ r hr with ⟨h1, h2⟩ | ⟨h1, f, hf, h2⟩
    · rw [h1, h2]; exact ⟨Or.inl rfl, fun _ f hf => absurd hf (List.not_mem_nil f)⟩
    · rw [h1, h2]
      refine ⟨Or.inr (Or.inr (Or.inr rfl)), fun _ g hg => ?_⟩
      rw [List.mem_singleton] at hg
      subst hg
      exact Or.inl (MeshMessageRequest1Send_lastByte _ _ _ _ hf)
  rw [if_neg c14] at hr
  by_cases c16 : subopcode = 16
  · rw [if_pos c16] at hr
    unfold ElRestExit at hr
    rcases ofHandler_cases _ _ _ _ _ _ _ r hr with ⟨h1, h2⟩ | ⟨h1, f, hf, h2⟩
    · rw [h1, h2]; exact ⟨Or.inl rfl, fun _ f hf => absurd hf (List.not_mem_nil f)⟩
    · rw [h1, h2]
      refine ⟨Or.inr (Or.inl rfl), fun _ g hg => ?_⟩
      rw [List.mem_singleton] at hg
      subst hg
      have hb := MeshMessageRequest1Send_lastByte _ _ _ _ hf
      rw [hb]
      by_cases hw : sw_first = false
      · rw [if_pos hw]
        exact Or.inr ⟨rfl, Or.inr ⟨c16, hw⟩⟩
      · rw [if_neg hw]
        exact Or.inl rfl
  rw [if_neg c16] at hr
  simp only [Option.some.injEq] at hr
  subst hr
  exact ⟨Or.inl rfl, fun _ f hf => absurd hf (List.not_mem_nil f)⟩

/-- What `EmgLTest_LightElTestSrvProcessMessage` does to the stored state and what its state
reports carry: the stored state is kept or becomes NORMAL, FUNCTIONAL_TEST_IN_PROGRESS or
DURATION_TEST_IN_PROGRESS, and a frame sent in answer to a test Start or Stop ends in the byte
of the stored state. -/
theorem EmgLTest_LightElTestSrvProcessMessage_core (cfg : EmgConfig) (s : EmgLTestState)
    (h : Mesh_MeshMessageRequest1Cmd_T) (subopcode : Nat) (rest : List Nat)
    (now analog_reading : Nat) (r : DispatchResult)
    (hr : EmgLTest_LightElTestSrvProcessMessage cfg s (some h) (some (subopcode :: rest)) now
      analog_reading = some r) :
    (r.state.ElState = s.ElState ∨
      r.state.ElState = EmgLightingState_T.EMG_LIGHTING_STATE_NORMAL ∨
      r.state.ElState = EmgLightingState_T.EMG_LIGHTING_STATE_FUNCTIONAL_TEST_IN_PROGRESS ∨
      r.state.ElState = EmgLightingState_T.EMG_LIGHTING_STATE_DURATION_TEST_IN_PROGRESS) ∧
    (subopcode ∈ [0x01, 0x02, 0x05, 0x06] → ∀ f ∈ r.sent,
      f.lastByte = some r.state.ElState.toByte) := by
  unfold EmgLTest_LightElTestSrvProcessMessage at hr
  simp only [EMG_LIGHTING_TEST_SUBOPCODE_FUNCTIONAL_TEST_GET,
    EMG_LIGHTING_TEST_SUBOPCODE_FUNCTIONAL_TEST_START,
    EMG_LIGHTING_TEST_SUBOPCODE_FUNCTIONAL_TEST_STOP,
    EMG_LIGHTING_TEST_SUBOPCODE_DURATION_TEST_GET,
    EMG_LIGHTING_TEST_SUBOPCODE_DURATION_TEST_START,
    EMG_LIGHTING_TEST_SUBOPCODE_DURATION_TEST_STOP] at hr
  by_cases c0 : subopcode = 0
  · rw [if_pos c0] at hr
    unfold EltFunctionalTestGet at hr
    refine ⟨?_, fun hmem => ?_⟩
    · rcases ofHandler_cases _ _ _ _ _ _ _ r hr with ⟨h1, -⟩ | ⟨h1, -⟩ <;>
        (rw [h1]; exact Or.inl rfl)
    · subst c0
      exact absurd hmem (by decide)
  rw [if_neg c0] at hr
  by_cases c1 : subopcode = 1
  · rw [if_pos c1] at hr
    unfold EltFunctionalTestStart at hr
    rcases ofHandler_cases _ _ _ _ _ _ _ r hr with ⟨h1, h2⟩ | ⟨h1, f, hf, h2⟩
    · rw [h1, h2]; exact ⟨Or.inl rfl, fun _ f hf => absurd hf (List.not_mem_nil f)⟩
    · rw [h1, h2]
      refine ⟨?_, fun _ g hg => ?_⟩
      · split_ifs
        · exact Or.inr (Or.inr (Or.inl rfl))
        · exact Or.inl rfl
      · rw [List.mem_singleton] at hg
        subst hg
        exact MeshMessageRequest1Send_lastByte _ _ _ _ hf
  rw [if_neg c1] at hr
  by_cases c2 : subopcode = 2
  · rw [if_pos c2] at hr
    unfold EltFunctionalTestStop at hr
    rcases ofHandler_cases _ _ _ _ _ _ _ r hr with ⟨h1, h2⟩ | ⟨h1, f, hf, h2⟩
    · rw [h1, h2]; exact ⟨Or.inl rfl, fun _ f hf => absurd hf (List.not_mem_nil f)⟩
    · rw [h1, h2]
      refine ⟨Or.inr (Or.inl rfl), fun _ g hg => ?_⟩
      rw [List.mem_singleton] at hg
      subst hg
      exact MeshMessageRequest1Send_lastByte _ _ _ _ hf
  rw [if_neg c2] at hr
  by_cases c4 : subopcode = 4
  · rw [if_pos c4] at hr
    unfold EltDurationTestGet at hr
    refine ⟨?_, fun hmem => ?_⟩
    · rcases ofHandler_cases _ _ _ _ _ _ _ r hr with ⟨h1, -⟩ | ⟨h1, -⟩ <;>
        (rw [h1]; exact Or.inl rfl)
    · subst c4
      exact absurd hmem (by decide)
  rw [if_neg c4] at hr
  by_cases c5 : subopcode = 5
  · rw [if_pos c5] at hr
    unfold EltDurationTestStart at hr
    rcases ofHandler_cases _ _ _ _ _ _ _ r hr with ⟨h1, h2⟩ | ⟨h1, f, hf, h2⟩
    · rw [h1, h2]; exact ⟨Or.inl rfl, fun _ f hf => absurd hf (List.not_mem_nil f)⟩
    · rw [h1, h2]
      refine ⟨?_, fun _ g hg => ?_⟩
      · split_ifs
        · exact Or.inr (Or.inr (Or.inr rfl))
        · exact Or.inl rfl
      · rw [List.mem_singleton] at hg
        subst hg
        exact MeshMessageRequest1Send_lastByte _ _ _ _ hf
  rw [if_neg c5] at hr
  by_cases c6 : subopcode = 6
  · rw [if_pos c6] at hr
    unfold EltDurationTestStop at hr
    rcases ofHandler_cases _ _ _ _ _ _ _ r hr with ⟨h1, h2⟩ | ⟨h1, f, hf, h2⟩
    · rw [h1, h2]; exact ⟨Or.inl rfl, fun _ f hf => absurd hf (List.not_mem_nil f)⟩
    · rw [h1, h2]
      refine ⟨Or.inr (Or.inl rfl), fun _ g hg => ?_⟩
      rw [List.mem_singleton] at hg
      subst hg
      exact MeshMessageRequest1Send_lastByte _ _ _ _ hf
  rw [if_neg c6] at hr
  simp only [Option.some.injEq] at hr
  subst hr
  exact ⟨Or.inl rfl, fun _ f hf => absurd hf (List.not_mem_nil f)⟩

/-- A dispatcher given a null header, a null payload or an empty payload returns the state it
found. -/
theorem dispatchers_null (cfg : EmgConfig) (s : EmgLTestState)
    (p_header : Option Mesh_MeshMessageRequest1Cmd_T) (p_payload : Option (List Nat))
    (now analog_reading : Nat) (sw_first sw_second : Bool) (r : DispatchResult)
    (hnull : p_header = none ∨ p_payload = none ∨ p_payload = some []) :
    (EmgLTest_LightElSrvProcessMessage s p_header p_payload now sw_first sw_second = some r →
      r.state = s) ∧
    (EmgLTest_LightElTestSrvProcessMessage cfg s p_header p_payload now analog_reading =
      some r → r.state = s) := by
  constructor <;>
  · intro hr
    cases p_payload with
    | none =>
      simp only [EmgLTest_LightElSrvProcessMessage, EmgLTest_LightElTestSrvProcessMessage,
        Option.some.injEq] at hr
      subst hr; rfl
    | some payload =>
      cases p_header with
      | none =>
        cases payload <;>
          (simp only [EmgLTest_LightElSrvProcessMessage,
            EmgLTest_LightElTestSrvProcessMessage, Option.some.injEq] at hr
           subst hr; rfl)
      | some h =>
        cases payload with
        | nil =>
          simp only [EmgLTest_LightElSrvProcessMessage,
            EmgLTest_LightElTestSrvProcessMessage, Option.some.injEq] at hr
          subst hr; rfl
        | cons a l =>
          rcases hnull with hn | hn | hn <;> exact absurd hn (by simp)

/-- The stored state is never EMERGENCY in a reachable module state. -/
theorem EmgReachable.not_emergency (cfg : EmgConfig) (s : EmgLTestState)
    (hs : EmgReachable cfg s) :
    s.ElState ≠ EmgLightingState_T.EMG_LIGHTING_STATE_EMERGENCY := by
  induction hs with
  | initial =>
    unfold EmgLTestState.initial
    simp
  | setInstanceIdx s idx _ ih => exact ih
  | el s p_header p_payload now sw_first sw_second r _ hstep ih =>
    by_cases hnull : p_header = none ∨ p_payload = none ∨ p_payload = some []
    · rw [(dispatchers_null cfg s p_header p_payload now 0 sw_first sw_second r hnull).1 hstep]
      exact ih
    · obtain ⟨h, rfl⟩ : ∃ h, p_header = some h := by
        cases p_header with
        | none => exact absurd (Or.inl rfl) hnull
        | some h => exact ⟨h, rfl⟩
      obtain ⟨sub, rest, rfl⟩ : ∃ sub rest, p_payload = some (sub :: rest) := by
        cases p_payload with
        | none => exact absurd (Or.inr (Or.inl rfl)) hnull
        | some l =>
          cases l with
          | nil => exact absurd (Or.inr (Or.inr rfl)) hnull
          | cons a l => exact ⟨a, l, rfl⟩
      rcases (EmgLTest_LightElSrvProcessMessage_core s h sub rest now sw_first sw_second r
        hstep).1 with hk | hk | hk | hk
      · rw [hk]; exact ih
      · rw [hk]; decide
      · rw [hk]; decide
      · rw [hk]; decide
  | elt s p_header p_payload now analog_reading r _ hstep ih =>
    by_cases hnull : p_header = none ∨ p_payload = none ∨ p_payload = some []
    · rw [(dispatchers_null cfg s p_header p_payload now analog_reading true true r hnull).2
        hstep]
      exact ih
    · obtain ⟨h, rfl⟩ : ∃ h, p_header = some h := by
        cases p_header with
        | none => exact absurd (Or.inl rfl) hnull
        | some h => exact ⟨h, rfl⟩
      obtain ⟨sub, rest, rfl⟩ : ∃ sub rest, p_payload = some (sub :: rest) := by
        cases p_payload with
        | none => exact absurd (Or.inr (Or.inl rfl)) hnull
        | some l =>
          cases l with
          | nil => exact absurd (Or.inr (Or.inr rfl)) hnull
          | cons a l => exact ⟨a, l, rfl⟩
      rcases (EmgLTest_LightElTestSrvProcessMessage_core cfg s h sub rest now analog_reading r
        hstep).1 with hk | hk | hk | hk
      · rw [hk]; exact ih
      · rw [hk]; decide
      · rw [hk]; decide
      · rw [hk]; decide
  | loop s now millis_now analog_reading _ ih =>
    unfold LoopEmgLTest
    split_ifs
    · exact ih
    · simp only
      split_ifs
      · simp
      · simp
      · exact ih
    · exact ih

/-- C38: in every module state reachable from the initial one through
`EmgLTest_SetInstanceIdx`, EL and ELT messages and `LoopEmgLTest` polls, the stored `ElState`
is NORMAL, REST, INHIBIT, FUNCTIONAL_TEST_IN_PROGRESS, DURATION_TEST_IN_PROGRESS or
BATTERY_DISCHARGED, never EMERGENCY.  From such a state, a state report of the EL dispatcher
(the answer to Inhibit Enter/Exit, State Get, Rest Enter/Exit) ends in the EMERGENCY byte
`0x05` only for State Get with the second switch reading LOW or Rest Exit with the switch
reading LOW, and a state report of the ELT dispatcher (the answer to a test Start or Stop)
never does; Rest Exit with the switch LOW does report `0x05` while storing NORMAL. -/
theorem ElState_never_emergency (cfg : EmgConfig) (s : EmgLTestState)
    (hs : EmgReachable cfg s) :
    (s.ElState = EmgLightingState_T.EMG_LIGHTING_STATE_NORMAL ∨
      s.ElState = EmgLightingState_T.EMG_LIGHTING_STATE_REST ∨
      s.ElState = EmgLightingState_T.EMG_LIGHTING_STATE_INHIBIT ∨
      s.ElState = EmgLightingState_T.EMG_LIGHTING_STATE_FUNCTIONAL_TEST_IN_PROGRESS ∨
      s.ElState = EmgLightingState_T.EMG_LIGHTING_STATE_DURATION_TEST_IN_PROGRESS ∨
      s.ElState = EmgLightingState_T.EMG_LIGHTING_STATE_BATTERY_DISCHARGED) ∧
    (∀ (h : Mesh_MeshMessageRequest1Cmd_T) (subopcode : Nat) (rest : List Nat) (now : Nat)
        (sw_first sw_second : Bool) (r : DispatchResult),
      EmgLTest_LightElSrvProcessMessage s (some h) (some (subopcode :: rest)) now
        sw_first sw_second = some r →
      subopcode ∈ [0x00, 0x02, 0x04, 0x0E, 0x10] →
      ∀ f ∈ r.sent, f.lastByte = some 0x05 →
        (subopcode = 0x04 ∧ sw_second = false) ∨ (subopcode = 0x10 ∧ sw_first = false)) ∧
    (∀ (h : Mesh_MeshMessageRequest1Cmd_T) (subopcode : Nat) (rest : List Nat)
        (now analog_reading : Nat) (r : DispatchResult),
      EmgLTest_LightElTestSrvProcessMessage cfg s (some h) (some (subopcode :: rest)) now
        analog_reading = some r →
      subopcode ∈ [0x01, 0x02, 0x05, 0x06] →
      ∀ f ∈ r.sent, f.lastByte ≠ some 0x05) ∧
    (∀ (h : Mesh_MeshMessageRequest1Cmd_T) (now : Nat) (sw_second : Bool),
      h.mesh_cmd_size ≠ 0 →
      ∃ (r : DispatchResult) (f : UartFrame),
        EmgLTest_LightElSrvProcessMessage s (some h) (some [0x10]) now false sw_second =
          some r ∧
        r.state.ElState = EmgLightingState_T.EMG_LIGHTING_STATE_NORMAL ∧
        r.sent = [f] ∧ f.lastByte = some 0x05) := by
  have hne := EmgReachable.not_emergency cfg s hs
  refine ⟨?_, ?_, ?_, ?_⟩
  · revert hne
    cases s.ElState <;> simp
  · intro h sub rest now sw1 sw2 r hr hmem f hf h5
    have hreach : EmgReachable cfg r.state :=
      EmgReachable.el s (some h) (some (sub :: rest)) now sw1 sw2 r hs hr
    have hne2 := EmgReachable.not_emergency cfg r.state hreach
    rcases (EmgLTest_LightElSrvProcessMessage_core s h sub rest now sw1 sw2 r hr).2 hmem f hf
      with hb | ⟨-, hb⟩
    · rw [hb] at h5
      simp only [Option.some.injEq] at h5
      exact absurd ((EmgLightingState_T.toByte_eq_five _).1 h5) hne2
    · exact hb
  · intro h sub rest now analog r hr hmem f hf h5
    have hreach : EmgReachable cfg r.state :=
      EmgReachable.elt s (some h) (some (sub :: rest)) now analog r hs hr
    have hne2 := EmgReachable.not_emergency cfg r.state hreach
    rw [(EmgLTest_LightElTestSrvProcessMessage_core cfg s h sub rest now analog r hr).2
      hmem f hf] at h5
    simp only [Option.some.injEq] at h5
    exact absurd ((EmgLightingState_T.toByte_eq_five _).1 h5) hne2
  · intro h now sw2 hsize
    obtain ⟨cmd, hcmd⟩ := sendResponse_defined
      { s with ElState := EmgLightingState_T.EMG_LIGHTING_STATE_NORMAL } h
      EMG_LIGHTING_SUBOPCODE_STATE_STATUS
      [EmgLightingState_T.EMG_LIGHTING_STATE_EMERGENCY.toByte] hsize
    refine ⟨{ state := { s with ElState := EmgLightingState_T.EMG_LIGHTING_STATE_NORMAL },
              header := some h,
              sent := [UartFrame.MeshMessageRequest1
                ([h.instance_index, h.instance_subindex] ++ cmd ++
                  [EMG_LIGHTING_SUBOPCODE_STATE_STATUS] ++
                  [EmgLightingState_T.EMG_LIGHTING_STATE_EMERGENCY.toByte])] },
      UartFrame.MeshMessageRequest1
        ([h.instance_index, h.instance_subindex] ++ cmd ++
          [EMG_LIGHTING_SUBOPCODE_STATE_STATUS] ++
          [EmgLightingState_T.EMG_LIGHTING_STATE_EMERGENCY.toByte]), ?_, ?_, rfl, ?_⟩
    · unfold EmgLTest_LightElSrvProcessMessage
      simp only [EMG_LIGHTING_SUBOPCODE_INHIBIT_ENTER, EMG_LIGHTING_SUBOPCODE_INHIBIT_EXIT,
        EMG_LIGHTING_SUBOPCODE_STATE_GET, EMG_LIGHTING_SUBOPCODE_PROPERTY_STATUS,
        EMG_LIGHTING_SUBOPCODE_LAMP_OPERATION_TIME_GET,
        EMG_LIGHTING_SUBOPCODE_LAMP_OPERATION_TIME_CLEAR,
        EMG_LIGHTING_SUBOPCODE_REST_ENTER, EMG_LIGHTING_SUBOPCODE_REST_EXIT]
      rw [if_pos trivial]
      unfold ElRestExit
      simp only [List.length_nil, ne_eq, not_true_eq_false, if_false, if_true]
      rw [hcmd]
      rfl
    · rfl
    · show (([h.instance_index, h.instance_subindex] ++ cmd ++
          [EMG_LIGHTING_SUBOPCODE_STATE_STATUS]) ++
          [EmgLightingState_T.EMG_LIGHTING_STATE_EMERGENCY.toByte]).getLast? = some 0x05
      rw [List.getLast?_concat]
      rfl

theorem ElState_never_emergency_witness :
    (EmgLTest_LightElSrvProcessMessage
        (EmgLTestState.initial ⟨255, true, 100, 1, 2, 4, 8, 16, 32, 0xFFFFFF, 0xFFFFFF⟩)
        (some ⟨1, 0, 0xEA3601, 3⟩) (some [0x0E]) 0 true true =
      some { state :=
               ⟨255, EmgLightingState_T.EMG_LIGHTING_STATE_REST, 0, 10000, 0, 0,
                 EmgLightingTestTestExecutionStatus.EMG_LIGHTING_TEST_STATUS_UNKNOWN,
                 EmgLightingTestTestExecutionStatus.EMG_LIGHTING_TEST_STATUS_UNKNOWN, 0⟩
             header := some ⟨1, 0, 0xEA3601, 3⟩
             sent := [UartFrame.MeshMessageRequest1 [1, 0, 0xEA, 0x36, 0x01, 0x05, 0x08]] }) ∧
    ∃ (r : DispatchResult) (f : UartFrame),
      EmgLTest_LightElSrvProcessMessage
          ⟨255, EmgLightingState_T.EMG_LIGHTING_STATE_REST, 0, 10000, 0, 0,
            EmgLightingTestTestExecutionStatus.EMG_LIGHTING_TEST_STATUS_UNKNOWN,
            EmgLightingTestTestExecutionStatus.EMG_LIGHTING_TEST_STATUS_UNKNOWN, 0⟩
          (some ⟨1, 0, 0xEA3601, 3⟩) (some [0x10]) 7 false true = some r ∧
        r.state.ElState = EmgLightingState_T.EMG_LIGHTING_STATE_NORMAL ∧
        r.sent = [f] ∧ f.lastByte = some 0x05 :=
  ⟨by decide,
    (ElState_never_emergency ⟨255, true, 100, 1, 2, 4, 8, 16, 32, 0xFFFFFF, 0xFFFFFF⟩ _
      (EmgReachable.el
        (EmgLTestState.initial ⟨255, true, 100, 1, 2, 4, 8, 16, 32, 0xFFFFFF, 0xFFFFFF⟩)
        (some ⟨1, 0, 0xEA3601, 3⟩) (some [0x0E]) 0 true true
        { state :=
            ⟨255, EmgLightingState_T.EMG_LIGHTING_STATE_REST, 0, 10000, 0, 0,
              EmgLightingTestTestExecutionStatus.EMG_LIGHTING_TEST_STATUS_UNKNOWN,
              EmgLightingTestTestExecutionStatus.EMG_LIGHTING_TEST_STATUS_UNKNOWN, 0⟩
          header := some ⟨1, 0, 0xEA3601, 3⟩
          sent := [UartFrame.MeshMessageRequest1 [1, 0, 0xEA, 0x36, 0x01, 0x05, 0x08]] }
        EmgReachable.initial (by decide))).2.2.2 ⟨1, 0, 0xEA3601, 3⟩ 7 true (by decide)⟩

/-! ## RTC driver: BCD coding -/

/-- On `0 .. 99` the function `bin2bcd` packs the two decimal digits into the two nibbles, the
`int` sum fitting `uint8_t`. -/
theorem bin2bcd_eq (v : Nat) (hv : v ≤ 99) : bin2bcd v = 16 * (v / 10) + v % 10 := by
  unfold bin2bcd
  have h : (v : Int) + 6 * ((v / 10 : Nat) : Int) = ((16 * (v / 10) + v % 10 : Nat) : Int) := by
    push_cast
    omega
  rw [h]
  exact wrapUnsigned8_natCast _ (by omega)

/-- The function `bcd2bin` on a byte with two decimal nibbles. -/
theorem bcd2bin_eq (q r : Nat) (hq : q ≤ 9) (hr : r ≤ 9) : bcd2bin (16 * q + r) = 10 * q + r := by
  unfold bcd2bin
  have hs : (16 * q + r) >>> 4 = q := by
    rw [Nat.shiftRight_eq_div_pow]
    omega
  rw [hs]
  calc wrapUnsigned 8 _ = wrapUnsigned 8 ((10 * q + r : Nat) : Int) := by
        congr 1
        push_cast
        omega
    _ = 10 * q + r := wrapUnsigned8_natCast _ (by omega)

/-- Decoding what `bin2bcd` encoded gives the value back, on `0 .. 99`. -/
theorem bcd2bin_bin2bcd (v : Nat) (hv : v ≤ 99) : bcd2bin (bin2bcd v) = v := by
  rw [bin2bcd_eq v hv, bcd2bin_eq (v / 10) (v % 10) (by omega) (by omega)]
  omega

/-- C40 (counterexample): the time 12:30:80 on 17 May 2024 written by `PCF8523_Drv_SetTime`
is read back by `PCF8523_Drv_GetTime` with `seconds = 0`: `bin2bcd(80) = 0x80` and the seconds
register is masked with `0x7F`. -/
theorem PCF8523_seconds_not_read_back :
    (80 : Nat) ≤ 99 ∧ bin2bcd 80 = 0x80 ∧
    readBackAfterSetTime ⟨2024, 5, 17, 12, 30, 80, 0⟩ = some ⟨2024, 5, 17, 12, 30, 0, 0⟩ := by
  decide

/-- C40 (amended): for every `v` in `0 .. 99`, `bin2bcd v = 16 * (v / 10) + v % 10`, which is
below 256, and `bcd2bin (bin2bcd v) = v`.  Hence a time with `minute`, `hour`, `day`, `month`
and `year - 2000` in `0 .. 99` and `seconds` in `0 .. 79` written by `PCF8523_Drv_SetTime` is
read back by `PCF8523_Drv_GetTime` with the same `seconds`, `minute`, `hour`, `day`, `month`
and `year` (and `milliseconds = 0`); for `seconds` in `80 .. 99` the seconds read back are
`seconds - 80`, the seconds register being masked with `0x7F`. -/
theorem PCF8523_bcd_round_trip (v : Nat) (t : TimeDate) (hv : v ≤ 99)
    (hmin : t.minute ≤ 99) (hhour : t.hour ≤ 99) (hday : t.day ≤ 99) (hmonth : t.month ≤ 99)
    (hyear1 : 2000 ≤ t.year) (hyear2 : t.year ≤ 2099) (hsec : t.seconds ≤ 99) :
    bin2bcd v = 16 * (v / 10) + v % 10 ∧ 16 * (v / 10) + v % 10 < 256 ∧
    bcd2bin (bin2bcd v) = v ∧
    (t.seconds ≤ 79 → readBackAfterSetTime t = some { t with milliseconds := 0 }) ∧
    (80 ≤ t.seconds →
      readBackAfterSetTime t = some { t with milliseconds := 0, seconds := t.seconds - 80 }) := by
  refine ⟨bin2bcd_eq v hv, by omega, bcd2bin_bin2bcd v hv, ?_, ?_⟩
  all_goals
    intro hs
    obtain ⟨year, month, day, hour, minute, seconds, ms⟩ := t
    simp only at hmin hhour hday hmonth hyear1 hyear2 hsec hs
    have hy : wrapUnsigned 8 ((year : Int) - 2000) = year - 2000 := by
      have : (year : Int) - 2000 = ((year - 2000 : Nat) : Int) := by omega
      rw [this]
      exact wrapUnsigned8_natCast _ (by omega)
    have hy2 : wrapUnsigned 16 (((year - 2000 : Nat) : Int) + 2000) = year := by
      have : ((year - 2000 : Nat) : Int) + 2000 = (year : Int) := by omega
      rw [this]
      unfold wrapUnsigned
      norm_num
      omega
    have hmask : bin2bcd seconds &&& 0x7F = bin2bcd seconds % 128 :=
      Nat.and_pow_two_sub_one_eq_mod _ 7
    unfold readBackAfterSetTime PCF8523_Drv_SetTime PCF8523_Drv_GetTime
    simp only [hy, hmask]
    rw [bcd2bin_bin2bcd minute hmin, bcd2bin_bin2bcd hour hhour, bcd2bin_bin2bcd day hday,
      bcd2bin_bin2bcd month hmonth, bcd2bin_bin2bcd (year - 2000) (by omega), hy2,
      bin2bcd_eq seconds hsec]
  · have : (16 * (seconds / 10) + seconds % 10) % 128 = 16 * (seconds / 10) + seconds % 10 := by
      omega
    rw [this, bcd2bin_eq _ _ (by omega) (by omega)]
    have : 10 * (seconds / 10) + seconds % 10 = seconds := by omega
    rw [this]
  · have : (16 * (seconds / 10) + seconds % 10) % 128 =
        16 * ((seconds - 80) / 10) + (seconds - 80) % 10 := by
      omega
    rw [this, bcd2bin_eq _ _ (by omega) (by omega)]
    have : 10 * ((seconds - 80) / 10) + (seconds - 80) % 10 = seconds - 80 := by omega
    rw [this]

theorem PCF8523_bcd_round_trip_witness :
    ((59 : Nat) ≤ 99 ∧ (⟨2024, 5, 17, 12, 30, 59, 250⟩ : TimeDate).seconds ≤ 79) ∧
    bcd2bin (bin2bcd 59) = 59 ∧
    readBackAfterSetTime ⟨2024, 5, 17, 12, 30, 59, 250⟩ = some ⟨2024, 5, 17, 12, 30, 59, 0⟩ :=
  ⟨by decide,
    (PCF8523_bcd_round_trip 59 ⟨2024, 5, 17, 12, 30, 59, 250⟩ (by decide) (by decide)
      (by decide) (by decide) (by decide) (by decide) (by decide) (by decide)).2.2.1,
    (PCF8523_bcd_round_trip 59 ⟨2024, 5, 17, 12, 30, 59, 250⟩ (by decide) (by decide)
      (by decide) (by decide) (by decide) (by decide) (by decide) (by decide)).2.2.2.1
      (by decide)⟩

end MCU
